import Mathlib

/-!
# Arcade basketball simulation: shallow embedding and verified properties

The JavaScript sources (`player.js`, `js/ball.js`, `js/physics.js`, `js/ai.js`,
`js/game.js`, `js/utils.js`) are embedded as pure Lean functions.

Conventions of the embedding

* JavaScript numbers are modelled by an arbitrary linearly ordered field `K`
  (the rationals make every definition executable, the reals give the intended
  idealised arithmetic).  `Math.sqrt` is a parameter `sqrt : K → K`; theorems that
  depend on its value assume `IsSqrt sqrt`.
* Where the rounding of binary64 arithmetic decides a property (the response of
  `checkPlayerCollision`), the function takes the rounding operator `fl : K → K` that
  is applied to the exact result of every arithmetic operation; `fl = id` is exact
  arithmetic and `fl = roundDouble` is binary64 arithmetic.
* Object identity of players is the position of the player in `state.players`;
  references (`ball.holder`, `controlledPlayer`, team rosters) are indices.
* Every `Math.random()` call is an explicit argument of the function that draws it.
* `setTimeout` callbacks are recorded in `GameState.timers` and not run by the
  function that schedules them.
* `ui.addEvent` appends to `GameState.events`.
-/

namespace Basketball

set_option linter.unusedSectionVars false

/-! ## Data model -/

/-- The two team tags, `'home'` and `'away'`. -/
inductive Side where
  | home
  | away
  deriving DecidableEq, Repr

/-- The expression `t === 'home' ? 'away' : 'home'`. -/
def Side.other : Side → Side
  | .home => .away
  | .away => .home

/-- Field `attributes` of a `Player`. -/
structure Attributes (K : Type) where
  speed : K
  shooting : K
  dribbling : K
  defense : K
  stamina : K
  threePoint : K

/-- Field `animation` of a `Player`. -/
structure Animation where
  jump : ℤ
  fade : ℤ
  spin : ℤ

/-- Class `Player` of `player.js` (kinematic and session state). -/
structure Player (K : Type) where
  x : K
  y : K
  vx : K
  vy : K
  radius : K
  team : Side
  role : String
  attributes : Attributes K
  currentStamina : K
  isControlled : Bool
  hasBall : Bool
  isShooting : Bool
  isDribbling : Bool
  isSprinting : Bool
  dribbleType : String
  dribbleTimer : ℤ
  shotPower : K
  shotTargetX : K
  shotTargetY : K
  animation : Animation
  targetX : Option K
  targetY : Option K

/-- Class `Ball` of `js/ball.js`; `holder` and `lastHolder` are player indices. -/
structure Ball (K : Type) where
  x : K
  y : K
  z : K
  vx : K
  vy : K
  vz : K
  radius : K
  holder : Option ℕ
  inAir : Bool
  lastHolder : Option ℕ
  spin : K
  trajectory : List (K × K × K)

/-- Entries appended to the event log by `ui.addEvent`. -/
inductive Event where
  | caught (player : ℕ)
  | outOfBounds
  | shotClockViolation
  | scored (team : Side) (points : ℤ)
  | foul (player : ℕ)
  | turnover (team : Side)
  | quarterStart (quarter : ℤ)
  | steal (player : ℕ)
  | aiTurnover (player : ℕ)
  | pass (passer receiver : ℕ)
  | shot (player : ℕ) (made : Bool)
  | threeAttempt (player : ℕ)
  | dunkBlocked (player : ℕ)
  | dunk (player : ℕ)
  | dunkMissed (player : ℕ)
  | block (player : ℕ)
  deriving DecidableEq, Repr

/-- Callbacks handed to `setTimeout`. -/
inductive Deferred where
  | resetAfterBasket
  | relocateAfterOutOfBounds
  | relocateAfterTurnover
  | catchAndShoot (player : ℕ)
  | showGameOver
  | shotRelease (player : ℕ)
  | aiBasket (points : ℤ)
  deriving DecidableEq, Repr

/-- Field `score` of the match state. -/
structure Score where
  home : ℤ
  away : ℤ
  deriving DecidableEq, Repr

/-- The match state `BasketballGame.state`, together with the canvas size, the event
log and the scheduled callbacks that the subsystems reach through it. -/
structure GameState (K : Type) where
  score : Score
  quarter : ℤ
  gameClock : ℤ
  shotClock : ℤ
  possession : Side
  gameActive : Bool
  paused : Bool
  ball : Ball K
  players : List (Player K)
  homeTeam : List ℕ
  awayTeam : List ℕ
  controlledPlayer : Option ℕ
  canvasWidth : K
  canvasHeight : K
  ui : Bool
  events : List Event
  timers : List (ℕ × Deferred)

/-- One entry of `AISystem.difficultySettings`. -/
structure Settings (K : Type) where
  decisionDelay : K
  accuracy : K
  defenseReaction : K
  mistakeRate : K
  aggression : K

/-- Exactness of the square-root function handed to the embedding. -/
structure IsSqrt {K : Type} [LinearOrderedField K] (sqrt : K → K) : Prop where
  nonneg : ∀ a, 0 ≤ sqrt a
  mul_self : ∀ a, 0 ≤ a → sqrt a * sqrt a = a

/-- Exactness of `Math.cos(Math.atan2(y, x))` and `Math.sin(Math.atan2(y, x))` for a
vector `(x, y)` of positive length: they are the components of the unit vector. -/
structure IsTrig {K : Type} [LinearOrderedField K] (sqrt cos sin : K → K)
    (atan2 : K → K → K) : Prop where
  cos_atan2 : ∀ y x, 0 < sqrt (x * x + y * y) → cos (atan2 y x) = x / sqrt (x * x + y * y)
  sin_atan2 : ∀ y x, 0 < sqrt (x * x + y * y) → sin (atan2 y x) = y / sqrt (x * x + y * y)

/-- Accuracy of a rounding operator `fl` of floating-point arithmetic on the numbers of
magnitude at most `Ω`: the relative error is at most `u`, up to the absolute error `ρ * ρ`
of a result that underflows; rounding keeps zero and signs fixed and commutes with
negation. Binary64 rounding to nearest has `u = 2 ^ -53` and `ρ = 2 ^ -537`. -/
structure IsRounding {K : Type} [LinearOrderedField K] (fl : K → K) (u ρ Ω : K) : Prop where
  zero : fl 0 = 0
  nonneg : ∀ x, 0 ≤ x → 0 ≤ fl x
  neg : ∀ x, fl (-x) = -fl x
  error : ∀ x, |x| ≤ Ω → |fl x - x| ≤ u * |x| + ρ * ρ

/-- Accuracy of the functions `Math.sqrt`, `Math.cos`, `Math.sin` and `Math.atan2` as
computed: the square root has relative error `u` (up to `ρ * ρ`), and the cosine and the
sine of `Math.atan2(y, x)` are within `ε` of the components of the unit vector along
`(x, y)`. -/
structure IsMath {K : Type} [LinearOrderedField K] (sqrt cos sin : K → K)
    (atan2 : K → K → K) (u ρ ε Ω : K) : Prop where
  sqrt_zero : sqrt 0 = 0
  sqrt_error : ∀ x s, 0 ≤ s → s * s = x → x ≤ Ω → |sqrt x - s| ≤ u * s + ρ * ρ
  cos_atan2 : ∀ y x h, 0 < h → h * h = x * x + y * y → |cos (atan2 y x) - x / h| ≤ ε
  sin_atan2 : ∀ y x h, 0 < h → h * h = x * x + y * y → |sin (atan2 y x) - y / h| ≤ ε

section Model

variable {K : Type} [LinearOrderedField K]

/-- Applies `f` to the player at index `i` (a mutation through an object reference). -/
def modifyPlayer (i : ℕ) (f : Player K → Player K) (ps : List (Player K)) : List (Player K) :=
  match ps[i]? with
  | some p => ps.set i (f p)
  | none => ps

/-- Appends an entry to the event log (`ui.addEvent`). -/
def GameState.addEvent (s : GameState K) (e : Event) : GameState K :=
  { s with events := s.events ++ [e] }

/-- Registers a callback with `setTimeout`. -/
def GameState.setTimeout (s : GameState K) (d : Deferred) (ms : ℕ) : GameState K :=
  { s with timers := s.timers ++ [(ms, d)] }

/-- The quotient `a / b` of two finite numbers when it is finite; `none` stands for the
`NaN` or the infinity that JavaScript yields for a zero divisor. -/
def finiteDiv (a b : K) : Option K :=
  if b = 0 then none else some (a / b)

/-! ## Binary64 arithmetic -/

/-- Rounding of a number to the nearest integer, a tie going to the even neighbour. -/
def roundHalfEven [FloorRing K] (t : K) : ℤ :=
  if t - ⌊t⌋ < 1 / 2 then ⌊t⌋
  else if 1 / 2 < t - ⌊t⌋ then ⌊t⌋ + 1
  else if ⌊t⌋ % 2 = 0 then ⌊t⌋ else ⌊t⌋ + 1

/-- The exponent of the binary64 grid around `x`: the binade of `x`, and `-1022` in the
subnormal range. -/
def binade [FloorRing K] (x : K) : ℤ :=
  max (Int.log 2 |x|) (-1022)

/-- The binary64 number nearest to `x`: 53 significant bits, a tie going to the even
significand, gradual underflow. This is the value that JavaScript stores for the exact
result `x` of an arithmetic operation, as long as `|x|` stays below `2 ^ 1024` (beyond
that JavaScript stores an infinity, which has no counterpart here). -/
def roundDouble [FloorRing K] (x : K) : K :=
  if x = 0 then 0
  else (roundHalfEven (x / 2 ^ (binade x - 52)) : K) * 2 ^ (binade x - 52)

/-! ## `js/utils.js` -/

/-- `GameUtils.clamp`. -/
def clamp (value lo hi : K) : K :=
  max lo (min hi value)

/-- `GameUtils.calculateShotAccuracy`. -/
def calculateShotAccuracy (distance playerSkill defensePressure : K) (shotType : String) : K :=
  let baseAccuracy := playerSkill / 100
  let distanceFactor : K :=
    if distance > 400 then
      (if shotType = "three" then 8 / 10 else 6 / 10)
    else if distance > 200 then 8 / 10
    else 1
  let defenseFactor := 1 - defensePressure / 100
  let finalAccuracy := baseAccuracy * distanceFactor * defenseFactor
  clamp finalAccuracy (1 / 10) (95 / 100)

/-! ## `js/physics.js` -/

/-- `PhysicsEngine.updatePlayerAnimation`. -/
def updatePlayerAnimation (p : Player K) : Player K :=
  let p := if p.animation.jump > 0 then
      { p with animation := { p.animation with jump := p.animation.jump - 1 } } else p
  let p := if p.animation.spin > 0 then
      { p with animation := { p.animation with spin := p.animation.spin - 1 } } else p
  if p.currentStamina < p.attributes.stamina then
    let p := { p with currentStamina := p.currentStamina + 2 / 10 }
    if p.currentStamina > p.attributes.stamina then
      { p with currentStamina := p.attributes.stamina }
    else p
  else p

/-- `PhysicsEngine.moveToTarget`. -/
def moveToTarget (sqrt : K → K) (p : Player K) (targetX targetY : K) : Player K :=
  let dx := targetX - p.x
  let dy := targetY - p.y
  let distance := sqrt (dx * dx + dy * dy)
  if distance > 10 then
    let speed := p.attributes.speed / 100
    { p with vx := p.vx + (dx / distance) * speed, vy := p.vy + (dy / distance) * speed }
  else
    { p with targetX := none, targetY := none }

/-- First block of `PhysicsEngine.updatePlayerPhysics`: friction 0.9. -/
def applyFriction (p : Player K) : Player K :=
  { p with vx := p.vx * (9 / 10), vy := p.vy * (9 / 10) }

/-- Second block of `PhysicsEngine.updatePlayerPhysics`: the speed limit (in exact
arithmetic; binary64 rounding of the rescaled velocity can leave a speed that exceeds the
limit in the last place). -/
def limitSpeed (sqrt : K → K) (p : Player K) : Player K :=
  let maxSpeed : K := if p.isSprinting then 4 else 2
  let currentSpeed := sqrt (p.vx * p.vx + p.vy * p.vy)
  if currentSpeed > maxSpeed then
    { p with vx := (p.vx / currentSpeed) * maxSpeed, vy := (p.vy / currentSpeed) * maxSpeed }
  else p

/-- Third block of `PhysicsEngine.updatePlayerPhysics`: the position update. -/
def integratePosition (p : Player K) : Player K :=
  { p with x := p.x + p.vx, y := p.y + p.vy }

/-- Fourth block of `PhysicsEngine.updatePlayerPhysics`: steering when both target
coordinates are defined. -/
def steerToTarget (sqrt : K → K) (p : Player K) : Player K :=
  match p.targetX, p.targetY with
  | some tx, some ty => moveToTarget sqrt p tx ty
  | _, _ => p

/-- `PhysicsEngine.updatePlayerPhysics`. -/
def updatePlayerPhysics (sqrt : K → K) (p : Player K) : Player K :=
  let p : Player K := applyFriction p
  let p : Player K := limitSpeed sqrt p
  let p : Player K := integratePosition p
  let p : Player K := steerToTarget sqrt p
  updatePlayerAnimation p

/-- Player part of `PhysicsEngine.checkBoundaries` (the body of the `forEach`). -/
def clampPlayerToCourt (courtWidth courtHeight : K) (p : Player K) : Player K :=
  let boundaryMargin : K := 50
  let p : Player K := if p.x < boundaryMargin then
      { p with x := boundaryMargin, vx := |p.vx| * (1 / 2) }
    else if p.x > courtWidth - boundaryMargin then
      { p with x := courtWidth - boundaryMargin, vx := -|p.vx| * (1 / 2) }
    else p
  if p.y < boundaryMargin then
    { p with y := boundaryMargin, vy := |p.vy| * (1 / 2) }
  else if p.y > courtHeight - boundaryMargin then
    { p with y := courtHeight - boundaryMargin, vy := -|p.vy| * (1 / 2) }
  else p

/-- `PhysicsEngine.handleOutOfBounds` (the relocation of the ball is scheduled). -/
def handleOutOfBounds (s : GameState K) : GameState K :=
  let s : GameState K := { s with ball := { s.ball with inAir := false, vx := 0, vy := 0, vz := 0 } }
  let s : GameState K := { s with possession := s.possession.other, shotClock := 24 }
  let s : GameState K := if s.ui then s.addEvent .outOfBounds else s
  s.setTimeout .relocateAfterOutOfBounds 1000

/-- The wall bounces of the ball in `PhysicsEngine.checkBoundaries` (elasticity 0.7). -/
def bounceBallOffWalls (courtWidth courtHeight : K) (ball : Ball K) : Ball K :=
  let boundaryMargin : K := 50
  let ball : Ball K := if ball.x < boundaryMargin then
      { ball with x := boundaryMargin, vx := |ball.vx| * (7 / 10) }
    else if ball.x > courtWidth - boundaryMargin then
      { ball with x := courtWidth - boundaryMargin, vx := -|ball.vx| * (7 / 10) }
    else ball
  if ball.y < boundaryMargin then
    { ball with y := boundaryMargin, vy := |ball.vy| * (7 / 10) }
  else if ball.y > courtHeight - boundaryMargin then
    { ball with y := courtHeight - boundaryMargin, vy := -|ball.vy| * (7 / 10) }
  else ball

/-- Ball part of `PhysicsEngine.checkBoundaries`. -/
def checkBallBoundaries (s : GameState K) : GameState K :=
  let courtWidth := s.canvasWidth
  let courtHeight := s.canvasHeight
  let boundaryMargin : K := 50
  if s.ball.inAir then
    let ball : Ball K := bounceBallOffWalls courtWidth courtHeight s.ball
    let s : GameState K := { s with ball := ball }
    if ball.x < boundaryMargin - 20 ∨ ball.x > courtWidth - boundaryMargin + 20 ∨
        ball.y < boundaryMargin - 20 ∨ ball.y > courtHeight - boundaryMargin + 20 then
      handleOutOfBounds s
    else s
  else s

/-- `PhysicsEngine.checkBoundaries`. -/
def checkBoundaries (s : GameState K) : GameState K :=
  let s : GameState K := { s with players := s.players.map (clampPlayerToCourt s.canvasWidth s.canvasHeight) }
  checkBallBoundaries s

/-- `PhysicsEngine.catchBall`. -/
def catchBall (player : ℕ) (s : GameState K) : GameState K :=
  match s.players[player]? with
  | none => s
  | some p =>
    let ball : Ball K := { s.ball with
      holder := some player, inAir := false, x := p.x, y := p.y - p.radius, z := 0,
      vx := 0, vy := 0, vz := 0 }
    let s : GameState K := { s with
      ball := ball,
      players := modifyPlayer player (fun q => { q with hasBall := true }) s.players }
    let s : GameState K := { s with possession := p.team, shotClock := 24 }
    if s.ui then s.addEvent (.caught player) else s

/-- `PhysicsEngine.checkPlayerCollision` on a pair of players, with the rounding `fl` of
every arithmetic operation in the order in which JavaScript evaluates it; `sqrt`, `cos`,
`sin` and `atan2` are the functions of `Math` as computed. The debug recording of the
collision point and the foul report (a console message) do not touch the players and are
left out. -/
def checkPlayerCollision (fl sqrt cos sin : K → K) (atan2 : K → K → K)
    (player1 player2 : Player K) : Player K × Player K :=
  let dx := fl (player1.x - player2.x)
  let dy := fl (player1.y - player2.y)
  let distance := sqrt (fl (fl (dx * dx) + fl (dy * dy)))
  let minDistance := fl (player1.radius + player2.radius)
  if distance < minDistance ∧ distance > 0 then
    let angle := atan2 dy dx
    let force : K := 1 / 2
    let overlap := fl (minDistance - distance)
    let separateX := fl (fl (cos angle * overlap) * (1 / 2))
    let separateY := fl (fl (sin angle * overlap) * (1 / 2))
    let player1 : Player K :=
      { player1 with x := fl (player1.x + separateX), y := fl (player1.y + separateY) }
    let player2 : Player K :=
      { player2 with x := fl (player2.x - separateX), y := fl (player2.y - separateY) }
    let player1 : Player K :=
      { player1 with
        vx := fl (player1.vx + fl (cos angle * force))
        vy := fl (player1.vy + fl (sin angle * force)) }
    let player2 : Player K :=
      { player2 with
        vx := fl (player2.vx - fl (cos angle * force))
        vy := fl (player2.vy - fl (sin angle * force)) }
    (player1, player2)
  else (player1, player2)

/-- The updates of the ball in `PhysicsEngine.bounceBallOffPlayer` (elasticity 0.7); `r1`
and `r2` are the two `Math.random()` draws of the jitter. After these updates the method
reads `gameState.playSound`, and no `gameState` is in scope there. -/
def bounceBallOffPlayer (sqrt : K → K) (ball : Ball K) (dx dy r1 r2 : K) : Ball K :=
  let distance := sqrt (dx * dx + dy * dy)
  let normalX := dx / distance
  let normalY := dy / distance
  let dotProduct := ball.vx * normalX + ball.vy * normalY
  let ball : Ball K :=
    { ball with vx := ball.vx - 2 * dotProduct * normalX, vy := ball.vy - 2 * dotProduct * normalY }
  let ball : Ball K :=
    { ball with vx := ball.vx * (7 / 10), vy := ball.vy * (7 / 10), vz := ball.vz * (7 / 10) }
  { ball with vx := ball.vx + (r1 - 1 / 2) * 2, vy := ball.vy + (r2 - 1 / 2) * 2 }

/-- The updates of the ball in `PhysicsEngine.bounceBallOffPlayer` with the finiteness of
the two quotients `dx / distance` and `dy / distance` tracked: `none` means that the
velocity written to the ball is not a finite number. -/
def bounceBallOffPlayerFinite (sqrt : K → K) (ball : Ball K) (dx dy r1 r2 : K) :
    Option (Ball K) :=
  let distance := sqrt (dx * dx + dy * dy)
  (finiteDiv dx distance).bind (fun normalX =>
    (finiteDiv dy distance).bind (fun normalY =>
      let dotProduct := ball.vx * normalX + ball.vy * normalY
      let ball : Ball K :=
        { ball with vx := ball.vx - 2 * dotProduct * normalX,
                    vy := ball.vy - 2 * dotProduct * normalY }
      let ball : Ball K :=
        { ball with vx := ball.vx * (7 / 10), vy := ball.vy * (7 / 10), vz := ball.vz * (7 / 10) }
      some { ball with vx := ball.vx + (r1 - 1 / 2) * 2, vy := ball.vy + (r2 - 1 / 2) * 2 }))

/-- The callback that `PhysicsEngine.detectBallPlayerCollisions` runs for the player at
index `i`. The second component tells whether the callback was left by the
`ReferenceError` that ends `bounceBallOffPlayer`. -/
def ballPlayerCollision (sqrt : K → K) (r1 r2 : K) (i : ℕ) (s : GameState K) :
    GameState K × Bool :=
  match s.players[i]? with
  | none => (s, false)
  | some player =>
    let ball := s.ball
    let dx := ball.x - player.x
    let dy := ball.y - player.y
    let distance2D := sqrt (dx * dx + dy * dy)
    if distance2D < player.radius + ball.radius ∧ ball.z < player.radius then
      if ball.holder = none ∧ ball.z < 20 ∧ |ball.vz| < 10 then (catchBall i s, false)
      else ({ s with ball := bounceBallOffPlayer sqrt ball dx dy r1 r2 }, true)
    else (s, false)

/-- One round of the `forEach` in `detectBallPlayerCollisions`: the callback runs for the
player at index `i` unless an earlier callback has thrown. -/
def collisionRound (sqrt : K → K) (jitter : ℕ → K × K) (acc : GameState K × Bool) (i : ℕ) :
    GameState K × Bool :=
  if acc.2 then acc else ballPlayerCollision sqrt (jitter i).1 (jitter i).2 i acc.1

/-- `PhysicsEngine.detectBallPlayerCollisions`; `jitter i` holds the two draws used if the
ball bounces off the player at index `i`. The `forEach` stops at the first callback that
throws, and the second component reports it. -/
def detectBallPlayerCollisions (sqrt : K → K) (jitter : ℕ → K × K) (s : GameState K) :
    GameState K × Bool :=
  if !s.ball.inAir || decide (s.ball.z > 50) then (s, false)
  else (List.range s.players.length).foldl (collisionRound sqrt jitter) (s, false)

/-! ## `js/ball.js` -/

/-- `Ball.update`; `players` resolves the `holder` reference. -/
def Ball.update (sqrt : K → K) (players : List (Player K)) (b : Ball K) : Ball K :=
  if b.inAir then
    let b : Ball K := { b with vz := b.vz - 1 / 2 }
    let b : Ball K := { b with x := b.x + b.vx, y := b.y + b.vy, z := b.z + b.vz }
    let b : Ball K := if b.z ≤ 0 then
        let b : Ball K :=
          { b with z := 0, vz := -b.vz * (7 / 10), vx := b.vx * (9 / 10), vy := b.vy * (9 / 10) }
        if |b.vz| < 1 / 2 then { b with vz := 0 } else b
      else b
    let b : Ball K := { b with spin := b.spin + sqrt (b.vx * b.vx + b.vy * b.vy) * (1 / 10) }
    let b : Ball K := { b with trajectory := b.trajectory ++ [(b.x, b.y, b.z)] }
    if b.trajectory.length > 20 then { b with trajectory := b.trajectory.tail } else b
  else
    match b.holder with
    | some h =>
      match players[h]? with
      | some p => { b with x := p.x, y := p.y - p.radius, z := 0 }
      | none => b
    | none => b

/-- `Ball.pass`. -/
def Ball.pass (sqrt : K → K) (b : Ball K) (passer : ℕ) (receiverX receiverY : K) : Ball K :=
  let b : Ball K := { b with holder := none, inAir := true, lastHolder := some passer }
  let dx := receiverX - b.x
  let dy := receiverY - b.y
  let distance := sqrt (dx * dx + dy * dy)
  let time := 1 / 2 + distance / 500
  { b with vx := dx / time, vy := dy / time, vz := 30, trajectory := [] }

/-- `Ball.shoot`. -/
def Ball.shoot (sqrt : K → K) (b : Ball K) (shooter : ℕ) (targetX targetY power : K) : Ball K :=
  let b : Ball K := { b with holder := none, inAir := true, lastHolder := some shooter }
  let dx := targetX - b.x
  let dy := targetY - b.y
  let distance := sqrt (dx * dx + dy * dy)
  let time := 1 + distance / 300 + (1 - power) * (1 / 2)
  { b with vx := dx / time, vy := dy / time, vz := 50 + power * 30, trajectory := [] }

/-- `Ball.reset`. -/
def Ball.reset (b : Ball K) : Ball K :=
  { b with x := 0, y := 0, z := 0, vx := 0, vy := 0, vz := 0, holder := none, inAir := false,
           trajectory := [] }

/-! ## `js/game.js` -/

/-- `BasketballGame.handleScore` (the repositioning of ball and players is scheduled). -/
def handleScore (team : Side) (points : ℤ) (s : GameState K) : GameState K :=
  let s : GameState K := if team = .home then
      { s with score := { s.score with home := s.score.home + points } }
    else
      { s with score := { s.score with away := s.score.away + points } }
  let s : GameState K := s.addEvent (.scored team points)
  let s : GameState K := { s with possession := if team = .home then Side.away else Side.home, shotClock := 24 }
  s.setTimeout .resetAfterBasket 1500

/-- `BasketballGame.handleFoul`. -/
def handleFoul (player : ℕ) (s : GameState K) : GameState K :=
  match s.players[player]? with
  | none => s
  | some p =>
    let s : GameState K := s.addEvent (.foul player)
    { s with possession := if p.team = .home then Side.away else Side.home, shotClock := 24 }

/-- `BasketballGame.handleTurnover`. -/
def handleTurnover (team : Side) (s : GameState K) : GameState K :=
  let s : GameState K := s.addEvent (.turnover team)
  { s with possession := if team = .home then Side.away else Side.home, shotClock := 24 }

/-- `BasketballGame.handleGameEnd`. -/
def handleGameEnd (s : GameState K) : GameState K :=
  let s : GameState K := { s with gameActive := false }
  s.setTimeout .showGameOver 2000

/-- `BasketballGame.handleQuarterEnd` (`config.quarterLength` is 12). -/
def handleQuarterEnd (s : GameState K) : GameState K :=
  let s : GameState K := { s with quarter := s.quarter + 1 }
  if s.quarter > 4 then handleGameEnd s
  else
    let s : GameState K := { s with gameClock := 12 * 60 }
    s.addEvent (.quarterStart s.quarter)

/-- The callback that `BasketballGame.startGameTimer` runs once per second. -/
def gameTimerTick (s : GameState K) : GameState K :=
  if !s.gameActive || s.paused then s
  else
    let s : GameState K := { s with gameClock := s.gameClock - 1 }
    let s : GameState K := if s.possession = .home then
        let s : GameState K := { s with shotClock := s.shotClock - 1 }
        if s.shotClock ≤ 0 then
          let s : GameState K := { s with shotClock := 24, possession := .away }
          s.addEvent .shotClockViolation
        else s
      else s
    if s.gameClock ≤ 0 then handleQuarterEnd s else s

/-- `BasketballGame.checkForScore`. -/
def checkForScore (sqrt : K → K) (s : GameState K) : GameState K :=
  if !s.ball.inAir then s
  else
    let ball : Ball K := s.ball
    let hoopLeftX : K := 90
    let hoopLeftY : K := s.canvasHeight / 2
    let hoopRightX : K := s.canvasWidth - 90
    let hoopRightY : K := s.canvasHeight / 2
    let hoopRadius : K := 15
    let dxLeft := ball.x - hoopLeftX
    let dyLeft := ball.y - hoopLeftY
    let distanceLeft := sqrt (dxLeft * dxLeft + dyLeft * dyLeft)
    let dxRight := ball.x - hoopRightX
    let dyRight := ball.y - hoopRightY
    let distanceRight := sqrt (dxRight * dxRight + dyRight * dyRight)
    if ball.vy > 0 ∧ ball.y > s.canvasHeight / 2 - 20 then
      if distanceLeft < hoopRadius then handleScore .away 2 s
      else if distanceRight < hoopRadius then handleScore .home 2 s
      else s
    else s

/-! ## `player.js` -/

/-- `Player.shoot`, without the callback that it schedules. -/
def Player.shoot (p : Player K) (targetX targetY power : K) : Player K :=
  { p with isShooting := true, shotTargetX := targetX, shotTargetY := targetY,
           shotPower := power, animation := { p.animation with jump := 30 } }

/-- `Player.dribble`. -/
def Player.dribble (p : Player K) (type : String) : Player K :=
  let p : Player K := { p with isDribbling := true, dribbleType := type }
  if type = "crossover" then
    { p with dribbleTimer := 20, animation := { p.animation with spin := 30 } }
  else if type = "behind" then { p with dribbleTimer := 25 }
  else if type = "spin" then
    { p with dribbleTimer := 30, animation := { p.animation with spin := 30 } }
  else { p with dribbleTimer := 10 }

/-- `Player.updateAnimation`. -/
def Player.updateAnimation (p : Player K) : Player K :=
  let p : Player K := if p.animation.jump > 0 then
      { p with animation := { p.animation with jump := p.animation.jump - 1 } } else p
  let p : Player K := if p.animation.spin > 0 then
      { p with animation := { p.animation with spin := p.animation.spin - 1 } } else p
  if p.animation.fade > 0 then
    { p with animation := { p.animation with fade := p.animation.fade - 1 } }
  else p

/-- First block of `Player.update`: the position update and the friction 0.9. -/
def Player.advance (p : Player K) : Player K :=
  let p : Player K := { p with x := p.x + p.vx, y := p.y + p.vy }
  { p with vx := p.vx * (9 / 10), vy := p.vy * (9 / 10) }

/-- Second block of `Player.update`: the dribble timer. -/
def Player.tickDribble (p : Player K) : Player K :=
  if p.dribbleTimer > 0 then
    let p : Player K := { p with dribbleTimer := p.dribbleTimer - 1 }
    if p.dribbleTimer = 0 then { p with dribbleType := "normal" } else p
  else p

/-- Last block of `Player.update`: the stamina recovery. -/
def Player.recoverStamina (p : Player K) : Player K :=
  if p.currentStamina < p.attributes.stamina then
    let p : Player K := { p with currentStamina := p.currentStamina + 1 / 2 }
    if p.currentStamina > p.attributes.stamina then
      { p with currentStamina := p.attributes.stamina }
    else p
  else p

/-- `Player.update`. -/
def Player.update (p : Player K) : Player K :=
  let p : Player K := p.advance
  let p : Player K := p.tickDribble
  let p : Player K := p.updateAnimation
  p.recoverStamina

/-- First block of `Player.move`: the sprint cost and the acceleration. -/
def Player.accelerate (p : Player K) (dx dy : K) (sprint : Bool) : Player K :=
  let speed := p.attributes.speed / 100
  let sprinting : Bool := sprint && decide (p.currentStamina > 0)
  let speed := if sprinting then speed * (3 / 2) else speed
  let p : Player K := if sprinting then { p with currentStamina := p.currentStamina - 1 } else p
  { p with vx := p.vx + dx * speed, vy := p.vy + dy * speed }

/-- Second block of `Player.move`: the speed limit. -/
def Player.capSpeed (sqrt : K → K) (p : Player K) (sprint : Bool) : Player K :=
  let maxSpeed : K := if sprint then 4 else 2
  let currentSpeed := sqrt (p.vx * p.vx + p.vy * p.vy)
  if currentSpeed > maxSpeed then
    { p with vx := (p.vx / currentSpeed) * maxSpeed, vy := (p.vy / currentSpeed) * maxSpeed }
  else p

/-- `Player.move`. -/
def Player.move (sqrt : K → K) (p : Player K) (dx dy : K) (sprint : Bool) : Player K :=
  let p : Player K := p.accelerate dx dy sprint
  let p : Player K := p.capSpeed sqrt sprint
  if p.hasBall then p.dribble "normal" else p

/-! ## `js/ai.js` -/

/-- The table `AISystem.difficultySettings` (its own keys; `none` is `undefined`). -/
def difficultySettings (difficulty : String) : Option (Settings K) :=
  if difficulty = "rookie" then
    some { decisionDelay := 1000, accuracy := 4 / 10, defenseReaction := 3 / 10,
           mistakeRate := 3 / 10, aggression := 3 / 10 }
  else if difficulty = "pro" then
    some { decisionDelay := 700, accuracy := 55 / 100, defenseReaction := 5 / 10,
           mistakeRate := 2 / 10, aggression := 5 / 10 }
  else if difficulty = "allstar" then
    some { decisionDelay := 500, accuracy := 65 / 100, defenseReaction := 7 / 10,
           mistakeRate := 1 / 10, aggression := 7 / 10 }
  else if difficulty = "legendary" then
    some { decisionDelay := 300, accuracy := 75 / 100, defenseReaction := 9 / 10,
           mistakeRate := 5 / 100, aggression := 9 / 10 }
  else none

/-- The entry `difficultySettings.pro`. -/
def proSettings : Settings K :=
  { decisionDelay := 700, accuracy := 55 / 100, defenseReaction := 5 / 10,
    mistakeRate := 2 / 10, aggression := 5 / 10 }

/-- The expression `this.difficultySettings[difficulty] || this.difficultySettings.pro` for
a key that is an own key of the table or that the table does not resolve at all. -/
def settingsFor (difficulty : String) : Settings K :=
  (difficultySettings difficulty).getD proSettings

/-- The property names that every object literal inherits from `Object.prototype`; the
lookup `difficultySettings[key]` resolves them to a function or object, which is truthy. -/
def objectPrototypeKeys : List String :=
  ["constructor", "hasOwnProperty", "isPrototypeOf", "propertyIsEnumerable",
   "toLocaleString", "toString", "valueOf", "__proto__", "__defineGetter__",
   "__defineSetter__", "__lookupGetter__", "__lookupSetter__"]

/-- The values that `this.settings` can hold: an entry of the table, or the inherited
property that the lookup returned. -/
inductive SettingsValue (K : Type) where
  | record (settings : Settings K)
  | inherited (key : String)

/-- The expression `this.difficultySettings[difficulty] || this.difficultySettings.pro`
with the property lookup of an object literal: own keys first, then `Object.prototype`. -/
def lookupSettings (difficulty : String) : SettingsValue K :=
  match (difficultySettings difficulty : Option (Settings K)) with
  | some settings => .record settings
  | none =>
    if difficulty ∈ objectPrototypeKeys then .inherited difficulty
    else .record proSettings

/-- The fields of `AISystem` that the decision loop reads. -/
structure AISystem (K : Type) where
  difficulty : String
  settings : SettingsValue K
  lastDecisionTime : K

/-- The constructor of `AISystem`. -/
def AISystem.create (difficulty : String) : AISystem K :=
  { difficulty := difficulty, settings := lookupSettings difficulty, lastDecisionTime := 0 }

/-- `AISystem.setDifficulty`. -/
def AISystem.setDifficulty (ai : AISystem K) (difficulty : String) : AISystem K :=
  { ai with difficulty := difficulty, settings := lookupSettings difficulty }

/-- Result of `AISystem.evaluatePlayerCapabilities`. -/
structure Capabilities (K : Type) where
  shooting : K
  dribbling : K
  speed : K
  strength : K
  height : K

/-- The expression `a || d` on numbers: `0` is falsy. -/
def orDefault (a d : K) : K :=
  if a = 0 then d else a

/-- `AISystem.evaluatePlayerCapabilities`. -/
def evaluatePlayerCapabilities (player : Player K) : Capabilities K :=
  { shooting := orDefault player.attributes.shooting 70
    dribbling := orDefault player.attributes.dribbling 70
    speed := orDefault player.attributes.speed 70
    strength := 70
    height :=
      if player.role = "C" then 210
      else if player.role = "PF" then 205
      else if player.role = "SF" then 200
      else if player.role = "SG" then 195
      else 185 }

/-- The first `switch` of `AISystem.chooseAction`: the candidate actions of a situation. -/
def candidateActions (situationType : String) : List String :=
  if situationType = "shotClockLow" then ["shoot"]
  else if situationType = "losingBadly" then ["shootThree", "driveAggressive", "fastBreak"]
  else if situationType = "crunchTime" then ["drive", "postUp", "midRange"]
  else ["drive", "shoot", "pass", "postUp", "pickAndRoll"]

/-- The filter predicate of `AISystem.chooseAction`. -/
def isViable (c : Capabilities K) (action : String) : Bool :=
  if action = "shoot" ∨ action = "shootThree" ∨ action = "midRange" then
    decide (c.shooting > 70)
  else if action = "drive" ∨ action = "driveAggressive" then
    decide (c.dribbling > 75 ∧ c.speed > 75)
  else if action = "postUp" then
    decide (c.strength > 70 ∧ c.height > 200)
  else true

/-- `AISystem.chooseAction`; `r1` and `r2` are its two `Math.random()` draws. -/
def chooseAction [FloorRing K] (settings : Settings K) (situationType : String)
    (ballHandler : Player K) (r1 r2 : K) : String :=
  let actions := candidateActions situationType
  let playerCapabilities := evaluatePlayerCapabilities ballHandler
  let viableActions := actions.filter (isViable playerCapabilities)
  if viableActions.length = 0 then "pass"
  else
    let randomFactor := r1
    if randomFactor < 1 / 10 * settings.mistakeRate then "turnover"
    else if "shoot" ∈ viableActions ∧ randomFactor < settings.aggression then "shoot"
    else viableActions.getD ⌊r2 * (viableActions.length : K)⌋₊ "undefined"

/-- The players a roster refers to. -/
def teamPlayers (s : GameState K) (team : List ℕ) : List (Player K) :=
  team.filterMap (fun i => s.players[i]?)

/-- `AISystem.calculateDefensePressure`. -/
def calculateDefensePressure (sqrt : K → K) (player : Player K) (s : GameState K) : K :=
  let defenders :=
    if player.team = .home then teamPlayers s s.awayTeam else teamPlayers s s.homeTeam
  let pressure : K := defenders.foldl (fun pressure defender =>
    let dx := defender.x - player.x
    let dy := defender.y - player.y
    let distance := sqrt (dx * dx + dy * dy)
    if distance < 150 then pressure + (150 - distance) * defender.attributes.defense / 150
    else pressure) 0
  min 100 pressure

/-- An element of `passOptions` in `AISystem.aiPass`. -/
structure PassOption (K : Type) where
  player : ℕ
  quality : K
  distance : K

/-- Insertion step of the stable descending sort by `quality`. -/
def insertByQuality (a : PassOption K) : List (PassOption K) → List (PassOption K)
  | [] => [a]
  | b :: l => if b.quality > a.quality then b :: insertByQuality a l else a :: b :: l

/-- The call `passOptions.sort((a, b) => b.quality - a.quality)`: stable, descending. -/
def sortByQuality : List (PassOption K) → List (PassOption K)
  | [] => []
  | a :: l => insertByQuality a (sortByQuality l)

/-- The `map` callback of `AISystem.aiPass`: the pass option of one teammate. -/
def passOption (sqrt : K → K) (s : GameState K) (ballHandler : Player K) (i : ℕ)
    (teammate : Player K) : PassOption K :=
  let dx := teammate.x - ballHandler.x
  let dy := teammate.y - ballHandler.y
  let distance := sqrt (dx * dx + dy * dy)
  let quality : K := 1 / distance
  let shootingChance := teammate.attributes.shooting / 100
  let quality := quality * (1 + shootingChance)
  let defensePressure := calculateDefensePressure sqrt teammate s
  let quality := quality * (1 - defensePressure / 100)
  { player := i, quality := quality, distance := distance }

/-- `AISystem.aiPass`; `r` is the `Math.random()` draw that decides on the scheduled
catch-and-shoot. -/
def aiPass (sqrt : K → K) (ballHandler : ℕ) (aiTeam : List ℕ) (s : GameState K) (r : K) :
    GameState K :=
  match s.players[ballHandler]? with
  | none => s
  | some handler =>
    let teammates := aiTeam.filter (fun i => i ≠ ballHandler)
    if teammates.length = 0 then s
    else
      let passOptions := teammates.filterMap (fun i =>
        (s.players[i]?).map (fun t => passOption sqrt s handler i t))
      match sortByQuality passOptions with
      | [] => s
      | best :: _ =>
        match s.players[best.player]? with
        | none => s
        | some target =>
          let players := modifyPlayer ballHandler (fun q => { q with hasBall := false }) s.players
          let players := modifyPlayer best.player (fun q => { q with hasBall := true }) players
          let s : GameState K :=
            { s with players := players, ball := s.ball.pass sqrt ballHandler target.x target.y }
          let s : GameState K := s.addEvent (.pass ballHandler best.player)
          if r < 3 / 10 then s.setTimeout (.catchAndShoot best.player) 500 else s

/-- `AISystem.aiTurnover` (the relocation of the ball is scheduled). -/
def aiTurnover (player : ℕ) (s : GameState K) : GameState K :=
  let s : GameState K :=
    { s with
      players := modifyPlayer player (fun q => { q with hasBall := false }) s.players
      ball := { s.ball with holder := none, inAir := false } }
  let s : GameState K := { s with possession := .home, shotClock := 24 }
  let s : GameState K := s.addEvent (.aiTurnover player)
  s.setTimeout .relocateAfterTurnover 1000

/-- `AISystem.attemptSteal`; `r` is its `Math.random()` draw. -/
def attemptSteal (settings : Settings K) (defender ballHandler : ℕ) (s : GameState K) (r : K) :
    GameState K :=
  match s.players[defender]? with
  | none => s
  | some d =>
    let stealChance := d.attributes.defense / 100 * (3 / 10) * settings.aggression
    if r < stealChance then
      let players := modifyPlayer ballHandler (fun q => { q with hasBall := false }) s.players
      let players := modifyPlayer defender (fun q => { q with hasBall := true }) players
      let s : GameState K :=
        { s with players := players, ball := { s.ball with holder := some defender } }
      let s : GameState K := { s with possession := .away, shotClock := 24 }
      s.addEvent (.steal defender)
    else s

/-- Result of `AISystem.analyzeSituation`. -/
structure Analysis (K : Type) where
  shotClock : ℤ
  scoreDifference : ℤ
  quarter : ℤ
  timeRemaining : ℤ
  defensivePressure : K
  situationType : String

/-- `AISystem.analyzeSituation`. -/
def analyzeSituation (sqrt : K → K) (s : GameState K) : Analysis K :=
  let shotClock := s.shotClock
  let scoreDifference := s.score.away - s.score.home
  let quarter := s.quarter
  let timeRemaining := s.gameClock
  let aiPlayers := teamPlayers s s.awayTeam
  let userPlayers := teamPlayers s s.homeTeam
  let totalPressure : K := aiPlayers.foldl (fun total player =>
    if player.hasBall then
      userPlayers.foldl (fun total defender =>
        let dx := defender.x - player.x
        let dy := defender.y - player.y
        let distance := sqrt (dx * dx + dy * dy)
        if distance < 150 then total + (150 - distance) / 150 else total) total
    else total) 0
  let defensivePressure := totalPressure / max 1 (aiPlayers.length : K)
  let situationType :=
    if shotClock < 5 then "shotClockLow"
    else if scoreDifference < -10 then "losingBadly"
    else if scoreDifference < 0 then "losing"
    else if scoreDifference > 10 then "winningComfortably"
    else if quarter = 4 ∧ timeRemaining < 60 then "crunchTime"
    else "normal"
  { shotClock := shotClock, scoreDifference := scoreDifference, quarter := quarter,
    timeRemaining := timeRemaining, defensivePressure := defensivePressure,
    situationType := situationType }

/-- `AISystem.getBallHandler` for a roster: the first player with `hasBall` set. -/
def getBallHandler (s : GameState K) (team : List ℕ) : Option ℕ :=
  team.find? (fun i =>
    match s.players[i]? with
    | some p => p.hasBall
    | none => false)

/-- The distance from `defender` to the player at index `i`, as both loops of
`AISystem.findDefensiveTarget` compute it. -/
def distanceTo (sqrt : K → K) (s : GameState K) (defender : Player K) (i : ℕ) : Option K :=
  (s.players[i]?).map (fun offender =>
    let dx := offender.x - defender.x
    let dy := offender.y - defender.y
    sqrt (dx * dx + dy * dy))

/-- The loop of `AISystem.findDefensiveTarget`: the closest player so far with its
distance; `none` stands for the initial `closestPlayer = null`,
`closestDistance = Infinity`. -/
def closestOffender (sqrt : K → K) (s : GameState K) (defender : Player K) :
    Option (ℕ × K) → List ℕ → Option (ℕ × K)
  | closest, [] => closest
  | closest, i :: rest =>
    match distanceTo sqrt s defender i with
    | none => closestOffender sqrt s defender closest rest
    | some distance =>
      match closest with
      | none => closestOffender sqrt s defender (some (i, distance)) rest
      | some (j, closestDistance) =>
        if distance < closestDistance then
          closestOffender sqrt s defender (some (i, distance)) rest
        else closestOffender sqrt s defender (some (j, closestDistance)) rest

/-- `AISystem.findDefensiveTarget`. -/
def findDefensiveTarget (sqrt : K → K) (s : GameState K) (defender : Player K)
    (userPlayers : List ℕ) (ballHandler : Option ℕ) : Option ℕ :=
  let closestPlayer := (closestOffender sqrt s defender none userPlayers).map Prod.fst
  match ballHandler with
  | some h =>
    match distanceTo sqrt s defender h with
    | some distance => if distance < 200 then some h else closestPlayer
    | none => closestPlayer
  | none => closestPlayer

/-- The steering block in the loop of `AISystem.runDefensiveLogic` (see `defendStep`) for
one defender and its target, with the finiteness of the quotients `dx / distance` and `dy / distance` tracked (`none`
means that the velocity written to the defender is not a finite number);
`isBallHandler` is the test `ballHandler === target`. -/
def defensiveSteering (sqrt : K → K) (settings : Settings K) (defender target : Player K)
    (isBallHandler : Bool) : Option (Player K) :=
  let dx := target.x - defender.x
  let dy := target.y - defender.y
  let distance := sqrt (dx * dx + dy * dy)
  let defensiveDistance : K := if isBallHandler then 80 else 120
  if distance > defensiveDistance then
    (finiteDiv dx distance).bind (fun nx =>
      (finiteDiv dy distance).bind (fun ny =>
        some { defender with
          vx := defender.vx + nx * (12 / 10) * settings.defenseReaction,
          vy := defender.vy + ny * (12 / 10) * settings.defenseReaction }))
  else if distance < defensiveDistance - 20 then
    (finiteDiv dx distance).bind (fun nx =>
      (finiteDiv dy distance).bind (fun ny =>
        some { defender with vx := defender.vx - nx * (1 / 2), vy := defender.vy - ny * (1 / 2) }))
  else some defender

/-- `AISystem.attemptBlock`; `r` is its `Math.random()` draw. -/
def attemptBlock (settings : Settings K) (defender : ℕ) (s : GameState K) (r : K) :
    GameState K :=
  match s.players[defender]? with
  | none => s
  | some d =>
    let blockChance := d.attributes.defense / 100 * (2 / 10) * settings.defenseReaction
    if r < blockChance ∧ s.ball.z < 100 then
      let s : GameState K :=
        { s with ball := { s.ball with
            vx := -s.ball.vx * (1 / 2), vy := -s.ball.vy * (1 / 2), vz := 30 } }
      s.addEvent (.block defender)
    else s

/-- The callback of the `forEach` over the defenders in `AISystem.runDefensiveLogic`, for
the defender at index `d`: choice of the target, steering, steal attempt and block attempt;
`r 0`, ..., `r 3` are the `Math.random()` draws in call order. The result is `none` when
the steering writes a velocity that is not a finite number. -/
def defendStep (sqrt : K → K) (settings : Settings K) (ballHandler : Option ℕ) (r : ℕ → K)
    (s : GameState K) (d : ℕ) : Option (GameState K) :=
  match s.players[d]? with
  | none => some s
  | some defender =>
    match findDefensiveTarget sqrt s defender s.homeTeam ballHandler with
    | none => some s
    | some t =>
      match s.players[t]? with
      | none => some s
      | some target =>
        let dx := target.x - defender.x
        let dy := target.y - defender.y
        let distance := sqrt (dx * dx + dy * dy)
        (defensiveSteering sqrt settings defender target (decide (ballHandler = some t))).map
          (fun defender =>
            let s : GameState K := { s with players := s.players.set d defender }
            let s : GameState K :=
              if ballHandler = some t ∧ distance < 100 ∧
                  r 0 < 1 / 100 * settings.aggression then
                attemptSteal settings d t s (r 1)
              else s
            if s.ball.inAir = true ∧ distance < 120 ∧
                r 2 < 5 / 1000 * settings.defenseReaction then
              attemptBlock settings d s (r 3)
            else s)

/-- The value handed to `AISystem.getBallHandler(team)`: a `Team` object, or the array
`team.players` itself. -/
inductive TeamArgument where
  | team (roster : List ℕ)
  | playerArray (players : List ℕ)

/-- A call of `AISystem.getBallHandler(team)`, which evaluates `team.players.find(...)`:
for an array of players, `team.players` is `undefined` and the call raises a TypeError
(`none`). -/
def getBallHandlerCall (s : GameState K) : TeamArgument → Option (Option ℕ)
  | .team roster => some (getBallHandler s roster)
  | .playerArray _ => none

/-- `AISystem.runDefensiveLogic`; `r d` holds the draws for defender `d`. The method hands
`userPlayers = gameState.homeTeam.players`, an array, to `getBallHandler`, and the loop
over the defenders comes after that call: the outer `none` is the TypeError of the call,
the inner `none` a velocity that is not a finite number. -/
def runDefensiveLogic (sqrt : K → K) (settings : Settings K) (r : ℕ → ℕ → K)
    (s : GameState K) : Option (Option (GameState K)) :=
  (getBallHandlerCall s (.playerArray s.homeTeam)).map (fun ballHandler =>
    s.awayTeam.foldl
      (fun acc d => acc.bind (fun s => defendStep sqrt settings ballHandler (r d) s d))
      (some s))

/-- The branches of `AISystem.update`. -/
inductive AIBranch where
  | inactive
  | defense
  | waiting
  | decision
  deriving DecidableEq, Repr

/-- The control flow of `AISystem.update`: the match is not running (`inactive`), the
defensive logic runs (`defense`), the decision delay has not elapsed (`waiting`), or a new
decision is made (`decision`); `currentTime` is `Date.now()`. -/
def AISystem.update (ai : AISystem K) (currentTime : K) (s : GameState K) : AIBranch :=
  if !s.gameActive || s.paused then .inactive
  else if s.possession ≠ .away then .defense
  else
    match ai.settings with
    | .record settings =>
      if currentTime - ai.lastDecisionTime < settings.decisionDelay then .waiting
      else .decision
    | .inherited _ => .decision

/-- The AI step of `BasketballGame.update`, for the state that the physics step leaves:
`AISystem.update` is called only while the possession is `away`; `none` means that it is
not called. -/
def updateAICall (ai : AISystem K) (currentTime : K) (s : GameState K) : Option AIBranch :=
  if s.possession = .away then some (ai.update currentTime s) else none

/-- `AISystem.calculateBlockChance`. -/
def calculateBlockChance (sqrt : K → K) (player : Player K) (s : GameState K) : K :=
  let defenders :=
    if player.team = .home then teamPlayers s s.awayTeam else teamPlayers s s.homeTeam
  let blockChance : K := defenders.foldl (fun blockChance defender =>
    let dx := defender.x - player.x
    let dy := defender.y - player.y
    let distance := sqrt (dx * dx + dy * dy)
    if distance < 120 then blockChance + defender.attributes.defense / 500
    else blockChance) 0
  min (1 / 2) blockChance

/-- The `Math.random()` draws of one `AISystem.executeAction`, one per call site. -/
structure Draws (K : Type) where
  shot : K
  three : K
  dribble : K
  driveShot : K
  drivePass : K
  dribbleType : K
  dunkAttempt : K
  block : K
  dunk : K
  postMove : K
  assist : K
  screenDirection : K
  rollOrPop : K

/-- `AISystem.aiShoot`; `r` decides whether the shot is made. The score of a made shot is
added by a scheduled callback. -/
def aiShoot (sqrt : K → K) (settings : Settings K) (player : ℕ) (s : GameState K) (r : K) :
    GameState K :=
  match s.players[player]? with
  | none => s
  | some p =>
    let basketX : K := 90
    let basketY : K := s.canvasHeight / 2
    let dx := basketX - p.x
    let dy := basketY - p.y
    let distance := sqrt (dx * dx + dy * dy)
    let baseAccuracy := p.attributes.shooting / 100
    let distanceFactor : K := if distance > 400 then 6 / 10 else if distance > 200 then 8 / 10 else 1
    let difficultyFactor := settings.accuracy
    let defenseFactor := 1 - calculateDefensePressure sqrt p s / 100
    let finalAccuracy := baseAccuracy * distanceFactor * difficultyFactor * defenseFactor
    let isMade : Bool := decide (r < finalAccuracy)
    let players := modifyPlayer player (fun q => q.shoot basketX basketY (7 / 10)) s.players
    let s : GameState K := { s with players := players }
    let s : GameState K := s.setTimeout (.shotRelease player) 500
    let s : GameState K := { s with ball := s.ball.shoot sqrt player basketX basketY (7 / 10) }
    let s : GameState K := s.addEvent (.shot player isMade)
    if isMade then s.setTimeout (.aiBasket (if distance > 400 then 3 else 2)) 1500 else s

/-- `AISystem.aiShootThree`. -/
def aiShootThree (sqrt cos sin : K → K) (atan2 : K → K → K) (settings : Settings K)
    (player : ℕ) (s : GameState K) (r : K) : GameState K :=
  match s.players[player]? with
  | none => s
  | some p =>
    let basketX : K := 90
    let basketY : K := s.canvasHeight / 2
    let threePointDistance : K := 400
    let angle := atan2 (basketY - p.y) (basketX - p.x)
    let targetX := p.x + cos angle * threePointDistance
    let targetY := p.y + sin angle * threePointDistance
    let baseAccuracy := p.attributes.threePoint / 100
    let difficultyFactor := settings.accuracy * (9 / 10)
    let finalAccuracy := baseAccuracy * difficultyFactor
    let isMade : Bool := decide (r < finalAccuracy)
    let players := modifyPlayer player (fun q => q.shoot targetX targetY (75 / 100)) s.players
    let s : GameState K := { s with players := players }
    let s : GameState K := s.setTimeout (.shotRelease player) 500
    let s : GameState K := { s with ball := s.ball.shoot sqrt player targetX targetY (75 / 100) }
    let s : GameState K := s.addEvent (.threeAttempt player)
    if isMade then s.setTimeout (.aiBasket 3) 1500 else s

/-- `AISystem.aiDrive`. -/
def aiDrive (sqrt : K → K) (settings : Settings K) (d : Draws K) (player : ℕ)
    (s : GameState K) : GameState K :=
  match s.players[player]? with
  | none => s
  | some p =>
    let targetX : K := 200
    let targetY : K := s.canvasHeight / 2
    let dx := targetX - p.x
    let dy := targetY - p.y
    let distance := sqrt (dx * dx + dy * dy)
    if distance > 50 then
      let players := modifyPlayer player (fun q =>
        { q with vx := q.vx + (dx / distance) * 2, vy := q.vy + (dy / distance) * 2 }) s.players
      let players := modifyPlayer player (fun q =>
        q.dribble (if d.dribble > 1 / 2 then "crossover" else "normal")) players
      let s : GameState K := { s with players := players }
      if distance < 100 ∧ d.driveShot < 3 / 10 then aiShoot sqrt settings player s d.shot
      else if d.drivePass < 2 / 10 then aiPass sqrt player s.awayTeam s d.assist
      else s
    else aiShoot sqrt settings player s d.shot

/-- `AISystem.aiDunk`. The call `gameState.turnover('away')` of the blocked and of the
missed dunk names no function of the state object; the model stops after the event. -/
def aiDunk (sqrt : K → K) (d : Draws K) (player : ℕ) (s : GameState K) : GameState K :=
  match s.players[player]? with
  | none => s
  | some p =>
    let dunkChance : K := 8 / 10
    let blockChance := calculateBlockChance sqrt p s
    if d.block < blockChance then s.addEvent (.dunkBlocked player)
    else if d.dunk < dunkChance then
      let s : GameState K := s.addEvent (.dunk player)
      s.setTimeout (.aiBasket 2) 1000
    else s.addEvent (.dunkMissed player)

/-- `AISystem.aiDriveAggressive`. -/
def aiDriveAggressive [FloorRing K] (sqrt : K → K) (d : Draws K) (player : ℕ)
    (s : GameState K) : GameState K :=
  match s.players[player]? with
  | none => s
  | some p =>
    let targetX : K := 150
    let targetY : K := s.canvasHeight / 2
    let dx := targetX - p.x
    let dy := targetY - p.y
    let distance := sqrt (dx * dx + dy * dy)
    if distance > 30 then
      let players := modifyPlayer player (fun q =>
        { q with vx := q.vx + (dx / distance) * 3, vy := q.vy + (dy / distance) * 3 }) s.players
      let dribbleTypes : List String := ["crossover", "behind", "spin"]
      let type := dribbleTypes.getD ⌊d.dribbleType * (dribbleTypes.length : K)⌋₊ "undefined"
      let players := modifyPlayer player (fun q => q.dribble type) players
      let s : GameState K := { s with players := players }
      if distance < 80 ∧ d.dunkAttempt < 1 / 2 then aiDunk sqrt d player s else s
    else s

/-- `AISystem.aiPostUp`. -/
def aiPostUp (sqrt : K → K) (settings : Settings K) (d : Draws K) (player : ℕ)
    (s : GameState K) : GameState K :=
  match s.players[player]? with
  | none => s
  | some p =>
    if p.role ≠ "C" ∧ p.role ≠ "PF" then aiPass sqrt player s.awayTeam s d.assist
    else
      let postX : K := 150
      let postY : K := s.canvasHeight / 2
      let dx := postX - p.x
      let dy := postY - p.y
      let distance := sqrt (dx * dx + dy * dy)
      if distance > 30 then
        let players := modifyPlayer player (fun q =>
          { q with vx := q.vx + (dx / distance) * (3 / 2), vy := q.vy + (dy / distance) * (3 / 2) })
          s.players
        { s with players := players }
      else
        let postMove := d.postMove
        if postMove < 4 / 10 then aiShoot sqrt settings player s d.shot
        else if postMove < 7 / 10 then aiShoot sqrt settings player s d.shot
        else aiPass sqrt player s.awayTeam s d.assist

/-- `AISystem.executePickAndRoll`. -/
def executePickAndRoll (sqrt : K → K) (d : Draws K) (team : List ℕ) (s : GameState K) :
    GameState K :=
  let ballHandler := (getBallHandler s team).orElse (fun _ => team[0]?)
  let bigMan := (team.find? (fun i =>
    match s.players[i]? with
    | some p => decide (p.role = "C") || decide (p.role = "PF")
    | none => false)).orElse (fun _ => team[4]?)
  match ballHandler, bigMan with
  | some bh, some bm =>
    match s.players[bh]?, s.players[bm]? with
    | some handler, some big =>
      let screenX := handler.x + 50
      let screenY := handler.y
      let dx := screenX - big.x
      let dy := screenY - big.y
      let distance := sqrt (dx * dx + dy * dy)
      if distance > 20 then
        let players := modifyPlayer bm (fun q =>
          { q with vx := q.vx + (dx / distance) * 2, vy := q.vy + (dy / distance) * 2 }) s.players
        { s with players := players }
      else
        let driveDirection : K := if d.screenDirection > 1 / 2 then 1 else -1
        let players := modifyPlayer bh (fun q => { q with vx := q.vx + 3 * driveDirection })
          s.players
        let players :=
          if d.rollOrPop > 1 / 2 then
            modifyPlayer bm (fun q =>
              { q with targetX := some 150, targetY := some (s.canvasHeight / 2) }) players
          else
            modifyPlayer bm (fun q =>
              { q with targetX := some (handler.x + 100), targetY := some handler.y }) players
        { s with players := players }
    | _, _ => s
  | _, _ => s

/-- `AISystem.executeAction`. -/
def executeAction [FloorRing K] (sqrt cos sin : K → K) (atan2 : K → K → K)
    (settings : Settings K) (d : Draws K) (action : String) (ballHandler : ℕ)
    (s : GameState K) : GameState K :=
  let aiTeam := s.awayTeam
  if action = "shoot" then aiShoot sqrt settings ballHandler s d.shot
  else if action = "shootThree" then aiShootThree sqrt cos sin atan2 settings ballHandler s d.three
  else if action = "drive" then aiDrive sqrt settings d ballHandler s
  else if action = "driveAggressive" then aiDriveAggressive sqrt d ballHandler s
  else if action = "pass" then aiPass sqrt ballHandler aiTeam s d.assist
  else if action = "postUp" then aiPostUp sqrt settings d ballHandler s
  else if action = "pickAndRoll" then executePickAndRoll sqrt d aiTeam s
  else if action = "turnover" then aiTurnover ballHandler s
  else aiPass sqrt ballHandler aiTeam s d.assist

/-! ## `js/controls.js` -/

/-- `GameControls.switchPlayer` on the match state of the game it is attached to; `none`
means that the call ends in a `TypeError` (no controlled player, or no player at the next
index). -/
def switchPlayer (s : GameState K) : Option (GameState K) :=
  let team := s.homeTeam
  match s.controlledPlayer with
  | none => none
  | some c =>
    let currentIndex : ℤ := if c ∈ team then (team.indexOf c : ℤ) else -1
    if team.length = 0 then none
    else
      let nextIndex : ℤ := (currentIndex + 1) % (team.length : ℤ)
      if nextIndex = currentIndex then some s
      else
        match team[nextIndex.toNat]? with
        | none => none
        | some next =>
          let players := modifyPlayer c (fun q => { q with isControlled := false }) s.players
          let players := modifyPlayer next (fun q => { q with isControlled := true }) players
          some { s with players := players, controlledPlayer := some next }

/-! ## Construction of the initial state (`Player`, `Ball`, `BasketballGame.init`) -/

/-- The constructor of `Player` for a configuration with position, team, role and
attributes (every other configuration key takes its default). -/
def Player.create (x y : K) (team : Side) (role : String) (attributes : Attributes K) :
    Player K :=
  { x := x, y := y, vx := 0, vy := 0, radius := 20, team := team, role := role,
    attributes := attributes, currentStamina := attributes.stamina,
    isControlled := false, hasBall := false, isShooting := false, isDribbling := false,
    isSprinting := false, dribbleType := "normal", dribbleTimer := 0,
    shotPower := 0, shotTargetX := 0, shotTargetY := 0,
    animation := { jump := 0, fade := 0, spin := 0 },
    targetX := none, targetY := none }

/-- The constructor of `Ball`. -/
def Ball.create : Ball K :=
  { x := 0, y := 0, z := 0, vx := 0, vy := 0, vz := 0, radius := 10, holder := none,
    inAir := false, lastHolder := none, spin := 0, trajectory := [] }

/-- The table `baseAttributes` of `BasketballGame.generatePlayerAttributes`. -/
def baseAttributes (role : String) : Attributes K :=
  if role = "SG" then
    { speed := 82, shooting := 85, dribbling := 80, defense := 72, stamina := 88,
      threePoint := 85 }
  else if role = "SF" then
    { speed := 80, shooting := 82, dribbling := 75, defense := 78, stamina := 85,
      threePoint := 80 }
  else if role = "PF" then
    { speed := 75, shooting := 76, dribbling := 70, defense := 85, stamina := 90,
      threePoint := 70 }
  else if role = "C" then
    { speed := 70, shooting := 72, dribbling := 65, defense := 90, stamina := 95,
      threePoint := 60 }
  else
    { speed := 85, shooting := 78, dribbling := 88, defense := 75, stamina := 90,
      threePoint := 80 }

/-- `BasketballGame.generatePlayerAttributes`; `variation` holds the random offsets. -/
def generatePlayerAttributes (role : String) (variation : Attributes K) : Attributes K :=
  let base : Attributes K := baseAttributes role
  { speed := max 40 (min 99 (base.speed + variation.speed))
    shooting := max 40 (min 99 (base.shooting + variation.shooting))
    dribbling := max 40 (min 99 (base.dribbling + variation.dribbling))
    defense := max 40 (min 99 (base.defense + variation.defense))
    stamina := max 40 (min 99 (base.stamina + variation.stamina))
    threePoint := max 40 (min 99 (base.threePoint + variation.threePoint)) }

/-- `BasketballGame.createPlayers`: five home players followed by five away players. -/
def createPlayers (variation : ℕ → Attributes K) : List (Player K) :=
  [ Player.create 200 300 .home "PG" (generatePlayerAttributes "PG" (variation 0)),
    Player.create 150 200 .home "SG" (generatePlayerAttributes "SG" (variation 1)),
    Player.create 150 400 .home "SF" (generatePlayerAttributes "SF" (variation 2)),
    Player.create 100 250 .home "PF" (generatePlayerAttributes "PF" (variation 3)),
    Player.create 100 350 .home "C" (generatePlayerAttributes "C" (variation 4)),
    Player.create 800 300 .away "PG" (generatePlayerAttributes "PG" (variation 5)),
    Player.create 850 200 .away "SG" (generatePlayerAttributes "SG" (variation 6)),
    Player.create 850 400 .away "SF" (generatePlayerAttributes "SF" (variation 7)),
    Player.create 900 250 .away "PF" (generatePlayerAttributes "PF" (variation 8)),
    Player.create 900 350 .away "C" (generatePlayerAttributes "C" (variation 9)) ]

/-- The state built by the constructor of `BasketballGame` and `init`. -/
def GameState.init (variation : ℕ → Attributes K) : GameState K :=
  { score := { home := 0, away := 0 }, quarter := 1, gameClock := 12 * 60, shotClock := 24,
    possession := .home, gameActive := false, paused := false,
    ball := { (Ball.create : Ball K) with holder := some 0 },
    players := createPlayers variation,
    homeTeam := [0, 1, 2, 3, 4], awayTeam := [5, 6, 7, 8, 9],
    controlledPlayer := some 0, canvasWidth := 1000, canvasHeight := 600,
    ui := false, events := [], timers := [] }

/-- `BasketballGame.start`, restricted to the match state. -/
def GameState.start (s : GameState K) : GameState K :=
  { s with gameActive := true, paused := false }

/-! ## Vocabulary of the verified properties -/

/-- Whether the player at index `i` exists and has `hasBall` set. -/
def isFlagged (ps : List (Player K)) (i : ℕ) : Bool :=
  match ps[i]? with
  | some p => p.hasBall
  | none => false

/-- The indices of the players whose `hasBall` is set. -/
def flaggedPlayers (s : GameState K) : List ℕ :=
  (List.range s.players.length).filter (isFlagged s.players)

/-- Mutual exclusion of possession: at most one player has `hasBall` set, and while the
ball is not in the air that player is `ball.holder`. -/
def MutualExclusion (s : GameState K) : Prop :=
  (flaggedPlayers s).length ≤ 1 ∧
    (s.ball.inAir = false → ∀ i ∈ flaggedPlayers s, s.ball.holder = some i)

instance (s : GameState K) : Decidable (MutualExclusion s) :=
  inferInstanceAs (Decidable ((flaggedPlayers s).length ≤ 1 ∧
    (s.ball.inAir = false → ∀ i ∈ flaggedPlayers s, s.ball.holder = some i)))

/-- The possession-changing operations of the simulation, with their arguments. -/
inductive PossessionOp (K : Type) where
  | handleScore (team : Side) (points : ℤ)
  | handleFoul (player : ℕ)
  | handleTurnover (team : Side)
  | gameTimerTick
  | catchBall (player : ℕ)
  | handleOutOfBounds
  | attemptSteal (settings : Settings K) (defender ballHandler : ℕ) (r : K)
  | aiTurnover (player : ℕ)

/-- Runs a possession-changing operation on a state. -/
def PossessionOp.run : PossessionOp K → GameState K → GameState K
  | .handleScore team points, s => Basketball.handleScore team points s
  | .handleFoul player, s => Basketball.handleFoul player s
  | .handleTurnover team, s => Basketball.handleTurnover team s
  | .gameTimerTick, s => Basketball.gameTimerTick s
  | .catchBall player, s => Basketball.catchBall player s
  | .handleOutOfBounds, s => Basketball.handleOutOfBounds s
  | .attemptSteal settings defender ballHandler r, s =>
      Basketball.attemptSteal settings defender ballHandler s r
  | .aiTurnover player, s => Basketball.aiTurnover player s

/-- The number of shot-clock violations in an event log. -/
def violationCount (events : List Event) : ℕ :=
  events.count .shotClockViolation

/-- The maximal speed of `updatePlayerPhysics`: 4 when sprinting and 2 otherwise. -/
def maxSpeed (p : Player K) : K :=
  if p.isSprinting then 4 else 2

/-- A variation table without offsets. -/
def noVariation : ℕ → Attributes K :=
  fun _ => { speed := 0, shooting := 0, dribbling := 0, defense := 0, stamina := 0,
             threePoint := 0 }

/-- The initial line-up while a pass to the away player 6 is in the air: the receiver is
already flagged, as `aiPass` leaves it. -/
def passInFlight : GameState K :=
  { (GameState.init noVariation : GameState K) with
    possession := .away
    players := modifyPlayer 6 (fun q => { q with hasBall := true }) (createPlayers noVariation)
    ball := { (Ball.create : Ball K) with inAir := true, lastHolder := some 5, vz := 30 } }

/-- An away point guard moving at 20/9 along the x axis towards a target 102 units
ahead. -/
def steeringPlayer : Player K :=
  { (Player.create 0 0 .away "PG"
      { speed := 85, shooting := 78, dribbling := 88, defense := 75, stamina := 90,
        threePoint := 80 } : Player K) with
    vx := 20 / 9, targetX := some 102, targetY := some 0 }

/-- A running match in which a ball released by the away point guard (standing at
`(800, 300)`, 710 units from the left hoop) comes down at the left hoop `(90, 300)`. -/
def longShotAtHoop : GameState K :=
  { (GameState.init noVariation : GameState K).start with
    possession := .away
    ball := { (Ball.create : Ball K) with
      x := 90, y := 300, z := 10, vx := -5, vy := 3, vz := -4, inAir := true,
      lastHolder := some 5 } }

/-- A ball handler whose shooting, dribbling and speed are all 60. -/
def averageHandler : Player K :=
  Player.create 500 300 .away "PG"
    { speed := 60, shooting := 60, dribbling := 60, defense := 60, stamina := 60,
      threePoint := 60 }

/-- The vertical part of one airborne `Ball.update`: the new height and vertical
velocity computed from the old ones. -/
def verticalStep (s : K × K) : K × K :=
  let vz := s.2 - 1 / 2
  let z := s.1 + vz
  if z ≤ 0 then (0, if |-vz * (7 / 10)| < 1 / 2 then 0 else -vz * (7 / 10))
  else (z, vz)

/-- The greatest height of the trace `z` strictly between the ticks `a` and `b`; it is 0
when no tick lies between them. -/
def peakBetween (z : ℕ → K) (a b : ℕ) : K :=
  ((List.range (b - a - 1)).map (fun i => z (a + 1 + i))).foldr max 0

/-- The height after `k` ticks of an unobstructed flight that starts at height `z0` with
vertical velocity `v0`. -/
def flightHeight (z0 v0 : K) (k : ℕ) : K :=
  z0 + (k : K) * v0 - (k : K) * ((k : K) + 1) / 4

/-- A ball dropped from height 10 at rest. -/
def droppedBall : Ball K :=
  { (Ball.create : Ball K) with z := 10, inAir := true }

/-- The distance between the centres of two players, as `checkPlayerCollision` computes
it from `dx = player1.x - player2.x` and `dy = player1.y - player2.y`. -/
def centreDistance (sqrt : K → K) (p1 p2 : Player K) : K :=
  sqrt ((p1.x - p2.x) * (p1.x - p2.x) + (p1.y - p2.y) * (p1.y - p2.y))

/-- Two players of radius 20 whose centres are 30 units apart. -/
def collidingPair : Player K × Player K :=
  (Player.create 130 100 .home "PG" (baseAttributes "PG"),
   Player.create 100 100 .away "PG" (baseAttributes "PG"))

/-- The invariant of the ball: `holder` and `inAir` are not both set. -/
def BallInvariant (b : Ball K) : Prop :=
  ¬ (b.holder ≠ none ∧ b.inAir = true)

instance (b : Ball K) : Decidable (BallInvariant b) :=
  inferInstanceAs (Decidable (¬ (b.holder ≠ none ∧ b.inAir = true)))

/-- A running match just after the home point guard released a shot: the ball is in the
air without a holder, and the shooter keeps `hasBall` until the callback of
`Player.shoot` fires. -/
def shotInFlight : GameState K :=
  { (GameState.init noVariation : GameState K).start with
    players := modifyPlayer 0 (fun q => { q with hasBall := true, isShooting := true })
      (createPlayers noVariation)
    ball := { (Ball.create : Ball K) with
      x := 200, y := 280, vx := 200, vy := 5, vz := 65, inAir := true, lastHolder := some 0 } }

/-- The 2D distance between the ball and a player, as the callback of
`detectBallPlayerCollisions` computes it from `dx = ball.x - player.x` and
`dy = ball.y - player.y`. -/
def ballDistance (sqrt : K → K) (b : Ball K) (q : Player K) : K :=
  sqrt ((b.x - q.x) * (b.x - q.x) + (b.y - q.y) * (b.y - q.y))

/-- A running match in which a loose ball flies at height 30 towards the home point guard
(standing at `(200, 300)`), 5 units away from the centre of that player. -/
def ballAtChestHeight : GameState K :=
  { (GameState.init noVariation : GameState K).start with
    ball := { (Ball.create : Ball K) with
      x := 203, y := 304, z := 30, vx := -3, vy := -4, vz := -1, inAir := true,
      lastHolder := some 5 } }

/-- The same loose ball at height 10, where the home point guard can catch it. -/
def ballAtKneeHeight : GameState K :=
  { (GameState.init noVariation : GameState K).start with
    ball := { (Ball.create : Ball K) with
      x := 203, y := 304, z := 10, vx := -3, vy := -4, vz := -1, inAir := true,
      lastHolder := some 5 } }

/-- A running match in which the airborne ball has left the court on the left by 40 units
while the home team has the ball with 10 seconds on the shot clock. -/
def ballBeyondSideline : GameState K :=
  { (GameState.init noVariation : GameState K).start with
    shotClock := 10
    ball := { (Ball.create : Ball K) with
      x := 10, y := 300, z := 15, vx := -8, vy := 0, vz := 2, inAir := true,
      lastHolder := some 0 } }

/-- An away defender standing 120 units to the right of the home point guard of the
initial line-up. -/
def helpDefender : Player K :=
  Player.create 320 300 .away "PG" (baseAttributes "PG")

/-- A running match in which a loose ball falls fast (`vz = -12`) at height 10 exactly
onto the centre of the home point guard, who stands at `(200, 300)`. -/
def ballOnPlayer : GameState K :=
  { (GameState.init noVariation : GameState K).start with
    ball := { (Ball.create : Ball K) with
      x := 200, y := 300, z := 10, vx := 3, vy := 4, vz := -12, inAir := true,
      lastHolder := some 5 } }

/-- The state reached from `s` by a sequence of timer ticks and possession-changing
operations. -/
def runOps (ops : List (PossessionOp K)) (s : GameState K) : GameState K :=
  ops.foldl (fun s op => op.run s) s

/-- Whether the player at index `i` exists and has `isControlled` set. -/
def controlFlag (ps : List (Player K)) (i : ℕ) : Bool :=
  match ps[i]? with
  | some p => p.isControlled
  | none => false

/-- The home players whose `isControlled` is set. -/
def controlledFlags (s : GameState K) : List ℕ :=
  s.homeTeam.filter (controlFlag s.players)

/-- Exactly one home player has `isControlled` set, and that player is
`controlledPlayer`. -/
def ControlInvariant (s : GameState K) : Prop :=
  s.controlledPlayer.map (fun c => [c]) = some (controlledFlags s)

instance (s : GameState K) : Decidable (ControlInvariant s) :=
  inferInstanceAs (Decidable (s.controlledPlayer.map (fun c => [c]) = some (controlledFlags s)))

/-- The list `viableActions` that `AISystem.chooseAction` computes for a situation and a
ball handler. -/
def viableActions (situationType : String) (ballHandler : Player K) : List String :=
  (candidateActions situationType).filter (isViable (evaluatePlayerCapabilities ballHandler))

/-- The list `passOptions` that `AISystem.aiPass` builds for the ball handler `handler`
at index `ballHandler`. -/
def passOptions (sqrt : K → K) (s : GameState K) (handler : Player K) (ballHandler : ℕ)
    (aiTeam : List ℕ) : List (PassOption K) :=
  (aiTeam.filter (fun i => i ≠ ballHandler)).filterMap (fun i =>
    (s.players[i]?).map (fun t => passOption sqrt s handler i t))

/-- The value of `distance` in `checkPlayerCollision`. -/
def collisionDistance (fl sqrt : K → K) (p1 p2 : Player K) : K :=
  sqrt (fl (fl (fl (p1.x - p2.x) * fl (p1.x - p2.x)) +
    fl (fl (p1.y - p2.y) * fl (p1.y - p2.y))))

/-- The value of `minDistance` in `checkPlayerCollision`. -/
def collisionMinDistance (fl : K → K) (p1 p2 : Player K) : K :=
  fl (p1.radius + p2.radius)

/-- The test `distance < minDistance && distance > 0` of `checkPlayerCollision`. -/
def Overlapping (fl sqrt : K → K) (p1 p2 : Player K) : Prop :=
  collisionDistance fl sqrt p1 p2 < collisionMinDistance fl p1 p2 ∧
    collisionDistance fl sqrt p1 p2 > 0

/-- The value of `separateX` (for `trig = cos`) and of `separateY` (for `trig = sin`) in
`checkPlayerCollision`. -/
def separation (fl sqrt trig : K → K) (atan2 : K → K → K) (p1 p2 : Player K) : K :=
  fl (fl (trig (atan2 (fl (p1.y - p2.y)) (fl (p1.x - p2.x))) *
    fl (collisionMinDistance fl p1 p2 - collisionDistance fl sqrt p1 p2)) * (1 / 2))

/-- The value of `Math.cos(angle) * force` (for `trig = cos`) and of
`Math.sin(angle) * force` (for `trig = sin`) in `checkPlayerCollision`. -/
def impulse (fl trig : K → K) (atan2 : K → K → K) (p1 p2 : Player K) : K :=
  fl (trig (atan2 (fl (p1.y - p2.y)) (fl (p1.x - p2.x))) * (1 / 2))

/-- The length of the vector `(dx, dy)` of `checkPlayerCollision`, with an exact square
root. -/
def differenceLength (fl sqrt : K → K) (p1 p2 : Player K) : K :=
  sqrt (fl (p1.x - p2.x) * fl (p1.x - p2.x) + fl (p1.y - p2.y) * fl (p1.y - p2.y))

/-- The penetration depth `minDistance - distance` of `checkPlayerCollision`. -/
def penetration (fl sqrt : K → K) (p1 p2 : Player K) : K :=
  collisionMinDistance fl p1 p2 - collisionDistance fl sqrt p1 p2

/-- A function of `Math` that returns the binary64 number nearest to the exact value of
`f`. -/
def correctlyRounded (fl f : K → K) : K → K :=
  fun x => fl (f x)

/-- `Math.atan2` returning the binary64 number nearest to the exact angle `arg y x`. -/
def roundedAtan2 (fl : K → K) (arg : K → K → K) : K → K → K :=
  fun y x => fl (arg y x)

/-- A home point guard of radius 20 standing at `(x, 300)` with velocity `(vx, 0)`. -/
def rowPlayer (x vx : K) : Player K :=
  { (Player.create x 300 .home "PG" (baseAttributes "PG")) with vx := vx }

/-- Two players at rest on the line `y = 300`, at `x = 62.5` and `x = 50.2` (the binary64
number nearest to `50.2`). -/
def residualPair [FloorRing K] : Player K × Player K :=
  (rowPlayer (125 / 2) 0, rowPlayer (roundDouble (251 / 5)) 0)

/-- Two players on the line `y = 300`, at `x = 130` and `x = 100`, moving with the
velocities `0.1` and `0.2` (as binary64 numbers) along the line. -/
def driftingPair [FloorRing K] : Player K × Player K :=
  (rowPlayer 130 (roundDouble (1 / 10)), rowPlayer 100 (roundDouble (2 / 10)))

/-- A state whose only player stands outside the court. -/
def strayState : GameState K :=
  { (GameState.init noVariation : GameState K) with
    players := [Player.create (-30) 700 .home "PG" (baseAttributes "PG")] }

/-! ## Verified properties -/

/-! ### Mutual exclusion of possession -/

theorem getElem?_modifyPlayer (i j : ℕ) (f : Player K → Player K) (ps : List (Player K)) :
    (modifyPlayer i f ps)[j]? = if j = i then (ps[j]?).map f else ps[j]? := by
  unfold modifyPlayer
  cases h : ps[i]? with
  | none =>
    by_cases hj : j = i
    · subst hj; simp [h]
    · simp [hj]
  | some p =>
    by_cases hj : j = i
    · subst hj
      have hlt : j < ps.length := by
        by_contra hc
        rw [List.getElem?_eq_none (not_lt.mp hc)] at h
        cases h
      simp [h, hlt]
    · have hij : i ≠ j := fun e => hj e.symm
      simp [hj, hij]

theorem length_modifyPlayer (i : ℕ) (f : Player K → Player K) (ps : List (Player K)) :
    (modifyPlayer i f ps).length = ps.length := by
  unfold modifyPlayer
  split <;> simp

theorem isFlagged_modifyPlayer_ne (i j : ℕ) (f : Player K → Player K) (ps : List (Player K))
    (h : j ≠ i) : isFlagged (modifyPlayer i f ps) j = isFlagged ps j := by
  unfold isFlagged
  rw [getElem?_modifyPlayer, if_neg h]

theorem isFlagged_modifyPlayer_clear (i : ℕ) (ps : List (Player K)) :
    isFlagged (modifyPlayer i (fun q => { q with hasBall := false }) ps) i = false := by
  unfold isFlagged
  rw [getElem?_modifyPlayer, if_pos rfl]
  cases ps[i]? <;> rfl

theorem mem_flaggedPlayers (s : GameState K) (j : ℕ) :
    j ∈ flaggedPlayers s ↔ isFlagged s.players j = true := by
  unfold flaggedPlayers
  rw [List.mem_filter, List.mem_range]
  constructor
  · exact fun h => h.2
  · intro h
    refine ⟨?_, h⟩
    by_contra hc
    unfold isFlagged at h
    rw [List.getElem?_eq_none (not_lt.mp hc)] at h
    cases h

theorem nodup_flaggedPlayers (s : GameState K) : (flaggedPlayers s).Nodup :=
  (List.nodup_range _).filter _

theorem length_le_one_of_forall_eq (l : List ℕ) (i : ℕ) (hn : l.Nodup) (h : ∀ j ∈ l, j = i) :
    l.length ≤ 1 := by
  match l, hn, h with
  | [], _, _ => simp
  | [_], _, _ => simp
  | a :: b :: t, hn, h =>
    exfalso
    have ha : a = i := h a (by simp)
    have hb : b = i := h b (by simp)
    rw [List.nodup_cons] at hn
    exact hn.1 (by rw [ha, ← hb]; simp)

/-- A state in which every flagged player is the player `i`, who is the holder
whenever the ball is not in the air, satisfies mutual exclusion. -/
theorem mutualExclusion_of_only (s : GameState K) (i : ℕ)
    (h : ∀ j, isFlagged s.players j = true → j = i)
    (hh : s.ball.inAir = false → isFlagged s.players i = true → s.ball.holder = some i) :
    MutualExclusion s := by
  refine ⟨length_le_one_of_forall_eq _ i (nodup_flaggedPlayers s) ?_, ?_⟩
  · intro j hj
    exact h j ((mem_flaggedPlayers s j).mp hj)
  · intro hair j hj
    have hji := h j ((mem_flaggedPlayers s j).mp hj)
    subst hji
    exact hh hair ((mem_flaggedPlayers s j).mp hj)

theorem catchBall_players (i : ℕ) (s : GameState K) :
    (catchBall i s).players =
      modifyPlayer i (fun q => { q with hasBall := true }) s.players := by
  unfold catchBall
  cases h : s.players[i]? with
  | none => simp [modifyPlayer, h]
  | some p =>
    simp only [GameState.addEvent]
    split <;> rfl

theorem catchBall_ball (i : ℕ) (s : GameState K) (p : Player K) (h : s.players[i]? = some p) :
    (catchBall i s).ball.holder = some i ∧ (catchBall i s).ball.inAir = false := by
  unfold catchBall
  simp only [h, GameState.addEvent]
  split <;> exact ⟨rfl, rfl⟩

theorem catchBall_mutualExclusion (i : ℕ) (s : GameState K) (hinv : MutualExclusion s)
    (hflag : ∀ j, isFlagged s.players j = true → j = i) : MutualExclusion (catchBall i s) := by
  cases h : s.players[i]? with
  | none =>
    have e : catchBall i s = s := by simp [catchBall, h]
    rw [e]
    exact hinv
  | some p =>
    apply mutualExclusion_of_only _ i
    · intro j hj
      rw [catchBall_players] at hj
      by_contra hne
      rw [isFlagged_modifyPlayer_ne _ _ _ _ hne] at hj
      exact hne (hflag j hj)
    · intro _ _
      exact (catchBall_ball i s p h).1

theorem aiTurnover_mutualExclusion (i : ℕ) (s : GameState K)
    (hflag : ∀ j, isFlagged s.players j = true → j = i) : MutualExclusion (aiTurnover i s) := by
  have hp : (aiTurnover i s).players =
      modifyPlayer i (fun q => { q with hasBall := false }) s.players := rfl
  have hnone : ∀ j, isFlagged (aiTurnover i s).players j = true → False := by
    intro j hj
    rw [hp] at hj
    by_cases hne : j = i
    · subst hne
      rw [isFlagged_modifyPlayer_clear] at hj
      cases hj
    · rw [isFlagged_modifyPlayer_ne _ _ _ _ hne] at hj
      exact hne (hflag j hj)
  apply mutualExclusion_of_only _ i
  · intro j hj
    exact (hnone j hj).elim
  · intro _ hi
    exact (hnone i hi).elim

theorem isFlagged_handover (i t j : ℕ) (ps : List (Player K))
    (hflag : ∀ j, isFlagged ps j = true → j = i)
    (hj : isFlagged (modifyPlayer t (fun q => { q with hasBall := true })
      (modifyPlayer i (fun q => { q with hasBall := false }) ps)) j = true) : j = t := by
  by_contra hne
  rw [isFlagged_modifyPlayer_ne _ _ _ _ hne] at hj
  by_cases hji : j = i
  · subst hji
    rw [isFlagged_modifyPlayer_clear] at hj
    cases hj
  · rw [isFlagged_modifyPlayer_ne _ _ _ _ hji] at hj
    exact hji (hflag j hj)

theorem attemptSteal_cases (settings : Settings K) (d i : ℕ) (s : GameState K) (r : K) :
    attemptSteal settings d i s r = s ∨
      ((attemptSteal settings d i s r).players =
          modifyPlayer d (fun q => { q with hasBall := true })
            (modifyPlayer i (fun q => { q with hasBall := false }) s.players) ∧
        (attemptSteal settings d i s r).ball.holder = some d) := by
  unfold attemptSteal
  split
  · exact Or.inl rfl
  · dsimp only
    split
    · exact Or.inr ⟨rfl, rfl⟩
    · exact Or.inl rfl

theorem attemptSteal_mutualExclusion (settings : Settings K) (d i : ℕ) (s : GameState K) (r : K)
    (hinv : MutualExclusion s) (hflag : ∀ j, isFlagged s.players j = true → j = i) :
    MutualExclusion (attemptSteal settings d i s r) := by
  rcases attemptSteal_cases settings d i s r with e | ⟨hp, hb⟩
  · rw [e]
    exact hinv
  · apply mutualExclusion_of_only _ d
    · intro j hj
      rw [hp] at hj
      exact isFlagged_handover i d j s.players hflag hj
    · intro _ _
      exact hb

theorem aiPass_cases (sqrt : K → K) (i : ℕ) (team : List ℕ) (s : GameState K) (r : K) :
    aiPass sqrt i team s r = s ∨
      ∃ t, (aiPass sqrt i team s r).players =
          modifyPlayer t (fun q => { q with hasBall := true })
            (modifyPlayer i (fun q => { q with hasBall := false }) s.players) ∧
        (aiPass sqrt i team s r).ball.inAir = true := by
  unfold aiPass
  split
  · exact Or.inl rfl
  · dsimp only
    split
    · exact Or.inl rfl
    · split
      · exact Or.inl rfl
      · split
        · exact Or.inl rfl
        · right
          simp only [GameState.addEvent, GameState.setTimeout]
          split
          · exact ⟨_, rfl, rfl⟩
          · exact ⟨_, rfl, rfl⟩

theorem aiPass_mutualExclusion (sqrt : K → K) (i : ℕ) (team : List ℕ) (s : GameState K) (r : K)
    (hinv : MutualExclusion s) (hflag : ∀ j, isFlagged s.players j = true → j = i) :
    MutualExclusion (aiPass sqrt i team s r) := by
  rcases aiPass_cases sqrt i team s r with e | ⟨t, hp, hb⟩
  · rw [e]
    exact hinv
  · apply mutualExclusion_of_only _ t
    · intro j hj
      rw [hp] at hj
      exact isFlagged_handover i t j s.players hflag hj
    · intro hair
      rw [hb] at hair
      cases hair

/-- When every player whose `hasBall` is set is the player handed to the operation (the
catcher for `catchBall`, the ball handler for `aiPass`, `attemptSteal` and `aiTurnover`),
each of these operations preserves mutual exclusion of possession: the three operations
of the AI clear the flag of the handler they are given, and `catchBall` clears no flag. -/
theorem handover_preserves_mutualExclusion (sqrt : K → K) (settings : Settings K) (i : ℕ)
    (team : List ℕ) (s : GameState K) (r : K) (hinv : MutualExclusion s)
    (hflag : ∀ j ∈ flaggedPlayers s, j = i) :
    MutualExclusion (catchBall i s) ∧ MutualExclusion (aiPass sqrt i team s r) ∧
      (∀ defender, MutualExclusion (attemptSteal settings defender i s r)) ∧
      MutualExclusion (aiTurnover i s) := by
  have hf : ∀ j, isFlagged s.players j = true → j = i :=
    fun j hj => hflag j ((mem_flaggedPlayers s j).mpr hj)
  exact ⟨catchBall_mutualExclusion i s hinv hf, aiPass_mutualExclusion sqrt i team s r hinv hf,
    fun d => attemptSteal_mutualExclusion settings d i s r hinv hf,
    aiTurnover_mutualExclusion i s hf⟩

/-- C1 fails for `catchBall`, which sets the flag of the catcher and clears no other flag:
while a pass to player 6 is in the air the invariant 'at most one player has `hasBall`
set, and that player is `ball.holder` whenever the ball is not in the air' holds, and
after player 0 intercepts the ball both player 0 and player 6 have `hasBall` set. -/
theorem catchBall_breaks_mutualExclusion :
    MutualExclusion (passInFlight : GameState ℚ) ∧
      ¬ MutualExclusion (catchBall 0 (passInFlight : GameState ℚ)) ∧
      flaggedPlayers (catchBall 0 (passInFlight : GameState ℚ)) = [0, 6] := by
  decide

theorem handover_preserves_mutualExclusion_witness :
    MutualExclusion (passInFlight : GameState ℝ) ∧
      (∀ j ∈ flaggedPlayers (passInFlight : GameState ℝ), j = 6) ∧
      (MutualExclusion (catchBall 6 (passInFlight : GameState ℝ)) ∧
        MutualExclusion (aiPass Real.sqrt 6 [5, 6, 7, 8, 9] (passInFlight : GameState ℝ) 0) ∧
        (∀ defender,
          MutualExclusion (attemptSteal proSettings defender 6 (passInFlight : GameState ℝ) 0)) ∧
        MutualExclusion (aiTurnover 6 (passInFlight : GameState ℝ))) :=
  ⟨by decide, by decide,
    handover_preserves_mutualExclusion Real.sqrt proSettings 6 [5, 6, 7, 8, 9] passInFlight 0
      (by decide) (by decide)⟩

/-! ### Shot-clock reset -/

theorem handleQuarterEnd_possession (s : GameState K) :
    (handleQuarterEnd s).possession = s.possession := by
  unfold handleQuarterEnd handleGameEnd GameState.setTimeout GameState.addEvent
  dsimp only
  split <;> rfl

theorem handleQuarterEnd_shotClock (s : GameState K) :
    (handleQuarterEnd s).shotClock = s.shotClock := by
  unfold handleQuarterEnd handleGameEnd GameState.setTimeout GameState.addEvent
  dsimp only
  split <;> rfl

/-- C2: every possession-changing operation (score, foul, turnover, the timer callback
with its shot-clock violation, catch, out of bounds, steal attempt, AI turnover) leaves
the shot clock at exactly 24 whenever the possession after it differs from the
possession before it. -/
theorem shotClock_reset_on_possession_change (op : PossessionOp K) (s : GameState K)
    (h : (op.run s).possession ≠ s.possession) : (op.run s).shotClock = 24 := by
  cases op with
  | handleScore team points =>
    simp [PossessionOp.run, handleScore, GameState.setTimeout, GameState.addEvent]
  | handleFoul player =>
    revert h
    simp only [PossessionOp.run, handleFoul, GameState.addEvent]
    split <;> simp
  | handleTurnover team =>
    simp [PossessionOp.run, handleTurnover, GameState.addEvent]
  | gameTimerTick =>
    revert h
    simp only [PossessionOp.run, gameTimerTick, GameState.addEvent]
    split_ifs <;>
      simp only [handleQuarterEnd_possession, handleQuarterEnd_shotClock, ne_eq,
        not_true_eq_false, false_implies, implies_true]
  | catchBall player =>
    revert h
    simp only [PossessionOp.run, catchBall, GameState.addEvent]
    split
    · simp
    · split <;> simp
  | handleOutOfBounds =>
    simp only [PossessionOp.run, handleOutOfBounds, GameState.setTimeout, GameState.addEvent]
    split <;> simp
  | attemptSteal settings defender ballHandler r =>
    revert h
    simp only [PossessionOp.run, attemptSteal, GameState.addEvent]
    split
    · simp
    · split <;> simp
  | aiTurnover player =>
    simp [PossessionOp.run, aiTurnover, GameState.setTimeout, GameState.addEvent]

theorem shotClock_reset_on_possession_change_witness :
    ((PossessionOp.gameTimerTick : PossessionOp ℚ).run
        { (GameState.init noVariation).start with shotClock := 1 }).possession ≠
      ({ (GameState.init noVariation).start with shotClock := 1 } : GameState ℚ).possession ∧
    ((PossessionOp.gameTimerTick : PossessionOp ℚ).run
        { (GameState.init noVariation).start with shotClock := 1 }).shotClock = 24 :=
  ⟨by decide, shotClock_reset_on_possession_change _ _ (by decide)⟩

/-! ### Speed cap -/

theorem isSqrt_real : IsSqrt Real.sqrt :=
  ⟨Real.sqrt_nonneg, fun _ ha => Real.mul_self_sqrt ha⟩

theorem IsSqrt.eq_of_mul_self {sqrt : K → K} (hs : IsSqrt sqrt) {a b : K} (hb : 0 ≤ b)
    (h : b * b = a) : sqrt a = b := by
  have ha : 0 ≤ a := by rw [← h]; exact mul_self_nonneg b
  have h1 := hs.mul_self a ha
  rw [← h] at h1
  exact (mul_self_inj (hs.nonneg _) hb).mp (by rw [h]; rw [h] at h1; exact h1)

theorem limitSpeed_bound (sqrt : K → K) (hs : IsSqrt sqrt) (p : Player K) :
    (limitSpeed sqrt p).vx ^ 2 + (limitSpeed sqrt p).vy ^ 2 ≤ maxSpeed p ^ 2 := by
  have hS : 0 ≤ p.vx * p.vx + p.vy * p.vy := add_nonneg (mul_self_nonneg _) (mul_self_nonneg _)
  have hc0 := hs.nonneg (p.vx * p.vx + p.vy * p.vy)
  have hcc := hs.mul_self _ hS
  have hm : (0 : K) < maxSpeed p := by
    unfold maxSpeed
    split <;> norm_num
  have key : ∀ c m : K, 0 ≤ c → c * c = p.vx * p.vx + p.vy * p.vy → 0 < m →
      (if c > m then ({ p with vx := p.vx / c * m, vy := p.vy / c * m } : Player K) else p).vx ^ 2 +
        (if c > m then ({ p with vx := p.vx / c * m, vy := p.vy / c * m } : Player K)
          else p).vy ^ 2 ≤ m ^ 2 := by
    intro c m hc0 hcc hm
    split_ifs with hgt
    · dsimp only
      have hcpos : 0 < c := lt_trans hm hgt
      have hcne : c ≠ 0 := ne_of_gt hcpos
      have e : (p.vx / c * m) ^ 2 + (p.vy / c * m) ^ 2 = m ^ 2 := by
        field_simp
        nlinarith [hcc]
      exact le_of_eq e
    · have hle : c ≤ m := not_lt.mp hgt
      nlinarith [hcc, mul_le_mul hle hle hc0 (le_of_lt hm)]
  exact key _ _ hc0 hcc hm

theorem updatePlayerAnimation_fields (p : Player K) :
    (updatePlayerAnimation p).vx = p.vx ∧ (updatePlayerAnimation p).vy = p.vy ∧
      (updatePlayerAnimation p).targetX = p.targetX ∧
      (updatePlayerAnimation p).targetY = p.targetY := by
  unfold updatePlayerAnimation
  dsimp only
  split_ifs <;> exact ⟨rfl, rfl, rfl, rfl⟩

theorem steerToTarget_cases (sqrt : K → K) (p : Player K) :
    ((steerToTarget sqrt p).vx = p.vx ∧ (steerToTarget sqrt p).vy = p.vy) ∨
      ∃ tx ty, (steerToTarget sqrt p).targetX = some tx ∧
        (steerToTarget sqrt p).targetY = some ty := by
  unfold steerToTarget
  split
  · rename_i tx ty hx hy
    unfold moveToTarget
    dsimp only
    split_ifs
    · exact Or.inr ⟨tx, ty, hx, hy⟩
    · exact Or.inl ⟨rfl, rfl⟩
  · exact Or.inl ⟨rfl, rfl⟩

theorem updatePlayerPhysics_targetX_none (sqrt : K → K) (p : Player K) (h : p.targetX = none) :
    (updatePlayerPhysics sqrt p).targetX = none := by
  unfold updatePlayerPhysics
  dsimp only
  rw [(updatePlayerAnimation_fields _).2.2.1]
  have e : (integratePosition (limitSpeed sqrt (applyFriction p))).targetX = none := by
    unfold integratePosition limitSpeed applyFriction
    dsimp only
    split_ifs <;> exact h
  unfold steerToTarget
  split
  · rename_i tx ty hx hy
    rw [e] at hx
    cases hx
  · exact e

/-- In exact arithmetic (an exact square root, no rounding of the rescaled velocity) the
cap holds whenever `updatePlayerPhysics` leaves the player without a target position (none
was set, or it was cleared on arrival within 10 units): then `vx² + vy² ≤ maxSpeed²` with
`maxSpeed` 4 when sprinting and 2 otherwise. -/
theorem speed_cap_when_not_steering (sqrt : K → K) (hs : IsSqrt sqrt) (p : Player K)
    (h : (updatePlayerPhysics sqrt p).targetX = none ∨
      (updatePlayerPhysics sqrt p).targetY = none) :
    (updatePlayerPhysics sqrt p).vx ^ 2 + (updatePlayerPhysics sqrt p).vy ^ 2 ≤
      maxSpeed p ^ 2 := by
  unfold updatePlayerPhysics at h ⊢
  dsimp only at h ⊢
  obtain ⟨e1, e2, e3, e4⟩ := updatePlayerAnimation_fields
    (steerToTarget sqrt (integratePosition (limitSpeed sqrt (applyFriction p))))
  rw [e1, e2]
  rw [e3, e4] at h
  rcases steerToTarget_cases sqrt (integratePosition (limitSpeed sqrt (applyFriction p))) with
    ⟨h1, h2⟩ | ⟨tx, ty, hx, hy⟩
  · rw [h1, h2]
    exact limitSpeed_bound sqrt hs (applyFriction p)
  · rw [hx, hy] at h
    rcases h with h | h <;> cases h

theorem speed_cap_when_not_steering_witness :
    ((updatePlayerPhysics Real.sqrt
          ({ Player.create 0 0 .home "PG" (baseAttributes "PG") with vx := 30, vy := 40 } :
            Player ℝ)).targetX = none ∨
        (updatePlayerPhysics Real.sqrt
          ({ Player.create 0 0 .home "PG" (baseAttributes "PG") with vx := 30, vy := 40 } :
            Player ℝ)).targetY = none) ∧
      (updatePlayerPhysics Real.sqrt
          ({ Player.create 0 0 .home "PG" (baseAttributes "PG") with vx := 30, vy := 40 } :
            Player ℝ)).vx ^ 2 +
        (updatePlayerPhysics Real.sqrt
          ({ Player.create 0 0 .home "PG" (baseAttributes "PG") with vx := 30, vy := 40 } :
            Player ℝ)).vy ^ 2 ≤
        maxSpeed ({ Player.create 0 0 .home "PG" (baseAttributes "PG") with vx := 30, vy := 40 } :
            Player ℝ) ^ 2 :=
  ⟨Or.inl (updatePlayerPhysics_targetX_none _ _ rfl),
    speed_cap_when_not_steering Real.sqrt isSqrt_real _
      (Or.inl (updatePlayerPhysics_targetX_none _ _ rfl))⟩

theorem updatePlayerPhysics_steeringPlayer (sqrt : K → K) (hs : IsSqrt sqrt) :
    (updatePlayerPhysics sqrt (steeringPlayer : Player K)).vx = 57 / 20 ∧
      (updatePlayerPhysics sqrt (steeringPlayer : Player K)).vy = 0 := by
  have h2 : sqrt 4 = 2 := hs.eq_of_mul_self (by norm_num) (by norm_num)
  have h100 : sqrt 10000 = 100 := hs.eq_of_mul_self (by norm_num) (by norm_num)
  unfold updatePlayerPhysics
  dsimp only
  rw [(updatePlayerAnimation_fields _).1, (updatePlayerAnimation_fields _).2.1]
  simp only [steerToTarget, integratePosition, limitSpeed, applyFriction, steeringPlayer,
    Player.create, moveToTarget]
  norm_num [h2, h100]

/-- C3 fails when a target is set, because `updatePlayerPhysics` caps the speed before
`moveToTarget` accelerates the player: a player who is not sprinting, enters with velocity
`(20/9, 0)` and steers with speed attribute 85 towards a target 100 units ahead leaves
`updatePlayerPhysics` with velocity `(57/20, 0)`, so that `vx² + vy²` exceeds
`maxSpeed² = 4`. The friction brings the velocity to `(2, 0)`, which the cap leaves as it
is, and the steering adds `85 / 100` along the direction `(1, 0)`. -/
theorem steering_exceeds_speed_cap :
    (updatePlayerPhysics Real.sqrt (steeringPlayer : Player ℝ)).vx = 57 / 20 ∧
      (updatePlayerPhysics Real.sqrt (steeringPlayer : Player ℝ)).vy = 0 ∧
      maxSpeed (steeringPlayer : Player ℝ) = 2 ∧
      ¬ ((updatePlayerPhysics Real.sqrt (steeringPlayer : Player ℝ)).vx ^ 2 +
          (updatePlayerPhysics Real.sqrt (steeringPlayer : Player ℝ)).vy ^ 2 ≤
        maxSpeed (steeringPlayer : Player ℝ) ^ 2) := by
  obtain ⟨hx, hy⟩ := updatePlayerPhysics_steeringPlayer Real.sqrt isSqrt_real
  have hm : maxSpeed (steeringPlayer : Player ℝ) = 2 := by
    simp [maxSpeed, steeringPlayer, Player.create]
  refine ⟨hx, hy, hm, ?_⟩
  rw [hx, hy, hm]
  norm_num

/-! ### Boundary containment -/

theorem clampPlayerToCourt_bounds (W H : K) (hW : 100 ≤ W) (hH : 100 ≤ H) (p : Player K) :
    50 ≤ (clampPlayerToCourt W H p).x ∧ (clampPlayerToCourt W H p).x ≤ W - 50 ∧
      50 ≤ (clampPlayerToCourt W H p).y ∧ (clampPlayerToCourt W H p).y ≤ H - 50 := by
  unfold clampPlayerToCourt
  by_cases h1 : p.x < 50 <;> by_cases h2 : p.x > W - 50 <;>
    by_cases h3 : p.y < 50 <;> by_cases h4 : p.y > H - 50 <;>
    simp only [h1, h2, h3, h4, if_true, if_false] <;>
    refine ⟨?_, ?_, ?_, ?_⟩ <;> linarith

theorem handleOutOfBounds_players (s : GameState K) :
    (handleOutOfBounds s).players = s.players := by
  unfold handleOutOfBounds GameState.setTimeout GameState.addEvent
  dsimp only
  split <;> rfl

theorem checkBallBoundaries_players (s : GameState K) :
    (checkBallBoundaries s).players = s.players := by
  unfold checkBallBoundaries
  dsimp only
  split_ifs
  · rw [handleOutOfBounds_players]
  · rfl
  · rfl

/-- C4: after `checkBoundaries` on a court of width and height at least 100, every
player lies in `[50, W - 50] × [50, H - 50]`, whatever the positions were before; no
player is added or removed. -/
theorem checkBoundaries_contains_players (s : GameState K) (hW : 100 ≤ s.canvasWidth)
    (hH : 100 ≤ s.canvasHeight) :
    (checkBoundaries s).players.length = s.players.length ∧
      ∀ p ∈ (checkBoundaries s).players,
        50 ≤ p.x ∧ p.x ≤ s.canvasWidth - 50 ∧ 50 ≤ p.y ∧ p.y ≤ s.canvasHeight - 50 := by
  unfold checkBoundaries
  dsimp only
  rw [checkBallBoundaries_players]
  refine ⟨by simp, ?_⟩
  intro p hp
  obtain ⟨q, -, rfl⟩ := List.mem_map.mp hp
  exact clampPlayerToCourt_bounds _ _ hW hH q

theorem checkBoundaries_contains_players_witness :
    (100 : ℚ) ≤ (strayState : GameState ℚ).canvasWidth ∧
      (100 : ℚ) ≤ (strayState : GameState ℚ).canvasHeight ∧
      ((checkBoundaries (strayState : GameState ℚ)).players.length =
          (strayState : GameState ℚ).players.length ∧
        ∀ p ∈ (checkBoundaries (strayState : GameState ℚ)).players,
          50 ≤ p.x ∧ p.x ≤ (strayState : GameState ℚ).canvasWidth - 50 ∧
            50 ≤ p.y ∧ p.y ≤ (strayState : GameState ℚ).canvasHeight - 50) :=
  ⟨by norm_num [strayState, GameState.init], by norm_num [strayState, GameState.init],
    checkBoundaries_contains_players strayState (by norm_num [strayState, GameState.init])
      (by norm_num [strayState, GameState.init])⟩

/-! ### Accuracy monotonicity -/

theorem clamp_mono (a b lo hi : K) (h : a ≤ b) : clamp a lo hi ≤ clamp b lo hi :=
  max_le_max le_rfl (min_le_min le_rfl h)

/-- C5: `calculateShotAccuracy` is non-increasing in defensive pressure and in distance:
for a skill in `[0, 100]`, pressures `0 ≤ p1 ≤ p2 ≤ 100` and distances `0 ≤ d1 ≤ d2`, the
accuracy at `(d2, p2)` is at most the accuracy at `(d1, p1)`, for every shot type. -/
theorem calculateShotAccuracy_antitone (skill p1 p2 d1 d2 : K) (shotType : String)
    (hs0 : 0 ≤ skill) (_hs1 : skill ≤ 100) (_hp0 : 0 ≤ p1) (hp : p1 ≤ p2) (hp1 : p2 ≤ 100)
    (_hd0 : 0 ≤ d1) (hd : d1 ≤ d2) :
    calculateShotAccuracy d2 skill p2 shotType ≤ calculateShotAccuracy d1 skill p1 shotType := by
  unfold calculateShotAccuracy
  dsimp only
  apply clamp_mono
  have hb : 0 ≤ skill / 100 := div_nonneg hs0 (by norm_num)
  have hdef2 : 0 ≤ 1 - p2 / 100 := by
    have : p2 / 100 ≤ 1 := by rw [div_le_one (by norm_num)]; exact hp1
    linarith
  have hdef : 1 - p2 / 100 ≤ 1 - p1 / 100 := by
    have : p1 / 100 ≤ p2 / 100 := div_le_div_of_nonneg_right hp (by norm_num)
    linarith
  apply mul_le_mul _ hdef hdef2
  · apply mul_nonneg hb
    split_ifs <;> norm_num
  · apply mul_le_mul_of_nonneg_left _ hb
    split_ifs <;> first | (exfalso; linarith) | norm_num

theorem calculateShotAccuracy_antitone_witness :
    (0 : ℚ) ≤ 80 ∧ (80 : ℚ) ≤ 100 ∧ (0 : ℚ) ≤ 10 ∧ (10 : ℚ) ≤ 50 ∧ (50 : ℚ) ≤ 100 ∧
      (0 : ℚ) ≤ 100 ∧ (100 : ℚ) ≤ 450 ∧
      calculateShotAccuracy (450 : ℚ) 80 50 "normal" ≤ calculateShotAccuracy (100 : ℚ) 80 10 "normal" :=
  ⟨by norm_num, by norm_num, by norm_num, by norm_num, by norm_num, by norm_num, by norm_num,
    calculateShotAccuracy_antitone 80 10 50 100 450 "normal" (by norm_num) (by norm_num)
      (by norm_num) (by norm_num) (by norm_num) (by norm_num) (by norm_num)⟩

/-! ### Restitution decay -/

theorem ball_update_vertical (sqrt : K → K) (ps : List (Player K)) (b : Ball K)
    (hair : b.inAir = true) :
    ((Ball.update sqrt ps b).z, (Ball.update sqrt ps b).vz) = verticalStep (b.z, b.vz) ∧
      (Ball.update sqrt ps b).inAir = true := by
  unfold Ball.update verticalStep
  simp only [hair, if_true]
  by_cases h1 : b.z + (b.vz - 1 / 2) ≤ 0
  · by_cases h2 : |-(b.vz - 1 / 2) * (7 / 10)| < 1 / 2
    · simp only [h1, h2, if_true]
      split <;> exact ⟨rfl, rfl⟩
    · simp only [h1, h2, if_true, if_false]
      split <;> exact ⟨rfl, rfl⟩
  · simp only [h1, if_false]
    split <;> exact ⟨rfl, rfl⟩

theorem ball_iterate_vertical (sqrt : K → K) (ps : List (Player K)) (b : Ball K)
    (hair : b.inAir = true) (n : ℕ) :
    (((Ball.update sqrt ps)^[n] b).z, ((Ball.update sqrt ps)^[n] b).vz) =
        verticalStep^[n] (b.z, b.vz) ∧
      ((Ball.update sqrt ps)^[n] b).inAir = true := by
  induction n with
  | zero => exact ⟨rfl, hair⟩
  | succ n ih =>
    rw [Function.iterate_succ_apply', Function.iterate_succ_apply']
    obtain ⟨h1, h2⟩ := ball_update_vertical sqrt ps _ ih.2
    exact ⟨by rw [h1, ih.1], h2⟩

theorem verticalStep_nonneg (s : K × K) (h : 0 ≤ s.1) :
    0 ≤ (verticalStep s).1 ∧
      ((verticalStep s).1 = 0 → (verticalStep s).2 = 0 ∨ 1 / 2 ≤ (verticalStep s).2) := by
  unfold verticalStep
  dsimp only
  by_cases h1 : s.1 + (s.2 - 1 / 2) ≤ 0
  · rw [if_pos h1]
    refine ⟨le_refl _, fun _ => ?_⟩
    dsimp only
    by_cases h2 : |-(s.2 - 1 / 2) * (7 / 10)| < 1 / 2
    · rw [if_pos h2]
      exact Or.inl rfl
    · rw [if_neg h2]
      right
      have hr : 0 ≤ -(s.2 - 1 / 2) * (7 / 10) := by nlinarith
      rw [abs_of_nonneg hr] at h2
      exact not_lt.mp h2
  · rw [if_neg h1]
    dsimp only
    have hpos : 0 < s.1 + (s.2 - 1 / 2) := not_le.mp h1
    exact ⟨le_of_lt hpos, fun e => absurd e (ne_of_gt hpos)⟩

theorem verticalStep_iterate_nonneg (s : K × K) (h : 0 ≤ s.1) (n : ℕ) :
    0 ≤ (verticalStep^[n] s).1 := by
  induction n with
  | zero => exact h
  | succ n ih =>
    rw [Function.iterate_succ_apply']
    exact (verticalStep_nonneg _ ih).1

theorem verticalStep_iterate_contact (s : K × K) (h : 0 ≤ s.1) (n : ℕ)
    (hc : (verticalStep^[n + 1] s).1 = 0) :
    (verticalStep^[n + 1] s).2 = 0 ∨ 1 / 2 ≤ (verticalStep^[n + 1] s).2 := by
  rw [Function.iterate_succ_apply'] at hc ⊢
  exact (verticalStep_nonneg _ (verticalStep_iterate_nonneg s h n)).2 hc

theorem flightHeight_succ (z0 v0 : K) (k : ℕ) :
    flightHeight z0 v0 (k + 1) = flightHeight z0 v0 k + (v0 - ((k + 1 : ℕ) : K) / 2) := by
  unfold flightHeight
  push_cast
  ring

theorem verticalStep_flight (z0 v0 : K) (k : ℕ)
    (h : ∀ j, 1 ≤ j → j ≤ k → 0 < flightHeight z0 v0 j) :
    verticalStep^[k] (z0, v0) = (flightHeight z0 v0 k, v0 - (k : K) / 2) := by
  induction k with
  | zero => simp [flightHeight]
  | succ k ih =>
    rw [Function.iterate_succ_apply', ih (fun j h1 h2 => h j h1 (Nat.le_succ_of_le h2))]
    have hpos := h (k + 1) (by omega) le_rfl
    rw [flightHeight_succ] at hpos
    have e : v0 - (k : K) / 2 - 1 / 2 = v0 - ((k + 1 : ℕ) : K) / 2 := by
      push_cast
      ring
    unfold verticalStep
    dsimp only
    rw [e, if_neg (not_le.mpr hpos), flightHeight_succ]

theorem verticalStep_landing (z0 v0 : K) (k : ℕ)
    (h : ∀ j, 1 ≤ j → j ≤ k → 0 < flightHeight z0 v0 j)
    (hl : flightHeight z0 v0 (k + 1) ≤ 0) :
    verticalStep^[k + 1] (z0, v0) =
      (0, if |-(v0 - ((k + 1 : ℕ) : K) / 2) * (7 / 10)| < 1 / 2 then 0
          else -(v0 - ((k + 1 : ℕ) : K) / 2) * (7 / 10)) := by
  rw [Function.iterate_succ_apply', verticalStep_flight z0 v0 k h]
  rw [flightHeight_succ] at hl
  have e : v0 - (k : K) / 2 - 1 / 2 = v0 - ((k + 1 : ℕ) : K) / 2 := by
    push_cast
    ring
  unfold verticalStep
  dsimp only
  rw [e, if_pos hl]

theorem exists_landing [Archimedean K] (z0 v0 : K) (hz : 0 ≤ z0) :
    ∃ m, 1 ≤ m ∧ flightHeight z0 v0 m ≤ 0 ∧
      ∀ j, 1 ≤ j → j < m → 0 < flightHeight z0 v0 j := by
  have hex : ∃ m, 1 ≤ m ∧ flightHeight z0 v0 m ≤ 0 := by
    obtain ⟨n, hn⟩ := exists_nat_ge (4 * v0 + 4 * z0)
    refine ⟨n + 1, by omega, ?_⟩
    unfold flightHeight
    push_cast
    have hn0 : (0 : K) ≤ n := Nat.cast_nonneg n
    nlinarith [mul_nonneg hn0 hz, mul_nonneg hn0 hn0]
  classical
  refine ⟨Nat.find hex, (Nat.find_spec hex).1, (Nat.find_spec hex).2, ?_⟩
  intro j hj1 hjm
  by_contra hc
  exact Nat.find_min hex hjm ⟨hj1, not_lt.mp hc⟩

theorem bounce_step [Archimedean K] (v : K) (hv : 1 / 2 ≤ v) :
    ∃ m : ℕ, 1 ≤ m ∧ 0 ≤ ((m : K) / 2 - v) * (7 / 10) ∧
      ((m : K) / 2 - v) * (7 / 10) < v * (7 / 10) ∧
      (∀ j, 1 ≤ j → j < m → 0 < flightHeight 0 v j ∧
        verticalStep^[j] (0, v) = (flightHeight 0 v j, v - (j : K) / 2)) ∧
      flightHeight 0 v m ≤ 0 ∧
      verticalStep^[m] (0, v) =
        (0, if ((m : K) / 2 - v) * (7 / 10) < 1 / 2 then 0 else ((m : K) / 2 - v) * (7 / 10)) := by
  obtain ⟨m, hm1, hland, hfly⟩ := exists_landing 0 v le_rfl
  have hm1K : (1 : K) ≤ m := by exact_mod_cast hm1
  have hup : v ≤ ((m : K) + 1) / 4 := by
    unfold flightHeight at hland
    by_contra hc
    push_neg at hc
    nlinarith
  have hlow : (m : K) / 4 < v := by
    rcases Nat.lt_or_ge 1 m with h2 | h2
    · have hpos := hfly (m - 1) (by omega) (by omega)
      unfold flightHeight at hpos
      have hc : ((m - 1 : ℕ) : K) = (m : K) - 1 := by
        rw [Nat.cast_sub hm1]
        simp
      rw [hc] at hpos
      have h2K : (2 : K) ≤ m := by exact_mod_cast h2
      by_contra hcon
      push_neg at hcon
      nlinarith
    · have : m = 1 := by omega
      subst this
      push_cast
      linarith
  have hr0 : 0 ≤ ((m : K) / 2 - v) * (7 / 10) := by nlinarith
  refine ⟨m, hm1, hr0, by nlinarith, ?_, hland, ?_⟩
  · intro j hj1 hjm
    refine ⟨hfly j hj1 hjm, ?_⟩
    exact verticalStep_flight 0 v j (fun i hi1 hij => hfly i hi1 (by omega))
  · obtain ⟨k, rfl⟩ : ∃ k, m = k + 1 := ⟨m - 1, by omega⟩
    rw [verticalStep_landing 0 v k (fun i hi1 hik => hfly i hi1 (by omega)) hland]
    have e : -(v - ((k + 1 : ℕ) : K) / 2) * (7 / 10) = (((k + 1 : ℕ) : K) / 2 - v) * (7 / 10) := by
      ring
    rw [e, abs_of_nonneg hr0]

theorem bounce_stops [Archimedean K] (j : ℕ) :
    ∀ v : K, 1 / 2 ≤ v → v * (7 / 10) ^ j < 5 / 7 → ∃ n, verticalStep^[n] (0, v) = (0, 0) := by
  induction j with
  | zero =>
    intro v hv hlt
    obtain ⟨m, -, -, hr, -, -, hst⟩ := bounce_step v hv
    refine ⟨m, ?_⟩
    rw [hst, if_pos (by simp at hlt; linarith)]
  | succ j ih =>
    intro v hv hlt
    obtain ⟨m, -, hr0, hr, -, -, hst⟩ := bounce_step v hv
    by_cases hsmall : ((m : K) / 2 - v) * (7 / 10) < 1 / 2
    · exact ⟨m, by rw [hst, if_pos hsmall]⟩
    · rw [if_neg hsmall] at hst
      have hpow : (0 : K) < (7 / 10) ^ j := by positivity
      obtain ⟨n, hn⟩ := ih _ (not_lt.mp hsmall) (by
        have := mul_lt_mul_of_pos_right hr hpow
        calc ((m : K) / 2 - v) * (7 / 10) * (7 / 10) ^ j < v * (7 / 10) * (7 / 10) ^ j := this
          _ = v * (7 / 10) ^ (j + 1) := by ring
          _ < 5 / 7 := hlt)
      refine ⟨n + m, ?_⟩
      rw [Function.iterate_add_apply, hst, hn]

theorem drop_stops [Archimedean K] (z0 : K) (hz : 0 < z0) :
    ∃ n, verticalStep^[n] (z0, 0) = (0, 0) := by
  obtain ⟨m, hm1, hland, hfly⟩ := exists_landing z0 0 (le_of_lt hz)
  obtain ⟨k, rfl⟩ : ∃ k, m = k + 1 := ⟨m - 1, by omega⟩
  have hst := verticalStep_landing z0 0 k (fun i hi1 hik => hfly i hi1 (by omega)) hland
  have hr0 : (0 : K) ≤ -(0 - ((k + 1 : ℕ) : K) / 2) * (7 / 10) := by
    have : (0 : K) ≤ ((k + 1 : ℕ) : K) := Nat.cast_nonneg _
    nlinarith
  rw [abs_of_nonneg hr0] at hst
  by_cases hsmall : -(0 - ((k + 1 : ℕ) : K) / 2) * (7 / 10) < 1 / 2
  · exact ⟨k + 1, by rw [hst, if_pos hsmall]⟩
  · rw [if_neg hsmall] at hst
    have hrpos : (0 : K) < -(0 - ((k + 1 : ℕ) : K) / 2) * (7 / 10) :=
      lt_of_lt_of_le (by norm_num) (not_lt.mp hsmall)
    obtain ⟨j, hj⟩ := exists_pow_lt_of_lt_one
      (div_pos (by norm_num : (0 : K) < 5 / 7) hrpos) (by norm_num : (7 / 10 : K) < 1)
    obtain ⟨n, hn⟩ := bounce_stops j _ (not_lt.mp hsmall) (by
      rw [lt_div_iff₀ hrpos] at hj
      linarith)
    refine ⟨n + (k + 1), ?_⟩
    rw [Function.iterate_add_apply, hst, hn]

theorem foldr_max_nonneg (l : List K) : 0 ≤ l.foldr max 0 := by
  induction l with
  | nil => exact le_rfl
  | cons a l ih => exact le_trans ih (le_max_right _ _)

theorem le_foldr_max (l : List K) (x : K) (h : x ∈ l) : x ≤ l.foldr max 0 := by
  induction l with
  | nil => cases h
  | cons a l ih =>
    rcases List.mem_cons.mp h with e | e
    · rw [e]
      exact le_max_left _ _
    · exact le_trans (ih e) (le_max_right _ _)

theorem foldr_max_eq (l : List K) : l.foldr max 0 = 0 ∨ l.foldr max 0 ∈ l := by
  induction l with
  | nil => exact Or.inl rfl
  | cons a l ih =>
    rcases max_choice a (l.foldr max 0) with e | e
    · right
      rw [List.foldr_cons, e]
      exact List.mem_cons_self _ _
    · rw [List.foldr_cons, e]
      rcases ih with h | h
      · exact Or.inl h
      · exact Or.inr (List.mem_cons_of_mem _ h)

theorem next_contact [Archimedean K] (s0 : K × K) (n1 n2 : ℕ) (v : K)
    (hS : verticalStep^[n1] s0 = (0, v)) (hv : 1 / 2 ≤ v) (h12 : n1 < n2)
    (hc2 : (verticalStep^[n2] s0).1 = 0)
    (hno : ∀ k, n1 < k → k < n2 → (verticalStep^[k] s0).1 ≠ 0) :
    ∃ m : ℕ, n2 = n1 + m ∧ 1 ≤ m ∧ 0 ≤ ((m : K) / 2 - v) * (7 / 10) ∧
      ((m : K) / 2 - v) * (7 / 10) < v * (7 / 10) ∧
      (∀ j, 1 ≤ j → j < m → 0 < flightHeight 0 v j ∧
        (verticalStep^[n1 + j] s0).1 = flightHeight 0 v j) ∧
      flightHeight 0 v m ≤ 0 ∧
      verticalStep^[n2] s0 =
        (0, if ((m : K) / 2 - v) * (7 / 10) < 1 / 2 then 0 else ((m : K) / 2 - v) * (7 / 10)) := by
  obtain ⟨m, hm1, hr0, hr, hfly, hland, hst⟩ := bounce_step v hv
  have hshift : ∀ j, verticalStep^[n1 + j] s0 = verticalStep^[j] (0, v) := by
    intro j
    rw [Nat.add_comm, Function.iterate_add_apply, hS]
  have hn2 : n2 = n1 + m := by
    rcases Nat.lt_trichotomy n2 (n1 + m) with h | h | h
    · exfalso
      obtain ⟨j, rfl⟩ : ∃ j, n2 = n1 + j := ⟨n2 - n1, by omega⟩
      have hj := hfly j (by omega) (by omega)
      rw [hshift, hj.2] at hc2
      exact absurd hc2 (ne_of_gt hj.1)
    · exact h
    · exfalso
      apply hno (n1 + m) (by omega) h
      rw [hshift, hst]
  refine ⟨m, hn2, hm1, hr0, hr, ?_, hland, ?_⟩
  · intro j hj1 hjm
    have hj := hfly j hj1 hjm
    exact ⟨hj.1, by rw [hshift, hj.2]⟩
  · rw [hn2, hshift, hst]

theorem flightHeight_lt (v r : K) (k : ℕ) (hk : 1 ≤ k) (h : r < v) :
    flightHeight 0 r k < flightHeight 0 v k := by
  unfold flightHeight
  have hk0 : (1 : K) ≤ k := by exact_mod_cast hk
  nlinarith

theorem flightHeight_nonpos_of_le (v : K) (m k : ℕ) (hm : 1 ≤ m) (hmk : m ≤ k)
    (h : flightHeight 0 v m ≤ 0) : flightHeight 0 v k ≤ 0 := by
  unfold flightHeight at h ⊢
  have hm0 : (1 : K) ≤ m := by exact_mod_cast hm
  have hmk0 : (m : K) ≤ k := by exact_mod_cast hmk
  have hv : v ≤ ((m : K) + 1) / 4 := by
    by_contra hc
    push_neg at hc
    nlinarith
  have hk1 : (0 : K) ≤ k := by linarith
  nlinarith [mul_nonneg hk1 (sub_nonneg.mpr hmk0)]

theorem peaks_decrease [Archimedean K] (s0 : K × K) (h0 : 0 ≤ s0.1) (n1 n2 n3 : ℕ)
    (hn1 : 1 ≤ n1) (h12 : n1 < n2) (h23 : n2 < n3)
    (hc1 : (verticalStep^[n1] s0).1 = 0) (hc2 : (verticalStep^[n2] s0).1 = 0)
    (hc3 : (verticalStep^[n3] s0).1 = 0)
    (hb1 : (verticalStep^[n1] s0).2 ≠ 0) (hb2 : (verticalStep^[n2] s0).2 ≠ 0)
    (hno12 : ∀ k, n1 < k → k < n2 → (verticalStep^[k] s0).1 ≠ 0)
    (hno23 : ∀ k, n2 < k → k < n3 → (verticalStep^[k] s0).1 ≠ 0) :
    peakBetween (fun n => (verticalStep^[n] s0).1) n2 n3 <
      peakBetween (fun n => (verticalStep^[n] s0).1) n1 n2 := by
  -- the rebound velocity at the first contact
  obtain ⟨p, rfl⟩ : ∃ p, n1 = p + 1 := ⟨n1 - 1, by omega⟩
  have hv1 : 1 / 2 ≤ (verticalStep^[p + 1] s0).2 := by
    rcases verticalStep_iterate_contact s0 h0 p hc1 with h | h
    · exact absurd h hb1
    · exact h
  have hS1 : verticalStep^[p + 1] s0 = (0, (verticalStep^[p + 1] s0).2) :=
    Prod.ext hc1 rfl
  generalize (verticalStep^[p + 1] s0).2 = v at hv1 hS1
  obtain ⟨m1, hn2, hm1, -, hr1, hfly1, hland1, hst1⟩ :=
    next_contact s0 (p + 1) n2 v hS1 hv1 h12 hc2 hno12
  -- the second contact is a bounce as well
  have hbig : ¬ ((m1 : K) / 2 - v) * (7 / 10) < 1 / 2 := by
    intro hlt
    rw [hst1, if_pos hlt] at hb2
    exact hb2 rfl
  rw [if_neg hbig] at hst1
  have hv2 : 1 / 2 ≤ ((m1 : K) / 2 - v) * (7 / 10) := not_lt.mp hbig
  generalize ((m1 : K) / 2 - v) * (7 / 10) = r at hr1 hst1 hv2
  obtain ⟨m2, hn3, hm2, -, -, hfly2, -, -⟩ :=
    next_contact s0 n2 n3 r hst1 hv2 h23 hc3 hno23
  have hrv : r < v := by linarith
  -- the first flight leaves the ground
  have hfirst : 0 < flightHeight 0 v 1 := by
    unfold flightHeight
    push_cast
    linarith
  have hm1two : 1 < m1 := by
    by_contra hc
    have : m1 = 1 := by omega
    rw [this] at hland1
    exact absurd hland1 (not_le.mpr hfirst)
  have hmem1 : ∀ j, 1 ≤ j → j < m1 → flightHeight 0 v j ≤
      peakBetween (fun n => (verticalStep^[n] s0).1) (p + 1) n2 := by
    intro j hj1 hjm
    apply le_foldr_max
    rw [List.mem_map]
    refine ⟨j - 1, List.mem_range.mpr (by omega), ?_⟩
    have e : p + 1 + 1 + (j - 1) = p + 1 + j := by omega
    show (verticalStep^[p + 1 + 1 + (j - 1)] s0).1 = _
    rw [e]
    exact (hfly1 j hj1 hjm).2
  rcases foldr_max_eq ((List.range (n3 - n2 - 1)).map
      (fun i => (verticalStep^[n2 + 1 + i] s0).1)) with h | h
  · unfold peakBetween at *
    rw [h]
    exact lt_of_lt_of_le hfirst (hmem1 1 le_rfl hm1two)
  · obtain ⟨i, hi, hval⟩ := List.mem_map.mp h
    have hi2 : i < n3 - n2 - 1 := List.mem_range.mp hi
    have hj := hfly2 (1 + i) (by omega) (by omega)
    have e : n2 + 1 + i = n2 + (1 + i) := by omega
    rw [e, hj.2] at hval
    have hlt := flightHeight_lt v r (1 + i) (by omega) hrv
    have hjm1 : 1 + i < m1 := by
      by_contra hc
      have := flightHeight_nonpos_of_le v m1 (1 + i) hm1 (not_lt.mp hc) hland1
      linarith [hj.1]
    have hle := hmem1 (1 + i) (by omega) hjm1
    show ((List.range (n3 - n2 - 1)).map (fun i => (verticalStep^[n2 + 1 + i] s0).1)).foldr max 0 < _
    rw [← hval]
    exact lt_of_lt_of_le hlt hle

theorem verticalStep_eq_zero (s : K × K) (h : verticalStep s = (0, 0)) :
    s.1 + (s.2 - 1 / 2) ≤ 0 ∧ |-(s.2 - 1 / 2) * (7 / 10)| < 1 / 2 := by
  unfold verticalStep at h
  dsimp only at h
  by_cases h1 : s.1 + (s.2 - 1 / 2) ≤ 0
  · refine ⟨h1, ?_⟩
    rw [if_pos h1] at h
    by_contra h2
    rw [if_neg h2] at h
    have e := (Prod.ext_iff.mp h).2
    dsimp only at e
    rw [e] at h2
    norm_num at h2
  · rw [if_neg h1] at h
    have e := (Prod.ext_iff.mp h).1
    dsimp only at e
    exact absurd (le_of_eq e) h1

/-- C6: a ball released at rest from a height `z > 0` and advanced by `Ball.update` ticks
reaches a tick `N` at which it touches the ground with a rebound speed below 0.5 and its
vertical velocity is set to exactly 0 (`N` is the first tick with height and vertical
velocity both 0); up to that tick, for any three successive ground contacts the greatest
height reached between the second and the third is strictly below the greatest height
reached between the first and the second. -/
theorem bounce_peaks_decrease [Archimedean K] (sqrt : K → K) (ps : List (Player K))
    (b : Ball K) (hair : b.inAir = true) (hz : 0 < b.z) (hvz : b.vz = 0) :
    ∃ N, 1 ≤ N ∧
      ((Ball.update sqrt ps)^[N] b).z = 0 ∧ ((Ball.update sqrt ps)^[N] b).vz = 0 ∧
      ((Ball.update sqrt ps)^[N - 1] b).z + (((Ball.update sqrt ps)^[N - 1] b).vz - 1 / 2) ≤ 0 ∧
      |-(((Ball.update sqrt ps)^[N - 1] b).vz - 1 / 2) * (7 / 10)| < 1 / 2 ∧
      (∀ n, n < N →
        ¬ (((Ball.update sqrt ps)^[n] b).z = 0 ∧ ((Ball.update sqrt ps)^[n] b).vz = 0)) ∧
      ∀ n1 n2 n3, n1 < n2 → n2 < n3 → n3 ≤ N →
        ((Ball.update sqrt ps)^[n1] b).z = 0 → ((Ball.update sqrt ps)^[n2] b).z = 0 →
        ((Ball.update sqrt ps)^[n3] b).z = 0 →
        (∀ k, n1 < k → k < n2 → ((Ball.update sqrt ps)^[k] b).z ≠ 0) →
        (∀ k, n2 < k → k < n3 → ((Ball.update sqrt ps)^[k] b).z ≠ 0) →
        peakBetween (fun n => ((Ball.update sqrt ps)^[n] b).z) n2 n3 <
          peakBetween (fun n => ((Ball.update sqrt ps)^[n] b).z) n1 n2 := by
  have hS : ∀ n, (((Ball.update sqrt ps)^[n] b).z, ((Ball.update sqrt ps)^[n] b).vz) =
      verticalStep^[n] (b.z, 0) := by
    intro n
    rw [← hvz]
    exact (ball_iterate_vertical sqrt ps b hair n).1
  have hSz : ∀ n, ((Ball.update sqrt ps)^[n] b).z = (verticalStep^[n] (b.z, 0)).1 :=
    fun n => (Prod.ext_iff.mp (hS n)).1
  have hSv : ∀ n, ((Ball.update sqrt ps)^[n] b).vz = (verticalStep^[n] (b.z, 0)).2 :=
    fun n => (Prod.ext_iff.mp (hS n)).2
  have hex := drop_stops b.z hz
  classical
  have hN := Nat.find_spec hex
  have hmin : ∀ n, n < Nat.find hex → verticalStep^[n] (b.z, 0) ≠ (0, 0) :=
    fun n hn => Nat.find_min hex hn
  have hN1 : 1 ≤ Nat.find hex := by
    by_contra hc
    have h0 : Nat.find hex = 0 := by omega
    rw [h0] at hN
    have e := (Prod.ext_iff.mp hN).1
    simp only [Function.iterate_zero, id_eq] at e
    exact absurd e (ne_of_gt hz)
  have hprev : verticalStep (verticalStep^[Nat.find hex - 1] (b.z, 0)) = (0, 0) := by
    rw [← Function.iterate_succ_apply' verticalStep, Nat.succ_eq_add_one,
      Nat.sub_add_cancel hN1]
    exact hN
  obtain ⟨hland, hsmall⟩ := verticalStep_eq_zero _ hprev
  have hfun : (fun n => ((Ball.update sqrt ps)^[n] b).z) =
      fun n => (verticalStep^[n] (b.z, 0)).1 := funext hSz
  refine ⟨Nat.find hex, hN1, ?_, ?_, ?_, ?_, ?_, ?_⟩
  · rw [hSz, hN]
  · rw [hSv, hN]
  · rw [hSz, hSv]
    exact hland
  · rw [hSv]
    exact hsmall
  · intro n hn hc
    apply hmin n hn
    exact Prod.ext (by rw [← hSz]; exact hc.1) (by rw [← hSv]; exact hc.2)
  · intro n1 n2 n3 h12 h23 h3N hc1 hc2 hc3 hno12 hno23
    rw [hfun]
    rw [hSz] at hc1 hc2 hc3
    have hn1 : 1 ≤ n1 := by
      by_contra hc
      have h0 : n1 = 0 := by omega
      rw [h0] at hc1
      simp only [Function.iterate_zero, id_eq] at hc1
      exact absurd hc1 (ne_of_gt hz)
    have hb : ∀ n, n < Nat.find hex → (verticalStep^[n] (b.z, 0)).1 = 0 →
        (verticalStep^[n] (b.z, 0)).2 ≠ 0 := by
      intro n hn h1 h2
      exact hmin n hn (Prod.ext h1 h2)
    exact peaks_decrease (b.z, 0) (le_of_lt hz) n1 n2 n3 hn1 h12 h23 hc1 hc2 hc3
      (hb n1 (by omega) hc1) (hb n2 (by omega) hc2)
      (fun k h1 h2 => by rw [← hSz]; exact hno12 k h1 h2)
      (fun k h1 h2 => by rw [← hSz]; exact hno23 k h1 h2)

theorem bounce_peaks_decrease_witness :
    (droppedBall : Ball ℝ).inAir = true ∧ (0 : ℝ) < (droppedBall : Ball ℝ).z ∧
      (droppedBall : Ball ℝ).vz = 0 ∧
      ∃ N, 1 ≤ N ∧
        ((Ball.update Real.sqrt [])^[N] (droppedBall : Ball ℝ)).z = 0 ∧
        ((Ball.update Real.sqrt [])^[N] (droppedBall : Ball ℝ)).vz = 0 := by
  have hz : (0 : ℝ) < (droppedBall : Ball ℝ).z := by
    norm_num [droppedBall, Ball.create]
  obtain ⟨N, h1, h2, h3, -⟩ :=
    bounce_peaks_decrease Real.sqrt [] (droppedBall : Ball ℝ) rfl hz rfl
  exact ⟨rfl, hz, rfl, N, h1, h2, h3⟩

/-- The ball dropped from height 10 touches the ground at the ticks 6, 14, 19 and 22, where
it stops; the greatest heights between these contacts are 17/5, 29/25 and 319/1000. -/
theorem droppedBall_trace :
    verticalStep^[6] ((10 : ℚ), 0) = (0, 21 / 10) ∧
      verticalStep^[14] ((10 : ℚ), 0) = (0, 133 / 100) ∧
      verticalStep^[19] ((10 : ℚ), 0) = (0, 819 / 1000) ∧
      verticalStep^[22] ((10 : ℚ), 0) = (0, 0) ∧
      peakBetween (fun n => (verticalStep^[n] ((10 : ℚ), 0)).1) 6 14 = 17 / 5 ∧
      peakBetween (fun n => (verticalStep^[n] ((10 : ℚ), 0)).1) 14 19 = 29 / 25 ∧
      peakBetween (fun n => (verticalStep^[n] ((10 : ℚ), 0)).1) 19 22 = 319 / 1000 := by
  have step : ∀ z v : ℚ, verticalStep (z, v) =
      if z + (v - 1 / 2) ≤ 0 then
        (0, if |-(v - 1 / 2) * (7 / 10)| < 1 / 2 then 0 else -(v - 1 / 2) * (7 / 10))
      else (z + (v - 1 / 2), v - 1 / 2) := fun _ _ => rfl
  have h1 : verticalStep^[1] ((10 : ℚ), 0) = (19 / 2, -1 / 2) := by
    rw [Function.iterate_succ_apply', Function.iterate_zero, id_eq, step]; norm_num
  have h2 : verticalStep^[2] ((10 : ℚ), 0) = (17 / 2, -1) := by
    rw [Function.iterate_succ_apply', h1, step]; norm_num
  have h3 : verticalStep^[3] ((10 : ℚ), 0) = (7, -3 / 2) := by
    rw [Function.iterate_succ_apply', h2, step]; norm_num
  have h4 : verticalStep^[4] ((10 : ℚ), 0) = (5, -2) := by
    rw [Function.iterate_succ_apply', h3, step]; norm_num
  have h5 : verticalStep^[5] ((10 : ℚ), 0) = (5 / 2, -5 / 2) := by
    rw [Function.iterate_succ_apply', h4, step]; norm_num
  have h6 : verticalStep^[6] ((10 : ℚ), 0) = (0, 21 / 10) := by
    rw [Function.iterate_succ_apply', h5, step]; norm_num [abs_lt]
  have h7 : verticalStep^[7] ((10 : ℚ), 0) = (8 / 5, 8 / 5) := by
    rw [Function.iterate_succ_apply', h6, step]; norm_num
  have h8 : verticalStep^[8] ((10 : ℚ), 0) = (27 / 10, 11 / 10) := by
    rw [Function.iterate_succ_apply', h7, step]; norm_num
  have h9 : verticalStep^[9] ((10 : ℚ), 0) = (33 / 10, 3 / 5) := by
    rw [Function.iterate_succ_apply', h8, step]; norm_num
  have h10 : verticalStep^[10] ((10 : ℚ), 0) = (17 / 5, 1 / 10) := by
    rw [Function.iterate_succ_apply', h9, step]; norm_num
  have h11 : verticalStep^[11] ((10 : ℚ), 0) = (3, -2 / 5) := by
    rw [Function.iterate_succ_apply', h10, step]; norm_num
  have h12 : verticalStep^[12] ((10 : ℚ), 0) = (21 / 10, -9 / 10) := by
    rw [Function.iterate_succ_apply', h11, step]; norm_num
  have h13 : verticalStep^[13] ((10 : ℚ), 0) = (7 / 10, -7 / 5) := by
    rw [Function.iterate_succ_apply', h12, step]; norm_num
  have h14 : verticalStep^[14] ((10 : ℚ), 0) = (0, 133 / 100) := by
    rw [Function.iterate_succ_apply', h13, step]; norm_num [abs_lt]
  have h15 : verticalStep^[15] ((10 : ℚ), 0) = (83 / 100, 83 / 100) := by
    rw [Function.iterate_succ_apply', h14, step]; norm_num
  have h16 : verticalStep^[16] ((10 : ℚ), 0) = (29 / 25, 33 / 100) := by
    rw [Function.iterate_succ_apply', h15, step]; norm_num
  have h17 : verticalStep^[17] ((10 : ℚ), 0) = (99 / 100, -17 / 100) := by
    rw [Function.iterate_succ_apply', h16, step]; norm_num
  have h18 : verticalStep^[18] ((10 : ℚ), 0) = (8 / 25, -67 / 100) := by
    rw [Function.iterate_succ_apply', h17, step]; norm_num
  have h19 : verticalStep^[19] ((10 : ℚ), 0) = (0, 819 / 1000) := by
    rw [Function.iterate_succ_apply', h18, step]; norm_num [abs_lt]
  have h20 : verticalStep^[20] ((10 : ℚ), 0) = (319 / 1000, 319 / 1000) := by
    rw [Function.iterate_succ_apply', h19, step]; norm_num
  have h21 : verticalStep^[21] ((10 : ℚ), 0) = (69 / 500, -181 / 1000) := by
    rw [Function.iterate_succ_apply', h20, step]; norm_num
  have h22 : verticalStep^[22] ((10 : ℚ), 0) = (0, 0) := by
    rw [Function.iterate_succ_apply', h21, step]; norm_num [abs_lt]
  refine ⟨h6, h14, h19, h22, ?_, ?_, ?_⟩
  · simp only [peakBetween, List.range, List.range.loop, List.map, List.foldr, h7, h8, h9, h10,
      h11, h12, h13]
    norm_num
  · simp only [peakBetween, List.range, List.range.loop, List.map, List.foldr, h15, h16, h17,
      h18]
    norm_num
  · simp only [peakBetween, List.range, List.range.loop, List.map, List.foldr, h20, h21]
    norm_num

/-! ### Score detection -/

theorem IsSqrt.abs_le_left {sqrt : K → K} (hs : IsSqrt sqrt) (a b : K) :
    |a| ≤ sqrt (a * a + b * b) := by
  have h0 := hs.nonneg (a * a + b * b)
  have h1 := hs.mul_self (a * a + b * b) (add_nonneg (mul_self_nonneg _) (mul_self_nonneg _))
  rw [← abs_of_nonneg h0, abs_le_iff_mul_self_le, h1]
  nlinarith [mul_self_nonneg b]

theorem IsSqrt.abs_le_right {sqrt : K → K} (hs : IsSqrt sqrt) (a b : K) :
    |b| ≤ sqrt (a * a + b * b) := by
  have h0 := hs.nonneg (a * a + b * b)
  have h1 := hs.mul_self (a * a + b * b) (add_nonneg (mul_self_nonneg _) (mul_self_nonneg _))
  rw [← abs_of_nonneg h0, abs_le_iff_mul_self_le, h1]
  nlinarith [mul_self_nonneg a]

theorem handleScore_fields (team : Side) (points : ℤ) (s : GameState K) :
    (handleScore team points s).score.home =
        (if team = .home then s.score.home + points else s.score.home) ∧
      (handleScore team points s).score.away =
        (if team = .home then s.score.away else s.score.away + points) ∧
      (handleScore team points s).possession = team.other ∧
      (handleScore team points s).shotClock = 24 := by
  cases team <;>
    simp [handleScore, GameState.setTimeout, GameState.addEvent, Side.other]

theorem checkForScore_left (sqrt : K → K) (hs : IsSqrt sqrt) (s : GameState K)
    (hair : s.ball.inAir = true) (hvy : 0 < s.ball.vy)
    (hd : sqrt ((s.ball.x - 90) * (s.ball.x - 90) +
      (s.ball.y - s.canvasHeight / 2) * (s.ball.y - s.canvasHeight / 2)) < 15) :
    checkForScore sqrt s = handleScore .away 2 s := by
  have hy : s.ball.y > s.canvasHeight / 2 - 20 := by
    have h1 := hs.abs_le_right (s.ball.x - 90) (s.ball.y - s.canvasHeight / 2)
    have h2 := abs_lt.mp (lt_of_le_of_lt h1 hd)
    linarith [h2.1]
  unfold checkForScore
  simp only [hair, Bool.not_true, Bool.false_eq_true, if_false]
  have hvy2 : s.ball.vy > 0 := hvy
  simp only [hvy2, hy, and_self, if_true, hd]

theorem checkForScore_right (sqrt : K → K) (hs : IsSqrt sqrt) (s : GameState K)
    (hW : 210 ≤ s.canvasWidth) (hair : s.ball.inAir = true) (hvy : 0 < s.ball.vy)
    (hd : sqrt ((s.ball.x - (s.canvasWidth - 90)) * (s.ball.x - (s.canvasWidth - 90)) +
      (s.ball.y - s.canvasHeight / 2) * (s.ball.y - s.canvasHeight / 2)) < 15) :
    checkForScore sqrt s = handleScore .home 2 s := by
  have hy : s.ball.y > s.canvasHeight / 2 - 20 := by
    have h1 := hs.abs_le_right (s.ball.x - (s.canvasWidth - 90)) (s.ball.y - s.canvasHeight / 2)
    have h2 := abs_lt.mp (lt_of_le_of_lt h1 hd)
    linarith [h2.1]
  have hx : s.ball.x > s.canvasWidth - 105 := by
    have h1 := hs.abs_le_left (s.ball.x - (s.canvasWidth - 90)) (s.ball.y - s.canvasHeight / 2)
    have h2 := abs_lt.mp (lt_of_le_of_lt h1 hd)
    linarith [h2.1]
  have hleft : ¬ sqrt ((s.ball.x - 90) * (s.ball.x - 90) +
      (s.ball.y - s.canvasHeight / 2) * (s.ball.y - s.canvasHeight / 2)) < 15 := by
    intro hl
    have h1 := hs.abs_le_left (s.ball.x - 90) (s.ball.y - s.canvasHeight / 2)
    have h2 := abs_lt.mp (lt_of_le_of_lt h1 hl)
    linarith [h2.2]
  unfold checkForScore
  simp only [hair, Bool.not_true, Bool.false_eq_true, if_false]
  have hvy2 : s.ball.vy > 0 := hvy
  simp only [hvy2, hy, and_self, if_true, hd, hleft, if_false]

/-- C7: when `checkForScore` runs with the ball airborne, `vy > 0` and at distance below
15 from the left hoop `(90, H/2)`, the away side scores: `score.away` grows by the two
points awarded, `score.home` is unchanged, possession becomes `home` and the shot clock
24; at the right hoop `(W - 90, H/2)` of a court of width at least 210 (1000 in the
game) the home side scores and possession becomes `away`. -/
theorem checkForScore_registers_basket (sqrt : K → K) (hs : IsSqrt sqrt) (s : GameState K)
    (hW : 210 ≤ s.canvasWidth) (hair : s.ball.inAir = true) (hvy : 0 < s.ball.vy) :
    (sqrt ((s.ball.x - 90) * (s.ball.x - 90) +
        (s.ball.y - s.canvasHeight / 2) * (s.ball.y - s.canvasHeight / 2)) < 15 →
      (checkForScore sqrt s).score.away = s.score.away + 2 ∧
        (checkForScore sqrt s).score.home = s.score.home ∧
        (checkForScore sqrt s).possession = .home ∧ (checkForScore sqrt s).shotClock = 24) ∧
    (sqrt ((s.ball.x - (s.canvasWidth - 90)) * (s.ball.x - (s.canvasWidth - 90)) +
        (s.ball.y - s.canvasHeight / 2) * (s.ball.y - s.canvasHeight / 2)) < 15 →
      (checkForScore sqrt s).score.home = s.score.home + 2 ∧
        (checkForScore sqrt s).score.away = s.score.away ∧
        (checkForScore sqrt s).possession = .away ∧ (checkForScore sqrt s).shotClock = 24) := by
  constructor
  · intro hd
    rw [checkForScore_left sqrt hs s hair hvy hd]
    obtain ⟨h1, h2, h3, h4⟩ := handleScore_fields .away 2 s
    exact ⟨by simpa using h2, by simpa using h1, by simpa [Side.other] using h3, h4⟩
  · intro hd
    rw [checkForScore_right sqrt hs s hW hair hvy hd]
    obtain ⟨h1, h2, h3, h4⟩ := handleScore_fields .home 2 s
    exact ⟨by simpa using h1, by simpa using h2, by simpa [Side.other] using h3, h4⟩

theorem checkForScore_registers_basket_witness :
    IsSqrt Real.sqrt ∧ (210 : ℝ) ≤ (longShotAtHoop : GameState ℝ).canvasWidth ∧
      (longShotAtHoop : GameState ℝ).ball.inAir = true ∧
      (0 : ℝ) < (longShotAtHoop : GameState ℝ).ball.vy ∧
      (checkForScore Real.sqrt (longShotAtHoop : GameState ℝ)).score.away =
        (longShotAtHoop : GameState ℝ).score.away + 2 ∧
      (checkForScore Real.sqrt (longShotAtHoop : GameState ℝ)).score.home =
        (longShotAtHoop : GameState ℝ).score.home ∧
      (checkForScore Real.sqrt (longShotAtHoop : GameState ℝ)).possession = .home ∧
      (checkForScore Real.sqrt (longShotAtHoop : GameState ℝ)).shotClock = 24 := by
  have hW : (210 : ℝ) ≤ (longShotAtHoop : GameState ℝ).canvasWidth := by
    norm_num [longShotAtHoop, GameState.init, GameState.start]
  have hvy : (0 : ℝ) < (longShotAtHoop : GameState ℝ).ball.vy := by
    norm_num [longShotAtHoop, Ball.create]
  have hd : Real.sqrt (((longShotAtHoop : GameState ℝ).ball.x - 90) *
      ((longShotAtHoop : GameState ℝ).ball.x - 90) +
      ((longShotAtHoop : GameState ℝ).ball.y - (longShotAtHoop : GameState ℝ).canvasHeight / 2) *
      ((longShotAtHoop : GameState ℝ).ball.y -
        (longShotAtHoop : GameState ℝ).canvasHeight / 2)) < 15 := by
    norm_num [longShotAtHoop, GameState.init, GameState.start, Ball.create]
  exact ⟨isSqrt_real, hW, rfl, hvy,
    (checkForScore_registers_basket Real.sqrt isSqrt_real longShotAtHoop hW rfl hvy).1 hd⟩

theorem checkForScore_cases (sqrt : K → K) (s : GameState K) :
    checkForScore sqrt s = s ∨ checkForScore sqrt s = handleScore .away 2 s ∨
      checkForScore sqrt s = handleScore .home 2 s := by
  unfold checkForScore
  dsimp only
  split_ifs <;> simp

/-- C8 (the code departs from the claim): a basket detected by `checkForScore` is always
worth 2 points. For the ball released 710 units from the left hoop and coming down in it
the away score grows by 2, and no state makes `checkForScore` add 3 to either score. -/
theorem checkForScore_awards_two_for_long_shot :
    ((checkForScore Real.sqrt (longShotAtHoop : GameState ℝ)).score.away =
        (longShotAtHoop : GameState ℝ).score.away + 2 ∧
      (checkForScore Real.sqrt (longShotAtHoop : GameState ℝ)).score.home =
        (longShotAtHoop : GameState ℝ).score.home) ∧
    ∀ (sqrt : K → K) (s : GameState K),
      (checkForScore sqrt s).score.away ≠ s.score.away + 3 ∧
        (checkForScore sqrt s).score.home ≠ s.score.home + 3 := by
  constructor
  · have hvy : (0 : ℝ) < (longShotAtHoop : GameState ℝ).ball.vy := by
      norm_num [longShotAtHoop, Ball.create]
    have hd : Real.sqrt (((longShotAtHoop : GameState ℝ).ball.x - 90) *
        ((longShotAtHoop : GameState ℝ).ball.x - 90) +
        ((longShotAtHoop : GameState ℝ).ball.y -
          (longShotAtHoop : GameState ℝ).canvasHeight / 2) *
        ((longShotAtHoop : GameState ℝ).ball.y -
          (longShotAtHoop : GameState ℝ).canvasHeight / 2)) < 15 := by
      norm_num [longShotAtHoop, GameState.init, GameState.start, Ball.create]
    rw [checkForScore_left Real.sqrt isSqrt_real longShotAtHoop rfl hvy hd]
    obtain ⟨h1, h2, -, -⟩ := handleScore_fields .away 2 (longShotAtHoop : GameState ℝ)
    exact ⟨by simpa using h2, by simpa using h1⟩
  · intro sqrt s
    rcases checkForScore_cases sqrt s with e | e | e
    · rw [e]
      constructor <;> omega
    · rw [e]
      obtain ⟨h1, h2, -, -⟩ := handleScore_fields .away 2 s
      simp only [reduceCtorEq, if_false] at h1 h2
      constructor <;> omega
    · rw [e]
      obtain ⟨h1, h2, -, -⟩ := handleScore_fields .home 2 s
      simp only [if_true] at h1 h2
      constructor <;> omega

/-! ### Shot-clock violation -/

theorem handleQuarterEnd_fields (t : GameState K) :
    (handleQuarterEnd t).possession = t.possession ∧
      (handleQuarterEnd t).shotClock = t.shotClock ∧
      (handleQuarterEnd t).paused = t.paused ∧
      violationCount (handleQuarterEnd t).events = violationCount t.events := by
  unfold handleQuarterEnd handleGameEnd GameState.addEvent GameState.setTimeout
  dsimp only
  split
  · exact ⟨rfl, rfl, rfl, rfl⟩
  · refine ⟨rfl, rfl, rfl, ?_⟩
    simp [violationCount]

theorem handleQuarterEnd_of_lt (t : GameState K) (h : t.quarter < 4) :
    (handleQuarterEnd t).gameActive = t.gameActive ∧
      (handleQuarterEnd t).quarter = t.quarter + 1 ∧
      (handleQuarterEnd t).gameClock = 720 := by
  have h2 : ¬ (t.quarter + 1 > 4) := by omega
  unfold handleQuarterEnd GameState.addEvent
  dsimp only
  rw [if_neg h2]
  exact ⟨rfl, rfl, by norm_num⟩

theorem gameTimerTick_home_eq (s : GameState K) (hact : s.gameActive = true)
    (hp : s.paused = false) (hpos : s.possession = .home) (h1 : ¬ (s.shotClock - 1 ≤ 0)) :
    gameTimerTick s =
      if s.gameClock - 1 ≤ 0 then
        handleQuarterEnd { s with gameClock := s.gameClock - 1, shotClock := s.shotClock - 1 }
      else { s with gameClock := s.gameClock - 1, shotClock := s.shotClock - 1 } := by
  have hc : (!s.gameActive || s.paused) = false := by simp [hact, hp]
  unfold gameTimerTick
  rw [hc]
  simp only [Bool.false_eq_true, if_false, hpos, if_true, h1]

theorem gameTimerTick_violation_eq (s : GameState K) (hact : s.gameActive = true)
    (hp : s.paused = false) (hpos : s.possession = .home) (h1 : s.shotClock - 1 ≤ 0) :
    gameTimerTick s =
      if s.gameClock - 1 ≤ 0 then
        handleQuarterEnd { s with
          gameClock := s.gameClock - 1, shotClock := 24, possession := .away,
          events := s.events ++ [.shotClockViolation] }
      else { s with
          gameClock := s.gameClock - 1, shotClock := 24, possession := .away,
          events := s.events ++ [.shotClockViolation] } := by
  have hc : (!s.gameActive || s.paused) = false := by simp [hact, hp]
  unfold gameTimerTick
  rw [hc]
  simp only [Bool.false_eq_true, if_false, hpos, if_true, h1, GameState.addEvent]

theorem gameTimerTick_away_eq (s : GameState K) (hpos : s.possession = .away) :
    gameTimerTick s = s ∨
      gameTimerTick s =
        (if s.gameClock - 1 ≤ 0 then handleQuarterEnd { s with gameClock := s.gameClock - 1 }
          else { s with gameClock := s.gameClock - 1 }) := by
  unfold gameTimerTick
  split
  · exact Or.inl rfl
  · right
    simp only [hpos, reduceCtorEq, if_false]

theorem gameTimerTick_home_step (s : GameState K) (n : ℤ) (hact : s.gameActive = true)
    (hp : s.paused = false) (hpos : s.possession = .home) (hsc : s.shotClock = n)
    (hn : 2 ≤ n) (hn24 : n ≤ 24) (hG : s.quarter < 4 ∨ n ≤ s.gameClock) :
    (gameTimerTick s).gameActive = true ∧ (gameTimerTick s).paused = false ∧
      (gameTimerTick s).possession = .home ∧ (gameTimerTick s).shotClock = n - 1 ∧
      violationCount (gameTimerTick s).events = violationCount s.events ∧
      ((gameTimerTick s).quarter < 4 ∨ n - 1 ≤ (gameTimerTick s).gameClock) := by
  rw [gameTimerTick_home_eq s hact hp hpos (by omega)]
  by_cases hgc : s.gameClock - 1 ≤ 0
  · rw [if_pos hgc]
    have hq : s.quarter < 4 := by
      rcases hG with h | h
      · exact h
      · omega
    obtain ⟨a1, a2, a3, a4⟩ :=
      handleQuarterEnd_fields { s with gameClock := s.gameClock - 1, shotClock := s.shotClock - 1 }
    obtain ⟨b1, b2, b3⟩ :=
      handleQuarterEnd_of_lt { s with gameClock := s.gameClock - 1, shotClock := s.shotClock - 1 }
        hq
    refine ⟨?_, ?_, ?_, ?_, ?_, ?_⟩
    · rw [b1]; exact hact
    · rw [a3]; exact hp
    · rw [a1]; exact hpos
    · rw [a2]; show s.shotClock - 1 = n - 1; omega
    · rw [a4]
    · right
      rw [b3]
      omega
  · rw [if_neg hgc]
    refine ⟨hact, hp, hpos, ?_, rfl, ?_⟩
    · show s.shotClock - 1 = n - 1
      omega
    · rcases hG with h | h
      · exact Or.inl h
      · right
        show n - 1 ≤ s.gameClock - 1
        omega

theorem gameTimerTick_home_countdown (k : ℕ) (s : GameState K) (n : ℤ)
    (hact : s.gameActive = true) (hp : s.paused = false) (hpos : s.possession = .home)
    (hsc : s.shotClock = n) (hk : (k : ℤ) < n) (hn24 : n ≤ 24)
    (hG : s.quarter < 4 ∨ n ≤ s.gameClock) :
    (gameTimerTick^[k] s).gameActive = true ∧ (gameTimerTick^[k] s).paused = false ∧
      (gameTimerTick^[k] s).possession = .home ∧ (gameTimerTick^[k] s).shotClock = n - k ∧
      violationCount (gameTimerTick^[k] s).events = violationCount s.events ∧
      ((gameTimerTick^[k] s).quarter < 4 ∨ n - k ≤ (gameTimerTick^[k] s).gameClock) := by
  induction k with
  | zero => simpa using ⟨hact, hp, hpos, hsc, hG⟩
  | succ k ih =>
    obtain ⟨a1, a2, a3, a4, a5, a6⟩ := ih (by push_cast at hk; omega)
    rw [Function.iterate_succ_apply']
    obtain ⟨b1, b2, b3, b4, b5, b6⟩ :=
      gameTimerTick_home_step (gameTimerTick^[k] s) (n - k) a1 a2 a3 a4
        (by push_cast at hk; omega) (by omega) a6
    refine ⟨b1, b2, b3, ?_, ?_, ?_⟩
    · rw [b4]; push_cast; ring
    · rw [b5, a5]
    · rcases b6 with h | h
      · exact Or.inl h
      · right
        push_cast
        omega

theorem gameTimerTick_violation (s : GameState K) (hact : s.gameActive = true)
    (hp : s.paused = false) (hpos : s.possession = .home) (hsc : s.shotClock = 1) :
    (gameTimerTick s).possession = .away ∧ (gameTimerTick s).shotClock = 24 ∧
      violationCount (gameTimerTick s).events = violationCount s.events + 1 := by
  rw [gameTimerTick_violation_eq s hact hp hpos (by omega)]
  have hv : violationCount (s.events ++ [Event.shotClockViolation]) =
      violationCount s.events + 1 := by
    simp [violationCount]
  split
  · obtain ⟨a1, a2, -, a4⟩ := handleQuarterEnd_fields { s with
      gameClock := s.gameClock - 1, shotClock := 24, possession := .away,
      events := s.events ++ [.shotClockViolation] }
    exact ⟨a1, a2, by rw [a4]; exact hv⟩
  · exact ⟨rfl, rfl, hv⟩

theorem gameTimerTick_away (k : ℕ) (s : GameState K) (hpos : s.possession = .away) :
    (gameTimerTick^[k] s).possession = .away ∧
      (gameTimerTick^[k] s).shotClock = s.shotClock ∧
      violationCount (gameTimerTick^[k] s).events = violationCount s.events := by
  induction k with
  | zero => exact ⟨hpos, rfl, rfl⟩
  | succ k ih =>
    obtain ⟨a1, a2, a3⟩ := ih
    rw [Function.iterate_succ_apply']
    generalize gameTimerTick^[k] s = t at a1 a2 a3
    rw [← a2, ← a3]
    rcases gameTimerTick_away_eq t a1 with e | e
    · rw [e]
      exact ⟨a1, rfl, rfl⟩
    · rw [e]
      split
      · obtain ⟨b1, b2, -, b4⟩ := handleQuarterEnd_fields { t with gameClock := t.gameClock - 1 }
        exact ⟨by rw [b1]; exact a1, b2, b4⟩
      · exact ⟨a1, rfl, rfl⟩

/-- C9 (amended): in an active, unpaused match with the shot clock at 24 that does not end
within the next 23 ticks (the quarter is below 4 or at least 24 seconds remain), 24 ticks
of the game timer under home possession flip the possession to away, reset the shot clock
to 24 and log exactly one shot-clock violation; under away possession the timer never
touches the shot clock, the possession or the violation log. -/
theorem shotClock_violation_after_24_ticks (s : GameState K) (hact : s.gameActive = true)
    (hp : s.paused = false) (hsc : s.shotClock = 24)
    (hG : s.quarter < 4 ∨ 24 ≤ s.gameClock) :
    (s.possession = .home →
      (gameTimerTick^[24] s).possession = .away ∧ (gameTimerTick^[24] s).shotClock = 24 ∧
        violationCount (gameTimerTick^[24] s).events = violationCount s.events + 1) ∧
    (s.possession = .away →
      ∀ k, (gameTimerTick^[k] s).possession = .away ∧ (gameTimerTick^[k] s).shotClock = 24 ∧
        violationCount (gameTimerTick^[k] s).events = violationCount s.events) := by
  constructor
  · intro hpos
    obtain ⟨a1, a2, a3, a4, a5, -⟩ :=
      gameTimerTick_home_countdown 23 s 24 hact hp hpos hsc (by norm_num) (by norm_num) hG
    have e : gameTimerTick^[24] s = gameTimerTick (gameTimerTick^[23] s) :=
      Function.iterate_succ_apply' gameTimerTick 23 s
    rw [e]
    obtain ⟨b1, b2, b3⟩ := gameTimerTick_violation (gameTimerTick^[23] s) a1 a2 a3
      (by rw [a4]; norm_num)
    exact ⟨b1, b2, by rw [b3, a5]⟩
  · intro hpos k
    obtain ⟨a1, a2, a3⟩ := gameTimerTick_away k s hpos
    exact ⟨a1, by rw [a2, hsc], a3⟩

theorem shotClock_violation_after_24_ticks_witness :
    ((GameState.init noVariation).start : GameState ℚ).gameActive = true ∧
      ((GameState.init noVariation).start : GameState ℚ).paused = false ∧
      ((GameState.init noVariation).start : GameState ℚ).shotClock = 24 ∧
      (gameTimerTick^[24] ((GameState.init noVariation).start : GameState ℚ)).possession
        = .away ∧
      (gameTimerTick^[24] ((GameState.init noVariation).start : GameState ℚ)).shotClock = 24 ∧
      violationCount (gameTimerTick^[24]
        ((GameState.init noVariation).start : GameState ℚ)).events = 0 + 1 :=
  ⟨rfl, rfl, rfl,
    (shotClock_violation_after_24_ticks ((GameState.init noVariation).start : GameState ℚ)
      rfl rfl rfl (by decide)).1 rfl⟩

/-- C9, as stated, fails for the away side: from an active, unpaused match with away
possession and the shot clock at 24, after 24 timer ticks the possession is still away and
no shot-clock violation is logged. -/
theorem away_possession_has_no_shot_clock :
    ({ (GameState.init noVariation).start with possession := .away } :
        GameState ℚ).gameActive = true ∧
      ({ (GameState.init noVariation).start with possession := .away } :
        GameState ℚ).shotClock = 24 ∧
      (gameTimerTick^[24] ({ (GameState.init noVariation).start with possession := .away } :
        GameState ℚ)).possession = .away ∧
      violationCount (gameTimerTick^[24]
        ({ (GameState.init noVariation).start with possession := .away } :
          GameState ℚ)).events = 0 := by
  decide

/-! ### Action selection of an average ball handler -/

theorem viableActions_sixty (p : Player K) (hsh : p.attributes.shooting = 60)
    (hd : p.attributes.dribbling = 60) (hsp : p.attributes.speed = 60) :
    (candidateActions "normal").filter (isViable (evaluatePlayerCapabilities p)) =
      ["pass", "pickAndRoll"] := by
  have e1 : isViable (evaluatePlayerCapabilities p) "drive" = false := by
    simp [isViable, evaluatePlayerCapabilities, orDefault, hd, hsp]
    norm_num
  have e2 : isViable (evaluatePlayerCapabilities p) "shoot" = false := by
    simp [isViable, evaluatePlayerCapabilities, orDefault, hsh]
    norm_num
  have e3 : isViable (evaluatePlayerCapabilities p) "pass" = true := by
    simp [isViable]
  have e4 : isViable (evaluatePlayerCapabilities p) "postUp" = false := by
    simp [isViable, evaluatePlayerCapabilities]
  have e5 : isViable (evaluatePlayerCapabilities p) "pickAndRoll" = true := by
    simp [isViable]
  have ec : candidateActions "normal" = ["drive", "shoot", "pass", "postUp", "pickAndRoll"] := by
    simp [candidateActions]
  rw [ec]
  simp [List.filter, e1, e2, e3, e4, e5]

theorem settingsFor_pro : (settingsFor "pro" : Settings K) = proSettings := by
  unfold settingsFor difficultySettings
  rw [if_neg (by decide), if_pos rfl]
  rfl

theorem chooseAction_sixty [FloorRing K] (settings : Settings K) (p : Player K) (r1 r2 : K)
    (hsh : p.attributes.shooting = 60) (hd : p.attributes.dribbling = 60)
    (hsp : p.attributes.speed = 60) (h1 : r2 < 1) :
    chooseAction settings "normal" p r1 r2 =
      if r1 < 1 / 10 * settings.mistakeRate then "turnover"
      else if r2 < 1 / 2 then "pass" else "pickAndRoll" := by
  unfold chooseAction
  dsimp only
  rw [viableActions_sixty p hsh hd hsp]
  have hlen : ¬ (["pass", "pickAndRoll"].length = 0) := by simp
  have hmem : ¬ ("shoot" ∈ ["pass", "pickAndRoll"] ∧ r1 < settings.aggression) := by
    simp
  rw [if_neg hlen]
  simp only [hmem, if_false]
  split
  · rfl
  · by_cases hr : r2 < 1 / 2
    · have hf : ⌊r2 * (([("pass" : String), "pickAndRoll"].length : ℕ) : K)⌋₊ = 0 := by
        rw [Nat.floor_eq_zero]
        have : (([("pass" : String), "pickAndRoll"].length : ℕ) : K) = 2 := by norm_num
        rw [this]
        linarith
      rw [hf, if_pos hr]
      rfl
    · have hf : ⌊r2 * (([("pass" : String), "pickAndRoll"].length : ℕ) : K)⌋₊ = 1 := by
        have h2 : (([("pass" : String), "pickAndRoll"].length : ℕ) : K) = 2 := by norm_num
        rw [h2, Nat.floor_eq_iff (by linarith)]
        push_neg at hr
        constructor
        · push_cast; linarith
        · push_cast; linarith
      rw [hf, if_neg hr]
      rfl

/-- C10 (amended): for a ball handler with shooting, dribbling and speed all 60 (any role)
in a `normal` situation, for every settings record (every difficulty preset) and all
draws, `chooseAction` returns `turnover` when the first draw is below
`0.1 * mistakeRate`, and otherwise `pass` or `pickAndRoll` according to the second draw;
it never returns `shoot`, `drive` or `postUp`. -/
theorem chooseAction_average_handler [FloorRing K] (settings : Settings K) (p : Player K)
    (r1 r2 : K) (hsh : p.attributes.shooting = 60) (hd : p.attributes.dribbling = 60)
    (hsp : p.attributes.speed = 60) (h1 : r2 < 1) :
    (chooseAction settings "normal" p r1 r2 =
        if r1 < 1 / 10 * settings.mistakeRate then "turnover"
        else if r2 < 1 / 2 then "pass" else "pickAndRoll") ∧
      (chooseAction settings "normal" p r1 r2 = "turnover" ∨
        chooseAction settings "normal" p r1 r2 = "pass" ∨
        chooseAction settings "normal" p r1 r2 = "pickAndRoll") ∧
      chooseAction settings "normal" p r1 r2 ≠ "shoot" ∧
      chooseAction settings "normal" p r1 r2 ≠ "drive" ∧
      chooseAction settings "normal" p r1 r2 ≠ "postUp" := by
  have e := chooseAction_sixty settings p r1 r2 hsh hd hsp h1
  refine ⟨e, ?_, ?_, ?_, ?_⟩ <;> rw [e] <;> split_ifs <;> simp

theorem chooseAction_average_handler_witness :
    (averageHandler : Player ℚ).attributes.shooting = 60 ∧
      (averageHandler : Player ℚ).attributes.dribbling = 60 ∧
      (averageHandler : Player ℚ).attributes.speed = 60 ∧ (1 / 4 : ℚ) < 1 ∧
      (chooseAction (settingsFor "legendary") "normal" (averageHandler : Player ℚ) (1 / 2) (1 / 4) =
        "turnover" ∨
      chooseAction (settingsFor "legendary") "normal" (averageHandler : Player ℚ) (1 / 2) (1 / 4) =
        "pass" ∨
      chooseAction (settingsFor "legendary") "normal" (averageHandler : Player ℚ) (1 / 2) (1 / 4) =
        "pickAndRoll") :=
  ⟨rfl, rfl, rfl, by norm_num,
    (chooseAction_average_handler (settingsFor "legendary") (averageHandler : Player ℚ) (1 / 2)
      (1 / 4) rfl rfl rfl (by norm_num)).2.1⟩

/-- C10, as stated, fails: with the `pro` settings the handler with all three skills at 60
gets `pickAndRoll` for the draws `(1/2, 3/4)` and `turnover` for the draws `(0, 0)`. -/
theorem chooseAction_not_always_pass :
    chooseAction (settingsFor "pro") "normal" (averageHandler : Player ℚ) (1 / 2) (3 / 4) =
        "pickAndRoll" ∧
      chooseAction (settingsFor "pro") "normal" (averageHandler : Player ℚ) 0 0 = "turnover" := by
  constructor
  · rw [chooseAction_sixty _ _ _ _ rfl rfl rfl (by norm_num), settingsFor_pro]
    norm_num [proSettings]
  · rw [chooseAction_sixty _ _ _ _ rfl rfl rfl (by norm_num), settingsFor_pro]
    norm_num [proSettings]

/-! ### Player-player collision -/

theorem isTrig_real :
    IsTrig Real.sqrt Real.cos Real.sin (fun y x => Complex.arg ⟨x, y⟩) := by
  constructor
  · intro y x h
    have hne : (⟨x, y⟩ : ℂ) ≠ 0 := by
      intro e
      have hx : x = 0 := congrArg Complex.re e
      have hy : y = 0 := congrArg Complex.im e
      rw [hx, hy] at h
      simp at h
    show Real.cos (Complex.arg ⟨x, y⟩) = _
    rw [Complex.cos_arg hne, Complex.abs_apply, Complex.normSq_mk]
  · intro y x h
    show Real.sin (Complex.arg ⟨x, y⟩) = _
    rw [Complex.sin_arg, Complex.abs_apply, Complex.normSq_mk]

/-- The result of `checkPlayerCollision` on an overlapping pair in exact arithmetic, with
the direction written as the unit vector `(dx, dy) / distance`. -/
theorem checkPlayerCollision_overlap (sqrt cos sin : K → K) (atan2 : K → K → K)
    (ht : IsTrig sqrt cos sin atan2) (p1 p2 : Player K)
    (hpos : 0 < sqrt ((p1.x - p2.x) * (p1.x - p2.x) + (p1.y - p2.y) * (p1.y - p2.y)))
    (hlt : sqrt ((p1.x - p2.x) * (p1.x - p2.x) + (p1.y - p2.y) * (p1.y - p2.y)) <
      p1.radius + p2.radius) :
    checkPlayerCollision id sqrt cos sin atan2 p1 p2 =
      ({ p1 with
          x := p1.x + (p1.x - p2.x) /
              sqrt ((p1.x - p2.x) * (p1.x - p2.x) + (p1.y - p2.y) * (p1.y - p2.y)) *
            (p1.radius + p2.radius -
              sqrt ((p1.x - p2.x) * (p1.x - p2.x) + (p1.y - p2.y) * (p1.y - p2.y))) * (1 / 2)
          y := p1.y + (p1.y - p2.y) /
              sqrt ((p1.x - p2.x) * (p1.x - p2.x) + (p1.y - p2.y) * (p1.y - p2.y)) *
            (p1.radius + p2.radius -
              sqrt ((p1.x - p2.x) * (p1.x - p2.x) + (p1.y - p2.y) * (p1.y - p2.y))) * (1 / 2)
          vx := p1.vx + (p1.x - p2.x) /
              sqrt ((p1.x - p2.x) * (p1.x - p2.x) + (p1.y - p2.y) * (p1.y - p2.y)) * (1 / 2)
          vy := p1.vy + (p1.y - p2.y) /
              sqrt ((p1.x - p2.x) * (p1.x - p2.x) + (p1.y - p2.y) * (p1.y - p2.y)) * (1 / 2) },
       { p2 with
          x := p2.x - (p1.x - p2.x) /
              sqrt ((p1.x - p2.x) * (p1.x - p2.x) + (p1.y - p2.y) * (p1.y - p2.y)) *
            (p1.radius + p2.radius -
              sqrt ((p1.x - p2.x) * (p1.x - p2.x) + (p1.y - p2.y) * (p1.y - p2.y))) * (1 / 2)
          y := p2.y - (p1.y - p2.y) /
              sqrt ((p1.x - p2.x) * (p1.x - p2.x) + (p1.y - p2.y) * (p1.y - p2.y)) *
            (p1.radius + p2.radius -
              sqrt ((p1.x - p2.x) * (p1.x - p2.x) + (p1.y - p2.y) * (p1.y - p2.y))) * (1 / 2)
          vx := p2.vx - (p1.x - p2.x) /
              sqrt ((p1.x - p2.x) * (p1.x - p2.x) + (p1.y - p2.y) * (p1.y - p2.y)) * (1 / 2)
          vy := p2.vy - (p1.y - p2.y) /
              sqrt ((p1.x - p2.x) * (p1.x - p2.x) + (p1.y - p2.y) * (p1.y - p2.y)) * (1 / 2) }) := by
  unfold checkPlayerCollision
  simp only [id_eq, hpos, hlt, gt_iff_lt, and_self, if_true, ht.cos_atan2 _ _ hpos,
    ht.sin_atan2 _ _ hpos]

/-- In exact arithmetic (no rounding, exact `sqrt`, `cos` and `sin`), for two players whose
centres are at distance `d` with `0 < d < r1 + r2`, `checkPlayerCollision` moves player 1
by half the penetration depth `r1 + r2 - d` along the unit vector from player 2 to
player 1 and player 2 by the same amount the other way; afterwards the centre distance is
exactly `r1 + r2`. -/
theorem checkPlayerCollision_separates_exact (sqrt cos sin : K → K) (atan2 : K → K → K)
    (hs : IsSqrt sqrt) (ht : IsTrig sqrt cos sin atan2) (p1 p2 : Player K)
    (hpos : 0 < centreDistance sqrt p1 p2)
    (hlt : centreDistance sqrt p1 p2 < p1.radius + p2.radius) :
    p1.radius + p2.radius ≤
        centreDistance sqrt (checkPlayerCollision id sqrt cos sin atan2 p1 p2).1
          (checkPlayerCollision id sqrt cos sin atan2 p1 p2).2 ∧
      centreDistance sqrt (checkPlayerCollision id sqrt cos sin atan2 p1 p2).1
          (checkPlayerCollision id sqrt cos sin atan2 p1 p2).2 = p1.radius + p2.radius ∧
      (checkPlayerCollision id sqrt cos sin atan2 p1 p2).1.x =
        p1.x + (p1.x - p2.x) / centreDistance sqrt p1 p2 *
          ((p1.radius + p2.radius - centreDistance sqrt p1 p2) / 2) ∧
      (checkPlayerCollision id sqrt cos sin atan2 p1 p2).1.y =
        p1.y + (p1.y - p2.y) / centreDistance sqrt p1 p2 *
          ((p1.radius + p2.radius - centreDistance sqrt p1 p2) / 2) ∧
      (checkPlayerCollision id sqrt cos sin atan2 p1 p2).2.x =
        p2.x - (p1.x - p2.x) / centreDistance sqrt p1 p2 *
          ((p1.radius + p2.radius - centreDistance sqrt p1 p2) / 2) ∧
      (checkPlayerCollision id sqrt cos sin atan2 p1 p2).2.y =
        p2.y - (p1.y - p2.y) / centreDistance sqrt p1 p2 *
          ((p1.radius + p2.radius - centreDistance sqrt p1 p2) / 2) := by
  have hcc : centreDistance sqrt p1 p2 * centreDistance sqrt p1 p2 =
      (p1.x - p2.x) * (p1.x - p2.x) + (p1.y - p2.y) * (p1.y - p2.y) :=
    hs.mul_self _ (add_nonneg (mul_self_nonneg _) (mul_self_nonneg _))
  have hne : centreDistance sqrt p1 p2 ≠ 0 := ne_of_gt hpos
  have hm : 0 ≤ p1.radius + p2.radius := le_of_lt (lt_trans hpos hlt)
  rw [checkPlayerCollision_overlap sqrt cos sin atan2 ht p1 p2 hpos hlt]
  have hdist : centreDistance sqrt
      { p1 with
          x := p1.x + (p1.x - p2.x) / centreDistance sqrt p1 p2 *
            (p1.radius + p2.radius - centreDistance sqrt p1 p2) * (1 / 2)
          y := p1.y + (p1.y - p2.y) / centreDistance sqrt p1 p2 *
            (p1.radius + p2.radius - centreDistance sqrt p1 p2) * (1 / 2)
          vx := p1.vx + (p1.x - p2.x) / centreDistance sqrt p1 p2 * (1 / 2)
          vy := p1.vy + (p1.y - p2.y) / centreDistance sqrt p1 p2 * (1 / 2) }
      { p2 with
          x := p2.x - (p1.x - p2.x) / centreDistance sqrt p1 p2 *
            (p1.radius + p2.radius - centreDistance sqrt p1 p2) * (1 / 2)
          y := p2.y - (p1.y - p2.y) / centreDistance sqrt p1 p2 *
            (p1.radius + p2.radius - centreDistance sqrt p1 p2) * (1 / 2)
          vx := p2.vx - (p1.x - p2.x) / centreDistance sqrt p1 p2 * (1 / 2)
          vy := p2.vy - (p1.y - p2.y) / centreDistance sqrt p1 p2 * (1 / 2) } =
      p1.radius + p2.radius := by
    generalize centreDistance sqrt p1 p2 = d at hcc hne
    show sqrt _ = _
    apply hs.eq_of_mul_self hm
    dsimp only
    field_simp
    linear_combination ((p1.radius + p2.radius) ^ 2 * 4) * hcc
  refine ⟨le_of_eq hdist.symm, hdist, ?_, ?_, ?_, ?_⟩ <;>
    (show _ = _; unfold centreDistance; ring)

theorem centreDistance_collidingPair :
    centreDistance Real.sqrt (collidingPair : Player ℝ × Player ℝ).1
      (collidingPair : Player ℝ × Player ℝ).2 = 30 := by
  unfold centreDistance
  apply isSqrt_real.eq_of_mul_self (by norm_num)
  simp only [collidingPair, Player.create]
  norm_num

theorem radius_collidingPair :
    (collidingPair : Player ℝ × Player ℝ).1.radius +
      (collidingPair : Player ℝ × Player ℝ).2.radius = 40 := by
  simp only [collidingPair, Player.create]
  norm_num

/-- In exact arithmetic, on an overlapping pair (`0 < d < r1 + r2`) `checkPlayerCollision`
adds `0.5 * n` to the velocity of player 1 and subtracts `0.5 * n` from the velocity of
player 2, where `n = (dx, dy) / d` is the unit vector from player 2 to player 1; the sums
`vx1 + vx2` and `vy1 + vy2` are unchanged, and for two players at rest the velocity
components along `n` afterwards are `1/2` and `-1/2`. -/
theorem checkPlayerCollision_impulse_exact (sqrt cos sin : K → K) (atan2 : K → K → K)
    (hs : IsSqrt sqrt) (ht : IsTrig sqrt cos sin atan2) (p1 p2 : Player K)
    (hpos : 0 < centreDistance sqrt p1 p2)
    (hlt : centreDistance sqrt p1 p2 < p1.radius + p2.radius) :
    (checkPlayerCollision id sqrt cos sin atan2 p1 p2).1.vx =
        p1.vx + 1 / 2 * ((p1.x - p2.x) / centreDistance sqrt p1 p2) ∧
      (checkPlayerCollision id sqrt cos sin atan2 p1 p2).1.vy =
        p1.vy + 1 / 2 * ((p1.y - p2.y) / centreDistance sqrt p1 p2) ∧
      (checkPlayerCollision id sqrt cos sin atan2 p1 p2).2.vx =
        p2.vx - 1 / 2 * ((p1.x - p2.x) / centreDistance sqrt p1 p2) ∧
      (checkPlayerCollision id sqrt cos sin atan2 p1 p2).2.vy =
        p2.vy - 1 / 2 * ((p1.y - p2.y) / centreDistance sqrt p1 p2) ∧
      (checkPlayerCollision id sqrt cos sin atan2 p1 p2).1.vx +
          (checkPlayerCollision id sqrt cos sin atan2 p1 p2).2.vx = p1.vx + p2.vx ∧
      (checkPlayerCollision id sqrt cos sin atan2 p1 p2).1.vy +
          (checkPlayerCollision id sqrt cos sin atan2 p1 p2).2.vy = p1.vy + p2.vy ∧
      ((p1.x - p2.x) / centreDistance sqrt p1 p2) * ((p1.x - p2.x) / centreDistance sqrt p1 p2) +
          ((p1.y - p2.y) / centreDistance sqrt p1 p2) *
            ((p1.y - p2.y) / centreDistance sqrt p1 p2) = 1 ∧
      (p1.vx = 0 → p1.vy = 0 → p2.vx = 0 → p2.vy = 0 →
        (checkPlayerCollision id sqrt cos sin atan2 p1 p2).1.vx *
              ((p1.x - p2.x) / centreDistance sqrt p1 p2) +
            (checkPlayerCollision id sqrt cos sin atan2 p1 p2).1.vy *
              ((p1.y - p2.y) / centreDistance sqrt p1 p2) = 1 / 2 ∧
          (checkPlayerCollision id sqrt cos sin atan2 p1 p2).2.vx *
              ((p1.x - p2.x) / centreDistance sqrt p1 p2) +
            (checkPlayerCollision id sqrt cos sin atan2 p1 p2).2.vy *
              ((p1.y - p2.y) / centreDistance sqrt p1 p2) = -(1 / 2)) := by
  have hcc : centreDistance sqrt p1 p2 * centreDistance sqrt p1 p2 =
      (p1.x - p2.x) * (p1.x - p2.x) + (p1.y - p2.y) * (p1.y - p2.y) :=
    hs.mul_self _ (add_nonneg (mul_self_nonneg _) (mul_self_nonneg _))
  have hne : centreDistance sqrt p1 p2 ≠ 0 := ne_of_gt hpos
  have hunit : ((p1.x - p2.x) / centreDistance sqrt p1 p2) *
      ((p1.x - p2.x) / centreDistance sqrt p1 p2) +
      ((p1.y - p2.y) / centreDistance sqrt p1 p2) *
        ((p1.y - p2.y) / centreDistance sqrt p1 p2) = 1 := by
    field_simp
    linear_combination -hcc
  rw [checkPlayerCollision_overlap sqrt cos sin atan2 ht p1 p2 hpos hlt]
  refine ⟨?_, ?_, ?_, ?_, ?_, ?_, hunit, ?_⟩
  · show _ = _; unfold centreDistance; ring
  · show _ = _; unfold centreDistance; ring
  · show _ = _; unfold centreDistance; ring
  · show _ = _; unfold centreDistance; ring
  · show _ + _ = _; ring
  · show _ + _ = _; ring
  · intro h1 h2 h3 h4
    constructor
    · show (p1.vx + _ * (1 / 2)) * _ + (p1.vy + _ * (1 / 2)) * _ = _
      rw [h1, h2]
      have := hunit
      unfold centreDistance at this ⊢
      linear_combination (1 / 2) * this
    · show (p2.vx - _ * (1 / 2)) * _ + (p2.vy - _ * (1 / 2)) * _ = _
      rw [h3, h4]
      have := hunit
      unfold centreDistance at this ⊢
      linear_combination (-(1 / 2)) * this

/-! ### Situation analysis -/

/-- C13: `analyzeSituation` computes `scoreDifference = score.away - score.home` and sets
`situationType` by the first matching rule: `shotClock < 5` gives `shotClockLow` (whatever
the score, quarter and clock); otherwise a difference below `-10` gives `losingBadly`;
otherwise a negative difference gives `losing`; otherwise a difference above `10` gives
`winningComfortably`; otherwise quarter 4 with less than 60 seconds gives `crunchTime`;
otherwise `normal`. -/
theorem analyzeSituation_priority (sqrt : K → K) (s : GameState K) :
    (analyzeSituation sqrt s).scoreDifference = s.score.away - s.score.home ∧
      (s.shotClock < 5 → (analyzeSituation sqrt s).situationType = "shotClockLow") ∧
      (5 ≤ s.shotClock → s.score.away - s.score.home < -10 →
        (analyzeSituation sqrt s).situationType = "losingBadly") ∧
      (5 ≤ s.shotClock → -10 ≤ s.score.away - s.score.home → s.score.away - s.score.home < 0 →
        (analyzeSituation sqrt s).situationType = "losing") ∧
      (5 ≤ s.shotClock → 10 < s.score.away - s.score.home →
        (analyzeSituation sqrt s).situationType = "winningComfortably") ∧
      (5 ≤ s.shotClock → 0 ≤ s.score.away - s.score.home → s.score.away - s.score.home ≤ 10 →
        s.quarter = 4 → s.gameClock < 60 →
        (analyzeSituation sqrt s).situationType = "crunchTime") ∧
      (5 ≤ s.shotClock → 0 ≤ s.score.away - s.score.home → s.score.away - s.score.home ≤ 10 →
        ¬ (s.quarter = 4 ∧ s.gameClock < 60) →
        (analyzeSituation sqrt s).situationType = "normal") := by
  refine ⟨rfl, ?_, ?_, ?_, ?_, ?_, ?_⟩
  · intro h
    show (if s.shotClock < 5 then _ else _) = _
    rw [if_pos h]
  · intro h1 h2
    show (if s.shotClock < 5 then _ else _) = _
    rw [if_neg (not_lt.mpr h1), if_pos h2]
  · intro h1 h2 h3
    show (if s.shotClock < 5 then _ else _) = _
    rw [if_neg (not_lt.mpr h1), if_neg (not_lt.mpr h2), if_pos h3]
  · intro h1 h2
    show (if s.shotClock < 5 then _ else _) = _
    rw [if_neg (not_lt.mpr h1), if_neg (by omega), if_neg (by omega), if_pos h2]
  · intro h1 h2 h3 h4 h5
    show (if s.shotClock < 5 then _ else _) = _
    rw [if_neg (not_lt.mpr h1), if_neg (by omega), if_neg (by omega), if_neg (by omega),
      if_pos ⟨h4, h5⟩]
  · intro h1 h2 h3 h4
    show (if s.shotClock < 5 then _ else _) = _
    rw [if_neg (not_lt.mpr h1), if_neg (by omega), if_neg (by omega), if_neg (by omega),
      if_neg h4]

theorem analyzeSituation_priority_witness :
    (analyzeSituation Real.sqrt
        { (GameState.init noVariation : GameState ℝ) with
          shotClock := 3, score := { home := 0, away := 20 } }).situationType =
        "shotClockLow" ∧
      (analyzeSituation Real.sqrt
        { (GameState.init noVariation : GameState ℝ) with
          score := { home := 30, away := 12 } }).situationType = "losingBadly" ∧
      (analyzeSituation Real.sqrt
        { (GameState.init noVariation : GameState ℝ) with
          score := { home := 30, away := 25 } }).situationType = "losing" ∧
      (analyzeSituation Real.sqrt
        { (GameState.init noVariation : GameState ℝ) with
          score := { home := 30, away := 45 } }).situationType = "winningComfortably" ∧
      (analyzeSituation Real.sqrt
        { (GameState.init noVariation : GameState ℝ) with
          score := { home := 30, away := 33 }, quarter := 4, gameClock := 40 }).situationType =
        "crunchTime" ∧
      (analyzeSituation Real.sqrt
        (GameState.init noVariation : GameState ℝ)).situationType = "normal" :=
  ⟨(analyzeSituation_priority Real.sqrt _).2.1 (by decide),
    (analyzeSituation_priority Real.sqrt _).2.2.1 (by decide) (by decide),
    (analyzeSituation_priority Real.sqrt _).2.2.2.1 (by decide) (by decide) (by decide),
    (analyzeSituation_priority Real.sqrt _).2.2.2.2.1 (by decide) (by decide),
    (analyzeSituation_priority Real.sqrt _).2.2.2.2.2.1 (by decide) (by decide) (by decide)
      (by decide) (by decide),
    (analyzeSituation_priority Real.sqrt _).2.2.2.2.2.2 (by decide) (by decide) (by decide)
      (by decide)⟩

/-! ### Ball invariant -/

theorem ballInvariant_create : BallInvariant (Ball.create : Ball K) :=
  fun h => h.1 rfl

theorem ballInvariant_shoot (sqrt : K → K) (b : Ball K) (shooter : ℕ) (targetX targetY power : K) :
    BallInvariant (b.shoot sqrt shooter targetX targetY power) :=
  fun h => h.1 rfl

theorem ballInvariant_pass (sqrt : K → K) (b : Ball K) (passer : ℕ) (receiverX receiverY : K) :
    BallInvariant (b.pass sqrt passer receiverX receiverY) :=
  fun h => h.1 rfl

theorem ballInvariant_reset (b : Ball K) : BallInvariant b.reset :=
  fun h => h.1 rfl

theorem ball_update_holder_inAir (sqrt : K → K) (ps : List (Player K)) (b : Ball K) :
    (b.update sqrt ps).holder = b.holder ∧ (b.update sqrt ps).inAir = b.inAir := by
  unfold Ball.update
  by_cases h : b.inAir = true
  · rw [if_pos h]
    dsimp only
    split_ifs <;> exact ⟨rfl, rfl⟩
  · rw [if_neg h]
    split
    · split <;> exact ⟨rfl, rfl⟩
    · exact ⟨rfl, rfl⟩

theorem ballInvariant_update (sqrt : K → K) (ps : List (Player K)) (b : Ball K)
    (h : BallInvariant b) : BallInvariant (b.update sqrt ps) := by
  unfold BallInvariant
  rw [(ball_update_holder_inAir sqrt ps b).1, (ball_update_holder_inAir sqrt ps b).2]
  exact h

theorem ballInvariant_catchBall (i : ℕ) (s : GameState K) (h : BallInvariant s.ball) :
    BallInvariant (catchBall i s).ball := by
  unfold catchBall
  split
  · exact h
  · dsimp only
    split <;> exact fun h => Bool.false_ne_true h.2

theorem ballInvariant_handleOutOfBounds (s : GameState K) :
    BallInvariant (handleOutOfBounds s).ball := by
  unfold handleOutOfBounds
  dsimp only
  split <;> exact fun h => Bool.false_ne_true h.2

theorem attemptSteal_success (settings : Settings K) (d i : ℕ) (s : GameState K) (r : K)
    (p : Player K) (hp : s.players[d]? = some p)
    (hr : r < p.attributes.defense / 100 * (3 / 10) * settings.aggression) :
    (attemptSteal settings d i s r).ball = { s.ball with holder := some d } := by
  unfold attemptSteal
  rw [hp]
  dsimp only
  rw [if_pos hr]
  rfl

/-- C14 fails for a successful `attemptSteal`: while the shot of the home point guard is
in the air the ball satisfies the invariant (no holder), and after the away point guard
steals from the shooter the ball has a holder and is still in the air. -/
theorem attemptSteal_breaks_ballInvariant :
    BallInvariant (shotInFlight : GameState ℚ).ball ∧
      (attemptSteal proSettings 5 0 (shotInFlight : GameState ℚ) 0).ball.holder = some 5 ∧
      (attemptSteal proSettings 5 0 (shotInFlight : GameState ℚ) 0).ball.inAir = true ∧
      ¬ BallInvariant (attemptSteal proSettings 5 0 (shotInFlight : GameState ℚ) 0).ball := by
  have e := attemptSteal_success (proSettings : Settings ℚ) 5 0 shotInFlight 0
    (Player.create 800 300 .away "PG" (generatePlayerAttributes "PG" (noVariation 5)))
    rfl
    (by norm_num [Player.create, generatePlayerAttributes, baseAttributes, noVariation,
      proSettings])
  rw [e]
  exact ⟨by decide, rfl, rfl, by decide⟩

/-! ### Ball-player collision -/

theorem ballPlayerCollision_out_of_reach (sqrt : K → K) (r1 r2 : K) (j : ℕ) (t : GameState K)
    (h : ∀ q, t.players[j]? = some q →
      ¬ (ballDistance sqrt t.ball q < q.radius + t.ball.radius ∧ t.ball.z < q.radius)) :
    ballPlayerCollision sqrt r1 r2 j t = (t, false) := by
  unfold ballPlayerCollision
  cases hq : t.players[j]? with
  | none => rfl
  | some q => exact if_neg (h q hq)

theorem ballPlayerCollision_catch (sqrt : K → K) (r1 r2 : K) (i : ℕ) (s : GameState K)
    (p : Player K) (hp : s.players[i]? = some p)
    (hgate : ballDistance sqrt s.ball p < p.radius + s.ball.radius ∧ s.ball.z < p.radius)
    (hcatch : s.ball.holder = none ∧ s.ball.z < 20 ∧ |s.ball.vz| < 10) :
    ballPlayerCollision sqrt r1 r2 i s = (catchBall i s, false) := by
  unfold ballPlayerCollision
  rw [hp]
  exact (if_pos hgate).trans (if_pos hcatch)

theorem ballPlayerCollision_bounce (sqrt : K → K) (r1 r2 : K) (i : ℕ) (s : GameState K)
    (p : Player K) (hp : s.players[i]? = some p)
    (hgate : ballDistance sqrt s.ball p < p.radius + s.ball.radius ∧ s.ball.z < p.radius)
    (hcatch : ¬ (s.ball.holder = none ∧ s.ball.z < 20 ∧ |s.ball.vz| < 10)) :
    ballPlayerCollision sqrt r1 r2 i s =
      ({ s with ball := bounceBallOffPlayer sqrt s.ball (s.ball.x - p.x) (s.ball.y - p.y) r1 r2 },
        true) := by
  unfold ballPlayerCollision
  rw [hp]
  exact (if_pos hgate).trans (if_neg hcatch)

theorem foldl_collisionRound_thrown (sqrt : K → K) (jitter : ℕ → K × K) (l : List ℕ)
    (t : GameState K) : l.foldl (collisionRound sqrt jitter) (t, true) = (t, true) := by
  induction l with
  | nil => rfl
  | cons j l ih =>
    rw [List.foldl_cons]
    exact ih

theorem foldl_collisionRound_idle (sqrt : K → K) (jitter : ℕ → K × K) (l : List ℕ)
    (t : GameState K)
    (h : ∀ j ∈ l, ballPlayerCollision sqrt (jitter j).1 (jitter j).2 j t = (t, false)) :
    l.foldl (collisionRound sqrt jitter) (t, false) = (t, false) := by
  induction l with
  | nil => rfl
  | cons j l ih =>
    rw [List.foldl_cons]
    have e : collisionRound sqrt jitter (t, false) j = (t, false) :=
      h j (List.mem_cons_self j l)
    rw [e]
    exact ih (fun k hk => h k (List.mem_cons_of_mem j hk))

theorem foldl_collisionRound_single (sqrt : K → K) (jitter : ℕ → K × K) (s u : GameState K)
    (b : Bool) (i : ℕ)
    (hi : ballPlayerCollision sqrt (jitter i).1 (jitter i).2 i s = (u, b))
    (hs : ∀ j, j ≠ i → ballPlayerCollision sqrt (jitter j).1 (jitter j).2 j s = (s, false))
    (hu : b = false →
      ∀ j, j ≠ i → ballPlayerCollision sqrt (jitter j).1 (jitter j).2 j u = (u, false))
    (l : List ℕ) (hl : l.Nodup) (hmem : i ∈ l) :
    l.foldl (collisionRound sqrt jitter) (s, false) = (u, b) := by
  induction l with
  | nil => cases hmem
  | cons j l ih =>
    rw [List.foldl_cons]
    rw [List.nodup_cons] at hl
    by_cases hj : j = i
    · subst hj
      have e : collisionRound sqrt jitter (s, false) j = (u, b) := hi
      rw [e]
      cases b with
      | true => exact foldl_collisionRound_thrown sqrt jitter l u
      | false =>
        apply foldl_collisionRound_idle
        intro k hk
        exact hu rfl k (fun hkj => hl.1 (hkj ▸ hk))
    · have e : collisionRound sqrt jitter (s, false) j = (s, false) := hs j hj
      rw [e]
      rcases List.mem_cons.mp hmem with h | h
      · exact absurd h.symm hj
      · exact ih hl.2 h

theorem detectBallPlayerCollisions_airborne (sqrt : K → K) (jitter : ℕ → K × K)
    (s : GameState K) (hair : s.ball.inAir = true) (hz : s.ball.z ≤ 50) :
    detectBallPlayerCollisions sqrt jitter s =
      (List.range s.players.length).foldl (collisionRound sqrt jitter) (s, false) := by
  unfold detectBallPlayerCollisions
  rw [if_neg]
  simp [hair, hz]

theorem detectBallPlayerCollisions_entry (sqrt : K → K) (jitter : ℕ → K × K)
    (s : GameState K) (h : s.ball.inAir = false ∨ 50 < s.ball.z) :
    detectBallPlayerCollisions sqrt jitter s = (s, false) := by
  unfold detectBallPlayerCollisions
  rw [if_pos]
  rcases h with h | h
  · simp [h]
  · simp [h]

theorem catchBall_fields (i : ℕ) (s : GameState K) (p : Player K)
    (h : s.players[i]? = some p) :
    (catchBall i s).ball = { s.ball with
        holder := some i, inAir := false, x := p.x, y := p.y - p.radius, z := 0,
        vx := 0, vy := 0, vz := 0 } ∧
      (catchBall i s).possession = p.team ∧ (catchBall i s).shotClock = 24 := by
  unfold catchBall
  simp only [h, GameState.addEvent]
  split <;> exact ⟨rfl, rfl, rfl⟩

theorem out_of_reach_of_sq {sqrt : K → K} (hs : IsSqrt sqrt) (b : Ball K) (q : Player K)
    (h : (q.radius + b.radius) * (q.radius + b.radius) ≤
      (b.x - q.x) * (b.x - q.x) + (b.y - q.y) * (b.y - q.y)) :
    ¬ (ballDistance sqrt b q < q.radius + b.radius ∧ b.z < q.radius) := by
  rintro ⟨hlt, _⟩
  have hn := hs.nonneg ((b.x - q.x) * (b.x - q.x) + (b.y - q.y) * (b.y - q.y))
  have hm := hs.mul_self ((b.x - q.x) * (b.x - q.x) + (b.y - q.y) * (b.y - q.y))
    (add_nonneg (mul_self_nonneg _) (mul_self_nonneg _))
  have hsq := mul_self_lt_mul_self hn hlt
  unfold ballDistance at hsq
  rw [hm] at hsq
  exact absurd h (not_le.mpr hsq)

theorem radius_createPlayers (variation : ℕ → Attributes K) (q : Player K)
    (h : q ∈ createPlayers variation) : q.radius = 20 := by
  simp only [createPlayers, List.mem_cons, List.mem_singleton, List.not_mem_nil, or_false] at h
  rcases h with h | h | h | h | h | h | h | h | h | h <;> rw [h] <;> rfl

theorem lt_length_of_getElem? (ps : List (Player K)) (i : ℕ) (p : Player K)
    (h : ps[i]? = some p) : i < ps.length := by
  by_contra hc
  rw [List.getElem?_eq_none (not_lt.mp hc)] at h
  cases h

/-- C15, as stated, fails for a ball above the player: a loose airborne ball at height 30
is 5 units from the centre of the home point guard (radius 20, ball radius 10) and moves
towards that player, yet `detectBallPlayerCollisions` leaves the state as it is, whatever
the jitter: the ball is neither caught nor deflected. -/
theorem detectBallPlayerCollisions_ignores_ball_above_player :
    (ballAtChestHeight : GameState ℝ).ball.inAir = true ∧
      (ballAtChestHeight : GameState ℝ).ball.z < 50 ∧
      (ballAtChestHeight : GameState ℝ).players[0]? =
        some (Player.create 200 300 .home "PG" (generatePlayerAttributes "PG" (noVariation 0))) ∧
      ballDistance Real.sqrt (ballAtChestHeight : GameState ℝ).ball
        (Player.create 200 300 .home "PG" (generatePlayerAttributes "PG" (noVariation 0))) = 5 ∧
      ∀ jitter : ℕ → ℝ × ℝ,
        detectBallPlayerCollisions Real.sqrt jitter ballAtChestHeight =
            (ballAtChestHeight, false) ∧
          (detectBallPlayerCollisions Real.sqrt jitter ballAtChestHeight).1.ball.vx = -3 ∧
          (detectBallPlayerCollisions Real.sqrt jitter ballAtChestHeight).1.ball.vy = -4 ∧
          (detectBallPlayerCollisions Real.sqrt jitter ballAtChestHeight).1.ball.holder = none := by
  have hz : (ballAtChestHeight : GameState ℝ).ball.z = 30 := rfl
  refine ⟨rfl, by rw [hz]; norm_num, rfl, ?_, ?_⟩
  · unfold ballDistance
    apply isSqrt_real.eq_of_mul_self (by norm_num)
    simp only [ballAtChestHeight, Ball.create, Player.create]
    norm_num
  · intro jitter
    have e : detectBallPlayerCollisions Real.sqrt jitter ballAtChestHeight =
        (ballAtChestHeight, false) := by
      rw [detectBallPlayerCollisions_airborne Real.sqrt jitter _ rfl (by rw [hz]; norm_num)]
      apply foldl_collisionRound_idle
      intro j _
      apply ballPlayerCollision_out_of_reach
      rintro q hq ⟨_, hlt⟩
      have hr : q.radius = 20 := radius_createPlayers noVariation q (List.getElem?_mem hq)
      rw [hz, hr] at hlt
      norm_num at hlt
    rw [e]
    exact ⟨rfl, rfl, rfl, rfl⟩

/-- C15 (amended): for an airborne ball with `z ≤ 50` that is within reach of the player
`p` at index `i` (2D distance below `p.radius + ball.radius`) while no other player is
within reach of the ball, neither where it flies nor where a catcher would hold it,
`detectBallPlayerCollisions` does the following. If `z < p.radius`, the ball has no
holder, `z < 20` and `|vz| < 10`, the player catches it: the holder is `i`, `inAir` is
false, the velocity is zero, the ball sits at `(p.x, p.y - p.radius, 0)`, `hasBall` of the
player is set, the possession is `p.team` and the shot clock is 24. If `z < p.radius` and
one of the catch conditions fails, the horizontal velocity is reflected about the normal
`(dx, dy) / distance`, scaled by 0.7, and the jitter `((r1 - 1/2) * 2, (r2 - 1/2) * 2)` is
added; `vz` is scaled by 0.7 and the ball stays in the air. If `z ≥ p.radius`, the state is
left as it is. -/
theorem detectBallPlayerCollisions_single_overlap (sqrt : K → K) (jitter : ℕ → K × K)
    (s : GameState K) (i : ℕ) (p : Player K)
    (hair : s.ball.inAir = true) (hz : s.ball.z ≤ 50) (hp : s.players[i]? = some p)
    (hd : ballDistance sqrt s.ball p < p.radius + s.ball.radius)
    (hfree : ∀ j q, j ≠ i → s.players[j]? = some q →
      ¬ (ballDistance sqrt s.ball q < q.radius + s.ball.radius ∧ s.ball.z < q.radius))
    (hheld : ∀ j q, j ≠ i → s.players[j]? = some q →
      ¬ (ballDistance sqrt (catchBall i s).ball q < q.radius + (catchBall i s).ball.radius ∧
        (catchBall i s).ball.z < q.radius)) :
    (s.ball.z < p.radius → s.ball.holder = none → s.ball.z < 20 → |s.ball.vz| < 10 →
        (detectBallPlayerCollisions sqrt jitter s).1 = catchBall i s ∧
          (catchBall i s).ball.holder = some i ∧ (catchBall i s).ball.inAir = false ∧
          (catchBall i s).ball.vx = 0 ∧ (catchBall i s).ball.vy = 0 ∧
          (catchBall i s).ball.vz = 0 ∧ (catchBall i s).ball.x = p.x ∧
          (catchBall i s).ball.y = p.y - p.radius ∧ (catchBall i s).ball.z = 0 ∧
          ((catchBall i s).players[i]?).map (fun q => q.hasBall) = some true ∧
          (catchBall i s).possession = p.team ∧ (catchBall i s).shotClock = 24) ∧
      (s.ball.z < p.radius → ¬ (s.ball.holder = none ∧ s.ball.z < 20 ∧ |s.ball.vz| < 10) →
        0 < ballDistance sqrt s.ball p →
        (detectBallPlayerCollisions sqrt jitter s).1.ball.vx =
            (s.ball.vx -
              2 * (s.ball.vx * ((s.ball.x - p.x) / ballDistance sqrt s.ball p) +
                s.ball.vy * ((s.ball.y - p.y) / ballDistance sqrt s.ball p)) *
                ((s.ball.x - p.x) / ballDistance sqrt s.ball p)) * (7 / 10) +
              ((jitter i).1 - 1 / 2) * 2 ∧
          (detectBallPlayerCollisions sqrt jitter s).1.ball.vy =
            (s.ball.vy -
              2 * (s.ball.vx * ((s.ball.x - p.x) / ballDistance sqrt s.ball p) +
                s.ball.vy * ((s.ball.y - p.y) / ballDistance sqrt s.ball p)) *
                ((s.ball.y - p.y) / ballDistance sqrt s.ball p)) * (7 / 10) +
              ((jitter i).2 - 1 / 2) * 2 ∧
          (detectBallPlayerCollisions sqrt jitter s).1.ball.vz = s.ball.vz * (7 / 10) ∧
          (detectBallPlayerCollisions sqrt jitter s).1.ball.inAir = true ∧
          (detectBallPlayerCollisions sqrt jitter s).1.ball.holder = s.ball.holder) ∧
      (p.radius ≤ s.ball.z → (detectBallPlayerCollisions sqrt jitter s).1 = s) := by
  have hi : i ∈ List.range s.players.length :=
    List.mem_range.mpr (lt_length_of_getElem? s.players i p hp)
  have hidle : ∀ j, j ≠ i →
      ballPlayerCollision sqrt (jitter j).1 (jitter j).2 j s = (s, false) :=
    fun j hj => ballPlayerCollision_out_of_reach sqrt _ _ j s (fun q hq => hfree j q hj hq)
  rw [detectBallPlayerCollisions_airborne sqrt jitter s hair hz]
  refine ⟨?_, ?_, ?_⟩
  · intro h1 h2 h3 h4
    have hf := catchBall_fields i s p hp
    have hc := ballPlayerCollision_catch sqrt (jitter i).1 (jitter i).2 i s p hp ⟨hd, h1⟩
      ⟨h2, h3, h4⟩
    have hu : ∀ j, j ≠ i →
        ballPlayerCollision sqrt (jitter j).1 (jitter j).2 j (catchBall i s) =
          (catchBall i s, false) := by
      intro j hj
      apply ballPlayerCollision_out_of_reach
      intro q hq
      rw [catchBall_players, getElem?_modifyPlayer, if_neg hj] at hq
      exact hheld j q hj hq
    rw [foldl_collisionRound_single sqrt jitter s (catchBall i s) false i hc hidle
      (fun _ => hu) _ (List.nodup_range _) hi]
    refine ⟨rfl, ?_, ?_, ?_, ?_, ?_, ?_, ?_, ?_, ?_, hf.2.1, hf.2.2⟩
    · rw [hf.1]
    · rw [hf.1]
    · rw [hf.1]
    · rw [hf.1]
    · rw [hf.1]
    · rw [hf.1]
    · rw [hf.1]
    · rw [hf.1]
    · rw [catchBall_players, getElem?_modifyPlayer, if_pos rfl, hp]
      rfl
  · intro h1 h2 _
    have hb := ballPlayerCollision_bounce sqrt (jitter i).1 (jitter i).2 i s p hp ⟨hd, h1⟩ h2
    rw [foldl_collisionRound_single sqrt jitter s _ true i hb hidle
      (fun h => Bool.noConfusion h) _ (List.nodup_range _) hi]
    exact ⟨rfl, rfl, rfl, hair, rfl⟩
  · intro h1
    have hn := ballPlayerCollision_out_of_reach sqrt (jitter i).1 (jitter i).2 i s
      (fun q hq h => by
        rw [hp] at hq
        cases hq
        exact absurd h.2 (not_lt.mpr h1))
    rw [foldl_collisionRound_idle sqrt jitter _ s (fun j _ => by
      by_cases hj : j = i
      · rw [hj]; exact hn
      · exact hidle j hj)]

theorem ballAtKneeHeight_others_far (j : ℕ) (q : Player ℝ) (hj : j ≠ 0)
    (hq : (ballAtKneeHeight : GameState ℝ).players[j]? = some q) :
    ¬ (ballDistance Real.sqrt (ballAtKneeHeight : GameState ℝ).ball q <
          q.radius + (ballAtKneeHeight : GameState ℝ).ball.radius ∧
        (ballAtKneeHeight : GameState ℝ).ball.z < q.radius) ∧
      ¬ (ballDistance Real.sqrt (catchBall 0 (ballAtKneeHeight : GameState ℝ)).ball q <
          q.radius + (catchBall 0 (ballAtKneeHeight : GameState ℝ)).ball.radius ∧
        (catchBall 0 (ballAtKneeHeight : GameState ℝ)).ball.z < q.radius) := by
  have hlt := lt_length_of_getElem? _ j q hq
  have hlen : (ballAtKneeHeight : GameState ℝ).players.length = 10 := rfl
  rw [hlen] at hlt
  have hq2 : (createPlayers noVariation : List (Player ℝ))[j]? = some q := hq
  rw [(catchBall_fields 0 (ballAtKneeHeight : GameState ℝ)
    (Player.create 200 300 .home "PG" (generatePlayerAttributes "PG" (noVariation 0))) rfl).1]
  constructor <;> apply out_of_reach_of_sq isSqrt_real
  all_goals
    interval_cases j
    · exact absurd rfl hj
    all_goals
      simp only [createPlayers, List.getElem?_cons_succ, List.getElem?_cons_zero,
        Option.some.injEq] at hq2
      subst hq2
      simp only [ballAtKneeHeight, GameState.init, GameState.start, Ball.create, Player.create]
      norm_num

theorem detectBallPlayerCollisions_single_overlap_witness :
    (ballAtKneeHeight : GameState ℝ).ball.inAir = true ∧
      (ballAtKneeHeight : GameState ℝ).ball.z ≤ 50 ∧
      ballDistance Real.sqrt (ballAtKneeHeight : GameState ℝ).ball
        (Player.create 200 300 .home "PG" (generatePlayerAttributes "PG" (noVariation 0))) = 5 ∧
      (detectBallPlayerCollisions Real.sqrt (fun _ => (0, 0))
        (ballAtKneeHeight : GameState ℝ)).1 = catchBall 0 ballAtKneeHeight ∧
      (catchBall 0 (ballAtKneeHeight : GameState ℝ)).ball.holder = some 0 ∧
      (catchBall 0 (ballAtKneeHeight : GameState ℝ)).ball.inAir = false := by
  have hz : (ballAtKneeHeight : GameState ℝ).ball.z = 10 := rfl
  have hvz : (ballAtKneeHeight : GameState ℝ).ball.vz = -1 := rfl
  have hd : ballDistance Real.sqrt (ballAtKneeHeight : GameState ℝ).ball
      (Player.create 200 300 .home "PG" (generatePlayerAttributes "PG" (noVariation 0))) = 5 := by
    unfold ballDistance
    apply isSqrt_real.eq_of_mul_self (by norm_num)
    simp only [ballAtKneeHeight, Ball.create, Player.create]
    norm_num
  have hz50 : (ballAtKneeHeight : GameState ℝ).ball.z ≤ 50 := by
    rw [hz]
    norm_num
  have h := (detectBallPlayerCollisions_single_overlap Real.sqrt (fun _ => (0, 0))
    (ballAtKneeHeight : GameState ℝ) 0
    (Player.create 200 300 .home "PG" (generatePlayerAttributes "PG" (noVariation 0)))
    rfl hz50 rfl
    (by
      rw [hd]
      simp only [ballAtKneeHeight, Ball.create, Player.create]
      norm_num)
    (fun j q hj hq => (ballAtKneeHeight_others_far j q hj hq).1)
    (fun j q hj hq => (ballAtKneeHeight_others_far j q hj hq).2)).1
    (by
      rw [hz]
      simp only [Player.create]
      norm_num)
    rfl
    (by
      rw [hz]
      norm_num)
    (by
      rw [hvz]
      norm_num)
  exact ⟨rfl, hz50, hd, h.1, h.2.1, h.2.2.1⟩

/-! ### Out of bounds -/

theorem bounceBallOffWalls_bounds (W H : K) (hW : 100 ≤ W) (hH : 100 ≤ H) (b : Ball K) :
    50 ≤ (bounceBallOffWalls W H b).x ∧ (bounceBallOffWalls W H b).x ≤ W - 50 ∧
      50 ≤ (bounceBallOffWalls W H b).y ∧ (bounceBallOffWalls W H b).y ≤ H - 50 := by
  unfold bounceBallOffWalls
  by_cases h1 : b.x < 50 <;> by_cases h2 : b.x > W - 50 <;>
    by_cases h3 : b.y < 50 <;> by_cases h4 : b.y > H - 50 <;>
    simp only [h1, h2, h3, h4, if_true, if_false] <;>
    refine ⟨?_, ?_, ?_, ?_⟩ <;> linarith

/-- On a court of width and height at least 100 the out-of-bounds test of
`checkBoundaries` never succeeds: the ball has been moved back to the margin before the
test, so an airborne ball is only bounced off the walls. -/
theorem checkBallBoundaries_airborne (s : GameState K) (hW : 100 ≤ s.canvasWidth)
    (hH : 100 ≤ s.canvasHeight) (hair : s.ball.inAir = true) :
    checkBallBoundaries s =
      { s with ball := bounceBallOffWalls s.canvasWidth s.canvasHeight s.ball } := by
  have hb := bounceBallOffWalls_bounds s.canvasWidth s.canvasHeight hW hH s.ball
  unfold checkBallBoundaries
  dsimp only
  rw [if_pos hair, if_neg]
  rintro (h | h | h | h) <;> linarith [hb.1, hb.2.1, hb.2.2.1, hb.2.2.2]

theorem checkBoundaries_airborne (s : GameState K) (hW : 100 ≤ s.canvasWidth)
    (hH : 100 ≤ s.canvasHeight) (hair : s.ball.inAir = true) :
    (checkBoundaries s).possession = s.possession ∧
      (checkBoundaries s).shotClock = s.shotClock ∧
      (checkBoundaries s).ball = bounceBallOffWalls s.canvasWidth s.canvasHeight s.ball ∧
      (checkBoundaries s).events = s.events ∧ (checkBoundaries s).timers = s.timers := by
  have e := checkBallBoundaries_airborne
    ({ s with players := s.players.map (clampPlayerToCourt s.canvasWidth s.canvasHeight) } :
      GameState K) hW hH hair
  have e2 : checkBoundaries s = checkBallBoundaries
      ({ s with players := s.players.map (clampPlayerToCourt s.canvasWidth s.canvasHeight) } :
        GameState K) := rfl
  rw [e2, e]
  exact ⟨rfl, rfl, rfl, rfl, rfl⟩

/-- C16 fails at an airborne ball 40 units outside the left margin (`x = 10 < 30`) on the
1000 x 600 court, the home team having the ball with 10 seconds on the shot clock: after
`checkBoundaries` the possession is still `home`, the shot clock is still 10, the ball is
still in the air and moves on with the bounced velocity `vx = 5.6` from `x = 50`, and no
out-of-bounds event or relocation has been recorded. -/
theorem checkBoundaries_keeps_possession_beyond_threshold :
    (ballBeyondSideline : GameState ℚ).ball.inAir = true ∧
      (ballBeyondSideline : GameState ℚ).ball.x < 30 ∧
      (ballBeyondSideline : GameState ℚ).possession = Side.home ∧
      (checkBoundaries (ballBeyondSideline : GameState ℚ)).possession = Side.home ∧
      (checkBoundaries (ballBeyondSideline : GameState ℚ)).shotClock = 10 ∧
      (checkBoundaries (ballBeyondSideline : GameState ℚ)).ball.inAir = true ∧
      (checkBoundaries (ballBeyondSideline : GameState ℚ)).ball.x = 50 ∧
      (checkBoundaries (ballBeyondSideline : GameState ℚ)).ball.vx = 28 / 5 ∧
      (checkBoundaries (ballBeyondSideline : GameState ℚ)).ball.vz = 2 ∧
      (checkBoundaries (ballBeyondSideline : GameState ℚ)).events = [] ∧
      (checkBoundaries (ballBeyondSideline : GameState ℚ)).timers = [] := by
  have hx : (ballBeyondSideline : GameState ℚ).ball.x = 10 := rfl
  have h := checkBoundaries_airborne (ballBeyondSideline : GameState ℚ)
    (by norm_num [ballBeyondSideline, GameState.init, GameState.start])
    (by norm_num [ballBeyondSideline, GameState.init, GameState.start]) rfl
  have hb : bounceBallOffWalls (ballBeyondSideline : GameState ℚ).canvasWidth
      (ballBeyondSideline : GameState ℚ).canvasHeight (ballBeyondSideline : GameState ℚ).ball =
      { (ballBeyondSideline : GameState ℚ).ball with x := 50, vx := 28 / 5 } := by
    simp only [bounceBallOffWalls, ballBeyondSideline, GameState.init, GameState.start,
      Ball.create]
    norm_num
  rw [h.1, h.2.1, h.2.2.1, h.2.2.2.1, h.2.2.2.2, hb]
  refine ⟨rfl, ?_, rfl, rfl, rfl, rfl, rfl, rfl, rfl, rfl, rfl⟩
  rw [hx]
  norm_num

/-! ### Defensive target -/

theorem closestOffender_some (sqrt : K → K) (s : GameState K) (defender : Player K)
    (l : List ℕ) :
    ∀ (closest : Option (ℕ × K)) (c : ℕ × K),
      closestOffender sqrt s defender closest l = some c →
      (closest = some c ∨ (c.1 ∈ l ∧ distanceTo sqrt s defender c.1 = some c.2)) ∧
        (∀ c0, closest = some c0 → c.2 ≤ c0.2) ∧
        ∀ i ∈ l, ∀ di, distanceTo sqrt s defender i = some di → c.2 ≤ di := by
  induction l with
  | nil =>
    intro closest c hc
    have e : closest = some c := hc
    refine ⟨Or.inl e, ?_, ?_⟩
    · intro c0 h0
      rw [e] at h0
      cases h0
      exact le_refl _
    · intro i hi
      cases hi
  | cons i rest ih =>
    intro closest c hc
    unfold closestOffender at hc
    cases hd : distanceTo sqrt s defender i with
    | none =>
      rw [hd] at hc
      obtain ⟨h1, h2, h3⟩ := ih closest c hc
      refine ⟨?_, h2, ?_⟩
      · rcases h1 with h1 | ⟨h1, h1d⟩
        · exact Or.inl h1
        · exact Or.inr ⟨List.mem_cons_of_mem i h1, h1d⟩
      · intro k hk dk hdk
        rcases List.mem_cons.mp hk with rfl | hk
        · rw [hd] at hdk
          cases hdk
        · exact h3 k hk dk hdk
    | some d =>
      rw [hd] at hc
      cases closest with
      | none =>
        obtain ⟨h1, h2, h3⟩ := ih (some (i, d)) c hc
        refine ⟨Or.inr ?_, ?_, ?_⟩
        · rcases h1 with h1 | ⟨h1, h1d⟩
          · cases h1
            exact ⟨List.mem_cons_self i rest, hd⟩
          · exact ⟨List.mem_cons_of_mem i h1, h1d⟩
        · intro c0 h0
          cases h0
        · intro k hk dk hdk
          rcases List.mem_cons.mp hk with rfl | hk
          · rw [hd] at hdk
            cases hdk
            exact h2 (k, d) rfl
          · exact h3 k hk dk hdk
      | some jc =>
        obtain ⟨j, cd⟩ := jc
        dsimp only at hc
        by_cases hlt : d < cd
        · rw [if_pos hlt] at hc
          obtain ⟨h1, h2, h3⟩ := ih (some (i, d)) c hc
          refine ⟨Or.inr ?_, ?_, ?_⟩
          · rcases h1 with h1 | ⟨h1, h1d⟩
            · cases h1
              exact ⟨List.mem_cons_self i rest, hd⟩
            · exact ⟨List.mem_cons_of_mem i h1, h1d⟩
          · intro c0 h0
            cases h0
            exact le_of_lt (lt_of_le_of_lt (h2 (i, d) rfl) hlt)
          · intro k hk dk hdk
            rcases List.mem_cons.mp hk with rfl | hk
            · rw [hd] at hdk
              cases hdk
              exact h2 (k, d) rfl
            · exact h3 k hk dk hdk
        · rw [if_neg hlt] at hc
          obtain ⟨h1, h2, h3⟩ := ih (some (j, cd)) c hc
          refine ⟨?_, h2, ?_⟩
          · rcases h1 with h1 | ⟨h1, h1d⟩
            · exact Or.inl h1
            · exact Or.inr ⟨List.mem_cons_of_mem i h1, h1d⟩
          · intro k hk dk hdk
            rcases List.mem_cons.mp hk with rfl | hk
            · rw [hd] at hdk
              cases hdk
              exact le_trans (h2 (j, cd) rfl) (not_lt.mp hlt)
            · exact h3 k hk dk hdk

theorem closestOffender_none (sqrt : K → K) (s : GameState K) (defender : Player K)
    (l : List ℕ) :
    ∀ closest : Option (ℕ × K), closestOffender sqrt s defender closest l = none →
      closest = none ∧ ∀ i ∈ l, distanceTo sqrt s defender i = none := by
  induction l with
  | nil =>
    intro closest hc
    exact ⟨hc, fun i hi => by cases hi⟩
  | cons i rest ih =>
    intro closest hc
    unfold closestOffender at hc
    cases hd : distanceTo sqrt s defender i with
    | none =>
      rw [hd] at hc
      obtain ⟨h1, h2⟩ := ih closest hc
      refine ⟨h1, ?_⟩
      intro k hk
      rcases List.mem_cons.mp hk with rfl | hk
      · exact hd
      · exact h2 k hk
    | some d =>
      rw [hd] at hc
      cases closest with
      | none => exact absurd (ih (some (i, d)) hc).1 (by simp)
      | some jc =>
        obtain ⟨j, cd⟩ := jc
        dsimp only at hc
        by_cases hlt : d < cd
        · rw [if_pos hlt] at hc
          exact absurd (ih (some (i, d)) hc).1 (by simp)
        · rw [if_neg hlt] at hc
          exact absurd (ih (some (j, cd)) hc).1 (by simp)

theorem findDefensiveTarget_far (sqrt : K → K) (s : GameState K) (defender : Player K)
    (userPlayers : List ℕ) (ballHandler : Option ℕ)
    (hfar : ∀ h d, ballHandler = some h → distanceTo sqrt s defender h = some d → ¬ d < 200) :
    findDefensiveTarget sqrt s defender userPlayers ballHandler =
      (closestOffender sqrt s defender none userPlayers).map Prod.fst := by
  unfold findDefensiveTarget
  cases ballHandler with
  | none => rfl
  | some h =>
    dsimp only
    cases hd : distanceTo sqrt s defender h with
    | none => rfl
    | some d =>
      dsimp only
      rw [if_neg (hfar h d rfl hd)]

/-- C17: `findDefensiveTarget` returns the ball handler whenever there is one and its
distance to the defender is below 200. Otherwise it returns `null` for an empty list of
opponents, and as soon as the list holds an opponent it returns an opponent of the list
whose distance to the defender is minimal among all opponents of the list. -/
theorem findDefensiveTarget_spec (sqrt : K → K) (s : GameState K) (defender : Player K)
    (userPlayers : List ℕ) (ballHandler : Option ℕ) :
    (∀ h d, ballHandler = some h → distanceTo sqrt s defender h = some d → d < 200 →
        findDefensiveTarget sqrt s defender userPlayers ballHandler = some h) ∧
      ((∀ h d, ballHandler = some h → distanceTo sqrt s defender h = some d → ¬ d < 200) →
        (userPlayers = [] →
          findDefensiveTarget sqrt s defender userPlayers ballHandler = none) ∧
        (∀ i ∈ userPlayers, ∀ di, distanceTo sqrt s defender i = some di →
          ∃ j dj, findDefensiveTarget sqrt s defender userPlayers ballHandler = some j ∧
            j ∈ userPlayers ∧ distanceTo sqrt s defender j = some dj ∧
            ∀ k ∈ userPlayers, ∀ dk, distanceTo sqrt s defender k = some dk → dj ≤ dk)) := by
  constructor
  · intro h d hh hd hlt
    unfold findDefensiveTarget
    rw [hh]
    dsimp only
    rw [hd]
    dsimp only
    rw [if_pos hlt]
  · intro hfar
    rw [findDefensiveTarget_far sqrt s defender userPlayers ballHandler hfar]
    constructor
    · intro he
      rw [he]
      rfl
    · intro i hi di hdi
      cases hc : closestOffender sqrt s defender none userPlayers with
      | none =>
        have h := (closestOffender_none sqrt s defender userPlayers none hc).2 i hi
        rw [hdi] at h
        cases h
      | some c =>
        obtain ⟨h1, _, h3⟩ := closestOffender_some sqrt s defender userPlayers none c hc
        rcases h1 with h1 | ⟨h1, h1d⟩
        · cases h1
        · exact ⟨c.1, c.2, rfl, h1, h1d, h3⟩

theorem findDefensiveTarget_spec_witness :
    distanceTo Real.sqrt (GameState.init noVariation : GameState ℝ).start helpDefender 0 =
        some 120 ∧
      findDefensiveTarget Real.sqrt (GameState.init noVariation : GameState ℝ).start
        helpDefender [0, 1, 2, 3, 4] (some 0) = some 0 ∧
      findDefensiveTarget Real.sqrt (GameState.init noVariation : GameState ℝ).start
        helpDefender [] none = none ∧
      ∃ j dj, findDefensiveTarget Real.sqrt (GameState.init noVariation : GameState ℝ).start
          helpDefender [0, 1, 2, 3, 4] none = some j ∧
        j ∈ [0, 1, 2, 3, 4] ∧
        distanceTo Real.sqrt (GameState.init noVariation : GameState ℝ).start helpDefender j =
          some dj ∧
        ∀ k ∈ [0, 1, 2, 3, 4], ∀ dk,
          distanceTo Real.sqrt (GameState.init noVariation : GameState ℝ).start helpDefender k =
            some dk → dj ≤ dk := by
  have hd : distanceTo Real.sqrt (GameState.init noVariation : GameState ℝ).start
      helpDefender 0 = some 120 := by
    have e : distanceTo Real.sqrt (GameState.init noVariation : GameState ℝ).start
        helpDefender 0 =
        some (Real.sqrt ((200 - 320) * (200 - 320) + (300 - 300) * (300 - 300))) := rfl
    have h120 : Real.sqrt ((200 - 320) * (200 - 320) + (300 - 300) * (300 - 300)) = 120 :=
      isSqrt_real.eq_of_mul_self (by norm_num) (by norm_num)
    rw [e, h120]
  exact ⟨hd,
    (findDefensiveTarget_spec Real.sqrt _ helpDefender [0, 1, 2, 3, 4] (some 0)).1 0 120 rfl hd
      (by norm_num),
    ((findDefensiveTarget_spec Real.sqrt _ helpDefender [] none).2
      (fun h d e => Option.noConfusion e)).1 rfl,
    ((findDefensiveTarget_spec Real.sqrt _ helpDefender [0, 1, 2, 3, 4] none).2
      (fun h d e => Option.noConfusion e)).2 0 (by simp) 120 hd⟩

/-! ### Defensive loop -/

/-- Whatever the state, the AI step of `BasketballGame.update` never reaches the defensive
branch of `AISystem.update`: the step is skipped unless the possession is `away`, and the
branch is taken only if the possession is not `away`. -/
theorem updateAICall_ne_defense (ai : AISystem K) (currentTime : K) (s : GameState K) :
    updateAICall ai currentTime s ≠ some AIBranch.defense := by
  unfold updateAICall AISystem.update
  by_cases h : s.possession = Side.away
  · rw [if_pos h]
    by_cases h1 : (!s.gameActive || s.paused) = true
    · rw [if_pos h1]
      simp
    · rw [if_neg h1, if_neg (not_not.mpr h)]
      split
      · split_ifs <;> simp
      · simp
  · rw [if_neg h]
    simp

/-- C18 fails in the running match after tip-off (active, not paused, possession `home`):
the AI step of `BasketballGame.update` does not call `AISystem.update` at all, so the
defensive logic is not executed, although `AISystem.update` itself would run it. -/
theorem update_skips_defense_on_home_possession :
    (GameState.init noVariation : GameState ℚ).start.gameActive = true ∧
      (GameState.init noVariation : GameState ℚ).start.paused = false ∧
      (GameState.init noVariation : GameState ℚ).start.possession = Side.home ∧
      updateAICall (AISystem.create "pro") 0 (GameState.init noVariation : GameState ℚ).start =
        none ∧
      (AISystem.create "pro" : AISystem ℚ).update 0
        (GameState.init noVariation : GameState ℚ).start = AIBranch.defense :=
  ⟨rfl, rfl, rfl, rfl, rfl⟩

/-! ### Difficulty presets -/

theorem difficultySettings_rookie :
    (difficultySettings "rookie" : Option (Settings K)) =
      some { decisionDelay := 1000, accuracy := 4 / 10, defenseReaction := 3 / 10,
             mistakeRate := 3 / 10, aggression := 3 / 10 } := by
  unfold difficultySettings
  rw [if_pos rfl]

theorem difficultySettings_pro :
    (difficultySettings "pro" : Option (Settings K)) = some proSettings := by
  unfold difficultySettings
  rw [if_neg (by decide), if_pos rfl]
  rfl

theorem difficultySettings_allstar :
    (difficultySettings "allstar" : Option (Settings K)) =
      some { decisionDelay := 500, accuracy := 65 / 100, defenseReaction := 7 / 10,
             mistakeRate := 1 / 10, aggression := 7 / 10 } := by
  unfold difficultySettings
  rw [if_neg (by decide), if_neg (by decide), if_pos rfl]

theorem difficultySettings_legendary :
    (difficultySettings "legendary" : Option (Settings K)) =
      some { decisionDelay := 300, accuracy := 75 / 100, defenseReaction := 9 / 10,
             mistakeRate := 5 / 100, aggression := 9 / 10 } := by
  unfold difficultySettings
  rw [if_neg (by decide), if_neg (by decide), if_neg (by decide), if_pos rfl]

/-- C19: the four entries of `difficultySettings` exist, and in the order rookie, pro,
allstar, legendary the fields `decisionDelay` and `mistakeRate` strictly decrease while
`accuracy`, `defenseReaction` and `aggression` strictly increase. -/
theorem difficultySettings_monotone :
    ∃ r p a l : Settings K,
      difficultySettings "rookie" = some r ∧ difficultySettings "pro" = some p ∧
        difficultySettings "allstar" = some a ∧ difficultySettings "legendary" = some l ∧
        (l.decisionDelay < a.decisionDelay ∧ a.decisionDelay < p.decisionDelay ∧
          p.decisionDelay < r.decisionDelay) ∧
        (l.mistakeRate < a.mistakeRate ∧ a.mistakeRate < p.mistakeRate ∧
          p.mistakeRate < r.mistakeRate) ∧
        (r.accuracy < p.accuracy ∧ p.accuracy < a.accuracy ∧ a.accuracy < l.accuracy) ∧
        (r.defenseReaction < p.defenseReaction ∧ p.defenseReaction < a.defenseReaction ∧
          a.defenseReaction < l.defenseReaction) ∧
        (r.aggression < p.aggression ∧ p.aggression < a.aggression ∧
          a.aggression < l.aggression) := by
  refine ⟨_, _, _, _, difficultySettings_rookie, difficultySettings_pro,
    difficultySettings_allstar, difficultySettings_legendary, ?_, ?_, ?_, ?_, ?_⟩ <;>
    simp only [proSettings] <;> norm_num

/-! ### Fallbacks for unknown keys -/

/-- A difficulty key that is neither a preset nor a property inherited from
`Object.prototype` installs the `pro` settings. -/
theorem lookupSettings_unknown (difficulty : String)
    (h1 : difficulty ≠ "rookie") (h2 : difficulty ≠ "pro") (h3 : difficulty ≠ "allstar")
    (h4 : difficulty ≠ "legendary") (h5 : difficulty ∉ objectPrototypeKeys) :
    (lookupSettings difficulty : SettingsValue K) = SettingsValue.record proSettings := by
  unfold lookupSettings difficultySettings
  rw [if_neg h1, if_neg h2, if_neg h3, if_neg h4]
  dsimp only
  rw [if_neg h5]

/-- An action tag outside the eight cases of the `switch` has the effect of `pass`. -/
theorem executeAction_unknown [FloorRing K] (sqrt cos sin : K → K) (atan2 : K → K → K)
    (settings : Settings K) (d : Draws K) (action : String) (ballHandler : ℕ)
    (s : GameState K)
    (h1 : action ≠ "shoot") (h2 : action ≠ "shootThree") (h3 : action ≠ "drive")
    (h4 : action ≠ "driveAggressive") (h5 : action ≠ "pass") (h6 : action ≠ "postUp")
    (h7 : action ≠ "pickAndRoll") (h8 : action ≠ "turnover") :
    executeAction sqrt cos sin atan2 settings d action ballHandler s =
      executeAction sqrt cos sin atan2 settings d "pass" ballHandler s := by
  unfold executeAction
  dsimp only
  rw [if_neg h1, if_neg h2, if_neg h3, if_neg h4, if_neg h5, if_neg h6, if_neg h7, if_neg h8,
    if_neg (by decide), if_neg (by decide), if_neg (by decide), if_neg (by decide),
    if_pos rfl]

theorem executeAction_midRange_fastBreak [FloorRing K] (sqrt cos sin : K → K)
    (atan2 : K → K → K) (settings : Settings K) (d : Draws K) (ballHandler : ℕ)
    (s : GameState K) :
    executeAction sqrt cos sin atan2 settings d "midRange" ballHandler s =
        executeAction sqrt cos sin atan2 settings d "pass" ballHandler s ∧
      executeAction sqrt cos sin atan2 settings d "fastBreak" ballHandler s =
        executeAction sqrt cos sin atan2 settings d "pass" ballHandler s :=
  ⟨executeAction_unknown sqrt cos sin atan2 settings d "midRange" ballHandler s
      (by decide) (by decide) (by decide) (by decide) (by decide) (by decide) (by decide)
      (by decide),
    executeAction_unknown sqrt cos sin atan2 settings d "fastBreak" ballHandler s
      (by decide) (by decide) (by decide) (by decide) (by decide) (by decide) (by decide)
      (by decide)⟩

/-- C20 fails for the difficulty string `constructor`, which is none of the four presets:
the lookup `difficultySettings[difficulty]` finds the property inherited from
`Object.prototype`, so the constructor of `AISystem` and `setDifficulty` install that value
and not the `pro` settings. -/
theorem lookupSettings_inherited_key :
    (difficultySettings "constructor" : Option (Settings ℚ)) = none ∧
      (AISystem.create "constructor" : AISystem ℚ).settings =
        SettingsValue.inherited "constructor" ∧
      ((AISystem.create "pro" : AISystem ℚ).setDifficulty "constructor").settings =
        SettingsValue.inherited "constructor" ∧
      (AISystem.create "constructor" : AISystem ℚ).settings ≠
        SettingsValue.record proSettings ∧
      (AISystem.create "pro" : AISystem ℚ).settings = SettingsValue.record proSettings := by
  have hn : (difficultySettings "constructor" : Option (Settings ℚ)) = none := by
    unfold difficultySettings
    rw [if_neg (by decide), if_neg (by decide), if_neg (by decide), if_neg (by decide)]
  have hl : (lookupSettings "constructor" : SettingsValue ℚ) =
      SettingsValue.inherited "constructor" := by
    unfold lookupSettings
    rw [hn]
    dsimp only
    rw [if_pos (by decide)]
  have hpro : (lookupSettings "pro" : SettingsValue ℚ) = SettingsValue.record proSettings := by
    unfold lookupSettings
    rw [difficultySettings_pro]
  refine ⟨hn, hl, hl, ?_, hpro⟩
  show (lookupSettings "constructor" : SettingsValue ℚ) ≠ _
  rw [hl]
  intro h
  cases h

/-! ### Division by a zero distance -/

/-- For players whose distance is computed as zero (coincident players, for one)
`checkPlayerCollision` changes nothing: the test `distance > 0` keeps the response from
running. -/
theorem checkPlayerCollision_coincident (fl sqrt cos sin : K → K) (atan2 : K → K → K)
    (p1 p2 : Player K) (h : collisionDistance fl sqrt p1 p2 = 0) :
    checkPlayerCollision fl sqrt cos sin atan2 p1 p2 = (p1, p2) := by
  unfold checkPlayerCollision
  have hn : ¬ (collisionDistance fl sqrt p1 p2 < collisionMinDistance fl p1 p2 ∧
      collisionDistance fl sqrt p1 p2 > 0) := by
    rw [h]
    exact fun hc => lt_irrefl _ hc.2
  exact if_neg hn

/-- At a target that coincides with the player (and up to distance 10) `moveToTarget`
divides nothing: it clears the target and leaves position and velocity as they are. -/
theorem moveToTarget_near (sqrt : K → K) (p : Player K) (targetX targetY : K)
    (h : sqrt ((targetX - p.x) * (targetX - p.x) + (targetY - p.y) * (targetY - p.y)) ≤ 10) :
    moveToTarget sqrt p targetX targetY = { p with targetX := none, targetY := none } := by
  unfold moveToTarget
  exact if_neg (not_lt.mpr h)

/-- For a positive distance the two quotients of `bounceBallOffPlayer` are finite. -/
theorem bounceBallOffPlayerFinite_of_ne (sqrt : K → K) (ball : Ball K) (dx dy r1 r2 : K)
    (h : sqrt (dx * dx + dy * dy) ≠ 0) :
    bounceBallOffPlayerFinite sqrt ball dx dy r1 r2 =
      some (bounceBallOffPlayer sqrt ball dx dy r1 r2) := by
  unfold bounceBallOffPlayerFinite bounceBallOffPlayer finiteDiv
  simp only [if_neg h]
  rfl

theorem bounceBallOffPlayerFinite_zero (sqrt : K → K) (ball : Ball K) (dx dy r1 r2 : K)
    (h : sqrt (dx * dx + dy * dy) = 0) :
    bounceBallOffPlayerFinite sqrt ball dx dy r1 r2 = none := by
  unfold bounceBallOffPlayerFinite finiteDiv
  simp only [if_pos h]
  rfl

/-- The steering block of `runDefensiveLogic`, taken by itself, divides by the distance
without a guard. -/
theorem defensiveSteering_zero (sqrt : K → K) (settings : Settings K)
    (defender target : Player K) (isBallHandler : Bool)
    (h : sqrt ((target.x - defender.x) * (target.x - defender.x) +
      (target.y - defender.y) * (target.y - defender.y)) = 0) :
    defensiveSteering sqrt settings defender target isBallHandler = none := by
  unfold defensiveSteering finiteDiv
  simp only [h]
  cases isBallHandler <;> norm_num

/-- A call of `runDefensiveLogic` never reaches its steering block: the call
`getBallHandler(userPlayers)` in its third statement raises a TypeError. -/
theorem runDefensiveLogic_throws (sqrt : K → K) (settings : Settings K) (r : ℕ → ℕ → K)
    (s : GameState K) : runDefensiveLogic sqrt settings r s = none :=
  rfl

/-- C21 fails for `bounceBallOffPlayer`: a loose ball that falls fast exactly onto the
centre of the home point guard is within reach and is not caught, so the callback of
`detectBallPlayerCollisions` bounces it with `dx = dy = 0`, and the quotients
`dx / distance` and `dy / distance` divide by the zero distance, which leaves no finite
velocity. -/
theorem bounceBallOffPlayer_divides_by_zero_distance :
    (ballOnPlayer : GameState ℝ).players[0]? =
        some (Player.create 200 300 .home "PG" (generatePlayerAttributes "PG" (noVariation 0))) ∧
      ballDistance Real.sqrt (ballOnPlayer : GameState ℝ).ball
        (Player.create 200 300 .home "PG" (generatePlayerAttributes "PG" (noVariation 0))) = 0 ∧
      (ballPlayerCollision Real.sqrt (1 / 2) (1 / 2) 0 (ballOnPlayer : GameState ℝ)).2 = true ∧
      bounceBallOffPlayerFinite Real.sqrt (ballOnPlayer : GameState ℝ).ball
        ((ballOnPlayer : GameState ℝ).ball.x - 200) ((ballOnPlayer : GameState ℝ).ball.y - 300)
        (1 / 2) (1 / 2) = none := by
  have hx : (ballOnPlayer : GameState ℝ).ball.x = 200 := rfl
  have hy : (ballOnPlayer : GameState ℝ).ball.y = 300 := rfl
  have hz : (ballOnPlayer : GameState ℝ).ball.z = 10 := rfl
  have hvz : (ballOnPlayer : GameState ℝ).ball.vz = -12 := rfl
  have hr : (ballOnPlayer : GameState ℝ).ball.radius = 10 := rfl
  have hd : ballDistance Real.sqrt (ballOnPlayer : GameState ℝ).ball
      (Player.create 200 300 .home "PG" (generatePlayerAttributes "PG" (noVariation 0))) = 0 := by
    unfold ballDistance
    apply isSqrt_real.eq_of_mul_self (le_refl _)
    rw [hx, hy]
    simp only [Player.create]
    norm_num
  refine ⟨rfl, hd, ?_, ?_⟩
  · rw [ballPlayerCollision_bounce Real.sqrt (1 / 2) (1 / 2) 0 (ballOnPlayer : GameState ℝ)
      (Player.create 200 300 .home "PG" (generatePlayerAttributes "PG" (noVariation 0))) rfl]
    · rw [hd, hz, hr]
      simp only [Player.create]
      norm_num
    · rw [hz, hvz]
      norm_num
  · apply bounceBallOffPlayerFinite_zero
    apply isSqrt_real.eq_of_mul_self (le_refl _)
    rw [hx, hy]
    norm_num

/-! ### Quarter rollover -/

theorem handleQuarterEnd_quarter (t : GameState K) :
    (handleQuarterEnd t).quarter = t.quarter + 1 ∧ (handleQuarterEnd t).score = t.score ∧
      (t.quarter + 1 > 4 → (handleQuarterEnd t).gameActive = false) ∧
      ((handleQuarterEnd t).gameActive = true → t.quarter + 1 ≤ 4) := by
  unfold handleQuarterEnd handleGameEnd GameState.addEvent GameState.setTimeout
  dsimp only
  by_cases h : t.quarter + 1 > 4
  · rw [if_pos h]
    exact ⟨rfl, rfl, fun _ => rfl, fun hc => Bool.noConfusion hc⟩
  · rw [if_neg h]
    exact ⟨rfl, rfl, fun hc => absurd hc h, fun _ => not_lt.mp h⟩

theorem gameTimerTick_clock (s : GameState K) (hact : s.gameActive = true)
    (hp : s.paused = false) :
    ∃ t : GameState K,
      gameTimerTick s = (if t.gameClock ≤ 0 then handleQuarterEnd t else t) ∧
        t.gameClock = s.gameClock - 1 ∧ t.quarter = s.quarter ∧ t.gameActive = true ∧
        t.paused = false := by
  by_cases hpos : s.possession = .home
  · by_cases h1 : s.shotClock - 1 ≤ 0
    · exact ⟨{ s with
          gameClock := s.gameClock - 1, shotClock := 24, possession := .away,
          events := s.events ++ [.shotClockViolation] },
        gameTimerTick_violation_eq s hact hp hpos h1, rfl, rfl, hact, hp⟩
    · exact ⟨{ s with gameClock := s.gameClock - 1, shotClock := s.shotClock - 1 },
        gameTimerTick_home_eq s hact hp hpos h1, rfl, rfl, hact, hp⟩
  · have hc : (!s.gameActive || s.paused) = false := by simp [hact, hp]
    refine ⟨{ s with gameClock := s.gameClock - 1 }, ?_, rfl, rfl, hact, hp⟩
    unfold gameTimerTick
    rw [hc]
    simp only [Bool.false_eq_true, if_false, hpos]

theorem gameTimerTick_idle (s : GameState K) (h : s.gameActive = false ∨ s.paused = true) :
    gameTimerTick s = s := by
  unfold gameTimerTick
  rw [if_pos]
  rcases h with h | h <;> simp [h]

theorem gameTimerTick_countdown (k : ℕ) (s : GameState K) (hact : s.gameActive = true)
    (hp : s.paused = false) (hk : (k : ℤ) < s.gameClock) :
    (gameTimerTick^[k] s).gameActive = true ∧ (gameTimerTick^[k] s).paused = false ∧
      (gameTimerTick^[k] s).quarter = s.quarter ∧
      (gameTimerTick^[k] s).gameClock = s.gameClock - k := by
  induction k with
  | zero => simpa using ⟨hact, hp⟩
  | succ k ih =>
    obtain ⟨a1, a2, a3, a4⟩ := ih (by push_cast at hk; omega)
    rw [Function.iterate_succ_apply']
    obtain ⟨t, e, t1, t2, t3, t4⟩ := gameTimerTick_clock (gameTimerTick^[k] s) a1 a2
    have hn : ¬ t.gameClock ≤ 0 := by
      rw [t1, a4]
      push_cast at hk
      omega
    rw [e, if_neg hn]
    refine ⟨t3, t4, by rw [t2, a3], ?_⟩
    rw [t1, a4]
    push_cast
    ring

theorem gameTimerTick_last_second (s : GameState K) (hact : s.gameActive = true)
    (hp : s.paused = false) (hc : s.gameClock = 1) :
    (gameTimerTick s).quarter = s.quarter + 1 ∧
      (s.quarter < 4 → (gameTimerTick s).gameActive = true ∧
        (gameTimerTick s).paused = false ∧ (gameTimerTick s).gameClock = 720) ∧
      (4 ≤ s.quarter → (gameTimerTick s).gameActive = false) := by
  obtain ⟨t, e, t1, t2, t3, t4⟩ := gameTimerTick_clock s hact hp
  have h0 : t.gameClock ≤ 0 := by
    rw [t1, hc]
    norm_num
  rw [e, if_pos h0]
  refine ⟨by rw [(handleQuarterEnd_quarter t).1, t2], ?_, ?_⟩
  · intro hq
    obtain ⟨b1, b2, b3⟩ := handleQuarterEnd_of_lt t (by rw [t2]; exact hq)
    exact ⟨by rw [b1]; exact t3, by rw [(handleQuarterEnd_fields t).2.2.1]; exact t4, b3⟩
  · intro hq
    exact (handleQuarterEnd_quarter t).2.2.1 (by rw [t2]; omega)

theorem gameTimerTick_quarter (s : GameState K) (hact : s.gameActive = true)
    (hp : s.paused = false) (hc : s.gameClock = 720) :
    (gameTimerTick^[720] s).quarter = s.quarter + 1 ∧
      (s.quarter < 4 → (gameTimerTick^[720] s).gameActive = true ∧
        (gameTimerTick^[720] s).paused = false ∧ (gameTimerTick^[720] s).gameClock = 720) ∧
      (4 ≤ s.quarter → (gameTimerTick^[720] s).gameActive = false) := by
  obtain ⟨a1, a2, a3, a4⟩ := gameTimerTick_countdown 719 s hact hp (by rw [hc]; norm_num)
  have e : gameTimerTick^[720] s = gameTimerTick (gameTimerTick^[719] s) :=
    Function.iterate_succ_apply' gameTimerTick 719 s
  obtain ⟨b1, b2, b3⟩ := gameTimerTick_last_second (gameTimerTick^[719] s) a1 a2
    (by rw [a4, hc]; norm_num)
  rw [e]
  rw [a3] at b1 b2 b3
  exact ⟨b1, b2, b3⟩

theorem runOps_replicate_tick (n : ℕ) (s : GameState K) :
    runOps (List.replicate n PossessionOp.gameTimerTick) s = gameTimerTick^[n] s := by
  induction n generalizing s with
  | zero => rfl
  | succ n ih =>
    rw [List.replicate_succ, Function.iterate_succ_apply]
    exact ih (gameTimerTick s)

theorem possessionOp_quarter (op : PossessionOp K) (s : GameState K)
    (h : op ≠ PossessionOp.gameTimerTick) :
    (op.run s).quarter = s.quarter ∧ (op.run s).gameActive = s.gameActive := by
  cases op with
  | handleScore team points =>
    show (handleScore team points s).quarter = _ ∧ (handleScore team points s).gameActive = _
    unfold handleScore GameState.addEvent GameState.setTimeout
    dsimp only
    split <;> exact ⟨rfl, rfl⟩
  | handleFoul player =>
    show (handleFoul player s).quarter = _ ∧ (handleFoul player s).gameActive = _
    unfold handleFoul GameState.addEvent
    split <;> exact ⟨rfl, rfl⟩
  | handleTurnover team => exact ⟨rfl, rfl⟩
  | gameTimerTick => exact absurd rfl h
  | catchBall player =>
    show (catchBall player s).quarter = _ ∧ (catchBall player s).gameActive = _
    unfold catchBall GameState.addEvent
    split
    · exact ⟨rfl, rfl⟩
    · dsimp only
      split <;> exact ⟨rfl, rfl⟩
  | handleOutOfBounds =>
    show (handleOutOfBounds s).quarter = _ ∧ (handleOutOfBounds s).gameActive = _
    unfold handleOutOfBounds GameState.addEvent GameState.setTimeout
    dsimp only
    split <;> exact ⟨rfl, rfl⟩
  | attemptSteal settings defender ballHandler r =>
    show (attemptSteal settings defender ballHandler s r).quarter = _ ∧
      (attemptSteal settings defender ballHandler s r).gameActive = _
    unfold attemptSteal GameState.addEvent
    split
    · exact ⟨rfl, rfl⟩
    · dsimp only
      split <;> exact ⟨rfl, rfl⟩
  | aiTurnover player => exact ⟨rfl, rfl⟩

theorem possessionOp_quarter_bounds (op : PossessionOp K) (s : GameState K)
    (h : 1 ≤ s.quarter ∧ s.quarter ≤ 5 ∧ (s.gameActive = true → s.quarter ≤ 4)) :
    1 ≤ (op.run s).quarter ∧ (op.run s).quarter ≤ 5 ∧
      ((op.run s).gameActive = true → (op.run s).quarter ≤ 4) := by
  by_cases hop : op = PossessionOp.gameTimerTick
  · subst hop
    show 1 ≤ (gameTimerTick s).quarter ∧ (gameTimerTick s).quarter ≤ 5 ∧
      ((gameTimerTick s).gameActive = true → (gameTimerTick s).quarter ≤ 4)
    by_cases hact : s.gameActive = true
    · by_cases hp : s.paused = false
      · obtain ⟨t, e, _, t2, t3, _⟩ := gameTimerTick_clock s hact hp
        rw [e]
        have h4 := h.2.2 hact
        by_cases h0 : t.gameClock ≤ 0
        · rw [if_pos h0]
          obtain ⟨q1, _, _, q4⟩ := handleQuarterEnd_quarter t
          rw [q1, t2]
          refine ⟨by omega, by omega, ?_⟩
          intro ha
          have := q4 ha
          rw [t2] at this
          exact this
        · rw [if_neg h0, t2]
          exact ⟨h.1, h.2.1, fun _ => h4⟩
      · rw [gameTimerTick_idle s (Or.inr (by simpa using hp))]
        exact h
    · rw [gameTimerTick_idle s (Or.inl (by simpa using hact))]
      exact h
  · obtain ⟨e1, e2⟩ := possessionOp_quarter op s hop
    rw [e1, e2]
    exact h

theorem runOps_quarter_bounds (ops : List (PossessionOp K)) (s : GameState K)
    (h : 1 ≤ s.quarter ∧ s.quarter ≤ 5 ∧ (s.gameActive = true → s.quarter ≤ 4)) :
    1 ≤ (runOps ops s).quarter ∧ (runOps ops s).quarter ≤ 5 ∧
      ((runOps ops s).gameActive = true → (runOps ops s).quarter ≤ 4) := by
  induction ops generalizing s with
  | nil => exact h
  | cons op ops ih => exact ih (op.run s) (possessionOp_quarter_bounds op s h)

/-- C22, as stated, fails for the quarter counter: 2880 timer ticks (four quarters of 720
seconds) after the start of the match the counter is 5 and the match is over. -/
theorem quarter_counter_reaches_five :
    (runOps (List.replicate 2880 PossessionOp.gameTimerTick)
        (GameState.init noVariation : GameState ℚ).start).quarter = 5 ∧
      (runOps (List.replicate 2880 PossessionOp.gameTimerTick)
        (GameState.init noVariation : GameState ℚ).start).gameActive = false := by
  rw [runOps_replicate_tick]
  have e : gameTimerTick^[2880] (GameState.init noVariation : GameState ℚ).start =
      gameTimerTick^[720] (gameTimerTick^[720] (gameTimerTick^[720]
        (gameTimerTick^[720] (GameState.init noVariation : GameState ℚ).start))) := by
    rw [← Function.iterate_add_apply, ← Function.iterate_add_apply,
      ← Function.iterate_add_apply]
  rw [e]
  obtain ⟨a1, a2, -⟩ := gameTimerTick_quarter (GameState.init noVariation : GameState ℚ).start
    rfl rfl rfl
  obtain ⟨a3, a4, a5⟩ := a2 (by decide)
  obtain ⟨b1, b2, -⟩ := gameTimerTick_quarter _ a3 a4 a5
  rw [a1] at b1 b2
  obtain ⟨b3, b4, b5⟩ := b2 (by decide)
  obtain ⟨c1, c2, -⟩ := gameTimerTick_quarter _ b3 b4 b5
  rw [b1] at c1 c2
  obtain ⟨c3, c4, c5⟩ := c2 (by decide)
  obtain ⟨d1, -, d3⟩ := gameTimerTick_quarter _ c3 c4 c5
  rw [c1] at d1 d3
  exact ⟨by rw [d1]; rfl, d3 (by decide)⟩

/-- C22 (amended): from every quarter `q ≤ 3` `handleQuarterEnd` sets the quarter to
`q + 1` and the game clock to 720 and leaves `gameActive`, the score and the possession
unchanged; from quarter 4 it ends the match (`gameActive = false`) with the counter at 5.
In every state reached from the started initial state by timer ticks and
possession-changing operations the quarter counter stays within 1..5, and it is within
1..4 as long as the match is active. -/
theorem handleQuarterEnd_rollover (variation : ℕ → Attributes K)
    (ops : List (PossessionOp K)) (s : GameState K) :
    (s.quarter ≤ 3 →
        (handleQuarterEnd s).quarter = s.quarter + 1 ∧ (handleQuarterEnd s).gameClock = 720 ∧
          (handleQuarterEnd s).gameActive = s.gameActive ∧
          (handleQuarterEnd s).score = s.score ∧
          (handleQuarterEnd s).possession = s.possession) ∧
      (s.quarter = 4 →
        (handleQuarterEnd s).gameActive = false ∧ (handleQuarterEnd s).quarter = 5) ∧
      1 ≤ (runOps ops (GameState.init variation).start).quarter ∧
      (runOps ops (GameState.init variation).start).quarter ≤ 5 ∧
      ((runOps ops (GameState.init variation).start).gameActive = true →
        (runOps ops (GameState.init variation).start).quarter ≤ 4) := by
  refine ⟨?_, ?_, ?_⟩
  · intro h
    obtain ⟨b1, b2, b3⟩ := handleQuarterEnd_of_lt s (by omega)
    exact ⟨b2, b3, b1, (handleQuarterEnd_quarter s).2.1, (handleQuarterEnd_fields s).1⟩
  · intro h
    obtain ⟨q1, _, q3, _⟩ := handleQuarterEnd_quarter s
    exact ⟨q3 (by omega), by rw [q1, h]; rfl⟩
  · exact runOps_quarter_bounds ops _
      ⟨show (1 : ℤ) ≤ 1 by decide, show (1 : ℤ) ≤ 5 by decide,
        fun _ => show (1 : ℤ) ≤ 4 by decide⟩

theorem handleQuarterEnd_rollover_witness :
    (handleQuarterEnd (GameState.init noVariation : GameState ℚ).start).quarter = 1 + 1 ∧
      (handleQuarterEnd (GameState.init noVariation : GameState ℚ).start).gameClock = 720 ∧
      (handleQuarterEnd
        ({ (GameState.init noVariation : GameState ℚ).start with quarter := 4 } :
          GameState ℚ)).gameActive = false ∧
      (handleQuarterEnd
        ({ (GameState.init noVariation : GameState ℚ).start with quarter := 4 } :
          GameState ℚ)).quarter = 5 :=
  ⟨((handleQuarterEnd_rollover noVariation [] _).1 (by decide)).1,
    ((handleQuarterEnd_rollover noVariation [] _).1 (by decide)).2.1,
    ((handleQuarterEnd_rollover noVariation [] _).2.1 rfl).1,
    ((handleQuarterEnd_rollover noVariation [] _).2.1 rfl).2⟩

/-! ### Controlled player -/

theorem controlFlag_switch (ps : List (Player K)) (c n i : ℕ) (hi : i < ps.length) :
    controlFlag
        (modifyPlayer n (fun q => { q with isControlled := true })
          (modifyPlayer c (fun q => { q with isControlled := false }) ps)) i =
      if i = n then true else if i = c then false else controlFlag ps i := by
  unfold controlFlag
  rw [getElem?_modifyPlayer, getElem?_modifyPlayer]
  obtain ⟨p, hp⟩ : ∃ p, ps[i]? = some p := ⟨ps[i], List.getElem?_eq_getElem hi⟩
  by_cases h1 : i = n
  · rw [if_pos h1, if_pos h1]
    by_cases h2 : i = c
    · rw [if_pos h2, hp]
      rfl
    · rw [if_neg h2, hp]
      rfl
  · rw [if_neg h1, if_neg h1]
    by_cases h2 : i = c
    · rw [if_pos h2, if_pos h2, hp]
      rfl
    · rw [if_neg h2, if_neg h2]

/-- `switchPlayer` preserves the invariant of the controlled player on a roster without
repetitions whose members exist. -/
theorem switchPlayer_controlInvariant (s t : GameState K) (hinv : ControlInvariant s)
    (hnd : s.homeTeam.Nodup) (hv : ∀ i ∈ s.homeTeam, i < s.players.length)
    (h : switchPlayer s = some t) : ControlInvariant t := by
  unfold ControlInvariant at hinv
  cases hc : s.controlledPlayer with
  | none =>
    rw [hc] at hinv
    cases hinv
  | some c =>
    rw [hc] at hinv
    have hflags : controlledFlags s = [c] := (Option.some.inj hinv).symm
    have hcmem : c ∈ s.homeTeam := by
      have : c ∈ controlledFlags s := by rw [hflags]; exact List.mem_singleton_self c
      exact (List.mem_filter.mp this).1
    have honly : ∀ i ∈ s.homeTeam, controlFlag s.players i = true → i = c := by
      intro i hi hf
      have : i ∈ controlledFlags s := List.mem_filter.mpr ⟨hi, hf⟩
      rw [hflags] at this
      exact List.mem_singleton.mp this
    unfold switchPlayer at h
    rw [hc] at h
    dsimp only at h
    rw [if_pos hcmem] at h
    by_cases hlen : s.homeTeam.length = 0
    · rw [if_pos hlen] at h
      cases h
    · rw [if_neg hlen] at h
      by_cases hnext : ((s.homeTeam.indexOf c : ℤ) + 1) % (s.homeTeam.length : ℤ) =
          (s.homeTeam.indexOf c : ℤ)
      · rw [if_pos hnext] at h
        cases h
        unfold ControlInvariant
        rw [hc]
        exact hinv
      · rw [if_neg hnext] at h
        cases hn : s.homeTeam[(((s.homeTeam.indexOf c : ℤ) + 1) %
            (s.homeTeam.length : ℤ)).toNat]? with
        | none =>
          rw [hn] at h
          cases h
        | some n =>
          rw [hn] at h
          cases h
          have hnmem : n ∈ s.homeTeam := List.getElem?_mem hn
          unfold ControlInvariant controlledFlags
          show some [n] = some (s.homeTeam.filter _)
          congr 1
          have e : s.homeTeam.filter (controlFlag
              (modifyPlayer n (fun q => { q with isControlled := true })
                (modifyPlayer c (fun q => { q with isControlled := false }) s.players))) =
              s.homeTeam.filter (fun i => decide (i = n)) := by
            apply List.filter_congr
            intro i hi
            rw [controlFlag_switch s.players c n i (hv i hi)]
            by_cases h1 : i = n
            · simp [h1]
            · by_cases h2 : i = c
              · simp [h1, h2]
              · have h3 : controlFlag s.players i = false := by
                  cases hf : controlFlag s.players i with
                  | false => rfl
                  | true => exact absurd (honly i hi hf) h2
                simp [h1, h2, h3]
          rw [e, List.filter_eq, List.count_eq_one_of_mem hnd hnmem]
          rfl

/-- C23 fails in the state produced by `BasketballGame.init`: the controlled player is
the home point guard (index 0), but no home player has `isControlled` set, because the
constructor of `Player` clears the flag and `init` never sets it; only the first call of
`switchPlayer` establishes the invariant (for the player at index 1). -/
theorem init_leaves_isControlled_unset :
    (GameState.init noVariation : GameState ℚ).controlledPlayer = some 0 ∧
      controlledFlags (GameState.init noVariation : GameState ℚ) = [] ∧
      ¬ ControlInvariant (GameState.init noVariation : GameState ℚ) ∧
      ¬ ControlInvariant (GameState.init noVariation : GameState ℚ).start ∧
      (switchPlayer (GameState.init noVariation : GameState ℚ).start).map controlledFlags =
        some [1] ∧
      (switchPlayer (GameState.init noVariation : GameState ℚ).start).map
        (fun t => t.controlledPlayer) = some (some 1) := by
  decide

/-! ### Action selection -/

theorem chooseAction_eq [FloorRing K] (settings : Settings K) (situationType : String)
    (p : Player K) (r1 r2 : K) :
    chooseAction settings situationType p r1 r2 =
      if (viableActions situationType p).length = 0 then "pass"
      else if r1 < 1 / 10 * settings.mistakeRate then "turnover"
      else if "shoot" ∈ viableActions situationType p ∧ r1 < settings.aggression then "shoot"
      else (viableActions situationType p).getD
        ⌊r2 * ((viableActions situationType p).length : K)⌋₊ "undefined" :=
  rfl

theorem isViable_of_mem (situationType : String) (p : Player K) (a : String)
    (h : a ∈ viableActions situationType p) :
    isViable (evaluatePlayerCapabilities p) a = true :=
  (List.mem_filter.mp h).2

theorem orDefault_gt (a c : K) (hc : 70 ≤ c) (h : orDefault a 70 > c) : a > c := by
  unfold orDefault at h
  by_cases h0 : a = 0
  · rw [if_pos h0] at h
    exact absurd h (not_lt.mpr hc)
  · rw [if_neg h0] at h
    exact h

theorem shooting_gate (p : Player K) (a : String)
    (ha : a = "shoot" ∨ a = "shootThree" ∨ a = "midRange")
    (h : isViable (evaluatePlayerCapabilities p) a = true) : p.attributes.shooting > 70 := by
  unfold isViable at h
  rw [if_pos ha] at h
  exact orDefault_gt _ 70 (le_refl _) (of_decide_eq_true h)

theorem driving_gate (p : Player K) (a : String) (ha : a = "drive" ∨ a = "driveAggressive")
    (h : isViable (evaluatePlayerCapabilities p) a = true) :
    p.attributes.dribbling > 75 ∧ p.attributes.speed > 75 := by
  have hn : ¬ (a = "shoot" ∨ a = "shootThree" ∨ a = "midRange") := by
    rcases ha with ha | ha <;> rw [ha] <;> decide
  unfold isViable at h
  rw [if_neg hn, if_pos ha] at h
  have h2 := of_decide_eq_true h
  exact ⟨orDefault_gt _ 75 (by norm_num) h2.1, orDefault_gt _ 75 (by norm_num) h2.2⟩

theorem postUp_not_viable (situationType : String) (p : Player K) :
    "postUp" ∉ viableActions situationType p := by
  intro h
  have hv := isViable_of_mem situationType p "postUp" h
  unfold isViable at hv
  rw [if_neg (by decide), if_neg (by decide), if_pos rfl] at hv
  have h2 := (of_decide_eq_true hv).1
  exact lt_irrefl _ h2

theorem getD_mem_of_floor [FloorRing K] (l : List String) (r2 : K) (h0 : 0 ≤ r2) (h1 : r2 < 1)
    (hl : l ≠ []) : l.getD ⌊r2 * (l.length : K)⌋₊ "undefined" ∈ l := by
  have hpos : 0 < l.length := List.length_pos.mpr hl
  have hposK : (0 : K) < (l.length : K) := by exact_mod_cast hpos
  have hlt : ⌊r2 * (l.length : K)⌋₊ < l.length := by
    rw [Nat.floor_lt (mul_nonneg h0 (le_of_lt hposK))]
    calc r2 * (l.length : K) < 1 * (l.length : K) := mul_lt_mul_of_pos_right h1 hposK
      _ = (l.length : K) := one_mul _
  rw [List.getD_eq_getElem?_getD, List.getElem?_eq_getElem hlt]
  exact List.getElem_mem hlt

theorem chooseAction_cases [FloorRing K] (settings : Settings K) (situationType : String)
    (p : Player K) (r1 r2 : K) :
    chooseAction settings situationType p r1 r2 = "pass" ∨
      chooseAction settings situationType p r1 r2 = "turnover" ∨
      (chooseAction settings situationType p r1 r2 = "shoot" ∧
        "shoot" ∈ viableActions situationType p) ∨
      chooseAction settings situationType p r1 r2 ∈ viableActions situationType p ∨
      chooseAction settings situationType p r1 r2 = "undefined" := by
  rw [chooseAction_eq]
  split_ifs with h1 h2 h3
  · exact Or.inl rfl
  · exact Or.inr (Or.inl rfl)
  · exact Or.inr (Or.inr (Or.inl ⟨rfl, h3.1⟩))
  · rw [List.getD_eq_getElem?_getD]
    cases hg : (viableActions situationType p)[⌊r2 *
        ((viableActions situationType p).length : K)⌋₊]? with
    | none => exact Or.inr (Or.inr (Or.inr (Or.inr rfl)))
    | some a => exact Or.inr (Or.inr (Or.inr (Or.inl (List.getElem?_mem hg))))

/-- C24: for second draws in `[0, 1)`, `chooseAction` returns `pass` when the viable list
is empty; for a non-empty viable list it returns `turnover` if the first draw is below
`0.1 * mistakeRate`, otherwise `shoot` if `shoot` is viable and the first draw is below
`aggression`, otherwise a member of the viable list. Hence a returned `shoot`,
`shootThree` or `midRange` comes with shooting above 70, and a returned `drive` or
`driveAggressive` with dribbling and speed above 75. -/
theorem chooseAction_spec [FloorRing K] (settings : Settings K) (situationType : String)
    (p : Player K) (r1 r2 : K) (h0 : 0 ≤ r2) (h1 : r2 < 1) :
    (viableActions situationType p = [] →
        chooseAction settings situationType p r1 r2 = "pass") ∧
      (viableActions situationType p ≠ [] → r1 < 1 / 10 * settings.mistakeRate →
        chooseAction settings situationType p r1 r2 = "turnover") ∧
      (viableActions situationType p ≠ [] → ¬ r1 < 1 / 10 * settings.mistakeRate →
        "shoot" ∈ viableActions situationType p → r1 < settings.aggression →
        chooseAction settings situationType p r1 r2 = "shoot") ∧
      (viableActions situationType p ≠ [] → ¬ r1 < 1 / 10 * settings.mistakeRate →
        ¬ ("shoot" ∈ viableActions situationType p ∧ r1 < settings.aggression) →
        chooseAction settings situationType p r1 r2 ∈ viableActions situationType p) ∧
      (chooseAction settings situationType p r1 r2 = "shoot" ∨
          chooseAction settings situationType p r1 r2 = "shootThree" ∨
          chooseAction settings situationType p r1 r2 = "midRange" →
        p.attributes.shooting > 70) ∧
      (chooseAction settings situationType p r1 r2 = "drive" ∨
          chooseAction settings situationType p r1 r2 = "driveAggressive" →
        p.attributes.dribbling > 75 ∧ p.attributes.speed > 75) := by
  have hlen : ∀ {l : List String}, l ≠ [] → ¬ l.length = 0 :=
    fun h hc => h (List.length_eq_zero.mp hc)
  refine ⟨?_, ?_, ?_, ?_, ?_, ?_⟩
  · intro h
    rw [chooseAction_eq, h]
    rfl
  · intro h h2
    rw [chooseAction_eq, if_neg (hlen h), if_pos h2]
  · intro h h2 h3 h4
    rw [chooseAction_eq, if_neg (hlen h), if_neg h2, if_pos ⟨h3, h4⟩]
  · intro h h2 h3
    rw [chooseAction_eq, if_neg (hlen h), if_neg h2, if_neg h3]
    exact getD_mem_of_floor _ r2 h0 h1 h
  · intro ha
    have hv : isViable (evaluatePlayerCapabilities p)
        (chooseAction settings situationType p r1 r2) = true := by
      rcases chooseAction_cases settings situationType p r1 r2 with e | e | e | e | e
      · rw [e] at ha
        exact absurd ha (by decide)
      · rw [e] at ha
        exact absurd ha (by decide)
      · rw [e.1]
        exact isViable_of_mem situationType p "shoot" e.2
      · exact isViable_of_mem situationType p _ e
      · rw [e] at ha
        exact absurd ha (by decide)
    exact shooting_gate p _ ha hv
  · intro ha
    have hv : isViable (evaluatePlayerCapabilities p)
        (chooseAction settings situationType p r1 r2) = true := by
      rcases chooseAction_cases settings situationType p r1 r2 with e | e | e | e | e
      · rw [e] at ha
        exact absurd ha (by decide)
      · rw [e] at ha
        exact absurd ha (by decide)
      · rw [e.1] at ha
        exact absurd ha (by decide)
      · exact isViable_of_mem situationType p _ e
      · rw [e] at ha
        exact absurd ha (by decide)
    exact driving_gate p _ ha hv

theorem chooseAction_spec_witness :
    (0 : ℚ) ≤ 1 / 4 ∧ (1 / 4 : ℚ) < 1 ∧
      viableActions "normal" (averageHandler : Player ℚ) ≠ [] ∧
      chooseAction proSettings "normal" (averageHandler : Player ℚ) (1 / 2) (1 / 4) ∈
        viableActions "normal" (averageHandler : Player ℚ) := by
  have hv : viableActions "normal" (averageHandler : Player ℚ) = ["pass", "pickAndRoll"] :=
    viableActions_sixty averageHandler rfl rfl rfl
  have hne : viableActions "normal" (averageHandler : Player ℚ) ≠ [] := by
    rw [hv]
    decide
  refine ⟨by norm_num, by norm_num, hne, ?_⟩
  exact (chooseAction_spec proSettings "normal" (averageHandler : Player ℚ) (1 / 2) (1 / 4)
    (by norm_num) (by norm_num)).2.2.2.1 hne (by norm_num [proSettings])
    (by
      rw [hv]
      intro h
      exact absurd h.1 (by decide))

/-- C30: for every settings record, situation type, ball handler and pair of draws,
`chooseAction` does not return `postUp`: `evaluatePlayerCapabilities` reports the strength
70, and the gate of `postUp` asks for a strength above 70. -/
theorem chooseAction_never_postUp [FloorRing K] (settings : Settings K)
    (situationType : String) (p : Player K) (r1 r2 : K) :
    (evaluatePlayerCapabilities p).strength = 70 ∧
      chooseAction settings situationType p r1 r2 ≠ "postUp" := by
  refine ⟨rfl, ?_⟩
  rcases chooseAction_cases settings situationType p r1 r2 with e | e | e | e | e
  · rw [e]
    decide
  · rw [e]
    decide
  · rw [e.1]
    decide
  · intro h
    rw [h] at e
    exact postUp_not_viable situationType p e
  · rw [e]
    decide

/-! ### Player update: stamina, dribble timer, damping -/

theorem tickDribble_fields (p : Player K) :
    p.tickDribble.x = p.x ∧ p.tickDribble.y = p.y ∧ p.tickDribble.vx = p.vx ∧
      p.tickDribble.vy = p.vy ∧ p.tickDribble.targetX = p.targetX ∧
      p.tickDribble.targetY = p.targetY ∧ p.tickDribble.isSprinting = p.isSprinting ∧
      p.tickDribble.attributes = p.attributes ∧
      p.tickDribble.currentStamina = p.currentStamina := by
  unfold Player.tickDribble
  dsimp only
  split_ifs <;> exact ⟨rfl, rfl, rfl, rfl, rfl, rfl, rfl, rfl, rfl⟩

theorem updateAnimation_fields (p : Player K) :
    p.updateAnimation.x = p.x ∧ p.updateAnimation.y = p.y ∧ p.updateAnimation.vx = p.vx ∧
      p.updateAnimation.vy = p.vy ∧ p.updateAnimation.targetX = p.targetX ∧
      p.updateAnimation.targetY = p.targetY ∧ p.updateAnimation.isSprinting = p.isSprinting ∧
      p.updateAnimation.attributes = p.attributes ∧
      p.updateAnimation.currentStamina = p.currentStamina ∧
      p.updateAnimation.dribbleTimer = p.dribbleTimer ∧
      p.updateAnimation.dribbleType = p.dribbleType := by
  unfold Player.updateAnimation
  dsimp only
  split_ifs <;> exact ⟨rfl, rfl, rfl, rfl, rfl, rfl, rfl, rfl, rfl, rfl, rfl⟩

theorem recoverStamina_fields (p : Player K) :
    p.recoverStamina.x = p.x ∧ p.recoverStamina.y = p.y ∧ p.recoverStamina.vx = p.vx ∧
      p.recoverStamina.vy = p.vy ∧ p.recoverStamina.targetX = p.targetX ∧
      p.recoverStamina.targetY = p.targetY ∧ p.recoverStamina.isSprinting = p.isSprinting ∧
      p.recoverStamina.attributes = p.attributes ∧
      p.recoverStamina.dribbleTimer = p.dribbleTimer ∧
      p.recoverStamina.dribbleType = p.dribbleType := by
  unfold Player.recoverStamina
  dsimp only
  split_ifs <;> exact ⟨rfl, rfl, rfl, rfl, rfl, rfl, rfl, rfl, rfl, rfl⟩

theorem recoverStamina_stamina (p : Player K) (h : p.currentStamina ≤ p.attributes.stamina) :
    p.recoverStamina.currentStamina = min p.attributes.stamina (p.currentStamina + 1 / 2) := by
  unfold Player.recoverStamina
  dsimp only
  by_cases h1 : p.currentStamina < p.attributes.stamina
  · rw [if_pos h1]
    by_cases h2 : p.currentStamina + 1 / 2 > p.attributes.stamina
    · rw [if_pos h2, min_eq_left (le_of_lt h2)]
    · rw [if_neg h2, min_eq_right (not_lt.mp h2)]
  · rw [if_neg h1]
    have e : p.currentStamina = p.attributes.stamina := le_antisymm h (not_lt.mp h1)
    rw [e, min_eq_left]
    linarith

/-- The kinematic fields, the attributes and the stamina after `Player.update`. -/
theorem update_fields (p : Player K) :
    p.update.x = p.x + p.vx ∧ p.update.y = p.y + p.vy ∧ p.update.vx = p.vx * (9 / 10) ∧
      p.update.vy = p.vy * (9 / 10) ∧ p.update.targetX = p.targetX ∧
      p.update.targetY = p.targetY ∧ p.update.isSprinting = p.isSprinting ∧
      p.update.attributes = p.attributes := by
  unfold Player.update
  dsimp only
  obtain ⟨a1, a2, a3, a4, a5, a6, a7, a8, -, -⟩ :=
    recoverStamina_fields p.advance.tickDribble.updateAnimation
  obtain ⟨b1, b2, b3, b4, b5, b6, b7, b8, -, -, -⟩ :=
    updateAnimation_fields p.advance.tickDribble
  obtain ⟨c1, c2, c3, c4, c5, c6, c7, c8, -⟩ := tickDribble_fields p.advance
  rw [a1, a2, a3, a4, a5, a6, a7, a8, b1, b2, b3, b4, b5, b6, b7, b8, c1, c2, c3, c4, c5, c6,
    c7, c8]
  exact ⟨rfl, rfl, rfl, rfl, rfl, rfl, rfl, rfl⟩

theorem update_stamina (p : Player K) (h : p.currentStamina ≤ p.attributes.stamina) :
    p.update.currentStamina = min p.attributes.stamina (p.currentStamina + 1 / 2) := by
  have e1 : p.advance.tickDribble.updateAnimation.currentStamina = p.currentStamina := by
    rw [(updateAnimation_fields _).2.2.2.2.2.2.2.2.1, (tickDribble_fields _).2.2.2.2.2.2.2.2]
    rfl
  have e2 : p.advance.tickDribble.updateAnimation.attributes = p.attributes := by
    rw [(updateAnimation_fields _).2.2.2.2.2.2.2.1, (tickDribble_fields _).2.2.2.2.2.2.2.1]
    rfl
  have e := recoverStamina_stamina p.advance.tickDribble.updateAnimation (by rw [e1, e2]; exact h)
  rw [e1, e2] at e
  exact e

theorem update_iterate_stamina (p : Player K) (h : p.currentStamina ≤ p.attributes.stamina)
    (n : ℕ) :
    (Player.update^[n] p).attributes = p.attributes ∧
      (Player.update^[n] p).currentStamina =
        min p.attributes.stamina (p.currentStamina + (n : K) * (1 / 2)) := by
  induction n with
  | zero =>
    refine ⟨rfl, ?_⟩
    show p.currentStamina = _
    rw [min_eq_right]
    · simp
    · simpa using h
  | succ n ih =>
    obtain ⟨a1, a2⟩ := ih
    rw [Function.iterate_succ_apply']
    have hle : (Player.update^[n] p).currentStamina ≤ (Player.update^[n] p).attributes.stamina := by
      rw [a1, a2]
      exact min_le_left _ _
    refine ⟨by rw [(update_fields _).2.2.2.2.2.2.2, a1], ?_⟩
    rw [update_stamina _ hle, a1, a2]
    push_cast
    simp only [min_def]
    split_ifs <;> linarith

theorem updatePlayerAnimation_stamina (p : Player K)
    (h : p.currentStamina ≤ p.attributes.stamina) :
    (updatePlayerAnimation p).currentStamina ≤ (updatePlayerAnimation p).attributes.stamina := by
  unfold updatePlayerAnimation
  dsimp only
  split_ifs <;> first | exact h | exact le_refl _ | (dsimp only; linarith)

theorem accelerate_stamina (p : Player K) (dx dy : K) (sprint : Bool) :
    (p.accelerate dx dy sprint).attributes = p.attributes ∧
      (p.accelerate dx dy sprint).currentStamina =
        if sprint = true ∧ p.currentStamina > 0 then p.currentStamina - 1
        else p.currentStamina := by
  unfold Player.accelerate
  dsimp only
  by_cases h : sprint = true ∧ p.currentStamina > 0
  · have hb : (sprint && decide (p.currentStamina > 0)) = true := by simp [h.1, h.2]
    rw [if_pos h, hb]
    exact ⟨rfl, rfl⟩
  · have hb : (sprint && decide (p.currentStamina > 0)) = false := by
      cases sprint with
      | false => rfl
      | true =>
        have : ¬ p.currentStamina > 0 := fun hc => h ⟨rfl, hc⟩
        simp [this]
    rw [if_neg h, hb]
    exact ⟨rfl, rfl⟩

theorem capSpeed_stamina (sqrt : K → K) (p : Player K) (sprint : Bool) :
    (p.capSpeed sqrt sprint).attributes = p.attributes ∧
      (p.capSpeed sqrt sprint).currentStamina = p.currentStamina := by
  unfold Player.capSpeed
  dsimp only
  split_ifs <;> exact ⟨rfl, rfl⟩

theorem dribble_stamina (p : Player K) (type : String) :
    (p.dribble type).attributes = p.attributes ∧
      (p.dribble type).currentStamina = p.currentStamina := by
  unfold Player.dribble
  dsimp only
  split_ifs <;> exact ⟨rfl, rfl⟩

theorem move_stamina (sqrt : K → K) (p : Player K) (dx dy : K) (sprint : Bool) :
    (p.move sqrt dx dy sprint).attributes = p.attributes ∧
      (p.move sqrt dx dy sprint).currentStamina ≤ p.currentStamina ∧
      (p.move sqrt dx dy sprint).currentStamina =
        if sprint = true ∧ p.currentStamina > 0 then p.currentStamina - 1
        else p.currentStamina := by
  have e : (p.move sqrt dx dy sprint).attributes = p.attributes ∧
      (p.move sqrt dx dy sprint).currentStamina =
        (p.accelerate dx dy sprint).currentStamina := by
    unfold Player.move
    dsimp only
    split
    · rw [(dribble_stamina _ _).1, (dribble_stamina _ _).2, (capSpeed_stamina _ _ _).1,
        (capSpeed_stamina _ _ _).2, (accelerate_stamina _ _ _ _).1]
      exact ⟨rfl, rfl⟩
    · rw [(capSpeed_stamina _ _ _).1, (capSpeed_stamina _ _ _).2,
        (accelerate_stamina _ _ _ _).1]
      exact ⟨rfl, rfl⟩
  rw [e.2, (accelerate_stamina p dx dy sprint).2]
  refine ⟨e.1, ?_, rfl⟩
  split_ifs
  · linarith
  · exact le_refl _

/-- C27: a new player starts with `currentStamina = attributes.stamina`, and the bound
`currentStamina ≤ attributes.stamina` is preserved by `Player.update`,
`PhysicsEngine.updatePlayerAnimation` and `Player.move` (with or without sprint). Each
`Player.update` raises a stamina below the cap by 0.5, clipped to the cap, and after
finitely many updates the stamina equals the cap. -/
theorem stamina_cap [Archimedean K] (sqrt : K → K) (p : Player K)
    (h : p.currentStamina ≤ p.attributes.stamina) :
    (∀ (x y : K) (team : Side) (role : String) (attributes : Attributes K),
        (Player.create x y team role attributes).currentStamina =
          (Player.create x y team role attributes).attributes.stamina) ∧
      p.update.currentStamina ≤ p.update.attributes.stamina ∧
      (updatePlayerAnimation p).currentStamina ≤ (updatePlayerAnimation p).attributes.stamina ∧
      (∀ (dx dy : K) (sprint : Bool),
        (p.move sqrt dx dy sprint).currentStamina ≤
          (p.move sqrt dx dy sprint).attributes.stamina) ∧
      p.update.currentStamina = min p.attributes.stamina (p.currentStamina + 1 / 2) ∧
      ∃ n : ℕ, (Player.update^[n] p).currentStamina = p.attributes.stamina ∧
        (Player.update^[n] p).attributes.stamina = p.attributes.stamina := by
  refine ⟨fun _ _ _ _ _ => rfl, ?_, updatePlayerAnimation_stamina p h, ?_, update_stamina p h, ?_⟩
  · rw [update_stamina p h, (update_fields p).2.2.2.2.2.2.2]
    exact min_le_left _ _
  · intro dx dy sprint
    obtain ⟨a1, a2, -⟩ := move_stamina sqrt p dx dy sprint
    rw [a1]
    exact le_trans a2 h
  · obtain ⟨n, hn⟩ := exists_nat_ge ((p.attributes.stamina - p.currentStamina) * 2)
    refine ⟨n, ?_, ?_⟩
    · rw [(update_iterate_stamina p h n).2, min_eq_left]
      linarith
    · rw [(update_iterate_stamina p h n).1]

theorem stamina_cap_witness :
    ({ (averageHandler : Player ℝ) with currentStamina := 10 } : Player ℝ).currentStamina ≤
        ({ (averageHandler : Player ℝ) with currentStamina := 10 } : Player ℝ).attributes.stamina ∧
      ({ (averageHandler : Player ℝ) with currentStamina := 10 } : Player ℝ).update.currentStamina =
        min 60 (10 + 1 / 2) ∧
      ∃ n : ℕ, (Player.update^[n]
        ({ (averageHandler : Player ℝ) with currentStamina := 10 } : Player ℝ)).currentStamina =
          60 := by
  have h : ({ (averageHandler : Player ℝ) with currentStamina := 10 } : Player ℝ).currentStamina ≤
      ({ (averageHandler : Player ℝ) with currentStamina := 10 } : Player ℝ).attributes.stamina := by
    show (10 : ℝ) ≤ 60
    norm_num
  obtain ⟨-, -, -, -, h5, n, h6, -⟩ := stamina_cap Real.sqrt
    ({ (averageHandler : Player ℝ) with currentStamina := 10 } : Player ℝ) h
  exact ⟨h, h5, n, h6⟩

theorem tickDribble_dribble (p : Player K) :
    p.tickDribble.dribbleTimer =
        (if p.dribbleTimer > 0 then p.dribbleTimer - 1 else p.dribbleTimer) ∧
      p.tickDribble.dribbleType =
        (if p.dribbleTimer > 0 ∧ p.dribbleTimer - 1 = 0 then "normal" else p.dribbleType) := by
  unfold Player.tickDribble
  dsimp only
  by_cases h1 : p.dribbleTimer > 0
  · by_cases h2 : p.dribbleTimer - 1 = 0
    · rw [if_pos h1, if_pos h2, if_pos h1, if_pos ⟨h1, h2⟩]
      exact ⟨rfl, rfl⟩
    · rw [if_pos h1, if_neg h2, if_pos h1, if_neg (fun hc => h2 hc.2)]
      exact ⟨rfl, rfl⟩
  · rw [if_neg h1, if_neg h1, if_neg (fun hc => h1 hc.1)]
    exact ⟨rfl, rfl⟩

theorem update_dribble (p : Player K) :
    p.update.dribbleTimer =
        (if p.dribbleTimer > 0 then p.dribbleTimer - 1 else p.dribbleTimer) ∧
      p.update.dribbleType =
        (if p.dribbleTimer > 0 ∧ p.dribbleTimer - 1 = 0 then "normal" else p.dribbleType) := by
  unfold Player.update
  dsimp only
  rw [(recoverStamina_fields _).2.2.2.2.2.2.2.2.1, (recoverStamina_fields _).2.2.2.2.2.2.2.2.2,
    (updateAnimation_fields _).2.2.2.2.2.2.2.2.2.1, (updateAnimation_fields _).2.2.2.2.2.2.2.2.2.2]
  exact tickDribble_dribble p.advance

theorem update_dribble_countdown (q : Player K) (k : ℕ) (hk : (k : ℤ) < q.dribbleTimer) :
    (Player.update^[k] q).dribbleTimer = q.dribbleTimer - k ∧
      (Player.update^[k] q).dribbleType = q.dribbleType := by
  induction k with
  | zero => exact ⟨by simp, rfl⟩
  | succ k ih =>
    obtain ⟨a1, a2⟩ := ih (by push_cast at hk; omega)
    rw [Function.iterate_succ_apply']
    obtain ⟨b1, b2⟩ := update_dribble (Player.update^[k] q)
    rw [a1] at b1 b2
    push_cast at hk
    rw [b1, b2, if_pos (by omega), if_neg (fun hc => by omega), a2]
    exact ⟨by push_cast; ring, rfl⟩

theorem update_dribble_expiry (q : Player K) (h : 1 ≤ q.dribbleTimer) :
    (Player.update^[q.dribbleTimer.toNat] q).dribbleTimer = 0 ∧
      (Player.update^[q.dribbleTimer.toNat] q).dribbleType = "normal" := by
  obtain ⟨n, hn⟩ : ∃ n : ℕ, q.dribbleTimer = (n : ℤ) + 1 :=
    ⟨(q.dribbleTimer - 1).toNat, by omega⟩
  have e : q.dribbleTimer.toNat = n + 1 := by omega
  rw [e, Function.iterate_succ_apply']
  obtain ⟨a1, -⟩ := update_dribble_countdown q n (by omega)
  obtain ⟨b1, b2⟩ := update_dribble (Player.update^[n] q)
  rw [a1] at b1 b2
  rw [b1, b2, if_pos (by omega), if_pos ⟨by omega, by omega⟩]
  exact ⟨by omega, rfl⟩

theorem update_dribble_nonneg (q : Player K) (h : 0 ≤ q.dribbleTimer) (k : ℕ) :
    0 ≤ (Player.update^[k] q).dribbleTimer := by
  induction k with
  | zero => exact h
  | succ k ih =>
    rw [Function.iterate_succ_apply', (update_dribble _).1]
    split_ifs <;> omega

theorem dribble_fields (p : Player K) (type : String) :
    (p.dribble type).dribbleTimer =
        (if type = "crossover" then 20 else if type = "behind" then 25
          else if type = "spin" then 30 else 10) ∧
      (p.dribble type).dribbleType = type := by
  unfold Player.dribble
  dsimp only
  split_ifs <;> exact ⟨rfl, rfl⟩

/-- C28: `Player.dribble(type)` sets `dribbleType` to `type` and `dribbleTimer` to `N` (20
for `crossover`, 25 for `behind`, 30 for `spin`, 10 otherwise); during the next `N - 1`
calls of `Player.update` the type stays `type` while the timer counts down, on the `N`-th
call the timer reaches 0 and the type becomes `normal`, and the timer is never
negative. -/
theorem dribble_timer_expiry (p : Player K) (type : String) :
    (p.dribble type).dribbleTimer =
        (if type = "crossover" then 20 else if type = "behind" then 25
          else if type = "spin" then 30 else 10) ∧
      (p.dribble type).dribbleType = type ∧
      (∀ k : ℕ, (k : ℤ) < (p.dribble type).dribbleTimer →
        (Player.update^[k] (p.dribble type)).dribbleType = type ∧
          (Player.update^[k] (p.dribble type)).dribbleTimer =
            (p.dribble type).dribbleTimer - k) ∧
      (Player.update^[(p.dribble type).dribbleTimer.toNat] (p.dribble type)).dribbleType =
        "normal" ∧
      (Player.update^[(p.dribble type).dribbleTimer.toNat] (p.dribble type)).dribbleTimer = 0 ∧
      ∀ k : ℕ, 0 ≤ (Player.update^[k] (p.dribble type)).dribbleTimer := by
  obtain ⟨h1, h2⟩ := dribble_fields p type
  have hpos : 1 ≤ (p.dribble type).dribbleTimer := by
    rw [h1]
    split_ifs <;> norm_num
  refine ⟨h1, h2, ?_, (update_dribble_expiry _ hpos).2, (update_dribble_expiry _ hpos).1,
    update_dribble_nonneg _ (by omega)⟩
  intro k hk
  obtain ⟨a1, a2⟩ := update_dribble_countdown (p.dribble type) k hk
  exact ⟨by rw [a2, h2], a1⟩

theorem dribble_timer_expiry_witness :
    ((19 : ℕ) : ℤ) < ((averageHandler : Player ℚ).dribble "crossover").dribbleTimer ∧
      (Player.update^[19] ((averageHandler : Player ℚ).dribble "crossover")).dribbleType =
        "crossover" ∧
      (Player.update^[19] ((averageHandler : Player ℚ).dribble "crossover")).dribbleTimer =
        ((averageHandler : Player ℚ).dribble "crossover").dribbleTimer - (19 : ℕ) :=
  ⟨by decide,
    (dribble_timer_expiry (averageHandler : Player ℚ) "crossover").2.2.1 19 (by decide)⟩

/-! ### Double damping -/

theorem updatePlayerAnimation_position (p : Player K) :
    (updatePlayerAnimation p).x = p.x ∧ (updatePlayerAnimation p).y = p.y := by
  unfold updatePlayerAnimation
  dsimp only
  split_ifs <;> exact ⟨rfl, rfl⟩

theorem steerToTarget_none (sqrt : K → K) (p : Player K)
    (h : p.targetX = none ∨ p.targetY = none) : steerToTarget sqrt p = p := by
  unfold steerToTarget
  split
  · rename_i tx ty hx hy
    rcases h with h | h
    · rw [h] at hx
      cases hx
    · rw [h] at hy
      cases hy
  · rfl

theorem limitSpeed_within (sqrt : K → K) (p : Player K)
    (h : sqrt (p.vx * p.vx + p.vy * p.vy) ≤ maxSpeed p) : limitSpeed sqrt p = p := by
  unfold limitSpeed
  exact if_neg (not_lt.mpr h)

theorem updatePlayerPhysics_free (sqrt : K → K) (q : Player K)
    (ht : q.targetX = none ∨ q.targetY = none)
    (hcap : sqrt (q.vx * (9 / 10) * (q.vx * (9 / 10)) + q.vy * (9 / 10) * (q.vy * (9 / 10))) ≤
      maxSpeed q) :
    (updatePlayerPhysics sqrt q).vx = q.vx * (9 / 10) ∧
      (updatePlayerPhysics sqrt q).vy = q.vy * (9 / 10) ∧
      (updatePlayerPhysics sqrt q).x = q.x + q.vx * (9 / 10) ∧
      (updatePlayerPhysics sqrt q).y = q.y + q.vy * (9 / 10) := by
  have e1 : limitSpeed sqrt (applyFriction q) = applyFriction q :=
    limitSpeed_within sqrt (applyFriction q) hcap
  have e2 : steerToTarget sqrt (integratePosition (applyFriction q)) =
      integratePosition (applyFriction q) := steerToTarget_none sqrt _ ht
  have e : updatePlayerPhysics sqrt q =
      updatePlayerAnimation (integratePosition (applyFriction q)) := by
    unfold updatePlayerPhysics
    dsimp only
    rw [e1, e2]
  rw [e, (updatePlayerAnimation_fields _).1, (updatePlayerAnimation_fields _).2.1,
    (updatePlayerAnimation_position _).1, (updatePlayerAnimation_position _).2]
  exact ⟨rfl, rfl, rfl, rfl⟩

/-- C29: over one game tick (`Player.update` followed by `updatePlayerPhysics`) of a player
without a target position whose twice-damped speed is within the cap, the velocity is
multiplied by exactly 0.81 and the position advances by `vx + 0.81 * vx` and
`vy + 0.81 * vy`: it is integrated twice. -/
theorem double_damping (sqrt : K → K) (p : Player K)
    (ht : p.targetX = none ∨ p.targetY = none)
    (hcap : sqrt (p.vx * (9 / 10) * (9 / 10) * (p.vx * (9 / 10) * (9 / 10)) +
      p.vy * (9 / 10) * (9 / 10) * (p.vy * (9 / 10) * (9 / 10))) ≤ maxSpeed p) :
    (updatePlayerPhysics sqrt p.update).vx = 81 / 100 * p.vx ∧
      (updatePlayerPhysics sqrt p.update).vy = 81 / 100 * p.vy ∧
      (updatePlayerPhysics sqrt p.update).x = p.x + (p.vx + 81 / 100 * p.vx) ∧
      (updatePlayerPhysics sqrt p.update).y = p.y + (p.vy + 81 / 100 * p.vy) := by
  obtain ⟨u1, u2, u3, u4, u5, u6, u7, -⟩ := update_fields p
  have ht2 : p.update.targetX = none ∨ p.update.targetY = none := by
    rw [u5, u6]
    exact ht
  have hcap2 : sqrt (p.update.vx * (9 / 10) * (p.update.vx * (9 / 10)) +
      p.update.vy * (9 / 10) * (p.update.vy * (9 / 10))) ≤ maxSpeed p.update := by
    unfold maxSpeed
    rw [u3, u4, u7]
    exact hcap
  obtain ⟨a1, a2, a3, a4⟩ := updatePlayerPhysics_free sqrt p.update ht2 hcap2
  rw [a1, a2, a3, a4, u1, u2, u3, u4]
  refine ⟨?_, ?_, ?_, ?_⟩ <;> ring

theorem double_damping_witness :
    (({ (averageHandler : Player ℝ) with vx := 1 } : Player ℝ).targetX = none ∨
        ({ (averageHandler : Player ℝ) with vx := 1 } : Player ℝ).targetY = none) ∧
      (updatePlayerPhysics Real.sqrt
        ({ (averageHandler : Player ℝ) with vx := 1 } : Player ℝ).update).vx = 81 / 100 * 1 ∧
      (updatePlayerPhysics Real.sqrt
        ({ (averageHandler : Player ℝ) with vx := 1 } : Player ℝ).update).x =
        500 + (1 + 81 / 100 * 1) := by
  have h := double_damping Real.sqrt ({ (averageHandler : Player ℝ) with vx := 1 } : Player ℝ)
    (Or.inl rfl)
    (by
      have e : Real.sqrt ((1 : ℝ) * (9 / 10) * (9 / 10) * ((1 : ℝ) * (9 / 10) * (9 / 10)) +
          (0 : ℝ) * (9 / 10) * (9 / 10) * ((0 : ℝ) * (9 / 10) * (9 / 10))) = 81 / 100 :=
        isSqrt_real.eq_of_mul_self (by norm_num) (by norm_num)
      show Real.sqrt ((1 : ℝ) * (9 / 10) * (9 / 10) * ((1 : ℝ) * (9 / 10) * (9 / 10)) +
          (0 : ℝ) * (9 / 10) * (9 / 10) * ((0 : ℝ) * (9 / 10) * (9 / 10))) ≤ 2
      rw [e]
      norm_num)
  exact ⟨Or.inl rfl, h.1, h.2.2.1⟩

/-! ### Pass target -/

theorem mem_insertByQuality (a o : PassOption K) (l : List (PassOption K)) :
    o ∈ insertByQuality a l ↔ o = a ∨ o ∈ l := by
  induction l with
  | nil => simp [insertByQuality]
  | cons b l ih =>
    unfold insertByQuality
    split_ifs
    · rw [List.mem_cons, ih, List.mem_cons]
      tauto
    · rw [List.mem_cons]

theorem mem_sortByQuality (o : PassOption K) (l : List (PassOption K)) :
    o ∈ sortByQuality l ↔ o ∈ l := by
  induction l with
  | nil => simp [sortByQuality]
  | cons a l ih =>
    unfold sortByQuality
    rw [mem_insertByQuality, ih, List.mem_cons]

theorem head_insertByQuality (a : PassOption K) (l : List (PassOption K))
    (h : ∀ b rest, l = b :: rest → ∀ o ∈ l, o.quality ≤ b.quality) :
    ∀ b rest, insertByQuality a l = b :: rest →
      ∀ o ∈ insertByQuality a l, o.quality ≤ b.quality := by
  intro b rest hb o ho
  rw [mem_insertByQuality] at ho
  cases l with
  | nil =>
    have e : a = b := by
      have : [a] = b :: rest := hb
      exact (List.cons.inj this).1
    rcases ho with ho | ho
    · rw [ho, e]
    · cases ho
  | cons c r =>
    unfold insertByQuality at hb
    by_cases hc : c.quality > a.quality
    · rw [if_pos hc] at hb
      have e : c = b := (List.cons.inj hb).1
      rw [← e]
      rcases ho with ho | ho
      · rw [ho]
        exact le_of_lt hc
      · exact h c r rfl o ho
    · rw [if_neg hc] at hb
      have e : a = b := (List.cons.inj hb).1
      rw [← e]
      rcases ho with ho | ho
      · rw [ho]
      · exact le_trans (h c r rfl o ho) (not_lt.mp hc)

theorem head_sortByQuality (l : List (PassOption K)) :
    ∀ b rest, sortByQuality l = b :: rest → ∀ o ∈ sortByQuality l, o.quality ≤ b.quality := by
  induction l with
  | nil =>
    intro b rest hb
    cases hb
  | cons a l ih =>
    unfold sortByQuality
    exact head_insertByQuality a (sortByQuality l) ih

theorem mem_passOptions (sqrt : K → K) (s : GameState K) (handler : Player K)
    (ballHandler : ℕ) (aiTeam : List ℕ) (o : PassOption K) :
    o ∈ passOptions sqrt s handler ballHandler aiTeam ↔
      ∃ i t, i ∈ aiTeam ∧ i ≠ ballHandler ∧ s.players[i]? = some t ∧
        o = passOption sqrt s handler i t := by
  unfold passOptions
  rw [List.mem_filterMap]
  constructor
  · rintro ⟨i, hi, ho⟩
    rw [List.mem_filter] at hi
    cases ht : s.players[i]? with
    | none =>
      rw [ht] at ho
      cases ho
    | some t =>
      rw [ht] at ho
      exact ⟨i, t, hi.1, of_decide_eq_true hi.2, ht, (Option.some.inj ho).symm⟩
  · rintro ⟨i, t, hi, hne, ht, ho⟩
    refine ⟨i, List.mem_filter.mpr ⟨hi, decide_eq_true hne⟩, ?_⟩
    rw [ht, ho]
    rfl

theorem aiPass_no_teammates (sqrt : K → K) (ballHandler : ℕ) (aiTeam : List ℕ)
    (s : GameState K) (r : K) (h : aiTeam.filter (fun i => i ≠ ballHandler) = []) :
    aiPass sqrt ballHandler aiTeam s r = s := by
  unfold aiPass
  split
  · rfl
  · dsimp only
    rw [h]
    rfl

theorem aiPass_players (sqrt : K → K) (ballHandler : ℕ) (aiTeam : List ℕ) (s : GameState K)
    (r : K) (handler : Player K) (hh : s.players[ballHandler]? = some handler)
    (hne : aiTeam.filter (fun i => i ≠ ballHandler) ≠ [])
    (best : PassOption K) (rest : List (PassOption K))
    (hs : sortByQuality (passOptions sqrt s handler ballHandler aiTeam) = best :: rest)
    (target : Player K) (ht : s.players[best.player]? = some target) :
    (aiPass sqrt ballHandler aiTeam s r).players =
      modifyPlayer best.player (fun q => { q with hasBall := true })
        (modifyPlayer ballHandler (fun q => { q with hasBall := false }) s.players) := by
  have hlen : ¬ (aiTeam.filter (fun i => i ≠ ballHandler)).length = 0 :=
    fun hc => hne (List.length_eq_zero.mp hc)
  unfold passOptions at hs
  unfold aiPass
  rw [hh]
  dsimp only
  rw [if_neg hlen, hs]
  dsimp only
  rw [ht]
  dsimp only
  split <;> rfl

/-- C25: with no teammates `aiPass` changes nothing. Otherwise, when the players of the AI
team exist (and each teammate is at a positive distance from the ball handler), it passes
to a teammate, a player of the AI team other than the ball handler, whose quality
`(1 / distance) * (1 + shooting / 100) * (1 - pressure / 100)` is maximal among all
teammates, with `pressure = calculateDefensePressure(teammate)`; afterwards the ball
handler has `hasBall = false` and the chosen teammate has `hasBall = true`. -/
theorem aiPass_best_teammate (sqrt : K → K) (ballHandler : ℕ) (aiTeam : List ℕ)
    (s : GameState K) (r : K) (handler : Player K)
    (hh : s.players[ballHandler]? = some handler)
    (hv : ∀ i ∈ aiTeam, i < s.players.length)
    (_hpos : ∀ i ∈ aiTeam, i ≠ ballHandler → ∀ t, s.players[i]? = some t →
      0 < sqrt ((t.x - handler.x) * (t.x - handler.x) + (t.y - handler.y) * (t.y - handler.y))) :
    (aiTeam.filter (fun i => i ≠ ballHandler) = [] →
        aiPass sqrt ballHandler aiTeam s r = s) ∧
      (aiTeam.filter (fun i => i ≠ ballHandler) ≠ [] →
        ∃ best t, best ∈ aiTeam ∧ best ≠ ballHandler ∧ s.players[best]? = some t ∧
          (∀ i ∈ aiTeam, i ≠ ballHandler → ∀ u, s.players[i]? = some u →
            (passOption sqrt s handler i u).quality ≤
              (passOption sqrt s handler best t).quality) ∧
          (∀ i u, (passOption sqrt s handler i u).quality =
            1 / sqrt ((u.x - handler.x) * (u.x - handler.x) +
                (u.y - handler.y) * (u.y - handler.y)) *
              (1 + u.attributes.shooting / 100) *
              (1 - calculateDefensePressure sqrt u s / 100)) ∧
          ((aiPass sqrt ballHandler aiTeam s r).players[ballHandler]?).map
              (fun q => q.hasBall) = some false ∧
          ((aiPass sqrt ballHandler aiTeam s r).players[best]?).map
              (fun q => q.hasBall) = some true) := by
  refine ⟨aiPass_no_teammates sqrt ballHandler aiTeam s r, ?_⟩
  intro hne
  obtain ⟨i0, hi0⟩ := List.exists_mem_of_ne_nil _ hne
  rw [List.mem_filter] at hi0
  have hi0v : i0 < s.players.length := hv i0 hi0.1
  have hmem0 : passOption sqrt s handler i0 s.players[i0] ∈
      passOptions sqrt s handler ballHandler aiTeam :=
    (mem_passOptions sqrt s handler ballHandler aiTeam _).mpr
      ⟨i0, s.players[i0], hi0.1, of_decide_eq_true hi0.2, List.getElem?_eq_getElem hi0v, rfl⟩
  cases hs : sortByQuality (passOptions sqrt s handler ballHandler aiTeam) with
  | nil =>
    have := (mem_sortByQuality _ _).mpr hmem0
    rw [hs] at this
    cases this
  | cons best rest =>
    have hbmem : best ∈ passOptions sqrt s handler ballHandler aiTeam := by
      rw [← mem_sortByQuality, hs]
      exact List.mem_cons_self best rest
    obtain ⟨b, t, hb, hbne, hbt, hbe⟩ :=
      (mem_passOptions sqrt s handler ballHandler aiTeam best).mp hbmem
    have hbp : best.player = b := by
      rw [hbe]
      rfl
    have hmax := head_sortByQuality _ best rest hs
    have hpl := aiPass_players sqrt ballHandler aiTeam s r handler hh hne best rest hs t
      (by rw [hbp]; exact hbt)
    rw [hbp] at hpl
    refine ⟨b, t, hb, hbne, hbt, ?_, fun _ _ => rfl, ?_, ?_⟩
    · intro i hi hine u hu
      have hin : passOption sqrt s handler i u ∈
          sortByQuality (passOptions sqrt s handler ballHandler aiTeam) :=
        (mem_sortByQuality _ _).mpr
          ((mem_passOptions sqrt s handler ballHandler aiTeam _).mpr ⟨i, u, hi, hine, hu, rfl⟩)
      have := hmax _ hin
      rw [hbe] at this
      exact this
    · rw [hpl, getElem?_modifyPlayer, if_neg (fun e => hbne e.symm), getElem?_modifyPlayer,
        if_pos rfl, hh]
      rfl
    · rw [hpl, getElem?_modifyPlayer, if_pos rfl, getElem?_modifyPlayer, if_neg hbne, hbt]
      rfl

theorem awayTeammates_apart (i : ℕ) (hi : i ∈ [5, 6, 7, 8, 9]) (hne : i ≠ 5) (t : Player ℝ)
    (ht : (GameState.init noVariation : GameState ℝ).players[i]? = some t) :
    0 < Real.sqrt ((t.x - 800) * (t.x - 800) + (t.y - 300) * (t.y - 300)) := by
  have ht2 : (createPlayers noVariation : List (Player ℝ))[i]? = some t := ht
  apply Real.sqrt_pos.mpr
  simp only [List.mem_cons, List.mem_singleton, List.not_mem_nil, or_false] at hi
  rcases hi with rfl | rfl | rfl | rfl | rfl
  · exact absurd rfl hne
  all_goals
    simp only [createPlayers, List.getElem?_cons_succ, List.getElem?_cons_zero,
      Option.some.injEq] at ht2
    subst ht2
    simp only [Player.create]
    norm_num

theorem aiPass_best_teammate_witness :
    (GameState.init noVariation : GameState ℝ).players[5]? =
        some (Player.create 800 300 .away "PG" (generatePlayerAttributes "PG" (noVariation 5))) ∧
      ∃ best, best ∈ [5, 6, 7, 8, 9] ∧ best ≠ 5 ∧
        ((aiPass Real.sqrt 5 [5, 6, 7, 8, 9] (GameState.init noVariation : GameState ℝ)
          0).players[5]?).map (fun q => q.hasBall) = some false ∧
        ((aiPass Real.sqrt 5 [5, 6, 7, 8, 9] (GameState.init noVariation : GameState ℝ)
          0).players[best]?).map (fun q => q.hasBall) = some true := by
  obtain ⟨best, t, h1, h2, -, -, -, h6, h7⟩ :=
    (aiPass_best_teammate Real.sqrt 5 [5, 6, 7, 8, 9]
      (GameState.init noVariation : GameState ℝ) 0
      (Player.create 800 300 .away "PG" (generatePlayerAttributes "PG" (noVariation 5))) rfl
      (by
        intro i hi
        have hlen : (GameState.init noVariation : GameState ℝ).players.length = 10 := rfl
        rw [hlen]
        simp only [List.mem_cons, List.mem_singleton, List.not_mem_nil, or_false] at hi
        omega)
      (fun i hi hne t ht => awayTeammates_apart i hi hne t ht)).2 (by decide)
  exact ⟨rfl, best, h1, h2, h6, h7⟩

/-! ### Binary64 rounding -/

section Rounding

variable [FloorRing K]



theorem roundHalfEven_eq (t : K) (n : ℤ) (h : |t - n| < 1 / 2) : roundHalfEven t = n := by
  rw [abs_lt] at h
  obtain ⟨h1, h2⟩ := h
  unfold roundHalfEven
  by_cases hn : (n : K) ≤ t
  · have hf : ⌊t⌋ = n := by
      rw [Int.floor_eq_iff]
      constructor
      · exact hn
      · linarith
    rw [hf, if_pos (by linarith)]
  · have hn2 : t < n := not_le.mp hn
    have hf : ⌊t⌋ = n - 1 := by
      rw [Int.floor_eq_iff]
      push_cast
      constructor
      · linarith
      · linarith
    rw [hf]
    push_cast
    rw [if_neg (by linarith), if_pos (by linarith)]
    ring

theorem roundHalfEven_tie (t : K) (n : ℤ) (h : t = n + 1 / 2) :
    roundHalfEven t = if n % 2 = 0 then n else n + 1 := by
  have hf : ⌊t⌋ = n := by
    rw [Int.floor_eq_iff]
    constructor
    · rw [h]; linarith
    · rw [h]; linarith
  unfold roundHalfEven
  rw [hf, h]
  rw [if_neg (by simp), if_neg (by simp)]

theorem abs_roundHalfEven_sub_le (t : K) : |(roundHalfEven t : K) - t| ≤ 1 / 2 := by
  have h1 : (⌊t⌋ : K) ≤ t := Int.floor_le t
  have h2 : t < ⌊t⌋ + 1 := Int.lt_floor_add_one t
  unfold roundHalfEven
  rw [abs_le]
  by_cases c1 : t - ⌊t⌋ < 1 / 2
  · rw [if_pos c1]
    constructor <;> linarith
  · rw [if_neg c1]
    by_cases c2 : 1 / 2 < t - ⌊t⌋
    · rw [if_pos c2]
      push_cast
      constructor <;> linarith
    · rw [if_neg c2]
      have c3 : t - ⌊t⌋ = 1 / 2 := le_antisymm (not_lt.mp c2) (not_lt.mp c1)
      by_cases c4 : ⌊t⌋ % 2 = 0
      · rw [if_pos c4]
        constructor <;> linarith
      · rw [if_neg c4]
        push_cast
        constructor <;> linarith

theorem floor_le_roundHalfEven (t : K) : ⌊t⌋ ≤ roundHalfEven t := by
  unfold roundHalfEven
  split_ifs <;> omega

theorem roundHalfEven_le_floor_add_one (t : K) : roundHalfEven t ≤ ⌊t⌋ + 1 := by
  unfold roundHalfEven
  split_ifs <;> omega

theorem roundHalfEven_intCast (n : ℤ) : roundHalfEven (n : K) = n :=
  roundHalfEven_eq _ n (by simp)

theorem roundHalfEven_neg (t : K) : roundHalfEven (-t) = -roundHalfEven t := by
  by_cases c : |t - (roundHalfEven t : ℤ)| < 1 / 2
  · apply roundHalfEven_eq
    push_cast
    rw [show -t - -(roundHalfEven t : K) = -(t - roundHalfEven t) by ring, abs_neg]
    exact c
  · have h1 : (⌊t⌋ : K) ≤ t := Int.floor_le t
    have h2 : t < ⌊t⌋ + 1 := Int.lt_floor_add_one t
    have c1 : ¬ t - ⌊t⌋ < 1 / 2 := by
      intro hc
      apply c
      have e : roundHalfEven t = ⌊t⌋ := by
        unfold roundHalfEven
        rw [if_pos hc]
      rw [e, abs_lt]
      constructor <;> linarith
    have c2 : ¬ 1 / 2 < t - ⌊t⌋ := by
      intro hc
      apply c
      have e : roundHalfEven t = ⌊t⌋ + 1 := by
        unfold roundHalfEven
        rw [if_neg c1, if_pos hc]
      rw [e, abs_lt]
      push_cast
      constructor <;> linarith
    have c3 : t = ⌊t⌋ + 1 / 2 := by
      have := le_antisymm (not_lt.mp c2) (not_lt.mp c1)
      linarith
    have e1 := roundHalfEven_tie t ⌊t⌋ c3
    have c4 : -t = ((-⌊t⌋ - 1 : ℤ) : K) + 1 / 2 := by
      push_cast
      linarith
    have e2 := roundHalfEven_tie (-t) (-⌊t⌋ - 1) c4
    rw [e1, e2]
    split_ifs <;> omega

theorem roundHalfEven_nonneg (t : K) (h : 0 ≤ t) : 0 ≤ roundHalfEven t :=
  le_trans (Int.floor_nonneg.mpr h) (floor_le_roundHalfEven t)

omit [FloorRing K] in
theorem two_zpow_pos (e : ℤ) : (0 : K) < 2 ^ e := zpow_pos (by norm_num) e

theorem binade_ge (x : K) : -1022 ≤ binade x := le_max_right _ _

theorem binade_neg (x : K) : binade (-x) = binade x := by
  unfold binade
  rw [abs_neg]

theorem binade_eq (x : K) (e : ℤ) (he : -1022 ≤ e) (h1 : 2 ^ e ≤ |x|) (h2 : |x| < 2 ^ (e + 1)) :
    binade x = e := by
  have hpos : 0 < |x| := lt_of_lt_of_le (two_zpow_pos e) h1
  have hl : Int.log 2 |x| = e := by
    apply le_antisymm
    · have := (Int.lt_zpow_iff_log_lt (b := 2) (by norm_num) (x := e + 1) hpos).mp
        (by simpa using h2)
      omega
    · exact (Int.zpow_le_iff_le_log (b := 2) (by norm_num) (x := e) hpos).mp (by simpa using h1)
  unfold binade
  rw [hl]
  exact max_eq_left he

theorem binade_subnormal (x : K) (hx : x ≠ 0) (h : |x| < 2 ^ (-1022 : ℤ)) :
    binade x = -1022 := by
  unfold binade
  apply max_eq_right
  have hpos : 0 < |x| := abs_pos.mpr hx
  have := (Int.lt_zpow_iff_log_lt (b := 2) (by norm_num) (x := -1022) hpos).mp
    (by simpa using h)
  omega

/-- The binade of a number holds it: `2 ^ binade x ≤ |x|` outside the subnormal range, and
`|x| < 2 ^ (binade x + 1)` always. -/
theorem abs_lt_binade (x : K) : |x| < 2 ^ (binade x + 1) := by
  have h := Int.lt_zpow_succ_log_self (b := 2) (by norm_num) |x|
  have h2 : ((2 : ℕ) : K) ^ (Int.log 2 |x| + 1) ≤ 2 ^ (binade x + 1) := by
    have : Int.log 2 |x| + 1 ≤ binade x + 1 := by
      unfold binade
      have := le_max_left (Int.log 2 |x|) (-1022)
      omega
    simpa using zpow_le_zpow_right₀ (by norm_num : (1 : K) ≤ 2) this
  exact lt_of_lt_of_le h h2

theorem binade_le_abs (x : K) (h : 2 ^ (-1022 : ℤ) ≤ |x|) : 2 ^ binade x ≤ |x| := by
  have hpos : 0 < |x| := lt_of_lt_of_le (two_zpow_pos _) h
  have hl : -1022 ≤ Int.log 2 |x| :=
    (Int.zpow_le_iff_le_log (b := 2) (by norm_num) (x := -1022) hpos).mp (by simpa using h)
  have e : binade x = Int.log 2 |x| := max_eq_left hl
  rw [e]
  simpa using Int.zpow_log_le_self (b := 2) (by norm_num) hpos

theorem roundDouble_zero : roundDouble (0 : K) = 0 := if_pos rfl

theorem roundDouble_def (x : K) :
    roundDouble x = (roundHalfEven (x / 2 ^ (binade x - 52)) : K) * 2 ^ (binade x - 52) := by
  unfold roundDouble
  by_cases h : x = 0
  · rw [if_pos h, h, zero_div]
    rw [show (0 : K) = ((0 : ℤ) : K) by simp, roundHalfEven_intCast]
    simp
  · rw [if_neg h]

/-- The value of `roundDouble` at a number that is closer than half a unit in the last
place to the grid point `n * 2 ^ (e - 52)` of its binade. -/
theorem roundDouble_eq (x : K) (e n : ℤ) (he : -1022 ≤ e) (h1 : 2 ^ e ≤ |x|)
    (h2 : |x| < 2 ^ (e + 1)) (h : |x / 2 ^ (e - 52) - n| < 1 / 2) :
    roundDouble x = n * 2 ^ (e - 52) := by
  rw [roundDouble_def, binade_eq x e he h1 h2, roundHalfEven_eq _ n h]

/-- The value of `roundDouble` at a number half-way between two grid points of its
binade. -/
theorem roundDouble_tie (x : K) (e n : ℤ) (he : -1022 ≤ e) (h1 : 2 ^ e ≤ |x|)
    (h2 : |x| < 2 ^ (e + 1)) (h : x / 2 ^ (e - 52) = n + 1 / 2) :
    roundDouble x = ((if n % 2 = 0 then n else n + 1 : ℤ) : K) * 2 ^ (e - 52) := by
  rw [roundDouble_def, binade_eq x e he h1 h2, roundHalfEven_tie _ n h]

/-- Numbers `m * 2 ^ k` with `|m| < 2 ^ 53` and `k ≥ -1074` are binary64 numbers. -/
theorem roundDouble_fixed (x : K) (m k : ℤ) (hx : x = m * 2 ^ k) (hm : |m| < 2 ^ 53)
    (hk : -1074 ≤ k) : roundDouble x = x := by
  by_cases hx0 : x = 0
  · rw [hx0]
    exact roundDouble_zero
  rw [roundDouble_def]
  have hk2 : |(2 : K) ^ k| = 2 ^ k := abs_of_pos (two_zpow_pos k)
  have hg : binade x - 52 ≤ k := by
    by_contra hc
    have hc2 : k + 53 ≤ binade x := by omega
    have hb : -1022 < binade x := by omega
    have hl : binade x = Int.log 2 |x| := by
      unfold binade at hb ⊢
      rcases max_cases (Int.log 2 |x|) (-1022) with ⟨e, _⟩ | ⟨e, _⟩
      · exact e
      · rw [e] at hb
        exact absurd hb (lt_irrefl _)
    have hpos : 0 < |x| := abs_pos.mpr hx0
    have h3 : (2 : K) ^ (k + 53) ≤ |x| := by
      have := (Int.zpow_le_iff_le_log (b := 2) (by norm_num) (x := k + 53) hpos).mpr
        (by omega)
      simpa using this
    have h4 : |x| < 2 ^ (k + 53) := by
      rw [hx, abs_mul, hk2, zpow_add₀ (by norm_num : (2 : K) ≠ 0), mul_comm ((2 : K) ^ k)]
      apply mul_lt_mul_of_pos_right _ (two_zpow_pos k)
      have h5 : ((|m| : ℤ) : K) < ((2 ^ 53 : ℤ) : K) := Int.cast_lt.mpr hm
      rw [Int.cast_abs] at h5
      norm_num at h5 ⊢
      exact h5
    exact absurd h3 (not_le.mpr h4)
  generalize binade x = b at hg
  obtain ⟨j, hj⟩ : ∃ j : ℕ, k = b - 52 + j := ⟨(k - (b - 52)).toNat, by omega⟩
  have e1 : x / 2 ^ (b - 52) = ((m * 2 ^ j : ℤ) : K) := by
    rw [hx, hj, zpow_add₀ (by norm_num : (2 : K) ≠ 0)]
    push_cast
    have := (two_zpow_pos (K := K) (b - 52)).ne'
    rw [zpow_natCast]
    field_simp
    ring
  rw [e1, roundHalfEven_intCast, ← e1]
  exact div_mul_cancel₀ _ (two_zpow_pos _).ne'

theorem abs_roundDouble_sub_le_grid (x : K) :
    |roundDouble x - x| ≤ 2 ^ (binade x - 53) := by
  rw [roundDouble_def]
  have hg := two_zpow_pos (K := K) (binade x - 52)
  have e : (roundHalfEven (x / 2 ^ (binade x - 52)) : K) * 2 ^ (binade x - 52) - x =
      ((roundHalfEven (x / 2 ^ (binade x - 52)) : K) - x / 2 ^ (binade x - 52)) *
        2 ^ (binade x - 52) := by
    field_simp
  rw [e, abs_mul, abs_of_pos hg]
  have h := abs_roundHalfEven_sub_le (x / 2 ^ (binade x - 52))
  have e2 : (2 : K) ^ (binade x - 53) = 1 / 2 * 2 ^ (binade x - 52) := by
    rw [show binade x - 53 = binade x - 52 + -1 by ring,
      zpow_add₀ (by norm_num : (2 : K) ≠ 0)]
    norm_num
    ring
  rw [e2]
  exact mul_le_mul_of_nonneg_right h hg.le

/-- The rounding error of `roundDouble`: relative error `2 ^ -53`, or absolute error
`2 ^ -1075` in the subnormal range. -/
theorem abs_roundDouble_sub_le (x : K) :
    |roundDouble x - x| ≤ 2 ^ (-53 : ℤ) * |x| + 2 ^ (-1075 : ℤ) := by
  have h := abs_roundDouble_sub_le_grid x
  have h0 : (0 : K) ≤ 2 ^ (-53 : ℤ) * |x| := mul_nonneg (two_zpow_pos _).le (abs_nonneg x)
  by_cases hx : x = 0
  · rw [hx, roundDouble_zero, sub_zero, abs_zero, mul_zero, zero_add]
    exact (two_zpow_pos _).le
  by_cases hs : |x| < 2 ^ (-1022 : ℤ)
  · rw [binade_subnormal x hx hs, show (-1022 : ℤ) - 53 = -1075 by norm_num] at h
    linarith
  · have hb := binade_le_abs x (not_lt.mp hs)
    have e : (2 : K) ^ (binade x - 53) = 2 ^ (-53 : ℤ) * 2 ^ binade x := by
      rw [← zpow_add₀ (by norm_num : (2 : K) ≠ 0)]
      congr 1
      ring
    rw [e] at h
    have h3 : (2 : K) ^ (-53 : ℤ) * 2 ^ binade x ≤ 2 ^ (-53 : ℤ) * |x| :=
      mul_le_mul_of_nonneg_left hb (two_zpow_pos _).le
    have h4 := (two_zpow_pos (K := K) (-1075)).le
    linarith

theorem roundDouble_nonneg (x : K) (h : 0 ≤ x) : 0 ≤ roundDouble x := by
  rw [roundDouble_def]
  apply mul_nonneg _ (two_zpow_pos _).le
  have : 0 ≤ roundHalfEven (x / 2 ^ (binade x - 52)) :=
    roundHalfEven_nonneg _ (div_nonneg h (two_zpow_pos _).le)
  exact_mod_cast this

theorem roundDouble_neg (x : K) : roundDouble (-x) = -roundDouble x := by
  rw [roundDouble_def, roundDouble_def, binade_neg, neg_div, roundHalfEven_neg]
  push_cast
  ring

theorem roundDouble_idem (x : K) : roundDouble (roundDouble x) = roundDouble x := by
  have hg := two_zpow_pos (K := K) (binade x - 52)
  have hlt : |x / 2 ^ (binade x - 52)| < 2 ^ 53 := by
    rw [abs_div, abs_of_pos hg, div_lt_iff₀ hg]
    have h := abs_lt_binade x
    have e : (2 : K) ^ (binade x + 1) = 2 ^ 53 * 2 ^ (binade x - 52) := by
      rw [← zpow_natCast, ← zpow_add₀ (by norm_num : (2 : K) ≠ 0)]
      congr 1
      push_cast
      ring
    rw [← e]
    exact h
  rw [abs_lt] at hlt
  have hfl1 : -(2 ^ 53 : ℤ) ≤ ⌊x / 2 ^ (binade x - 52)⌋ := by
    rw [Int.le_floor]
    simp only [Int.cast_neg, Int.cast_pow, Int.cast_ofNat]
    exact hlt.1.le
  have hfl2 : ⌊x / 2 ^ (binade x - 52)⌋ < (2 ^ 53 : ℤ) := by
    rw [Int.floor_lt]
    simp only [Int.cast_pow, Int.cast_ofNat]
    exact hlt.2
  have hr1 := floor_le_roundHalfEven (x / 2 ^ (binade x - 52))
  have hr2 := roundHalfEven_le_floor_add_one (x / 2 ^ (binade x - 52))
  have hb := binade_ge x
  have e53 : (((2 : ℤ) ^ 53 : ℤ) : K) = (2 : K) ^ (53 : ℤ) := by norm_num
  by_cases hc : |roundHalfEven (x / 2 ^ (binade x - 52))| < 2 ^ 53
  · exact roundDouble_fixed _ _ (binade x - 52) (roundDouble_def x) hc (by omega)
  · have hc2 : roundHalfEven (x / 2 ^ (binade x - 52)) = 2 ^ 53 ∨
        roundHalfEven (x / 2 ^ (binade x - 52)) = -2 ^ 53 := by
      rcases abs_cases (roundHalfEven (x / 2 ^ (binade x - 52))) with ⟨e, _⟩ | ⟨e, _⟩
      · rw [e] at hc
        left
        omega
      · rw [e] at hc
        right
        omega
    rcases hc2 with e | e
    · apply roundDouble_fixed _ 1 (binade x + 1) _ (by norm_num) (by omega)
      rw [roundDouble_def, e, Int.cast_one, one_mul, e53,
        ← zpow_add₀ (by norm_num : (2 : K) ≠ 0)]
      congr 1
      ring
    · apply roundDouble_fixed _ (-1) (binade x + 1) _ (by norm_num) (by omega)
      rw [roundDouble_def, e, Int.cast_neg, Int.cast_neg, Int.cast_one, neg_mul, neg_mul,
        one_mul, e53, ← zpow_add₀ (by norm_num : (2 : K) ≠ 0)]
      congr 2
      ring


end Rounding


/-! ### Rounding error of the collision response -/

section Analysis

variable {fl sqrtF cosF sinF : ℝ → ℝ} {atan2F : ℝ → ℝ → ℝ} {u ρ ε Ω B : ℝ}

/-- The error and the magnitude of a rounded number of magnitude at most `M`. -/
theorem IsRounding.bound (hfl : IsRounding fl u ρ Ω) (hu0 : 0 ≤ u) (x M : ℝ) (hx : |x| ≤ M)
    (hM : M ≤ Ω) : |fl x - x| ≤ u * M + ρ * ρ ∧ |fl x| ≤ M + (u * M + ρ * ρ) := by
  have h1 := hfl.error x (le_trans hx hM)
  have h2 : u * |x| ≤ u * M := mul_le_mul_of_nonneg_left hx hu0
  have h3 : |fl x - x| ≤ u * M + ρ * ρ := by linarith
  refine ⟨h3, ?_⟩
  have h4 : |fl x| ≤ |fl x - x| + |x| := by
    have := abs_add (fl x - x) x
    simpa using this
  linarith

/-- Two non-negative numbers whose squares are close are close. -/
theorem abs_sub_le_of_sq_close (t h u ρ : ℝ) (ht : 0 ≤ t) (hh : 0 ≤ h) (hu0 : 0 ≤ u)
    (hρ0 : 0 ≤ ρ) (hsq : |t * t - h * h| ≤ 3 * u * (h * h) + 4 * (ρ * ρ)) :
    |t - h| ≤ 3 * u * h + 2 * ρ := by
  rw [abs_le] at hsq ⊢
  obtain ⟨h1, h2⟩ := hsq
  have hw : 0 ≤ 3 * u * h + 2 * ρ := by positivity
  constructor
  · by_contra hc
    have hc : t - h < -(3 * u * h + 2 * ρ) := not_le.mp hc
    have h3 : 2 * ρ ≤ h := by nlinarith
    nlinarith [mul_nonneg hu0 (mul_nonneg hh hh), mul_nonneg hρ0 hρ0, mul_nonneg hu0 hh,
      mul_nonneg hρ0 hh, mul_nonneg (mul_nonneg hu0 hh) ht]
  · by_contra hc
    have hc : 3 * u * h + 2 * ρ < t - h := not_le.mp hc
    nlinarith [mul_nonneg hu0 (mul_nonneg hh hh), mul_nonneg hρ0 hρ0, mul_nonneg hu0 hh,
      mul_nonneg hρ0 hh, mul_nonneg hw hw]

/-- The computed distance is close to the length of the computed difference vector. -/
theorem distance_error (hfl : IsRounding fl u ρ Ω) (hm : IsMath sqrtF cosF sinF atan2F u ρ ε Ω)
    (hu0 : 0 ≤ u) (hu : u ≤ 1 / 64) (hρ0 : 0 ≤ ρ) (hρ : ρ ≤ 1 / 64) (hB : 1 ≤ B)
    (hΩ : 32 * (B * B) ≤ Ω) (a b : ℝ) (ha : |a| ≤ 3 * B) (hb : |b| ≤ 3 * B) :
    |sqrtF (fl (fl (a * a) + fl (b * b))) - √(a * a + b * b)| ≤
        5 * u * √(a * a + b * b) + 3 * ρ ∧
      (0 < sqrtF (fl (fl (a * a) + fl (b * b))) → 0 < √(a * a + b * b)) := by
  have haa : 0 ≤ a * a := mul_self_nonneg a
  have hbb : 0 ≤ b * b := mul_self_nonneg b
  have haa2 : a * a ≤ 9 * (B * B) := by
    have := abs_le.mp ha
    nlinarith
  have hbb2 : b * b ≤ 9 * (B * B) := by
    have := abs_le.mp hb
    nlinarith
  have hBB : 1 ≤ B * B := by nlinarith
  have hρρ : ρ * ρ ≤ 1 / 4096 := by nlinarith
  have hρρ0 : 0 ≤ ρ * ρ := mul_nonneg hρ0 hρ0
  have hP := hfl.error (a * a) (by rw [abs_of_nonneg haa]; linarith)
  have hQ := hfl.error (b * b) (by rw [abs_of_nonneg hbb]; linarith)
  rw [abs_of_nonneg haa] at hP
  rw [abs_of_nonneg hbb] at hQ
  have hP0 := hfl.nonneg _ haa
  have hQ0 := hfl.nonneg _ hbb
  have hzP : a * a = 0 → fl (a * a) = 0 := fun e => by rw [e, hfl.zero]
  have hzQ : b * b = 0 → fl (b * b) = 0 := fun e => by rw [e, hfl.zero]
  generalize fl (a * a) = P at hP hP0 hzP
  generalize fl (b * b) = Q at hQ hQ0 hzQ
  rw [abs_le] at hP hQ
  have huaa : u * (a * a) ≤ 1 / 64 * (a * a) := mul_le_mul_of_nonneg_right hu haa
  have hubb : u * (b * b) ≤ 1 / 64 * (b * b) := mul_le_mul_of_nonneg_right hu hbb
  have huaa0 : 0 ≤ u * (a * a) := mul_nonneg hu0 haa
  have hubb0 : 0 ≤ u * (b * b) := mul_nonneg hu0 hbb
  have hS0 : 0 ≤ P + Q := add_nonneg hP0 hQ0
  have hS1 : P + Q ≤ 19 * (B * B) := by linarith
  have hS := hfl.error (P + Q) (by rw [abs_of_nonneg hS0]; linarith)
  rw [abs_of_nonneg hS0] at hS
  have hs0 := hfl.nonneg _ hS0
  have hzS : P + Q = 0 → fl (P + Q) = 0 := fun e => by rw [e, hfl.zero]
  generalize fl (P + Q) = s at hS hs0 hzS
  rw [abs_le] at hS
  have huS : u * (P + Q) ≤ 1 / 64 * (P + Q) := mul_le_mul_of_nonneg_right hu hS0
  have huS0 : 0 ≤ u * (P + Q) := mul_nonneg hu0 hS0
  have hs1 : s ≤ Ω := by linarith
  have ht := hm.sqrt_error s (√s) (Real.sqrt_nonneg s) (Real.mul_self_sqrt hs0) hs1
  have hh0 : 0 ≤ √(a * a + b * b) := Real.sqrt_nonneg _
  have hhh : √(a * a + b * b) * √(a * a + b * b) = a * a + b * b :=
    Real.mul_self_sqrt (add_nonneg haa hbb)
  have hts : √s * √s = s := Real.mul_self_sqrt hs0
  have ht0 : 0 ≤ √s := Real.sqrt_nonneg s
  have hsq : |√s * √s - √(a * a + b * b) * √(a * a + b * b)| ≤
      3 * u * (√(a * a + b * b) * √(a * a + b * b)) + 4 * (ρ * ρ) := by
    rw [hts, hhh, abs_le]
    have e1 : u * (P + Q) ≤ u * ((1 + u) * (a * a + b * b) + 2 * (ρ * ρ)) :=
      mul_le_mul_of_nonneg_left (by linarith) hu0
    have e2 : u * (u * (a * a + b * b)) ≤ 1 / 64 * (u * (a * a + b * b)) :=
      mul_le_mul_of_nonneg_right hu (by positivity)
    have e3 : u * (ρ * ρ) ≤ 1 / 64 * (ρ * ρ) := mul_le_mul_of_nonneg_right hu hρρ0
    constructor <;> linarith
  have hcl := abs_sub_le_of_sq_close _ _ u ρ ht0 hh0 hu0 hρ0 hsq
  constructor
  · generalize √(a * a + b * b) = h at hcl hh0
    generalize √s = t at ht hcl ht0
    rw [abs_le] at ht hcl ⊢
    have e1 : u * t ≤ u * (h + (3 * u * h + 2 * ρ)) :=
      mul_le_mul_of_nonneg_left (by linarith) hu0
    have e2 : u * (u * h) ≤ 1 / 64 * (u * h) :=
      mul_le_mul_of_nonneg_right hu (mul_nonneg hu0 hh0)
    have e3 : u * ρ ≤ 1 / 64 * ρ := mul_le_mul_of_nonneg_right hu hρ0
    have e4 : ρ * ρ ≤ 1 / 64 * ρ := mul_le_mul_of_nonneg_right hρ hρ0
    have e5 : 0 ≤ u * h := mul_nonneg hu0 hh0
    have e6 : 0 ≤ u * t := mul_nonneg hu0 ht0
    constructor <;> linarith
  · intro hpos
    by_contra hc
    have hz : a * a + b * b = 0 := by
      have : √(a * a + b * b) = 0 := le_antisymm (not_lt.mp hc) hh0
      rw [← hhh, this, mul_zero]
    have ha0 : a * a = 0 := by linarith
    have hb0 : b * b = 0 := by linarith
    have hs : s = 0 := hzS (by rw [hzP ha0, hzQ hb0, add_zero])
    rw [hs, hm.sqrt_zero] at hpos
    exact lt_irrefl _ hpos

/-- The displacement of the two players along one axis: the computed centre difference
`fl (x1 - x2)` grows by the share `n * D` of the overlap `D`, up to rounding. -/
theorem axis_error (hfl : IsRounding fl u ρ Ω) (hu0 : 0 ≤ u) (hu : u ≤ 1 / 64) (hρ0 : 0 ≤ ρ)
    (hρ : ρ ≤ 1 / 64) (hε0 : 0 ≤ ε) (hε : ε ≤ 1 / 64) (hB : 1 ≤ B) (hΩ : 32 * (B * B) ≤ Ω)
    (x1 x2 c n D : ℝ) (hx1 : |x1| ≤ B) (hx2 : |x2| ≤ B) (hc : |c - n| ≤ ε) (hn : |n| ≤ 1)
    (hD0 : 0 ≤ D) (hD : D ≤ 2 * B) :
    |fl (x1 + fl (fl (c * fl D) * (1 / 2))) - fl (x2 - fl (fl (c * fl D) * (1 / 2))) -
        (fl (x1 - x2) + n * D)| ≤ 32 * (u * B) + 2 * (ε * B) + 8 * (ρ * ρ) ∧
      |fl (x1 + fl (fl (c * fl D) * (1 / 2))) - (x1 + n * D / 2)| ≤
        15 * (u * B) + ε * B + 4 * (ρ * ρ) ∧
      |fl (x2 - fl (fl (c * fl D) * (1 / 2))) - (x2 - n * D / 2)| ≤
        15 * (u * B) + ε * B + 4 * (ρ * ρ) := by
  have hBB : B ≤ B * B := by nlinarith
  have hB0 : 0 ≤ B := by linarith
  have hρρ : ρ * ρ ≤ 1 / 4096 := by nlinarith
  have hρρ0 : 0 ≤ ρ * ρ := mul_nonneg hρ0 hρ0
  have huB : u * B ≤ 1 / 64 * B := mul_le_mul_of_nonneg_right hu hB0
  have huB0 : 0 ≤ u * B := mul_nonneg hu0 hB0
  have hεB : ε * B ≤ 1 / 64 * B := mul_le_mul_of_nonneg_right hε hB0
  have hεB0 : 0 ≤ ε * B := mul_nonneg hε0 hB0
  -- the difference of the coordinates
  have ha : |x1 - x2| ≤ 2 * B := by
    rw [abs_le] at hx1 hx2 ⊢
    constructor <;> linarith
  obtain ⟨ha1, -⟩ := hfl.bound hu0 (x1 - x2) (2 * B) ha (by linarith)
  generalize fl (x1 - x2) = ah at ha1
  -- the overlap
  obtain ⟨hov1, hov2⟩ := hfl.bound hu0 D (2 * B) (by rw [abs_of_nonneg hD0]; exact hD)
    (by linarith)
  generalize fl D = ov at hov1 hov2
  have hov3 : |ov| ≤ 3 * B := by linarith
  -- the product with the direction
  have hc2 : |c| ≤ 2 := by
    rw [abs_le] at hc hn ⊢
    constructor <;> linarith
  have hg : |c * ov| ≤ 6 * B := by
    rw [abs_mul]
    calc |c| * |ov| ≤ 2 * (3 * B) := mul_le_mul hc2 hov3 (abs_nonneg _) (by norm_num)
      _ = 6 * B := by ring
  obtain ⟨hG1, hG2⟩ := hfl.bound hu0 (c * ov) (6 * B) hg (by linarith)
  generalize fl (c * ov) = G at hG1 hG2
  have hG3 : |G * (1 / 2)| ≤ 4 * B := by
    rw [abs_mul, abs_of_pos (by norm_num : (0 : ℝ) < 1 / 2)]
    linarith
  obtain ⟨hs1, hs2⟩ := hfl.bound hu0 (G * (1 / 2)) (4 * B) hG3 (by linarith)
  generalize fl (G * (1 / 2)) = sx at hs1 hs2
  have hs3 : |sx| ≤ 5 * B := by linarith
  have hX1 : |x1 + sx| ≤ 6 * B := by
    rw [abs_le] at hx1 hs3 ⊢
    constructor <;> linarith
  have hX2 : |x2 - sx| ≤ 6 * B := by
    rw [abs_le] at hx2 hs3 ⊢
    constructor <;> linarith
  obtain ⟨hX1e, -⟩ := hfl.bound hu0 (x1 + sx) (6 * B) hX1 (by linarith)
  obtain ⟨hX2e, -⟩ := hfl.bound hu0 (x2 - sx) (6 * B) hX2 (by linarith)
  generalize fl (x1 + sx) = X1 at hX1e
  generalize fl (x2 - sx) = X2 at hX2e
  -- the share of the overlap
  have hp1 : |c * (ov - D)| ≤ 2 * (u * (2 * B) + ρ * ρ) := by
    rw [abs_mul]
    exact mul_le_mul hc2 hov1 (abs_nonneg _) (by norm_num)
  have hp2 : |(c - n) * D| ≤ ε * (2 * B) := by
    rw [abs_mul, abs_of_nonneg hD0]
    exact mul_le_mul hc hD hD0 hε0
  rw [abs_le] at ha1 hG1 hs1 hX1e hX2e hp1 hp2
  refine ⟨?_, ?_, ?_⟩
  · rw [abs_le]
    constructor <;> linarith
  · rw [abs_le]
    constructor <;> linarith
  · rw [abs_le]
    constructor <;> linarith

/-- The length of a vector that differs by `(ex, ey)` from a vector of length `M`. -/
theorem sqrt_add_ge (wx wy ex ey M : ℝ) (hw : wx * wx + wy * wy = M * M) (hM : 0 ≤ M) :
    M - (|ex| + |ey|) ≤ √((wx + ex) * (wx + ex) + (wy + ey) * (wy + ey)) := by
  by_cases hneg : M - (|ex| + |ey|) ≤ 0
  · exact le_trans hneg (Real.sqrt_nonneg _)
  · have hpos : 0 < M - (|ex| + |ey|) := not_le.mp hneg
    apply Real.le_sqrt_of_sq_le
    have hn0 : 0 ≤ √(ex * ex + ey * ey) := Real.sqrt_nonneg _
    have hnn : √(ex * ex + ey * ey) * √(ex * ex + ey * ey) = ex * ex + ey * ey :=
      Real.mul_self_sqrt (add_nonneg (mul_self_nonneg _) (mul_self_nonneg _))
    have hnt : √(ex * ex + ey * ey) ≤ |ex| + |ey| := by
      apply Real.sqrt_le_iff.mpr
      refine ⟨by positivity, ?_⟩
      have h1 : ex * ex = |ex| * |ex| := (abs_mul_abs_self ex).symm
      have h2 : ey * ey = |ey| * |ey| := (abs_mul_abs_self ey).symm
      nlinarith [abs_nonneg ex, abs_nonneg ey, mul_nonneg (abs_nonneg ex) (abs_nonneg ey)]
    generalize √(ex * ex + ey * ey) = n at hn0 hnn hnt
    have hcs : -(M * n) ≤ wx * ex + wy * ey := by
      have h1 : (wx * ex + wy * ey) * (wx * ex + wy * ey) ≤ (M * n) * (M * n) := by
        nlinarith [sq_nonneg (wx * ey - wy * ex)]
      have h2 : 0 ≤ M * n := mul_nonneg hM hn0
      nlinarith [abs_le_of_sq_le_sq' (by nlinarith : (wx * ex + wy * ey) ^ 2 ≤ (M * n) ^ 2) h2]
    nlinarith [mul_nonneg hn0 (abs_nonneg ex)]

end Analysis



/-! ### Player-player collision with rounding -/

theorem checkPlayerCollision_of_overlapping (fl sqrt cos sin : K → K) (atan2 : K → K → K)
    (p1 p2 : Player K) (h : Overlapping fl sqrt p1 p2) :
    checkPlayerCollision fl sqrt cos sin atan2 p1 p2 =
      ({ p1 with
          x := fl (p1.x + separation fl sqrt cos atan2 p1 p2)
          y := fl (p1.y + separation fl sqrt sin atan2 p1 p2)
          vx := fl (p1.vx + impulse fl cos atan2 p1 p2)
          vy := fl (p1.vy + impulse fl sin atan2 p1 p2) },
       { p2 with
          x := fl (p2.x - separation fl sqrt cos atan2 p1 p2)
          y := fl (p2.y - separation fl sqrt sin atan2 p1 p2)
          vx := fl (p2.vx - impulse fl cos atan2 p1 p2)
          vy := fl (p2.vy - impulse fl sin atan2 p1 p2) }) := by
  unfold checkPlayerCollision
  exact if_pos h

theorem isRounding_roundDouble (Ω : ℝ) :
    IsRounding (roundDouble : ℝ → ℝ) (2 ^ (-53 : ℤ)) (2 ^ (-537 : ℤ)) Ω := by
  refine ⟨roundDouble_zero, roundDouble_nonneg, roundDouble_neg, ?_⟩
  intro x _
  have h := abs_roundDouble_sub_le x
  have e : (2 : ℝ) ^ (-1075 : ℤ) ≤ 2 ^ (-537 : ℤ) * 2 ^ (-537 : ℤ) := by
    rw [← zpow_add₀ (by norm_num : (2 : ℝ) ≠ 0)]
    exact zpow_le_zpow_right₀ (by norm_num) (by norm_num)
  linarith

theorem abs_cos_sub_cos_le (a b : ℝ) : |Real.cos a - Real.cos b| ≤ |a - b| := by
  rw [Real.cos_sub_cos, abs_mul, abs_mul]
  have h1 : |Real.sin ((a + b) / 2)| ≤ 1 := Real.abs_sin_le_one _
  have h2 : |Real.sin ((a - b) / 2)| ≤ |(a - b) / 2| := Real.abs_sin_le_abs
  have h3 : |(a - b) / 2| = |a - b| / 2 := by
    rw [abs_div, abs_of_pos (by norm_num : (0 : ℝ) < 2)]
  rw [h3] at h2
  have h4 : |(-2 : ℝ)| = 2 := by norm_num
  rw [h4]
  nlinarith [abs_nonneg (Real.sin ((a + b) / 2)), abs_nonneg (Real.sin ((a - b) / 2)),
    abs_nonneg (a - b)]

theorem abs_sin_sub_sin_le (a b : ℝ) : |Real.sin a - Real.sin b| ≤ |a - b| := by
  rw [Real.sin_sub_sin, abs_mul, abs_mul]
  have h1 : |Real.cos ((a + b) / 2)| ≤ 1 := Real.abs_cos_le_one _
  have h2 : |Real.sin ((a - b) / 2)| ≤ |(a - b) / 2| := Real.abs_sin_le_abs
  have h3 : |(a - b) / 2| = |a - b| / 2 := by
    rw [abs_div, abs_of_pos (by norm_num : (0 : ℝ) < 2)]
  rw [h3] at h2
  have h4 : |(2 : ℝ)| = 2 := by norm_num
  rw [h4]
  nlinarith [abs_nonneg (Real.cos ((a + b) / 2)), abs_nonneg (Real.sin ((a - b) / 2)),
    abs_nonneg (a - b)]

/-- A 1-Lipschitz function of the rounded angle, rounded, is within `2 ^ -50` of its value
at the exact angle. -/
theorem abs_roundDouble_trig_sub_le (f : ℝ → ℝ) (hf1 : ∀ a, |f a| ≤ 1)
    (hf : ∀ a b, |f a - f b| ≤ |a - b|) (θ : ℝ) (hθ : |θ| ≤ 4) :
    |roundDouble (f (roundDouble θ)) - f θ| ≤ 2 ^ (-50 : ℤ) := by
  have h1 := abs_roundDouble_sub_le (f (roundDouble θ))
  have h2 := abs_roundDouble_sub_le θ
  have h3 := hf (roundDouble θ) θ
  have h4 := hf1 (roundDouble θ)
  have e1 : (2 : ℝ) ^ (-53 : ℤ) = 1 / 9007199254740992 := by norm_num
  have e2 : (2 : ℝ) ^ (-50 : ℤ) = 1 / 1125899906842624 := by norm_num
  have e3 : (2 : ℝ) ^ (-1075 : ℤ) ≤ 2 ^ (-53 : ℤ) :=
    zpow_le_zpow_right₀ (by norm_num) (by norm_num)
  rw [e1] at h1 h2 e3
  rw [e2]
  generalize (2 : ℝ) ^ (-1075 : ℤ) = η at h1 h2 e3
  have h5 : |roundDouble (f (roundDouble θ)) - f θ| ≤
      |roundDouble (f (roundDouble θ)) - f (roundDouble θ)| + |f (roundDouble θ) - f θ| := by
    have := abs_add (roundDouble (f (roundDouble θ)) - f (roundDouble θ))
      (f (roundDouble θ) - f θ)
    simpa using this
  have h6 : 1 / 9007199254740992 * |f (roundDouble θ)| ≤ 1 / 9007199254740992 * 1 :=
    mul_le_mul_of_nonneg_left h4 (by norm_num)
  have h7 : 1 / 9007199254740992 * |θ| ≤ 1 / 9007199254740992 * 4 :=
    mul_le_mul_of_nonneg_left hθ (by norm_num)
  linarith

theorem isMath_correctlyRounded (Ω : ℝ) :
    IsMath (correctlyRounded roundDouble Real.sqrt) (correctlyRounded roundDouble Real.cos)
      (correctlyRounded roundDouble Real.sin)
      (roundedAtan2 roundDouble (fun y x => Complex.arg ⟨x, y⟩))
      (2 ^ (-53 : ℤ)) (2 ^ (-537 : ℤ)) (2 ^ (-50 : ℤ)) Ω := by
  have hπ : ∀ z : ℂ, |Complex.arg z| ≤ 4 := fun z =>
    le_trans (Complex.abs_arg_le_pi z) Real.pi_le_four
  have habs : ∀ x y h : ℝ, 0 < h → h * h = x * x + y * y →
      Complex.abs ⟨x, y⟩ = h ∧ (⟨x, y⟩ : ℂ) ≠ 0 := by
    intro x y h hpos hh
    have e : Complex.abs ⟨x, y⟩ = h := by
      rw [Complex.abs_apply, Complex.normSq_mk, ← hh]
      exact Real.sqrt_mul_self hpos.le
    refine ⟨e, ?_⟩
    intro hz
    rw [hz, map_zero] at e
    exact absurd e.symm (ne_of_gt hpos)
  constructor
  · show roundDouble (Real.sqrt 0) = 0
    rw [Real.sqrt_zero, roundDouble_zero]
  · intro x s hs hx _
    show |roundDouble (Real.sqrt x) - s| ≤ _
    have e : Real.sqrt x = s := by
      rw [← hx]
      exact Real.sqrt_mul_self hs
    rw [e]
    have h := (isRounding_roundDouble (|s|)).error s (le_refl _)
    rw [abs_of_nonneg hs] at h
    exact h
  · intro y x h hpos hh
    obtain ⟨e, hne⟩ := habs x y h hpos hh
    show |roundDouble (Real.cos (roundDouble (Complex.arg ⟨x, y⟩))) - x / h| ≤ _
    have hc : x / h = Real.cos (Complex.arg ⟨x, y⟩) := by
      rw [Complex.cos_arg hne, e]
    rw [hc]
    exact abs_roundDouble_trig_sub_le Real.cos Real.abs_cos_le_one abs_cos_sub_cos_le _ (hπ _)
  · intro y x h hpos hh
    obtain ⟨e, -⟩ := habs x y h hpos hh
    show |roundDouble (Real.sin (roundDouble (Complex.arg ⟨x, y⟩))) - y / h| ≤ _
    have hc : y / h = Real.sin (Complex.arg ⟨x, y⟩) := by
      rw [Complex.sin_arg, e]
    rw [hc]
    exact abs_roundDouble_trig_sub_le Real.sin Real.abs_sin_le_one abs_sin_sub_sin_le _ (hπ _)

section Tolerance

variable {fl sqrt cos sin : ℝ → ℝ} {atan2 : ℝ → ℝ → ℝ} {u ρ ε Ω B : ℝ}

/-- When the computed distance is positive, the vector `(dx, dy)` is not zero. -/
theorem differenceLength_pos (hfl : IsRounding fl u ρ Ω)
    (hm : IsMath sqrt cos sin atan2 u ρ ε Ω) (p1 p2 : Player ℝ)
    (hpos : 0 < collisionDistance fl sqrt p1 p2) :
    0 < differenceLength fl Real.sqrt p1 p2 := by
  unfold differenceLength
  unfold collisionDistance at hpos
  by_contra hc
  have h0 : 0 ≤ fl (p1.x - p2.x) * fl (p1.x - p2.x) := mul_self_nonneg _
  have h1 : 0 ≤ fl (p1.y - p2.y) * fl (p1.y - p2.y) := mul_self_nonneg _
  have hz : fl (p1.x - p2.x) * fl (p1.x - p2.x) + fl (p1.y - p2.y) * fl (p1.y - p2.y) = 0 := by
    have h2 := Real.sqrt_nonneg
      (fl (p1.x - p2.x) * fl (p1.x - p2.x) + fl (p1.y - p2.y) * fl (p1.y - p2.y))
    have h3 := Real.mul_self_sqrt (add_nonneg h0 h1)
    rw [le_antisymm (not_lt.mp hc) h2, mul_zero] at h3
    exact h3.symm
  have ha : fl (p1.x - p2.x) * fl (p1.x - p2.x) = 0 := by linarith
  have hb : fl (p1.y - p2.y) * fl (p1.y - p2.y) = 0 := by linarith
  rw [ha, hb, hfl.zero, add_zero, hfl.zero, hm.sqrt_zero] at hpos
  exact lt_irrefl _ hpos

theorem differenceLength_mul_self (fl : ℝ → ℝ) (p1 p2 : Player ℝ) :
    differenceLength fl Real.sqrt p1 p2 * differenceLength fl Real.sqrt p1 p2 =
      fl (p1.x - p2.x) * fl (p1.x - p2.x) + fl (p1.y - p2.y) * fl (p1.y - p2.y) :=
  Real.mul_self_sqrt (add_nonneg (mul_self_nonneg _) (mul_self_nonneg _))

/-- The components of the unit vector along `(dx, dy)` are at most 1 in magnitude. -/
theorem abs_div_length_le (a b h : ℝ) (hpos : 0 < h) (hh : h * h = a * a + b * b) :
    |a / h| ≤ 1 ∧ |b / h| ≤ 1 := by
  have ha : |a| ≤ h := abs_le.mpr (abs_le_of_sq_le_sq' (by nlinarith [mul_self_nonneg b]) hpos.le)
  have hb : |b| ≤ h := abs_le.mpr (abs_le_of_sq_le_sq' (by nlinarith [mul_self_nonneg a]) hpos.le)
  constructor
  · rw [abs_div, abs_of_pos hpos]
    exact (div_le_one hpos).mpr ha
  · rw [abs_div, abs_of_pos hpos]
    exact (div_le_one hpos).mpr hb

/-- The length of the vector `(dx, dy)` is at most `6 * B` on a court of size `B`. -/
theorem length_le (a b h : ℝ) (hh0 : 0 ≤ h) (hh : h * h = a * a + b * b) (ha : |a| ≤ 3 * B)
    (hb : |b| ≤ 3 * B) : h ≤ 6 * B := by
  have h1 := abs_le.mp ha
  have h2 := abs_le.mp hb
  have hB : 0 ≤ B := by
    have := abs_nonneg a
    linarith
  by_contra hc
  have hc : 6 * B < h := not_le.mp hc
  nlinarith

/-- C11 (amended): for two players on a court of size `B` that pass the overlap test of
`checkPlayerCollision` (the computed distance lies strictly between 0 and the computed sum
of the radii), the centre distance after the call is at least `r1 + r2` up to the rounding
tolerance `(96 u + 4 ε) B + 4 ρ`, where `u` is the relative rounding error of the
arithmetic, `ρ²` its absolute error on underflow and `ε` the error of `cos` and `sin` of
`atan2`; each player has been moved by half the penetration depth `minDistance - distance`
along the unit vector of the centre difference `(dx, dy)`, up to the tolerance
`(15 u + ε) B + 4 ρ²`. For binary64 arithmetic on a court of size 1024 the first
tolerance is below `2 ^ -35`. -/
theorem checkPlayerCollision_separates_up_to_rounding (fl sqrt cos sin : ℝ → ℝ)
    (atan2 : ℝ → ℝ → ℝ) (u ρ ε Ω B : ℝ) (hfl : IsRounding fl u ρ Ω)
    (hm : IsMath sqrt cos sin atan2 u ρ ε Ω) (hu0 : 0 ≤ u) (hu : u ≤ 1 / 64) (hρ0 : 0 ≤ ρ)
    (hρ : ρ ≤ 1 / 64) (hε0 : 0 ≤ ε) (hε : ε ≤ 1 / 64) (hB : 1 ≤ B) (hΩ : 32 * (B * B) ≤ Ω)
    (p1 p2 : Player ℝ) (hx1 : |p1.x| ≤ B) (hy1 : |p1.y| ≤ B) (hx2 : |p2.x| ≤ B)
    (hy2 : |p2.y| ≤ B) (hr1 : 0 ≤ p1.radius) (hr2 : 0 ≤ p2.radius)
    (hr : p1.radius + p2.radius ≤ B) (hov : Overlapping fl sqrt p1 p2) :
    p1.radius + p2.radius - ((96 * u + 4 * ε) * B + 4 * ρ) ≤
        centreDistance Real.sqrt (checkPlayerCollision fl sqrt cos sin atan2 p1 p2).1
          (checkPlayerCollision fl sqrt cos sin atan2 p1 p2).2 ∧
      |(checkPlayerCollision fl sqrt cos sin atan2 p1 p2).1.x -
          (p1.x + fl (p1.x - p2.x) / differenceLength fl Real.sqrt p1 p2 *
            penetration fl sqrt p1 p2 / 2)| ≤ (15 * u + ε) * B + 4 * (ρ * ρ) ∧
      |(checkPlayerCollision fl sqrt cos sin atan2 p1 p2).1.y -
          (p1.y + fl (p1.y - p2.y) / differenceLength fl Real.sqrt p1 p2 *
            penetration fl sqrt p1 p2 / 2)| ≤ (15 * u + ε) * B + 4 * (ρ * ρ) ∧
      |(checkPlayerCollision fl sqrt cos sin atan2 p1 p2).2.x -
          (p2.x - fl (p1.x - p2.x) / differenceLength fl Real.sqrt p1 p2 *
            penetration fl sqrt p1 p2 / 2)| ≤ (15 * u + ε) * B + 4 * (ρ * ρ) ∧
      |(checkPlayerCollision fl sqrt cos sin atan2 p1 p2).2.y -
          (p2.y - fl (p1.y - p2.y) / differenceLength fl Real.sqrt p1 p2 *
            penetration fl sqrt p1 p2 / 2)| ≤ (15 * u + ε) * B + 4 * (ρ * ρ) := by
  have hB0 : 0 ≤ B := by linarith
  have hBB : B ≤ B * B := by nlinarith
  have hρρ0 : 0 ≤ ρ * ρ := mul_nonneg hρ0 hρ0
  have hρρ : ρ * ρ ≤ 1 / 64 * ρ := mul_le_mul_of_nonneg_right hρ hρ0
  have huB : u * B ≤ 1 / 64 * B := mul_le_mul_of_nonneg_right hu hB0
  have huB0 : 0 ≤ u * B := mul_nonneg hu0 hB0
  have hεB0 : 0 ≤ ε * B := mul_nonneg hε0 hB0
  -- the centre difference
  have ha : |p1.x - p2.x| ≤ 2 * B := by
    rw [abs_le] at hx1 hx2 ⊢
    constructor <;> linarith
  have hb : |p1.y - p2.y| ≤ 2 * B := by
    rw [abs_le] at hy1 hy2 ⊢
    constructor <;> linarith
  have ha3 : |fl (p1.x - p2.x)| ≤ 3 * B := by
    have := (hfl.bound hu0 _ _ ha (by linarith)).2
    linarith
  have hb3 : |fl (p1.y - p2.y)| ≤ 3 * B := by
    have := (hfl.bound hu0 _ _ hb (by linarith)).2
    linarith
  -- the distance
  have hpos := differenceLength_pos hfl hm p1 p2 hov.2
  have hhh := differenceLength_mul_self fl p1 p2
  obtain ⟨hd, -⟩ := distance_error hfl hm hu0 hu hρ0 hρ hB hΩ _ _ ha3 hb3
  have hd : |collisionDistance fl sqrt p1 p2 - differenceLength fl Real.sqrt p1 p2| ≤
      5 * u * differenceLength fl Real.sqrt p1 p2 + 3 * ρ := hd
  have hh6 := length_le _ _ _ hpos.le hhh ha3 hb3
  obtain ⟨hn1, hn2⟩ := abs_div_length_le _ _ _ hpos hhh
  have hc := hm.cos_atan2 _ _ _ hpos hhh
  have hs := hm.sin_atan2 _ _ _ hpos hhh
  -- the radii and the penetration depth
  have hm1 := (hfl.bound hu0 (p1.radius + p2.radius) B
    (by rw [abs_of_nonneg (add_nonneg hr1 hr2)]; exact hr) (by linarith)).1
  have hm1 : |collisionMinDistance fl p1 p2 - (p1.radius + p2.radius)| ≤ u * B + ρ * ρ := hm1
  have hD0 : 0 ≤ penetration fl sqrt p1 p2 := by
    unfold penetration
    linarith [hov.1]
  have hD : penetration fl sqrt p1 p2 ≤ 2 * B := by
    unfold penetration
    have := hov.2
    have := (abs_le.mp hm1).2
    linarith
  obtain ⟨hax, hx1e, hx2e⟩ := axis_error hfl hu0 hu hρ0 hρ hε0 hε hB hΩ p1.x p2.x _ _ _
    hx1 hx2 hc hn1 hD0 hD
  obtain ⟨hay, hy1e, hy2e⟩ := axis_error hfl hu0 hu hρ0 hρ hε0 hε hB hΩ p1.y p2.y _ _ _
    hy1 hy2 hs hn2 hD0 hD
  rw [checkPlayerCollision_of_overlapping fl sqrt cos sin atan2 p1 p2 hov]
  refine ⟨?_, ?_, ?_, ?_, ?_⟩
  · have hw : (fl (p1.x - p2.x) + fl (p1.x - p2.x) / differenceLength fl Real.sqrt p1 p2 *
          penetration fl sqrt p1 p2) *
        (fl (p1.x - p2.x) + fl (p1.x - p2.x) / differenceLength fl Real.sqrt p1 p2 *
          penetration fl sqrt p1 p2) +
        (fl (p1.y - p2.y) + fl (p1.y - p2.y) / differenceLength fl Real.sqrt p1 p2 *
          penetration fl sqrt p1 p2) *
        (fl (p1.y - p2.y) + fl (p1.y - p2.y) / differenceLength fl Real.sqrt p1 p2 *
          penetration fl sqrt p1 p2) =
        (differenceLength fl Real.sqrt p1 p2 + penetration fl sqrt p1 p2) *
          (differenceLength fl Real.sqrt p1 p2 + penetration fl sqrt p1 p2) := by
      have hne := hpos.ne'
      field_simp
      linear_combination
        (differenceLength fl Real.sqrt p1 p2 + penetration fl sqrt p1 p2) ^ 2 * (-hhh)
    have hM : 0 ≤ differenceLength fl Real.sqrt p1 p2 + penetration fl sqrt p1 p2 :=
      add_nonneg hpos.le hD0
    have hlow := sqrt_add_ge _ _
      (fl (p1.x + separation fl sqrt cos atan2 p1 p2) -
        fl (p2.x - separation fl sqrt cos atan2 p1 p2) -
        (fl (p1.x - p2.x) + fl (p1.x - p2.x) / differenceLength fl Real.sqrt p1 p2 *
          penetration fl sqrt p1 p2))
      (fl (p1.y + separation fl sqrt sin atan2 p1 p2) -
        fl (p2.y - separation fl sqrt sin atan2 p1 p2) -
        (fl (p1.y - p2.y) + fl (p1.y - p2.y) / differenceLength fl Real.sqrt p1 p2 *
          penetration fl sqrt p1 p2)) _ hw hM
    have hax : |fl (p1.x + separation fl sqrt cos atan2 p1 p2) -
        fl (p2.x - separation fl sqrt cos atan2 p1 p2) -
        (fl (p1.x - p2.x) + fl (p1.x - p2.x) / differenceLength fl Real.sqrt p1 p2 *
          penetration fl sqrt p1 p2)| ≤ 32 * (u * B) + 2 * (ε * B) + 8 * (ρ * ρ) := hax
    have hay : |fl (p1.y + separation fl sqrt sin atan2 p1 p2) -
        fl (p2.y - separation fl sqrt sin atan2 p1 p2) -
        (fl (p1.y - p2.y) + fl (p1.y - p2.y) / differenceLength fl Real.sqrt p1 p2 *
          penetration fl sqrt p1 p2)| ≤ 32 * (u * B) + 2 * (ε * B) + 8 * (ρ * ρ) := hay
    have hgoal : centreDistance Real.sqrt
        ({ p1 with
          x := fl (p1.x + separation fl sqrt cos atan2 p1 p2)
          y := fl (p1.y + separation fl sqrt sin atan2 p1 p2)
          vx := fl (p1.vx + impulse fl cos atan2 p1 p2)
          vy := fl (p1.vy + impulse fl sin atan2 p1 p2) } : Player ℝ)
        { p2 with
          x := fl (p2.x - separation fl sqrt cos atan2 p1 p2)
          y := fl (p2.y - separation fl sqrt sin atan2 p1 p2)
          vx := fl (p2.vx - impulse fl cos atan2 p1 p2)
          vy := fl (p2.vy - impulse fl sin atan2 p1 p2) } =
        √((fl (p1.x + separation fl sqrt cos atan2 p1 p2) -
            fl (p2.x - separation fl sqrt cos atan2 p1 p2)) *
          (fl (p1.x + separation fl sqrt cos atan2 p1 p2) -
            fl (p2.x - separation fl sqrt cos atan2 p1 p2)) +
          (fl (p1.y + separation fl sqrt sin atan2 p1 p2) -
            fl (p2.y - separation fl sqrt sin atan2 p1 p2)) *
          (fl (p1.y + separation fl sqrt sin atan2 p1 p2) -
            fl (p2.y - separation fl sqrt sin atan2 p1 p2))) := rfl
    rw [hgoal]
    have e1 : ∀ v w : ℝ, w + (v - w) = v := fun v w => by ring
    rw [e1, e1] at hlow
    have huh : u * differenceLength fl Real.sqrt p1 p2 ≤ u * (6 * B) :=
      mul_le_mul_of_nonneg_left hh6 hu0
    have hd2 := abs_le.mp hd
    have hm2 := abs_le.mp hm1
    have hpen : penetration fl sqrt p1 p2 =
        collisionMinDistance fl p1 p2 - collisionDistance fl sqrt p1 p2 := rfl
    linarith
  · exact le_trans hx1e (le_of_eq (by ring))
  · exact le_trans hy1e (le_of_eq (by ring))
  · exact le_trans hx2e (le_of_eq (by ring))
  · exact le_trans hy2e (le_of_eq (by ring))

/-- The velocity changes of the two players along one axis. -/
theorem impulse_error (hfl : IsRounding fl u ρ Ω) (hu0 : 0 ≤ u) (hu : u ≤ 1 / 64)
    (hρ0 : 0 ≤ ρ) (hρ : ρ ≤ 1 / 64) (hε : ε ≤ 1 / 64) (V : ℝ) (hV : 0 ≤ V)
    (hΩ : V + 2 ≤ Ω) (v1 v2 c n : ℝ) (hv1 : |v1| ≤ V) (hv2 : |v2| ≤ V) (hc : |c - n| ≤ ε)
    (hn : |n| ≤ 1) :
    |fl (v1 + fl (c * (1 / 2))) - (v1 + 1 / 2 * n)| ≤ (V + 3) * u + ε / 2 + 2 * (ρ * ρ) ∧
      |fl (v2 - fl (c * (1 / 2))) - (v2 - 1 / 2 * n)| ≤ (V + 3) * u + ε / 2 + 2 * (ρ * ρ) ∧
      |fl (v1 + fl (c * (1 / 2))) + fl (v2 - fl (c * (1 / 2))) - (v1 + v2)| ≤
        2 * (V + 2) * u + 2 * (ρ * ρ) := by
  have hρρ : ρ * ρ ≤ 1 / 4096 := by nlinarith
  have hρρ0 : 0 ≤ ρ * ρ := mul_nonneg hρ0 hρ0
  have hc1 : |c * (1 / 2)| ≤ 1 := by
    rw [abs_mul, abs_of_pos (by norm_num : (0 : ℝ) < 1 / 2)]
    rw [abs_le] at hc hn
    have : |c| ≤ 2 := by
      rw [abs_le]
      constructor <;> linarith
    linarith
  obtain ⟨hf1, hf2⟩ := hfl.bound hu0 (c * (1 / 2)) 1 hc1 (by linarith)
  generalize fl (c * (1 / 2)) = f at hf1 hf2
  have hf3 : |f| ≤ 2 := by linarith
  have h1 : |v1 + f| ≤ V + 2 := by
    rw [abs_le] at hv1 hf3 ⊢
    constructor <;> linarith
  have h2 : |v2 - f| ≤ V + 2 := by
    rw [abs_le] at hv2 hf3 ⊢
    constructor <;> linarith
  obtain ⟨hw1, -⟩ := hfl.bound hu0 (v1 + f) (V + 2) h1 hΩ
  obtain ⟨hw2, -⟩ := hfl.bound hu0 (v2 - f) (V + 2) h2 hΩ
  generalize fl (v1 + f) = w1 at hw1
  generalize fl (v2 - f) = w2 at hw2
  rw [abs_le] at hc hf1 hw1 hw2
  refine ⟨?_, ?_, ?_⟩
  · rw [abs_le]
    constructor <;> linarith
  · rw [abs_le]
    constructor <;> linarith
  · rw [abs_le]
    constructor <;> linarith

/-- C12 (amended): on a pair that passes the overlap test, `checkPlayerCollision` changes
the velocities of the two players by `+0.5 n` and `-0.5 n` up to the rounding tolerance
`(V + 3) u + ε / 2 + 2 ρ²`, where `n` is the unit vector along the centre difference
`(dx, dy)` (from player 2 to player 1), `V` bounds the incoming velocity components, `u`
is the relative rounding error of the arithmetic, `ρ²` its absolute error on underflow and
`ε` the error of `cos` and `sin` of `atan2`; the sums `vx1 + vx2` and `vy1 + vy2` change by
at most `2 (V + 2) u + 2 ρ²`; and for two players at rest the velocities afterwards are
exactly opposite, so that their components along `n` are equal in magnitude and opposite
in sign. -/
theorem checkPlayerCollision_impulse_up_to_rounding (fl sqrt cos sin : ℝ → ℝ)
    (atan2 : ℝ → ℝ → ℝ) (u ρ ε Ω V : ℝ) (hfl : IsRounding fl u ρ Ω)
    (hm : IsMath sqrt cos sin atan2 u ρ ε Ω) (hu0 : 0 ≤ u) (hu : u ≤ 1 / 64) (hρ0 : 0 ≤ ρ)
    (hρ : ρ ≤ 1 / 64) (hε : ε ≤ 1 / 64) (hV : 0 ≤ V) (hΩ : V + 2 ≤ Ω)
    (p1 p2 : Player ℝ) (hvx1 : |p1.vx| ≤ V) (hvy1 : |p1.vy| ≤ V) (hvx2 : |p2.vx| ≤ V)
    (hvy2 : |p2.vy| ≤ V) (hov : Overlapping fl sqrt p1 p2) :
    |(checkPlayerCollision fl sqrt cos sin atan2 p1 p2).1.vx -
          (p1.vx + 1 / 2 * (fl (p1.x - p2.x) / differenceLength fl Real.sqrt p1 p2))| ≤
        (V + 3) * u + ε / 2 + 2 * (ρ * ρ) ∧
      |(checkPlayerCollision fl sqrt cos sin atan2 p1 p2).1.vy -
          (p1.vy + 1 / 2 * (fl (p1.y - p2.y) / differenceLength fl Real.sqrt p1 p2))| ≤
        (V + 3) * u + ε / 2 + 2 * (ρ * ρ) ∧
      |(checkPlayerCollision fl sqrt cos sin atan2 p1 p2).2.vx -
          (p2.vx - 1 / 2 * (fl (p1.x - p2.x) / differenceLength fl Real.sqrt p1 p2))| ≤
        (V + 3) * u + ε / 2 + 2 * (ρ * ρ) ∧
      |(checkPlayerCollision fl sqrt cos sin atan2 p1 p2).2.vy -
          (p2.vy - 1 / 2 * (fl (p1.y - p2.y) / differenceLength fl Real.sqrt p1 p2))| ≤
        (V + 3) * u + ε / 2 + 2 * (ρ * ρ) ∧
      |(checkPlayerCollision fl sqrt cos sin atan2 p1 p2).1.vx +
          (checkPlayerCollision fl sqrt cos sin atan2 p1 p2).2.vx - (p1.vx + p2.vx)| ≤
        2 * (V + 2) * u + 2 * (ρ * ρ) ∧
      |(checkPlayerCollision fl sqrt cos sin atan2 p1 p2).1.vy +
          (checkPlayerCollision fl sqrt cos sin atan2 p1 p2).2.vy - (p1.vy + p2.vy)| ≤
        2 * (V + 2) * u + 2 * (ρ * ρ) ∧
      fl (p1.x - p2.x) / differenceLength fl Real.sqrt p1 p2 *
            (fl (p1.x - p2.x) / differenceLength fl Real.sqrt p1 p2) +
          fl (p1.y - p2.y) / differenceLength fl Real.sqrt p1 p2 *
            (fl (p1.y - p2.y) / differenceLength fl Real.sqrt p1 p2) = 1 ∧
      (p1.vx = 0 → p1.vy = 0 → p2.vx = 0 → p2.vy = 0 →
        (checkPlayerCollision fl sqrt cos sin atan2 p1 p2).2.vx =
            -(checkPlayerCollision fl sqrt cos sin atan2 p1 p2).1.vx ∧
          (checkPlayerCollision fl sqrt cos sin atan2 p1 p2).2.vy =
            -(checkPlayerCollision fl sqrt cos sin atan2 p1 p2).1.vy ∧
          (checkPlayerCollision fl sqrt cos sin atan2 p1 p2).2.vx *
                (fl (p1.x - p2.x) / differenceLength fl Real.sqrt p1 p2) +
              (checkPlayerCollision fl sqrt cos sin atan2 p1 p2).2.vy *
                (fl (p1.y - p2.y) / differenceLength fl Real.sqrt p1 p2) =
            -((checkPlayerCollision fl sqrt cos sin atan2 p1 p2).1.vx *
                (fl (p1.x - p2.x) / differenceLength fl Real.sqrt p1 p2) +
              (checkPlayerCollision fl sqrt cos sin atan2 p1 p2).1.vy *
                (fl (p1.y - p2.y) / differenceLength fl Real.sqrt p1 p2))) := by
  have hpos := differenceLength_pos hfl hm p1 p2 hov.2
  have hhh := differenceLength_mul_self fl p1 p2
  obtain ⟨hn1, hn2⟩ := abs_div_length_le _ _ _ hpos hhh
  have hc := hm.cos_atan2 _ _ _ hpos hhh
  have hs := hm.sin_atan2 _ _ _ hpos hhh
  obtain ⟨hx1, hx2, hxs⟩ := impulse_error hfl hu0 hu hρ0 hρ hε V hV hΩ p1.vx p2.vx _ _
    hvx1 hvx2 hc hn1
  obtain ⟨hy1, hy2, hys⟩ := impulse_error hfl hu0 hu hρ0 hρ hε V hV hΩ p1.vy p2.vy _ _
    hvy1 hvy2 hs hn2
  rw [checkPlayerCollision_of_overlapping fl sqrt cos sin atan2 p1 p2 hov]
  refine ⟨hx1, hy1, hx2, hy2, hxs, hys, ?_, ?_⟩
  · have hne := hpos.ne'
    field_simp
    linear_combination -hhh
  · intro h1 h2 h3 h4
    have ex : fl (p2.vx - impulse fl cos atan2 p1 p2) =
        -fl (p1.vx + impulse fl cos atan2 p1 p2) := by
      rw [h1, h3, zero_sub, zero_add, hfl.neg]
    have ey : fl (p2.vy - impulse fl sin atan2 p1 p2) =
        -fl (p1.vy + impulse fl sin atan2 p1 p2) := by
      rw [h2, h4, zero_sub, zero_add, hfl.neg]
    refine ⟨ex, ey, ?_⟩
    show fl (p2.vx - impulse fl cos atan2 p1 p2) * _ +
      fl (p2.vy - impulse fl sin atan2 p1 p2) * _ = _
    rw [ex, ey]
    show _ = -(fl (p1.vx + impulse fl cos atan2 p1 p2) * _ +
      fl (p1.vy + impulse fl sin atan2 p1 p2) * _)
    ring

end Tolerance

/-! ### The collision response in binary64 arithmetic -/

theorem arg_of_pos (x : ℝ) (hx : 0 < x) : Complex.arg ⟨x, 0⟩ = 0 :=
  Complex.arg_ofReal_of_nonneg hx.le

theorem roundDouble_one : roundDouble (1 : ℝ) = 1 :=
  roundDouble_fixed 1 1 0 (by norm_num) (by norm_num) (by norm_num)

theorem roundDouble_half : roundDouble (1 / 2 : ℝ) = 1 / 2 :=
  roundDouble_fixed _ 1 (-1) (by norm_num) (by norm_num) (by norm_num)

theorem roundDouble_forty : roundDouble (40 : ℝ) = 40 :=
  roundDouble_fixed _ 40 0 (by norm_num) (by norm_num) (by norm_num)

theorem roundDouble_three_hundred : roundDouble (300 : ℝ) = 300 :=
  roundDouble_fixed _ 300 0 (by norm_num) (by norm_num) (by norm_num)

/-- The computed distance of two players on the line `y = 300`. -/
theorem collisionDistance_row (x1 x2 v1 v2 dx d : ℝ) (hdx : roundDouble (x1 - x2) = dx)
    (hd : roundDouble (√(roundDouble (dx * dx))) = d) :
    collisionDistance roundDouble (correctlyRounded roundDouble Real.sqrt) (rowPlayer x1 v1)
      (rowPlayer x2 v2) = d := by
  show roundDouble (Real.sqrt (roundDouble (roundDouble (roundDouble (x1 - x2) *
    roundDouble (x1 - x2)) + roundDouble (roundDouble ((300 : ℝ) - 300) *
    roundDouble ((300 : ℝ) - 300))))) = d
  rw [hdx, sub_self, roundDouble_zero, mul_zero, roundDouble_zero, add_zero, roundDouble_idem,
    hd]

theorem collisionMinDistance_row (x1 x2 v1 v2 : ℝ) :
    collisionMinDistance roundDouble (rowPlayer x1 v1) (rowPlayer x2 v2) = 40 := by
  show roundDouble ((20 : ℝ) + 20) = 40
  rw [show (20 : ℝ) + 20 = 40 by norm_num, roundDouble_forty]

/-- The response of `checkPlayerCollision` in binary64 arithmetic for two overlapping
players on the line `y = 300`, the first one to the right of the second one. -/
theorem checkPlayerCollision_row (x1 x2 v1 v2 dx d ov sx X1 X2 V1 V2 : ℝ)
    (hdx : roundDouble (x1 - x2) = dx) (hdx0 : 0 < dx)
    (hd : roundDouble (√(roundDouble (dx * dx))) = d) (hd0 : 0 < d) (hd40 : d < 40)
    (hov : roundDouble (40 - d) = ov) (hsx : roundDouble (ov * (1 / 2)) = sx)
    (hX1 : roundDouble (x1 + sx) = X1) (hX2 : roundDouble (x2 - sx) = X2)
    (hV1 : roundDouble (v1 + 1 / 2) = V1) (hV2 : roundDouble (v2 - 1 / 2) = V2) :
    checkPlayerCollision roundDouble (correctlyRounded roundDouble Real.sqrt)
        (correctlyRounded roundDouble Real.cos) (correctlyRounded roundDouble Real.sin)
        (roundedAtan2 roundDouble (fun y x => Complex.arg ⟨x, y⟩))
        (rowPlayer x1 v1) (rowPlayer x2 v2) =
      (rowPlayer X1 V1, rowPlayer X2 V2) := by
  have hdist := collisionDistance_row x1 x2 v1 v2 dx d hdx hd
  have hmin := collisionMinDistance_row x1 x2 v1 v2
  have hovl : Overlapping roundDouble (correctlyRounded roundDouble Real.sqrt)
      (rowPlayer x1 v1) (rowPlayer x2 v2) := by
    unfold Overlapping
    rw [hdist, hmin]
    exact ⟨hd40, hd0⟩
  have hang : roundedAtan2 roundDouble (fun y x => Complex.arg ⟨x, y⟩)
      (roundDouble ((rowPlayer x1 v1).y - (rowPlayer x2 v2).y))
      (roundDouble ((rowPlayer x1 v1).x - (rowPlayer x2 v2).x)) = 0 := by
    show roundDouble (Complex.arg ⟨roundDouble (x1 - x2), roundDouble ((300 : ℝ) - 300)⟩) = 0
    rw [hdx, sub_self, roundDouble_zero, arg_of_pos dx hdx0, roundDouble_zero]
  have hcos : correctlyRounded roundDouble Real.cos 0 = 1 := by
    show roundDouble (Real.cos 0) = 1
    rw [Real.cos_zero, roundDouble_one]
  have hsin : correctlyRounded roundDouble Real.sin 0 = 0 := by
    show roundDouble (Real.sin 0) = 0
    rw [Real.sin_zero, roundDouble_zero]
  have hsepx : separation roundDouble (correctlyRounded roundDouble Real.sqrt)
      (correctlyRounded roundDouble Real.cos)
      (roundedAtan2 roundDouble (fun y x => Complex.arg ⟨x, y⟩))
      (rowPlayer x1 v1) (rowPlayer x2 v2) = sx := by
    unfold separation
    rw [hang, hcos, hmin, hdist, hov, one_mul, ← hov, roundDouble_idem, hov, hsx]
  have hsepy : separation roundDouble (correctlyRounded roundDouble Real.sqrt)
      (correctlyRounded roundDouble Real.sin)
      (roundedAtan2 roundDouble (fun y x => Complex.arg ⟨x, y⟩))
      (rowPlayer x1 v1) (rowPlayer x2 v2) = 0 := by
    unfold separation
    rw [hang, hsin, zero_mul, roundDouble_zero, zero_mul, roundDouble_zero]
  have himpx : impulse roundDouble (correctlyRounded roundDouble Real.cos)
      (roundedAtan2 roundDouble (fun y x => Complex.arg ⟨x, y⟩))
      (rowPlayer x1 v1) (rowPlayer x2 v2) = 1 / 2 := by
    unfold impulse
    rw [hang, hcos, one_mul, roundDouble_half]
  have himpy : impulse roundDouble (correctlyRounded roundDouble Real.sin)
      (roundedAtan2 roundDouble (fun y x => Complex.arg ⟨x, y⟩))
      (rowPlayer x1 v1) (rowPlayer x2 v2) = 0 := by
    unfold impulse
    rw [hang, hsin, zero_mul, roundDouble_zero]
  rw [checkPlayerCollision_of_overlapping _ _ _ _ _ _ _ hovl, hsepx, hsepy, himpx, himpy]
  have e1 : (rowPlayer x1 v1).x = x1 := rfl
  have e2 : (rowPlayer x1 v1).y = 300 := rfl
  have e3 : (rowPlayer x1 v1).vx = v1 := rfl
  have e4 : (rowPlayer x1 v1).vy = 0 := rfl
  have f1 : (rowPlayer x2 v2).x = x2 := rfl
  have f2 : (rowPlayer x2 v2).y = 300 := rfl
  have f3 : (rowPlayer x2 v2).vx = v2 := rfl
  have f4 : (rowPlayer x2 v2).vy = 0 := rfl
  rw [e1, e2, e3, e4, f1, f2, f3, f4, hX1, hX2, hV1, hV2, add_zero, sub_zero, add_zero,
    sub_zero, roundDouble_three_hundred, roundDouble_zero]
  rfl

/-- The binary64 square root of `q`, from a bracket `lo² < q < hi²` by the two midpoints
next to the grid point `n * 2 ^ (e - 52)`. -/
theorem roundDouble_sqrt (q : ℝ) (e n : ℤ) (lo hi : ℝ) (he : -1022 ≤ e)
    (hl : lo = (n - 1 / 2) * 2 ^ (e - 52)) (hh : hi = (n + 1 / 2) * 2 ^ (e - 52))
    (hlo0 : 0 ≤ lo) (hlo : lo * lo < q) (hhi : q < hi * hi) (h1 : 2 ^ e ≤ lo)
    (h2 : hi ≤ 2 ^ (e + 1)) : roundDouble (√q) = n * 2 ^ (e - 52) := by
  have hg : (0 : ℝ) < 2 ^ (e - 52) := two_zpow_pos _
  have hs1 : lo < √q := (Real.lt_sqrt hlo0).mpr (by rw [sq]; exact hlo)
  have hhi0 : 0 < hi := by
    rw [hl] at hlo0
    rw [hh]
    linarith
  have hs2 : √q < hi := (Real.sqrt_lt' hhi0).mpr (by rw [sq]; exact hhi)
  have hs0 : 0 < √q := lt_of_le_of_lt hlo0 hs1
  apply roundDouble_eq _ e n he
  · rw [abs_of_pos hs0]
    linarith
  · rw [abs_of_pos hs0]
    linarith
  · rw [abs_lt]
    rw [hl] at hs1
    rw [hh] at hs2
    constructor
    · rw [lt_sub_iff_add_lt, lt_div_iff₀ hg]
      linarith
    · rw [sub_lt_iff_lt_add, div_lt_iff₀ hg]
      linarith

theorem roundDouble_50_2 : roundDouble (251 / 5 : ℝ) = 3532510957718733 / 70368744177664 := by
  have h := roundDouble_eq (251 / 5 : ℝ) (5) (7065021915437466) (by norm_num)
    (by rw [abs_of_pos (by norm_num)]; norm_num) (by rw [abs_of_pos (by norm_num)]; norm_num)
    (by rw [abs_lt]; constructor <;> norm_num)
  rw [h]
  norm_num

theorem first_dx : roundDouble (125 / 2 - 3532510957718733 / 70368744177664 : ℝ) = 865535553385267 / 70368744177664 := by
  rw [roundDouble_fixed _ (865535553385267) (-46) (by norm_num) (by norm_num) (by norm_num)]
  norm_num

theorem first_sq : roundDouble (865535553385267 / 70368744177664 * (865535553385267 / 70368744177664) : ℝ) = 5323043653319391 / 35184372088832 := by
  have h := roundDouble_eq (865535553385267 / 70368744177664 * (865535553385267 / 70368744177664) : ℝ) (7) (5323043653319391) (by norm_num)
    (by rw [abs_of_pos (by norm_num)]; norm_num) (by rw [abs_of_pos (by norm_num)]; norm_num)
    (by rw [abs_lt]; constructor <;> norm_num)
  rw [h]
  norm_num

theorem first_sqrt : roundDouble (√(5323043653319391 / 35184372088832 : ℝ)) = 865535553385267 / 70368744177664 := by
  have h := roundDouble_sqrt (5323043653319391 / 35184372088832) (3) (6924284427082136) (13848568854164271 / 1125899906842624) (13848568854164273 / 1125899906842624) (by norm_num) (by norm_num) (by norm_num)
    (by norm_num) (by norm_num) (by norm_num) (by norm_num) (by norm_num)
  rw [h]
  norm_num

theorem first_ov : roundDouble (40 - 865535553385267 / 70368744177664 : ℝ) = 1949214213721293 / 70368744177664 := by
  rw [roundDouble_fixed _ (1949214213721293) (-46) (by norm_num) (by norm_num) (by norm_num)]
  norm_num

theorem first_sx : roundDouble (1949214213721293 / 70368744177664 * (1 / 2) : ℝ) = 1949214213721293 / 140737488355328 := by
  rw [roundDouble_fixed _ (1949214213721293) (-47) (by norm_num) (by norm_num) (by norm_num)]
  norm_num

theorem first_x1 : roundDouble (125 / 2 + 1949214213721293 / 140737488355328 : ℝ) = 2686326808982323 / 35184372088832 := by
  have h := roundDouble_tie (125 / 2 + 1949214213721293 / 140737488355328 : ℝ) (6) (5372653617964646) (by norm_num)
    (by rw [abs_of_pos (by norm_num)]; norm_num) (by rw [abs_of_pos (by norm_num)]; norm_num)
    (by norm_num)
  rw [h]
  norm_num

theorem first_x2 : roundDouble (3532510957718733 / 70368744177664 - 1949214213721293 / 140737488355328 : ℝ) = 5115807701716173 / 140737488355328 := by
  rw [roundDouble_fixed _ (5115807701716173) (-47) (by norm_num) (by norm_num) (by norm_num)]
  norm_num

theorem first_v1 : roundDouble (0 + 1 / 2 : ℝ) = 1 / 2 := by
  rw [roundDouble_fixed _ (1) (-1) (by norm_num) (by norm_num) (by norm_num)]
  norm_num

theorem first_v2 : roundDouble (0 - 1 / 2 : ℝ) = -(1 / 2) := by
  rw [roundDouble_fixed _ (-1) (-1) (by norm_num) (by norm_num) (by norm_num)]
  norm_num

theorem roundDouble_0_1 : roundDouble (1 / 10 : ℝ) = 3602879701896397 / 36028797018963968 := by
  have h := roundDouble_eq (1 / 10 : ℝ) (-4) (7205759403792794) (by norm_num)
    (by rw [abs_of_pos (by norm_num)]; norm_num) (by rw [abs_of_pos (by norm_num)]; norm_num)
    (by rw [abs_lt]; constructor <;> norm_num)
  rw [h]
  norm_num

theorem roundDouble_0_2 : roundDouble (2 / 10 : ℝ) = 3602879701896397 / 18014398509481984 := by
  have h := roundDouble_eq (2 / 10 : ℝ) (-3) (7205759403792794) (by norm_num)
    (by rw [abs_of_pos (by norm_num)]; norm_num) (by rw [abs_of_pos (by norm_num)]; norm_num)
    (by rw [abs_lt]; constructor <;> norm_num)
  rw [h]
  norm_num

theorem drift_dx : roundDouble (130 - 100 : ℝ) = 30 := by
  rw [roundDouble_fixed _ (15) (1) (by norm_num) (by norm_num) (by norm_num)]
  norm_num

theorem drift_sq : roundDouble (30 * (30) : ℝ) = 900 := by
  rw [roundDouble_fixed _ (225) (2) (by norm_num) (by norm_num) (by norm_num)]
  norm_num

theorem drift_sqrt : roundDouble (√(900 : ℝ)) = 30 := by
  have h := roundDouble_sqrt (900) (4) (8444249301319680) (16888498602639359 / 562949953421312) (16888498602639361 / 562949953421312) (by norm_num) (by norm_num) (by norm_num)
    (by norm_num) (by norm_num) (by norm_num) (by norm_num) (by norm_num)
  rw [h]
  norm_num

theorem drift_ov : roundDouble (40 - 30 : ℝ) = 10 := by
  rw [roundDouble_fixed _ (5) (1) (by norm_num) (by norm_num) (by norm_num)]
  norm_num

theorem drift_sx : roundDouble (10 * (1 / 2) : ℝ) = 5 := by
  rw [roundDouble_fixed _ (5) (0) (by norm_num) (by norm_num) (by norm_num)]
  norm_num

theorem drift_x1 : roundDouble (130 + 5 : ℝ) = 135 := by
  rw [roundDouble_fixed _ (135) (0) (by norm_num) (by norm_num) (by norm_num)]
  norm_num

theorem drift_x2 : roundDouble (100 - 5 : ℝ) = 95 := by
  rw [roundDouble_fixed _ (95) (0) (by norm_num) (by norm_num) (by norm_num)]
  norm_num

theorem drift_v1 : roundDouble (3602879701896397 / 36028797018963968 + 1 / 2 : ℝ) = 5404319552844595 / 9007199254740992 := by
  have h := roundDouble_eq (3602879701896397 / 36028797018963968 + 1 / 2 : ℝ) (-1) (5404319552844595) (by norm_num)
    (by rw [abs_of_pos (by norm_num)]; norm_num) (by rw [abs_of_pos (by norm_num)]; norm_num)
    (by rw [abs_lt]; constructor <;> norm_num)
  rw [h]
  norm_num

theorem drift_v2 : roundDouble (3602879701896397 / 18014398509481984 - 1 / 2 : ℝ) = -(5404319552844595 / 18014398509481984) := by
  rw [roundDouble_fixed _ (-5404319552844595) (-54) (by norm_num) (by norm_num) (by norm_num)]
  norm_num

/-! ### The examples in binary64 arithmetic -/

theorem residualPair_eq :
    (residualPair : Player ℝ × Player ℝ) =
      (rowPlayer (125 / 2) 0, rowPlayer (3532510957718733 / 70368744177664) 0) := by
  unfold residualPair
  rw [roundDouble_50_2]

/-- The first response to the players of `residualPair`. -/
theorem checkPlayerCollision_residualPair :
    checkPlayerCollision roundDouble (correctlyRounded roundDouble Real.sqrt)
        (correctlyRounded roundDouble Real.cos) (correctlyRounded roundDouble Real.sin)
        (roundedAtan2 roundDouble (fun y x => Complex.arg ⟨x, y⟩))
        (rowPlayer (125 / 2) 0) (rowPlayer (3532510957718733 / 70368744177664) 0) =
      (rowPlayer (2686326808982323 / 35184372088832) (1 / 2),
        rowPlayer (5115807701716173 / 140737488355328) (-(1 / 2))) :=
  checkPlayerCollision_row _ _ _ _ (865535553385267 / 70368744177664)
    (865535553385267 / 70368744177664) (1949214213721293 / 70368744177664)
    (1949214213721293 / 140737488355328) _ _ _ _ first_dx (by norm_num)
    (by rw [first_sq, first_sqrt]) (by norm_num) (by norm_num) first_ov first_sx first_x1
    first_x2 first_v1 first_v2

theorem centreDistance_rowPlayer (x1 x2 v1 v2 : ℝ) (h : x2 ≤ x1) :
    centreDistance Real.sqrt (rowPlayer x1 v1) (rowPlayer x2 v2) = x1 - x2 := by
  show Real.sqrt ((x1 - x2) * (x1 - x2) + ((300 : ℝ) - 300) * ((300 : ℝ) - 300)) = x1 - x2
  rw [sub_self, mul_zero, add_zero]
  exact Real.sqrt_mul_self (sub_nonneg.mpr h)

/-- C11, as stated, fails in binary64 arithmetic: two players of radius 20 at rest at
`(62.5, 300)` and `(50.2, 300)` have their centres at the distance
`865535553385267 / 2 ^ 46`, about 12.3 (positive and below 40), and `checkPlayerCollision`
moves them to `x = 2686326808982323 / 2 ^ 45` and `x = 5115807701716173 / 2 ^ 47`, where
their distance is `40 - 2 ^ -47`, below the sum 40 of the radii: an overlap remains. -/
theorem checkPlayerCollision_leaves_residual_overlap :
    centreDistance Real.sqrt (residualPair : Player ℝ × Player ℝ).1 residualPair.2 =
        865535553385267 / 70368744177664 ∧
      (residualPair : Player ℝ × Player ℝ).1.radius + residualPair.2.radius = 40 ∧
      checkPlayerCollision roundDouble (correctlyRounded roundDouble Real.sqrt)
          (correctlyRounded roundDouble Real.cos) (correctlyRounded roundDouble Real.sin)
          (roundedAtan2 roundDouble (fun y x => Complex.arg ⟨x, y⟩))
          (residualPair : Player ℝ × Player ℝ).1 residualPair.2 =
        (rowPlayer (2686326808982323 / 35184372088832) (1 / 2),
          rowPlayer (5115807701716173 / 140737488355328) (-(1 / 2))) ∧
      centreDistance Real.sqrt
          (checkPlayerCollision roundDouble (correctlyRounded roundDouble Real.sqrt)
            (correctlyRounded roundDouble Real.cos) (correctlyRounded roundDouble Real.sin)
            (roundedAtan2 roundDouble (fun y x => Complex.arg ⟨x, y⟩))
            (residualPair : Player ℝ × Player ℝ).1 residualPair.2).1
          (checkPlayerCollision roundDouble (correctlyRounded roundDouble Real.sqrt)
            (correctlyRounded roundDouble Real.cos) (correctlyRounded roundDouble Real.sin)
            (roundedAtan2 roundDouble (fun y x => Complex.arg ⟨x, y⟩))
            (residualPair : Player ℝ × Player ℝ).1 residualPair.2).2 =
        40 - 1 / 140737488355328 ∧
      centreDistance Real.sqrt
          (checkPlayerCollision roundDouble (correctlyRounded roundDouble Real.sqrt)
            (correctlyRounded roundDouble Real.cos) (correctlyRounded roundDouble Real.sin)
            (roundedAtan2 roundDouble (fun y x => Complex.arg ⟨x, y⟩))
            (residualPair : Player ℝ × Player ℝ).1 residualPair.2).1
          (checkPlayerCollision roundDouble (correctlyRounded roundDouble Real.sqrt)
            (correctlyRounded roundDouble Real.cos) (correctlyRounded roundDouble Real.sin)
            (roundedAtan2 roundDouble (fun y x => Complex.arg ⟨x, y⟩))
            (residualPair : Player ℝ × Player ℝ).1 residualPair.2).2 <
        (residualPair : Player ℝ × Player ℝ).1.radius + residualPair.2.radius := by
  have hr : (residualPair : Player ℝ × Player ℝ).1.radius + residualPair.2.radius = 40 := by
    show (20 : ℝ) + 20 = 40
    norm_num
  rw [hr, residualPair_eq]
  dsimp only
  rw [checkPlayerCollision_residualPair]
  dsimp only
  rw [centreDistance_rowPlayer _ _ _ _ (by norm_num),
    centreDistance_rowPlayer _ _ _ _ (by norm_num)]
  refine ⟨by norm_num, rfl, rfl, by norm_num, by norm_num⟩

theorem driftingPair_eq :
    (driftingPair : Player ℝ × Player ℝ) =
      (rowPlayer 130 (3602879701896397 / 36028797018963968),
        rowPlayer 100 (3602879701896397 / 18014398509481984)) := by
  unfold driftingPair
  rw [roundDouble_0_1, roundDouble_0_2]

/-- The response to the players of `driftingPair`. -/
theorem checkPlayerCollision_driftingPair :
    checkPlayerCollision roundDouble (correctlyRounded roundDouble Real.sqrt)
        (correctlyRounded roundDouble Real.cos) (correctlyRounded roundDouble Real.sin)
        (roundedAtan2 roundDouble (fun y x => Complex.arg ⟨x, y⟩))
        (rowPlayer 130 (3602879701896397 / 36028797018963968))
        (rowPlayer 100 (3602879701896397 / 18014398509481984)) =
      (rowPlayer 135 (5404319552844595 / 9007199254740992),
        rowPlayer 95 (-(5404319552844595 / 18014398509481984))) :=
  checkPlayerCollision_row _ _ _ _ 30 30 10 5 _ _ _ _ drift_dx (by norm_num)
    (by rw [drift_sq, drift_sqrt]) (by norm_num) (by norm_num) drift_ov drift_sx drift_x1
    drift_x2 drift_v1 drift_v2

/-- C12, as stated, fails in binary64 arithmetic: two players of radius 20 at `(130, 300)`
and `(100, 300)`, 30 units apart, move along the line of centres with the velocities `0.1`
and `0.2`; `checkPlayerCollision` leaves them with `vx1 = 5404319552844595 / 2 ^ 53`
(`0.6`) and `vx2 = -5404319552844595 / 2 ^ 54` (`-0.3`), so that the sum `vx1 + vx2` goes
from `10808639105689191 / 2 ^ 55` to `5404319552844595 / 2 ^ 54`: the sum changes, and the
gain of player 1 is not `0.5`. -/
theorem checkPlayerCollision_changes_velocity_sum :
    centreDistance Real.sqrt (driftingPair : Player ℝ × Player ℝ).1 driftingPair.2 = 30 ∧
      (driftingPair : Player ℝ × Player ℝ).1.radius + driftingPair.2.radius = 40 ∧
      (driftingPair : Player ℝ × Player ℝ).1.vx + driftingPair.2.vx =
        10808639105689191 / 36028797018963968 ∧
      (checkPlayerCollision roundDouble (correctlyRounded roundDouble Real.sqrt)
          (correctlyRounded roundDouble Real.cos) (correctlyRounded roundDouble Real.sin)
          (roundedAtan2 roundDouble (fun y x => Complex.arg ⟨x, y⟩))
          (driftingPair : Player ℝ × Player ℝ).1 driftingPair.2).1.vx +
        (checkPlayerCollision roundDouble (correctlyRounded roundDouble Real.sqrt)
          (correctlyRounded roundDouble Real.cos) (correctlyRounded roundDouble Real.sin)
          (roundedAtan2 roundDouble (fun y x => Complex.arg ⟨x, y⟩))
          (driftingPair : Player ℝ × Player ℝ).1 driftingPair.2).2.vx =
        5404319552844595 / 18014398509481984 ∧
      (checkPlayerCollision roundDouble (correctlyRounded roundDouble Real.sqrt)
          (correctlyRounded roundDouble Real.cos) (correctlyRounded roundDouble Real.sin)
          (roundedAtan2 roundDouble (fun y x => Complex.arg ⟨x, y⟩))
          (driftingPair : Player ℝ × Player ℝ).1 driftingPair.2).1.vx +
        (checkPlayerCollision roundDouble (correctlyRounded roundDouble Real.sqrt)
          (correctlyRounded roundDouble Real.cos) (correctlyRounded roundDouble Real.sin)
          (roundedAtan2 roundDouble (fun y x => Complex.arg ⟨x, y⟩))
          (driftingPair : Player ℝ × Player ℝ).1 driftingPair.2).2.vx ≠
        (driftingPair : Player ℝ × Player ℝ).1.vx + driftingPair.2.vx ∧
      (checkPlayerCollision roundDouble (correctlyRounded roundDouble Real.sqrt)
          (correctlyRounded roundDouble Real.cos) (correctlyRounded roundDouble Real.sin)
          (roundedAtan2 roundDouble (fun y x => Complex.arg ⟨x, y⟩))
          (driftingPair : Player ℝ × Player ℝ).1 driftingPair.2).1.vx -
        (driftingPair : Player ℝ × Player ℝ).1.vx ≠ 1 / 2 := by
  have hr : (driftingPair : Player ℝ × Player ℝ).1.radius + driftingPair.2.radius = 40 := by
    show (20 : ℝ) + 20 = 40
    norm_num
  rw [hr, driftingPair_eq]
  dsimp only
  rw [checkPlayerCollision_driftingPair]
  dsimp only
  rw [centreDistance_rowPlayer _ _ _ _ (by norm_num)]
  have e1 : (rowPlayer (130 : ℝ) (3602879701896397 / 36028797018963968)).vx =
      3602879701896397 / 36028797018963968 := rfl
  have e2 : (rowPlayer (100 : ℝ) (3602879701896397 / 18014398509481984)).vx =
      3602879701896397 / 18014398509481984 := rfl
  have e3 : (rowPlayer (135 : ℝ) (5404319552844595 / 9007199254740992)).vx =
      5404319552844595 / 9007199254740992 := rfl
  have e4 : (rowPlayer (95 : ℝ) (-(5404319552844595 / 18014398509481984))).vx =
      -(5404319552844595 / 18014398509481984) := rfl
  rw [e1, e2, e3, e4]
  refine ⟨by norm_num, rfl, by norm_num, by norm_num, by norm_num, by norm_num⟩

/-- Two players at rest at `(130, 300)` and `(100, 300)`, 30 units apart, pass the overlap
test in binary64 arithmetic. -/
theorem overlapping_row_thirty (v1 v2 : ℝ) :
    Overlapping roundDouble (correctlyRounded roundDouble Real.sqrt) (rowPlayer 130 v1)
      (rowPlayer 100 v2) := by
  unfold Overlapping
  rw [collisionDistance_row _ _ _ _ 30 30 drift_dx (by rw [drift_sq, drift_sqrt]),
    collisionMinDistance_row]
  constructor <;> norm_num

theorem checkPlayerCollision_separates_up_to_rounding_witness :
    Overlapping roundDouble (correctlyRounded roundDouble Real.sqrt) (rowPlayer 130 0)
        (rowPlayer 100 0) ∧
      (40 : ℝ) - 2 ^ (-35 : ℤ) ≤
        centreDistance Real.sqrt
          (checkPlayerCollision roundDouble (correctlyRounded roundDouble Real.sqrt)
            (correctlyRounded roundDouble Real.cos) (correctlyRounded roundDouble Real.sin)
            (roundedAtan2 roundDouble (fun y x => Complex.arg ⟨x, y⟩))
            (rowPlayer 130 0) (rowPlayer 100 0)).1
          (checkPlayerCollision roundDouble (correctlyRounded roundDouble Real.sqrt)
            (correctlyRounded roundDouble Real.cos) (correctlyRounded roundDouble Real.sin)
            (roundedAtan2 roundDouble (fun y x => Complex.arg ⟨x, y⟩))
            (rowPlayer 130 0) (rowPlayer 100 0)).2 := by
  have h := (checkPlayerCollision_separates_up_to_rounding roundDouble
    (correctlyRounded roundDouble Real.sqrt) (correctlyRounded roundDouble Real.cos)
    (correctlyRounded roundDouble Real.sin)
    (roundedAtan2 roundDouble (fun y x => Complex.arg ⟨x, y⟩))
    (2 ^ (-53 : ℤ)) (2 ^ (-537 : ℤ)) (2 ^ (-50 : ℤ)) (2 ^ (1023 : ℤ)) 1024
    (isRounding_roundDouble _) (isMath_correctlyRounded _)
    (by positivity) (by norm_num) (by positivity) (by norm_num) (by positivity) (by norm_num)
    (by norm_num) (by norm_num) (rowPlayer 130 0) (rowPlayer 100 0)
    (by show |(130 : ℝ)| ≤ 1024; norm_num [abs_of_pos])
    (by show |(300 : ℝ)| ≤ 1024; norm_num [abs_of_pos])
    (by show |(100 : ℝ)| ≤ 1024; norm_num [abs_of_pos])
    (by show |(300 : ℝ)| ≤ 1024; norm_num [abs_of_pos])
    (by show (0 : ℝ) ≤ 20; norm_num) (by show (0 : ℝ) ≤ 20; norm_num)
    (by show (20 : ℝ) + 20 ≤ 1024; norm_num) (overlapping_row_thirty 0 0)).1
  refine ⟨overlapping_row_thirty 0 0, le_trans ?_ h⟩
  show (40 : ℝ) - 2 ^ (-35 : ℤ) ≤ (20 : ℝ) + 20 - _
  norm_num

theorem checkPlayerCollision_impulse_up_to_rounding_witness :
    Overlapping roundDouble (correctlyRounded roundDouble Real.sqrt) (rowPlayer 130 0)
        (rowPlayer 100 0) ∧
      |(checkPlayerCollision roundDouble (correctlyRounded roundDouble Real.sqrt)
            (correctlyRounded roundDouble Real.cos) (correctlyRounded roundDouble Real.sin)
            (roundedAtan2 roundDouble (fun y x => Complex.arg ⟨x, y⟩))
            (rowPlayer 130 0) (rowPlayer 100 0)).1.vx +
          (checkPlayerCollision roundDouble (correctlyRounded roundDouble Real.sqrt)
            (correctlyRounded roundDouble Real.cos) (correctlyRounded roundDouble Real.sin)
            (roundedAtan2 roundDouble (fun y x => Complex.arg ⟨x, y⟩))
            (rowPlayer 130 0) (rowPlayer 100 0)).2.vx -
          ((rowPlayer 130 0 : Player ℝ).vx + (rowPlayer 100 0 : Player ℝ).vx)| ≤
        2 ^ (-50 : ℤ) ∧
      (checkPlayerCollision roundDouble (correctlyRounded roundDouble Real.sqrt)
          (correctlyRounded roundDouble Real.cos) (correctlyRounded roundDouble Real.sin)
          (roundedAtan2 roundDouble (fun y x => Complex.arg ⟨x, y⟩))
          (rowPlayer 130 0) (rowPlayer 100 0)).2.vx =
        -(checkPlayerCollision roundDouble (correctlyRounded roundDouble Real.sqrt)
          (correctlyRounded roundDouble Real.cos) (correctlyRounded roundDouble Real.sin)
          (roundedAtan2 roundDouble (fun y x => Complex.arg ⟨x, y⟩))
          (rowPlayer 130 0) (rowPlayer 100 0)).1.vx := by
  have h := checkPlayerCollision_impulse_up_to_rounding roundDouble
    (correctlyRounded roundDouble Real.sqrt) (correctlyRounded roundDouble Real.cos)
    (correctlyRounded roundDouble Real.sin)
    (roundedAtan2 roundDouble (fun y x => Complex.arg ⟨x, y⟩))
    (2 ^ (-53 : ℤ)) (2 ^ (-537 : ℤ)) (2 ^ (-50 : ℤ)) (2 ^ (1023 : ℤ)) 1
    (isRounding_roundDouble _) (isMath_correctlyRounded _)
    (by positivity) (by norm_num) (by positivity) (by norm_num) (by norm_num)
    (by norm_num) (by norm_num) (rowPlayer 130 0) (rowPlayer 100 0)
    (by show |(0 : ℝ)| ≤ 1; norm_num) (by show |(0 : ℝ)| ≤ 1; norm_num)
    (by show |(0 : ℝ)| ≤ 1; norm_num) (by show |(0 : ℝ)| ≤ 1; norm_num)
    (overlapping_row_thirty 0 0)
  refine ⟨overlapping_row_thirty 0 0, le_trans h.2.2.2.2.1 ?_,
    (h.2.2.2.2.2.2.2 rfl rfl rfl rfl).1⟩
  norm_num

end Model

end Basketball
